import Mathlib

/-!
Verification of the `sunpy.time` module (`src/sunpy/time/__init__.py`).

The module is a time-string interpreter built on Python regular
expressions and `datetime.strptime`.  We shallowly embed:

* the fragment of the Python `re` backtracking engine that the compiled
  format regexes actually use (single-character classes, ordered
  alternation of fixed-width branches, greedy counted repetition of a
  character class, `\s+`), with named capture groups recorded as spans;
* the `REGEX` table and `TIME_FORMAT_LIST` catalog verbatim;
* CPython's `_strptime` semantics for the directives the catalog uses
  (`%Y %m %d %H %M %S %f %b`), including its range-restricted field
  regexes, `IGNORECASE` literals, `\s+` for whitespace, the
  full-consumption check and the fraction zero-padding;
* `datetime` construction/validation, `timedelta`, and
  `datetime + timedelta` arithmetic (civil-calendar day stepping with
  the `MINYEAR..MAXYEAR` overflow check);
* the module functions `_regex_parse_time`, `find_time`,
  `extract_time`, `parse_time` and `is_time`, with Python exceptions
  modelled as an explicit error type (`ValueError` kinds are
  distinguished by their message so that claims about specific errors
  can be stated; `except ValueError` branches catch every kind).
-/

deriving instance DecidableEq for Except

namespace SunpyTime

set_option maxRecDepth 10000

/-! ## Characters and character classes -/

/-- Python `\s` (the six ASCII whitespace characters). -/
def pyWhite (c : Char) : Bool :=
  c = ' ' || c = '\t' || c = '\n' || c = '\r' || c = '\x0b' || c = '\x0c'

/-- Single-character tests occurring in the compiled regexes. -/
inductive CT where
  /-- `\d` -/
  | digit : CT
  /-- `[a-zA-Z]` -/
  | alpha : CT
  /-- `.` outside DOTALL mode: any character except a newline -/
  | any : CT
  /-- a literal character (case-sensitive) -/
  | one (c : Char) : CT
  /-- a literal character under `re.IGNORECASE` -/
  | oneCI (c : Char) : CT
  /-- a character range such as `[0-5]` -/
  | rng (lo hi : Char) : CT
  deriving DecidableEq, Repr

def CT.test : CT → Char → Bool
  | .digit, c => c.isDigit
  | .alpha, c => ('a' ≤ c && c ≤ 'z') || ('A' ≤ c && c ≤ 'Z')
  | .any, c => c ≠ '\n'
  | .one a, c => c = a
  | .oneCI a, c => c.toLower = a.toLower
  | .rng lo hi, c => lo ≤ c && c ≤ hi

/-! ## Regex items and the backtracking matcher

A compiled pattern is a sequence of items.  Each item offers a finite
list of candidate consumption lengths in the exact preference order of
Python's backtracking engine (ordered alternation, greedy repetition);
the matcher tries candidates in order and recurses on the remaining
items, which reproduces leftmost/greedy backtracking semantics. -/

inductive Item where
  /-- one uncaptured character test (a literal, or `.`) -/
  | tst (t : CT) : Item
  /-- a named group that is an ordered alternation of fixed sequences
      of single-character tests, e.g. `(?P<m>1[0-2]|0[1-9]|[1-9])` -/
  | grp (name : String) (alts : List (List CT)) : Item
  /-- a named group that is a greedy counted repetition of one test,
      e.g. `(?P<year>\d{4})`, `(?P<microsecond>\d+)` (`hi = none`) -/
  | rep (name : String) (t : CT) (lo : Nat) (hi : Option Nat) : Item
  /-- `\s+` (uncaptured, greedy) -/
  | ws : Item
  deriving DecidableEq, Repr

/-- Group captures, recorded as half-open spans into the subject. -/
abbrev Groups := List (String × (Nat × Nat))

/-- Match a fixed sequence of single-character tests. -/
def seqCT : List CT → List Char → Bool
  | [], _ => true
  | _ :: _, [] => false
  | t :: ts, c :: s => t.test c && seqCT ts s

/-- Length of the maximal run of characters satisfying `t`. -/
def runLen (t : CT) : List Char → Nat
  | [] => 0
  | c :: s => if t.test c then runLen t s + 1 else 0

/-- Length of the maximal run of Python whitespace. -/
def wsLen : List Char → Nat
  | [] => 0
  | c :: s => if pyWhite c then wsLen s + 1 else 0

/-- `[hi, hi-1, ..., lo]` (empty if `hi < lo`). -/
def countdown (hi lo : Nat) : List Nat :=
  (List.range' lo (hi + 1 - lo)).reverse

/-- Candidate consumption lengths of one item on a subject suffix, in
backtracking preference order, each with the captured group name (if
the item is a group). -/
def itemChoices : Item → List Char → List (Nat × Option String)
  | .tst _, [] => []
  | .tst t, c :: _ => if t.test c then [(1, none)] else []
  | .grp n alts, s =>
      alts.filterMap fun a => if seqCT a s then some (a.length, some n) else none
  | .rep n t lo hi, s =>
      let m := match hi with
        | none => runLen t s
        | some h => min h (runLen t s)
      (countdown m lo).map fun k => (k, some n)
  | .ws, s => (countdown (wsLen s) 1).map fun k => (k, none)

/-- The backtracking matcher.  `s` is the remaining subject, `pos` the
absolute position of its head; on success returns the end position of
the match and the captured spans. -/
def mrun : List Item → List Char → Nat → Groups → Option (Nat × Groups)
  | [], _, pos, g => some (pos, g)
  | it :: items, s, pos, g =>
      (itemChoices it s).findSome? fun kc =>
        mrun items (s.drop kc.1) (pos + kc.1)
          (match kc.2 with
           | none => g
           | some n => g ++ [(n, (pos, pos + kc.1))])

/-- `re.match`: anchored at the start, need not reach the end. -/
def reMatch (items : List Item) (s : List Char) : Option (Nat × Groups) :=
  mrun items s 0 []

/-- The scan loop of `re.finditer`: try an anchored match at each
position from left to right, yielding non-overlapping spans and
resuming after each match.  The position increases strictly at every
step and the scan stops once it passes the end, so `s.length + 1`
steps of fuel always suffice; the fuel only makes the recursion
structural. -/
def findIterFuel (items : List Item) (s : List Char) :
    Nat → Nat → List (Nat × Nat)
  | _, 0 => []
  | pos, fuel + 1 =>
    if s.length < pos then []
    else
      match mrun items (s.drop pos) pos [] with
      | some (e, _) => (pos, e) :: findIterFuel items s (max e (pos + 1)) fuel
      | none => findIterFuel items s (pos + 1) fuel

/-- `re.finditer`: all non-overlapping matches, left to right. -/
def findIter (items : List Item) (s : List Char) : List (Nat × Nat) :=
  findIterFuel items s 0 (s.length + 1)

/-- `s[a:b]`. -/
def sliceL (s : List Char) (a b : Nat) : List Char := (s.take b).drop a

/-! ## The `REGEX` table and the sunpy format-to-regex compiler

`_regex_parse_time` and `find_time` build their regex by
`format.replace(key, value)` over the `REGEX` dict.  The keys are the
two-character codes `%Y %m %d %H %M %S %f %b` and no replacement value
contains `%`, so the result does not depend on dict iteration order and
equals a left-to-right scan.  Literal characters are inserted into the
regex **unescaped**, so a literal `.` becomes the any-character
wildcard. -/

/-- The named fragment substituted for a `%` code by the `REGEX` dict
(`none` for an unknown code, which `str.replace` leaves untouched). -/
def sunpyFrag : Char → Option Item
  | 'Y' => some (.rep "year" .digit 4 (some 4))
  | 'm' => some (.rep "month" .digit 1 (some 2))
  | 'd' => some (.rep "day" .digit 1 (some 2))
  | 'H' => some (.rep "hour" .digit 1 (some 2))
  | 'M' => some (.rep "minute" .digit 1 (some 2))
  | 'S' => some (.rep "second" .digit 1 (some 2))
  | 'f' => some (.rep "microsecond" .digit 1 none)
  | 'b' => some (.rep "month_str" .alpha 1 none)
  | _ => none

/-- A literal character of the format string, inserted into the regex
without escaping: `.` is the regex wildcard, everything else in the
catalog (`- / T space : Z _` and digits never occur as literals) only
matches itself. -/
def litItem (c : Char) : Item := if c = '.' then .tst .any else .tst (.one c)

/-- Scanner for the sunpy format-to-regex rewrite; the flag records
that a `%` has been read and awaits its code character.  Because the
`REGEX` keys are pairwise non-overlapping two-character codes and no
replacement value contains `%`, this left-to-right scan produces
exactly the result of the `format.replace(key, value)` loop. -/
def compileSunpyAux : Bool → List Char → List Item
  | false, [] => []
  | true, [] => [litItem '%']
  | false, c :: rest =>
      if c = '%' then compileSunpyAux true rest
      else litItem c :: compileSunpyAux false rest
  | true, c :: rest =>
      match sunpyFrag c with
      | some it => it :: compileSunpyAux false rest
      | none =>
        if c = '%' then litItem '%' :: compileSunpyAux true rest
        else litItem '%' :: litItem c :: compileSunpyAux false rest

/-- The regex `_regex_parse_time`/`find_time` compile from a format. -/
def compileSunpy (l : List Char) : List Item := compileSunpyAux false l

/-- `TIME_FORMAT_LIST`, verbatim from the source. -/
def TIME_FORMAT_LIST : List String := [
    "%Y-%m-%dT%H:%M:%S.%f",    -- Example 2007-05-04T21:08:12.999999
    "%Y/%m/%dT%H:%M:%S.%f",    -- Example 2007/05/04T21:08:12.999999
    "%Y-%m-%dT%H:%M:%S.%fZ",   -- Example 2007-05-04T21:08:12.999Z
    "%Y-%m-%dT%H:%M:%S",       -- Example 2007-05-04T21:08:12
    "%Y/%m/%dT%H:%M:%S",       -- Example 2007/05/04T21:08:12
    "%Y%m%dT%H%M%S.%f",        -- Example 20070504T210812.999999
    "%Y%m%dT%H%M%S",           -- Example 20070504T210812
    "%Y/%m/%d %H:%M:%S",       -- Example 2007/05/04 21:08:12
    "%Y/%m/%d %H:%M",          -- Example 2007/05/04 21:08
    "%Y/%m/%d %H:%M:%S.%f",    -- Example 2007/05/04 21:08:12.999999
    "%Y-%m-%d %H:%M:%S.%f",    -- Example 2007-05-04 21:08:12.999999
    "%Y-%m-%d %H:%M:%S",       -- Example 2007-05-04 21:08:12
    "%Y-%m-%d %H:%M",          -- Example 2007-05-04 21:08
    "%Y-%b-%d %H:%M:%S",       -- Example 2007-May-04 21:08:12
    "%Y-%b-%d %H:%M",          -- Example 2007-May-04 21:08
    "%Y-%b-%d",                -- Example 2007-May-04
    "%Y-%m-%d",                -- Example 2007-05-04
    "%Y/%m/%d",                -- Example 2007/05/04
    "%d-%b-%Y",                -- Example 04-May-2007
    "%Y%m%d_%H%M%S"]           -- Example 20070504_210812

/-! ## CPython `_strptime` for the directives the catalog uses -/

/-- Lower-case abbreviated month names of the C locale, in the order
`_strptime.TimeRE` emits them (all of length 3, so its sort by
decreasing length keeps this order). -/
def monthAbbrs : List String :=
  ["jan", "feb", "mar", "apr", "may", "jun",
   "jul", "aug", "sep", "oct", "nov", "dec"]

/-- The field regex `_strptime.TimeRE` uses for a directive:
`%Y ↦ \d\d\d\d`, `%m ↦ 1[0-2]|0[1-9]|[1-9]`,
`%d ↦ 3[01]|[12]\d|0[1-9]|[1-9]| [1-9]`, `%H ↦ 2[0-3]|[0-1]\d|\d`,
`%M ↦ [0-5]\d|\d`, `%S ↦ 6[0-1]|[0-5]\d|\d`, `%f ↦ [0-9]{1,6}`,
`%b ↦` the month-name alternation (case-insensitive). -/
def strpDirective : Char → Option Item
  | 'Y' => some (.grp "Y" [[.digit, .digit, .digit, .digit]])
  | 'm' => some (.grp "m"
      [[.one '1', .rng '0' '2'], [.one '0', .rng '1' '9'], [.rng '1' '9']])
  | 'd' => some (.grp "d"
      [[.one '3', .rng '0' '1'], [.rng '1' '2', .digit],
       [.one '0', .rng '1' '9'], [.rng '1' '9'], [.one ' ', .rng '1' '9']])
  | 'H' => some (.grp "H"
      [[.one '2', .rng '0' '3'], [.rng '0' '1', .digit], [.digit]])
  | 'M' => some (.grp "M" [[.rng '0' '5', .digit], [.digit]])
  | 'S' => some (.grp "S"
      [[.one '6', .rng '0' '1'], [.rng '0' '5', .digit], [.digit]])
  | 'f' => some (.rep "f" .digit 1 (some 6))
  | 'b' => some (.grp "b" (monthAbbrs.map fun nm => nm.data.map CT.oneCI))
  | _ => none

/-- Scanner for `_strptime.TimeRE().compile(format)`; the first flag
records a read `%` awaiting its directive character, the second that
the previous format character was whitespace (so that a whitespace run
collapses into a single `\s+`, as `TimeRE.pattern`'s
`whitespace_replacement` substitution does).  The catalog uses no
directive outside `strpDirective`'s domain, so the fallback branch for
an unknown directive is never exercised by any call in the module. -/
def compileStrpAux : Bool → Bool → List Char → List Item
  | false, _, [] => []
  | true, _, [] => [.tst (.oneCI '%')]
  | false, pw, c :: rest =>
      if c = '%' then compileStrpAux true false rest
      else if pyWhite c then
        (if pw then ([] : List Item) else [.ws]) ++ compileStrpAux false true rest
      else .tst (.oneCI c) :: compileStrpAux false false rest
  | true, _, c :: rest =>
      match strpDirective c with
      | some it => it :: compileStrpAux false false rest
      | none => .tst (.oneCI '%') :: .tst (.oneCI c) :: compileStrpAux false false rest

/-- The regex `_strptime.TimeRE().compile(format)` builds: directives
become the field regexes above, runs of whitespace become `\s+`, other
literals are escaped and matched under `IGNORECASE`. -/
def compileStrp (l : List Char) : List Item := compileStrpAux false false l

/-! ## `datetime` values, validation and arithmetic -/

/-- A concrete `datetime.datetime` value (no timezone). -/
structure DT where
  year : Nat
  month : Nat
  day : Nat
  hour : Nat
  minute : Nat
  second : Nat
  microsecond : Nat
  deriving DecidableEq, Repr

/-- The distinguishing message of a `ValueError`. -/
inductive VKind where
  /-- `"%s is not a valid time string!"` from `parse_time` -/
  | notValid : VKind
  /-- `"Ambiguous string"` from `extract_time` -/
  | ambiguous : VKind
  /-- `"Time not found"` from `extract_time` -/
  | notFound : VKind
  /-- the bare `raise ValueError` of `_regex_parse_time` -/
  | malformed : VKind
  /-- a `ValueError` raised inside `strptime` or the `datetime`
      constructor (no-match, unconverted data, field out of range) -/
  | data : VKind
  deriving DecidableEq, Repr

/-- The Python exceptions the module can raise or catch. -/
inductive PyErr where
  | valueError (k : VKind) : PyErr
  | typeError : PyErr
  | overflowError : PyErr
  deriving DecidableEq, Repr

def isLeapYear (y : Nat) : Bool :=
  y % 4 = 0 && (y % 100 ≠ 0 || y % 400 = 0)

def daysInMonth (y m : Nat) : Nat :=
  if m = 2 then (if isLeapYear y then 29 else 28)
  else if m = 4 || m = 6 || m = 9 || m = 11 then 30
  else 31

/-- The `datetime.datetime` constructor's validation. -/
def validDT (v : DT) : Bool :=
  1 ≤ v.year && v.year ≤ 9999 && 1 ≤ v.month && v.month ≤ 12 &&
  1 ≤ v.day && v.day ≤ daysInMonth v.year v.month &&
  v.hour ≤ 23 && v.minute ≤ 59 && v.second ≤ 59 &&
  v.microsecond ≤ 999999

/-- `datetime(year, month, day, hour, minute, second, microsecond)`:
`ValueError` if a field is out of range. -/
def datetimeNew (y m d h mi s us : Nat) : Except PyErr DT :=
  let v : DT := ⟨y, m, d, h, mi, s, us⟩
  if validDT v then .ok v else .error (.valueError .data)

/-- `datetime(*t)` for a tuple `t` of integers: fewer than 3 or more
than 8 arguments is a `TypeError`; a negative or out-of-range field a
`ValueError` (checked first); with exactly 8 arguments the eighth is
the tzinfo slot, whose type check (`TypeError` for an integer) runs
after the field range checks. -/
def datetimeOfTuple (xs : List Int) : Except PyErr DT :=
  if 3 ≤ xs.length ∧ xs.length ≤ 8 then
    let get (i : Nat) (dfl : Int) : Int := (xs.get? i).getD dfl
    if 0 ≤ get 0 1 ∧ 0 ≤ get 1 1 ∧ 0 ≤ get 2 1 ∧ 0 ≤ get 3 0 ∧
       0 ≤ get 4 0 ∧ 0 ≤ get 5 0 ∧ 0 ≤ get 6 0 then
      match datetimeNew (get 0 1).toNat (get 1 1).toNat (get 2 1).toNat
        (get 3 0).toNat (get 4 0).toNat (get 5 0).toNat (get 6 0).toNat with
      | .ok v => if xs.length = 8 then .error .typeError else .ok v
      | .error e => .error e
    else .error (.valueError .data)
  else .error .typeError

/-- `datetime.timedelta(days, seconds, microseconds)` (Python
normalizes the representation, but only the signed total matters for
the arithmetic below). -/
structure Td where
  days : Int
  seconds : Int
  microseconds : Int
  deriving DecidableEq, Repr

/-- The civil successor of a calendar date. -/
def nextYMD : Nat × Nat × Nat → Nat × Nat × Nat
  | (y, m, d) =>
    if d < daysInMonth y m then (y, m, d + 1)
    else if m < 12 then (y, m + 1, 1)
    else (y + 1, 1, 1)

/-- The civil predecessor of a calendar date. -/
def prevYMD : Nat × Nat × Nat → Nat × Nat × Nat
  | (y, m, d) =>
    if 1 < d then (y, m, d - 1)
    else if 1 < m then (y, m - 1, daysInMonth y (m - 1))
    else (y - 1, 12, daysInMonth (y - 1) 12)

/-- Shift a calendar date by a signed number of days. -/
def shiftYMD (x : Nat × Nat × Nat) (n : Int) : Nat × Nat × Nat :=
  if 0 ≤ n then nextYMD^[n.toNat] x else prevYMD^[(-n).toNat] x

/-- `datetime + timedelta`: Python adds the total offset to the date's
ordinal/time-of-day and raises `OverflowError` when the result leaves
`MINYEAR..MAXYEAR`; day stepping over the civil calendar is the same
arithmetic. -/
def dtAddTd (v : DT) (td : Td) : Except PyErr DT :=
  let usDay : Int := 86400000000
  let tod : Int :=
    ((v.hour * 3600 + v.minute * 60 + v.second) * 1000000
      + v.microsecond : Nat)
  let tot : Int := tod + (td.days * 86400 + td.seconds) * 1000000
      + td.microseconds
  let q : Int := tot.fdiv usDay
  let r : Int := tot - q * usDay
  let ymd := shiftYMD (v.year, v.month, v.day) q
  if 1 ≤ ymd.1 ∧ ymd.1 ≤ 9999 then
    .ok ⟨ymd.1, ymd.2.1, ymd.2.2,
         (r / 3600000000).toNat, ((r % 3600000000) / 60000000).toNat,
         ((r % 60000000) / 1000000).toNat, (r % 1000000).toNat⟩
  else .error .overflowError

/-! ## `datetime.strptime` -/

/-- `int()` of a (non-empty, all-digit) captured string. -/
def digitsToNat (l : List Char) : Nat :=
  l.foldl (fun a c => a * 10 + (c.toNat - '0'.toNat)) 0

/-- The captured text of a named group, if the group participated. -/
def groupSlice (s : List Char) (g : Groups) (n : String) :
    Option (List Char) :=
  (List.lookup n g).map fun ab => sliceL s ab.1 ab.2

/-- Month number from a matched abbreviated name (case-insensitive). -/
def monthOfAbbr (l : List Char) : Nat :=
  ((monthAbbrs.indexOf (String.mk (l.map Char.toLower))) + 1)

/-- `datetime.strptime(s, fmt)`: match the compiled format regex at the
start, require full consumption, read the fields out of the named
groups (missing time fields default to 0, a matched fraction is
zero-padded on the right to six digits), then run the `datetime`
constructor.  Every failure is a `ValueError`. -/
def strptime (s fmt : String) : Except PyErr DT :=
  let cs := s.data
  match mrun (compileStrp fmt.data) cs 0 [] with
  | none => .error (.valueError .data)
  | some (e, g) =>
    if e = cs.length then
      let yr := ((groupSlice cs g "Y").map digitsToNat).getD 1900
      let mon := match groupSlice cs g "m" with
        | some ds => digitsToNat ds
        | none => match groupSlice cs g "b" with
          | some bs => monthOfAbbr bs
          | none => 1
      let dy := ((groupSlice cs g "d").map digitsToNat).getD 1
      let hr := ((groupSlice cs g "H").map digitsToNat).getD 0
      let mi := ((groupSlice cs g "M").map digitsToNat).getD 0
      let sec := ((groupSlice cs g "S").map digitsToNat).getD 0
      let us := match groupSlice cs g "f" with
        | some fs => digitsToNat (fs ++ List.replicate (6 - fs.length) '0')
        | none => 0
      datetimeNew yr mon dy hr mi sec us
    else .error (.valueError .data)

/-! ## The module functions -/

/-- `_group_or_none(match, g, int)`: `None` when the pattern has no
such group, otherwise `int` of the captured text. -/
def groupOrNoneNat (s : List Char) (g : Groups) (n : String) :
    Option Nat :=
  (groupSlice s g n).map digitsToNat

/-- `_n_or_eq(a, b)`. -/
def nOrEq (a : Option Nat) (b : Nat) : Bool :=
  a.isNone || a = some b

/-- `_regex_parse_time(inp, format)`.  Returns `.ok none` for
`(None, None)` ("this pattern does not apply"), `.ok (some (s, td))`
for an adjusted string and day offset, and `ValueError` for the
leap-hour-with-nonzero-minute case.  `match.group("hour")` raises
`IndexError` exactly when the compiled pattern has no `hour` group, in
which case the captured groups of a successful match cannot contain it
either (every group of these patterns participates in any match). -/
def regexParseTime (inp fmt : String) : Except PyErr (Option (String × Td)) :=
  let cs := inp.data
  match reMatch (compileSunpy fmt.data) cs with
  | none => .ok none
  | some (_, g) =>
    match List.lookup "hour" g with
    | none => .ok (some (inp, ⟨0, 0, 0⟩))
    | some ab =>
      if sliceL cs ab.1 ab.2 = "24".data then
        if nOrEq (groupOrNoneNat cs g "minute") 0 &&
           nOrEq (groupOrNoneNat cs g "second") 0 &&
           nOrEq (groupOrNoneNat cs g "microsecond") 0 then
          .ok (some (String.mk (cs.take ab.1 ++ "00".data ++ cs.drop ab.2),
                     ⟨1, 0, 0⟩))
        else .error (.valueError .malformed)
      else .ok (some (inp, ⟨0, 0, 0⟩))

/-- `find_time(string, format)`: every non-overlapping regex match, in
left-to-right order, keeping only those whose matched substring
`strptime`-parses (a `ValueError` there skips the entry). -/
def findTime (s fmt : String) : List DT :=
  (findIter (compileSunpy fmt.data) s.data).filterMap fun ab =>
    (strptime (String.mk (sliceL s.data ab.1 ab.2)) fmt).toOption

/-- The loop of `extract_time`: `acc` is `matched`/`bestmatch`.  For a
format with at least one find, the prefix tie-break runs first (raising
`"Ambiguous string"` for an incomparable pair), then `_iter_empty`
raises if the same format found a second occurrence. -/
def extractLoop (s : String) :
    List String → Option (String × DT) → Except PyErr DT
  | [], none => .error (.valueError .notFound)
  | [], some b => .ok b.2
  | fmt :: rest, acc =>
    match findTime s fmt with
    | [] => extractLoop s rest acc
    | m :: more =>
      match acc with
      | none =>
        if more = [] then extractLoop s rest (some (fmt, m))
        else .error (.valueError .ambiguous)
      | some mb =>
        if mb.1.data.isPrefixOf fmt.data then
          if more = [] then extractLoop s rest (some (fmt, m))
          else .error (.valueError .ambiguous)
        else if fmt.data.isPrefixOf mb.1.data then
          if more = [] then extractLoop s rest (some mb)
          else .error (.valueError .ambiguous)
        else .error (.valueError .ambiguous)

/-- `extract_time(string)`. -/
def extractTime (s : String) : Except PyErr DT :=
  extractLoop s TIME_FORMAT_LIST none

/-- The five input shapes `parse_time` dispatches on (`other` stands
for any value that is none of the recognized kinds, e.g. a list). -/
inductive PyValue where
  | pyNone : PyValue
  | dt (d : DT) : PyValue
  | tuple (xs : List Int) : PyValue
  | int (n : Int) : PyValue
  | str (s : String) : PyValue
  | other : PyValue
  deriving DecidableEq, Repr

/-- The string-branch loop of `parse_time`.  A `ValueError` from
`_regex_parse_time` or `strptime` is caught by `except ValueError:
pass` and the next format is tried; a `TypeError` from `re.match` on a
non-string input breaks out of the loop, reaching the final
`raise ValueError("... is not a valid time string!")`; any error from
the `+ time_delta` addition (an `OverflowError`) propagates. -/
def parseLoop (v : PyValue) : List String → Except PyErr DT
  | [] => .error (.valueError .notValid)
  | fmt :: rest =>
    match v with
    | .str s =>
      match regexParseTime s fmt with
      | .error (.valueError _) => parseLoop v rest
      | .error e => .error e
      | .ok none => parseLoop v rest
      | .ok (some (ts, td)) =>
        match strptime ts fmt with
        | .error (.valueError _) => parseLoop v rest
        | .error e => .error e
        | .ok d => dtAddTd d td
    | _ => .error (.valueError .notValid)

/-- `datetime(1979, 1, 1)`. -/
def epoch1979 : DT := ⟨1979, 1, 1, 0, 0, 0, 0⟩

/-- `parse_time(time_string)`.  The wall clock of the absent-input case
is passed explicitly as `now`.  A numeric input is modelled for the
integer case: `datetime(1979, 1, 1) + timedelta(0, n)`. -/
def parseTime (now : DT) : PyValue → Except PyErr DT
  | .pyNone => .ok now
  | .dt d => .ok d
  | .tuple xs => datetimeOfTuple xs
  | .int n => dtAddTd epoch1979 ⟨0, n, 0⟩
  | .str s => parseLoop (.str s) TIME_FORMAT_LIST
  | .other => parseLoop .other TIME_FORMAT_LIST

/-- `is_time(time)`: `if None:` is dead code; a `datetime` input short
circuits to `True`; otherwise `parse_time` is tried, with only
`ValueError` turned into `False` — other exceptions propagate. -/
def isTime (now : DT) : PyValue → Except PyErr Bool
  | .dt _ => .ok true
  | v =>
    match parseTime now v with
    | .ok _ => .ok true
    | .error (.valueError _) => .ok false
    | .error e => .error e

/-! ## Auxiliary notions used by the claim statements -/

/-- The named capture groups of a compiled pattern, in order. -/
def groupNames : List Item → List String
  | [] => []
  | .tst _ :: r => groupNames r
  | .grp n _ :: r => n :: groupNames r
  | .rep n _ _ _ :: r => n :: groupNames r
  | .ws :: r => groupNames r

/-- The sunpy capture-group name belonging to a placeholder code. -/
def placeholderName : Char → Option String
  | 'Y' => some "year"
  | 'm' => some "month"
  | 'd' => some "day"
  | 'H' => some "hour"
  | 'M' => some "minute"
  | 'S' => some "second"
  | 'f' => some "microsecond"
  | 'b' => some "month_str"
  | _ => none

/-- The placeholders present in a format pattern, in order (the flag
plays the same role as in `compileSunpyAux`). -/
def placeholdersAux : Bool → List Char → List String
  | _, [] => []
  | false, c :: rest => placeholdersAux (c = '%') rest
  | true, c :: rest =>
      match placeholderName c with
      | some n => n :: placeholdersAux false rest
      | none => placeholdersAux (c = '%') rest

def placeholders (l : List Char) : List String := placeholdersAux false l

/-- The catalog ordering property claimed by the spec: whenever an
earlier pattern is a textual prefix of a later one, the two are equal —
i.e. for every proper-prefix pair, the longer pattern comes first. -/
def longerFirst (l : List String) : Prop :=
  l.Pairwise fun p q => p.data.isPrefixOf q.data = true → p = q

/-- A fixed "now" for the wall-clock parameter of concrete examples. -/
def now0 : DT := ⟨2000, 1, 1, 0, 0, 0, 0⟩

/-! ### Fixed-width decimal rendering -/
/-- Two-digit zero-padded rendering (`"%02d"`). -/
def digits2 (n : Nat) : List Char :=
  [Nat.digitChar (n / 10 % 10), Nat.digitChar (n % 10)]

/-- Four-digit zero-padded rendering (`"%04d"`). -/
def digits4 (n : Nat) : List Char :=
  [Nat.digitChar (n / 1000 % 10), Nat.digitChar (n / 100 % 10),
   Nat.digitChar (n / 10 % 10), Nat.digitChar (n % 10)]

/-- Six-digit zero-padded rendering (`"%06d"`). -/
def digits6 (n : Nat) : List Char :=
  [Nat.digitChar (n / 100000 % 10), Nat.digitChar (n / 10000 % 10),
   Nat.digitChar (n / 1000 % 10), Nat.digitChar (n / 100 % 10),
   Nat.digitChar (n / 10 % 10), Nat.digitChar (n % 10)]

/-- Capitalized abbreviated month names, as `strftime`'s `%b` renders
them in the C locale. -/
def monthCap (m : Nat) : List Char :=
  match m with
  | 1 => "Jan".data | 2 => "Feb".data | 3 => "Mar".data
  | 4 => "Apr".data | 5 => "May".data | 6 => "Jun".data
  | 7 => "Jul".data | 8 => "Aug".data | 9 => "Sep".data
  | 10 => "Oct".data | 11 => "Nov".data | _ => "Dec".data

/-- Modelled from the spec: "formatting V according to P".  The
repository contains no general formatter (only `strftime` calls with
fixed layouts), so this renders each placeholder of a format pattern
with the zero-padded fixed width that `strftime` uses (`%Y` four
digits, `%m %d %H %M %S` two digits, `%f` six digits, `%b` the
abbreviated month name) and copies literal characters; the flag plays
the same role as in `compileSunpyAux`. -/
def dirFormat (c : Char) (v : DT) : Option (List Char) :=
  match c with
  | 'Y' => some (digits4 v.year)
  | 'm' => some (digits2 v.month)
  | 'd' => some (digits2 v.day)
  | 'H' => some (digits2 v.hour)
  | 'M' => some (digits2 v.minute)
  | 'S' => some (digits2 v.second)
  | 'f' => some (digits6 v.microsecond)
  | 'b' => some (monthCap v.month)
  | _ => none

/-- Modelled from the spec: the format-pattern renderer (see
`dirFormat`). -/
def formatAux (v : DT) : Bool → List Char → List Char
  | false, [] => []
  | true, [] => ['%']
  | false, c :: rest =>
      if c = '%' then formatAux v true rest
      else c :: formatAux v false rest
  | true, c :: rest =>
      match dirFormat c v with
      | some out => out ++ formatAux v false rest
      | none => '%' :: c :: formatAux v false rest

/-- Modelled from the spec: format a pattern with field values. -/
def formatPattern (fmt : List Char) (v : DT) : List Char :=
  formatAux v false fmt

/-! ### Shape invariance of the sunpy matcher

Two subject strings that agree everywhere except that digits may be
replaced by other digits drive the backtracking matcher identically,
provided the pattern tests only digit-hood, letter-hood, wildcards and
non-digit literals.  This lets concrete "this pattern does not apply"
facts computed on one exemplar transfer to every formatted value. -/
/-- Interchangeable characters: both digits, or equal. -/
def chEq (c d : Char) : Prop := (c.isDigit = true ∧ d.isDigit = true) ∨ c = d

/-- Character tests that cannot tell `chEq`-related characters apart. -/
def okCT : CT → Bool
  | .digit => true
  | .alpha => true
  | .any => true
  | .one a => !a.isDigit
  | .oneCI a => !(a.toLower.isDigit)
  | .rng _ _ => false

def okItem : Item → Bool
  | .tst t => okCT t
  | .grp _ alts => alts.all fun a => a.all okCT
  | .rep _ t _ _ => okCT t
  | .ws => true

/-- Whether some backtracking path consumes the entire subject. -/
def existsFull : List Item → List Char → Bool
  | [], s => s.isEmpty
  | it :: items, s =>
    (itemChoices it s).any fun kc => existsFull items (s.drop kc.1)

/-! ### Relaxing the strptime field regexes to plain digit tests

Weakening every digit-range test to `\d` gives a matcher that (a)
accepts every subject the strict one accepts, with identical
consumption, and (b) is shape-invariant, so "no path consumes the whole
exemplar" transfers to every formatted value and kills strict parsing
there. -/
def relaxCT (t : CT) : CT :=
  match t with
  | .rng lo hi => if lo.isDigit && hi.isDigit then .digit else .rng lo hi
  | .one a => if a.isDigit then .digit else .one a
  | t => t

def relaxItem : Item → Item
  | .tst t => .tst (relaxCT t)
  | .grp n alts => .grp n (alts.map fun a => a.map relaxCT)
  | .rep n t lo hi => .rep n (relaxCT t) lo hi
  | .ws => .ws

def relaxItems (items : List Item) : List Item := items.map relaxItem

/-! ### Shape equivalence of formatted instances -/
/-- Whether the remainder of a format (with the `formatAux` pending
flag) still contains a `%b` directive. -/
def hasB : Bool → List Char → Bool
  | _, [] => false
  | false, c :: rest => hasB (c = '%') rest
  | true, c :: rest => if c = 'b' then true else hasB false rest

/-- Whether a directive `%a` occurs in a format (the flag mirrors the
pending-`%` state of `formatAux`, like `hasB`). -/
def hasDir (a : Char) : Bool → List Char → Bool
  | _, [] => false
  | false, c :: rest => hasDir a (c = '%') rest
  | true, c :: rest => if c = a then true else hasDir a false rest

/-- Modelled from the spec: "valid field values V consistent with P".
The fields are in the `datetime` constructor's ranges, and a time
field that pattern `P` cannot express (no `%H`/`%M`/`%S`/`%f`
directive) is zero, its parse-time default. -/
def consistentV (fmt : List Char) (v : DT) : Bool :=
  validDT v && (hasDir 'H' false fmt || v.hour == 0) &&
  (hasDir 'M' false fmt || v.minute == 0) &&
  (hasDir 'S' false fmt || v.second == 0) &&
  (hasDir 'f' false fmt || v.microsecond == 0)

/-! ### Group-membership lemmas for the matcher -/
/-- The capture-group name an item contributes, if any. -/
def itemName : Item → Option String
  | .tst _ => none
  | .grp n _ => some n
  | .rep n _ _ _ => some n
  | .ws => none

/-! ### The ambiguity characterization of `extract_time` (C4) -/
/-- Prefix-comparability of two format strings. -/
def pcomp (p q : String) : Bool :=
  p.data.isPrefixOf q.data || q.data.isPrefixOf p.data

/-- Ambiguity condition relative to an already-matched format `m0`. -/
def ambExtra (s : String) (l : List String) (m0 : String) : Prop :=
  (∃ p ∈ l, 2 ≤ (findTime s p).length) ∨
  (∃ p ∈ l, findTime s p ≠ [] ∧ pcomp p m0 = false) ∨
  (∃ p ∈ l, ∃ q ∈ l, findTime s p ≠ [] ∧ findTime s q ≠ [] ∧
    pcomp p q = false)

/-- The claim's ambiguity condition: some pattern locating two or more
matches, or two matching patterns neither a prefix of the other. -/
def ambCond (s : String) (l : List String) : Prop :=
  (∃ p ∈ l, 2 ≤ (findTime s p).length) ∨
  (∃ p ∈ l, ∃ q ∈ l, findTime s p ≠ [] ∧ findTime s q ≠ [] ∧
    pcomp p q = false)

/-! ## Claims -/

/-! ## Claims -/
/-- C6 counterexample: the catalog is *not* ordered longest-first: the
pattern `"%Y-%m-%dT%H:%M:%S.%f"` (index 0) is a proper textual prefix
of `"%Y-%m-%dT%H:%M:%S.%fZ"` (index 2), yet the longer pattern appears
later. -/
theorem C6_counterexample : ¬ longerFirst TIME_FORMAT_LIST := by
  intro h
  have h02 := (List.pairwise_iff_get.mp h) ⟨0, by decide⟩ ⟨2, by decide⟩
    (by decide)
  revert h02
  decide

/-- C6 (amended): the catalog is ordered longest-first for every
proper-prefix pair **except three**: `"%Y-%m-%dT%H:%M:%S.%f"` precedes
its extension `"%Y-%m-%dT%H:%M:%S.%fZ"`, and `"%Y/%m/%d %H:%M:%S"` and
`"%Y/%m/%d %H:%M"` both precede their extension
`"%Y/%m/%d %H:%M:%S.%f"`. -/
theorem C6_amended_ordering : TIME_FORMAT_LIST.Pairwise fun p q =>
    p.data.isPrefixOf q.data = true → p = q ∨
      (p = "%Y-%m-%dT%H:%M:%S.%f" ∧ q = "%Y-%m-%dT%H:%M:%S.%fZ") ∨
      (p = "%Y/%m/%d %H:%M:%S" ∧ q = "%Y/%m/%d %H:%M:%S.%f") ∨
      (p = "%Y/%m/%d %H:%M" ∧ q = "%Y/%m/%d %H:%M:%S.%f") := by
  decide

/-- C10: a value of unrecognized type (not absent, not a datetime, not
a tuple, not numeric, not a string) reaches the string branch, where
`re.match` raises a `TypeError` that breaks out of the format loop, so
`parse_time` fails with the same "not a valid time string" `ValueError`
used for unparseable strings — and `is_time` returns `False` for it. -/
theorem C10_other_type (now : DT) :
    parseTime now .other = .error (.valueError .notValid) ∧
    isTime now .other = .ok false ∧
    parseTime now (.str "no time here") = .error (.valueError .notValid) := by
  exact ⟨rfl, rfl, rfl⟩

/-- C1 counterexample: a numeric input is *not* a day-count offset from
1979-01-01: `parse(1)` yields 1979-01-01 00:00:01 (one **second** past
the epoch), not 1979-01-02 00:00:00 (one day past it). -/
theorem C1_counterexample :
    parseTime now0 (.int 1) = .ok ⟨1979, 1, 1, 0, 0, 1, 0⟩ ∧
    parseTime now0 (.int 1) ≠ .ok ⟨1979, 1, 2, 0, 0, 0, 0⟩ := by
  decide

/-- Stepping to the next civil day never decreases the year. -/
theorem yearMono (x : Nat × Nat × Nat) : x.1 ≤ (nextYMD x).1 := by
  obtain ⟨y, m, dd⟩ := x
  simp only [nextYMD]
  split
  · simp
  · split <;> simp

theorem yearMonoIter (d : Nat) (x : Nat × Nat × Nat) :
    x.1 ≤ (nextYMD^[d] x).1 := by
  induction d generalizing x with
  | zero => simp
  | succ n ih =>
    rw [Function.iterate_succ_apply]
    exact le_trans (yearMono x) (ih (nextYMD x))

/-- C1 (amended): a numeric input `n` is interpreted as an offset of
`n` **seconds** (not days) from the epoch 1979-01-01: splitting a
nonnegative integer input as `86400·d + s` seconds, `parse` returns
the civil date `d` days after 1979-01-01 with time of day `s` seconds
(provided the resulting date does not overflow year 9999). -/
theorem C1_amended_seconds (now : DT) (d s : Nat) (hs : s < 86400)
    (hy : (nextYMD^[d] (1979, 1, 1)).1 ≤ 9999) :
    parseTime now (.int (86400 * (d : Int) + (s : Int))) =
      .ok ⟨(nextYMD^[d] (1979, 1, 1)).1, (nextYMD^[d] (1979, 1, 1)).2.1,
           (nextYMD^[d] (1979, 1, 1)).2.2,
           s / 3600, s % 3600 / 60, s % 60, 0⟩ := by
  have key : ((((0 * 3600 + 0 * 60 + 0) * 1000000 + 0 : Nat) : Int) +
      (0 * 86400 + (86400 * (d : Int) + (s : Int))) * 1000000 + 0) =
      86400000000 * (d : Int) + ((s * 1000000 : Nat) : Int) := by
    push_cast; ring
  have hq : (86400000000 * (d : Int) + ((s * 1000000 : Nat) : Int)).fdiv
      86400000000 = (d : Int) := by
    rw [Int.fdiv_eq_ediv _ (by norm_num)]
    omega
  simp only [parseTime, dtAddTd, epoch1979, shiftYMD, key, hq,
    Int.natCast_nonneg, if_true, Int.toNat_natCast]
  have h1 : 1 ≤ (nextYMD^[d] (1979, 1, 1)).1 :=
    le_trans (by norm_num) (yearMonoIter d (1979, 1, 1))
  rw [if_pos ⟨h1, hy⟩]
  simp only [Except.ok.injEq, DT.mk.injEq]
  refine ⟨trivial, trivial, trivial, ?_, ?_, ?_, ?_⟩ <;> omega

/-- C1 witness: the amended theorem at one day plus one second past
the epoch: `parse(86401)` is 1979-01-02 00:00:01. -/
theorem C1_witness :
    parseTime now0 (.int 86401) = .ok ⟨1979, 1, 2, 0, 0, 1, 0⟩ := by
  have h := C1_amended_seconds now0 1 1 (by norm_num) (by decide)
  norm_num at h
  convert h using 2

theorem itemChoices_name {it : Item} {s : List Char}
    {kc : Nat × Option String} (h : kc ∈ itemChoices it s) :
    kc.2 = none ∨ kc.2 = itemName it := by
  cases it with
  | tst t =>
    cases s with
    | nil => simp [itemChoices] at h
    | cons c cs =>
      simp only [itemChoices] at h
      split at h <;> simp_all
  | grp n alts =>
    simp only [itemChoices, List.mem_filterMap] at h
    obtain ⟨a, _, ha⟩ := h
    split at ha
    · cases ha
      exact .inr rfl
    · exact absurd ha (by simp)
  | rep n t lo hi =>
    simp only [itemChoices, List.mem_map] at h
    obtain ⟨k, _, hk⟩ := h
    simp [← hk, itemName]
  | ws =>
    simp only [itemChoices, List.mem_map] at h
    obtain ⟨k, _, hk⟩ := h
    simp [← hk]

theorem mem_groupNames_of_itemName {it : Item} {items : List Item}
    {n : String} (h : itemName it = some n) :
    n ∈ groupNames (it :: items) := by
  cases it <;> simp_all [itemName, groupNames]

theorem groupNames_tail {it : Item} {items : List Item} {n : String}
    (h : n ∈ groupNames items) : n ∈ groupNames (it :: items) := by
  cases it <;> simp_all [groupNames]

/-- Every name captured by a successful run either was already in the
accumulator or names a group of the pattern. -/
theorem mrun_mem_groups {items : List Item} :
    ∀ {s : List Char} {pos : Nat} {g : Groups} {e : Nat} {g' : Groups},
    mrun items s pos g = some (e, g') → ∀ nm ab, (nm, ab) ∈ g' →
      (∃ ab', (nm, ab') ∈ g) ∨ nm ∈ groupNames items := by
  induction items with
  | nil =>
    intro s pos g e g' h nm ab hm
    simp only [mrun, Option.some.injEq, Prod.mk.injEq] at h
    exact .inl ⟨ab, h.2 ▸ hm⟩
  | cons it items ih =>
    intro s pos g e g' h nm ab hm
    simp only [mrun] at h
    obtain ⟨kc, hkcm, hrun⟩ := List.exists_of_findSome?_eq_some h
    rcases ih hrun nm ab hm with ⟨ab', hab⟩ | hmem
    · rcases itemChoices_name hkcm with h2 | h2
      · rw [h2] at hab
        exact .inl ⟨ab', hab⟩
      · rw [h2] at hab
        cases hn : itemName it with
        | none => rw [hn] at hab; exact .inl ⟨ab', hab⟩
        | some n =>
          rw [hn] at hab
          rcases List.mem_append.mp hab with hg | hnew
          · exact .inl ⟨ab', hg⟩
          · simp at hnew
            exact .inr (hnew.1 ▸ mem_groupNames_of_itemName hn)
    · exact .inr (groupNames_tail hmem)

theorem lookup_none_of_not_mem {β : Type} {a : String}
    {l : List (String × β)} (h : ∀ b, (a, b) ∉ l) :
    List.lookup a l = none := by
  induction l with
  | nil => rfl
  | cons x t ih =>
    obtain ⟨x1, x2⟩ := x
    have hne : (a == x1) = false := by
      by_contra hc
      rw [Bool.not_eq_false, beq_iff_eq] at hc
      exact h x2 (by simp [hc])
    simp only [List.lookup, hne]
    exact ih fun b hb => h b (List.mem_cons_of_mem _ hb)

/-- No group outside the pattern's group names is ever captured, so
`match.group` on such a name raises `IndexError` — in particular the
`hour` lookup of `_regex_parse_time` is `none` for hour-less
patterns. -/
theorem lookup_hour_none {items : List Item} {s : List Char} {e : Nat}
    {g : Groups} (h : mrun items s 0 [] = some (e, g))
    (hn : "hour" ∉ groupNames items) : List.lookup "hour" g = none := by
  refine lookup_none_of_not_mem fun ab hab => ?_
  rcases mrun_mem_groups h "hour" ab hab with ⟨ab', hab'⟩ | hmem
  · exact absurd hab' (List.not_mem_nil _)
  · exact hn hmem

/-- C9 counterexample: for the hour-less catalog pattern `"%Y-%m-%d"`
and the non-matching input `"xyz"`, the normalizer returns the
does-not-apply signal `(None, None)`, not the unchanged string with a
zero day offset. -/
theorem C9_counterexample :
    ("%Y-%m-%d" ∈ TIME_FORMAT_LIST ∧
     "hour" ∉ groupNames (compileSunpy "%Y-%m-%d".data)) ∧
    regexParseTime "xyz" "%Y-%m-%d" = .ok none ∧
    regexParseTime "xyz" "%Y-%m-%d" ≠ .ok (some ("xyz", ⟨0, 0, 0⟩)) := by
  decide

/-- C9 (amended): for a pattern without an hour placeholder the
normalizer returns the input unchanged with a zero day offset **when
the compiled regex matches at the start of the string**; when it does
not match, it returns the does-not-apply signal `(None, None)`
instead. -/
theorem C9_amended_hourless (s fmt : String)
    (hn : "hour" ∉ groupNames (compileSunpy fmt.data)) :
    (reMatch (compileSunpy fmt.data) s.data = none →
      regexParseTime s fmt = .ok none) ∧
    (∀ e g, reMatch (compileSunpy fmt.data) s.data = some (e, g) →
      regexParseTime s fmt = .ok (some (s, ⟨0, 0, 0⟩))) := by
  constructor
  · intro h
    simp [regexParseTime, h]
  · intro e g h
    have hl : List.lookup "hour" g = none := lookup_hour_none h hn
    simp [regexParseTime, h, hl]

/-- C9 witness: the amended theorem applied to the hour-less pattern
`"%Y-%m-%d"` at a non-matching and at a matching input. -/
theorem C9_witness :
    regexParseTime "xyz" "%Y-%m-%d" = .ok none ∧
    regexParseTime "2007-05-04" "%Y-%m-%d" =
      .ok (some ("2007-05-04", ⟨0, 0, 0⟩)) :=
  ⟨(C9_amended_hourless "xyz" "%Y-%m-%d" (by decide)).1 (by decide),
   (C9_amended_hourless "2007-05-04" "%Y-%m-%d" (by decide)).2
     10 [("year", (0, 4)), ("month", (5, 7)), ("day", (8, 10))] (by decide)⟩

/-- C8 counterexample: the compiled regex does *not* escape literal
characters: under the catalog pattern `"%Y-%m-%dT%H:%M:%S.%f"` the
subject `"2007-05-04T21:08:12X999999"` — which carries `'X'` at index
19, the position of the literal `'.'` — still matches, so a literal
position does not match only its exact character. -/
theorem C8_counterexample :
    "%Y-%m-%dT%H:%M:%S.%f" ∈ TIME_FORMAT_LIST ∧
    "2007-05-04T21:08:12X999999".data.get? 19 = some 'X' ∧
    (reMatch (compileSunpy "%Y-%m-%dT%H:%M:%S.%f".data)
      "2007-05-04T21:08:12X999999".data).isSome = true := by
  decide

/-- C8 (amended): each catalog pattern compiles to a regex with one
named capture group per placeholder present, in order; but literal
characters are inserted **unescaped**, so the literal `'.'` becomes
the any-character wildcard (matching every character except a newline)
while every other literal character matches only itself. -/
theorem C8_amended_compile :
    (∀ fmt ∈ TIME_FORMAT_LIST,
      groupNames (compileSunpy fmt.data) = placeholders fmt.data) ∧
    litItem '.' = .tst .any ∧
    (∀ c : Char, c ≠ '.' → litItem c = .tst (.one c)) ∧
    CT.any.test 'X' = true ∧ CT.any.test '\n' = false := by
  refine ⟨by decide, rfl, fun c hc => ?_, rfl, rfl⟩
  simp [litItem, hc]

/-- C8 witness: the amended theorem applied to the pattern
`"%Y-%m-%dT%H:%M:%S.%f"` and to the literal `'T'`. -/
theorem C8_witness :
    groupNames (compileSunpy "%Y-%m-%dT%H:%M:%S.%f".data) =
      ["year", "month", "day", "hour", "minute", "second", "microsecond"] ∧
    litItem 'T' = .tst (.one 'T') := by
  refine ⟨?_, C8_amended_compile.2.2.1 'T' (by decide)⟩
  have h := C8_amended_compile.1 "%Y-%m-%dT%H:%M:%S.%f" (by decide)
  rw [h]
  decide

/-- C7 counterexample: `is_time` *can* raise: for the one-element tuple
`(2000,)`, `datetime(*t)` raises a `TypeError`, which `is_time`'s
`except ValueError` does not catch, so `is_time` propagates the error
instead of returning `False`. -/
theorem C7_counterexample :
    isTime now0 (.tuple [2000]) = .error .typeError := by
  decide

/-- C7 (amended): `is_time` returns `True` exactly when `parse_time`
succeeds and `False` exactly when `parse_time` fails with a
`ValueError`; but a `parse_time` failure that is not a `ValueError` —
a `TypeError` from `datetime(*t)` on a malformed tuple, or an
`OverflowError` from the leap-hour day increment at year 9999 —
propagates out of `is_time` rather than yielding `False`. -/
theorem C7_amended_isTime (now : DT) (v : PyValue) :
    ((∃ d, parseTime now v = .ok d) → isTime now v = .ok true) ∧
    (∀ k, parseTime now v = .error (.valueError k) →
      isTime now v = .ok false) ∧
    (∀ e, parseTime now v = .error e → (∀ k, e ≠ .valueError k) →
      isTime now v = .error e) := by
  refine ⟨fun ⟨d, hd⟩ => ?_, fun k hk => ?_, fun e he hne => ?_⟩
  · cases v <;> simp_all [isTime]
  · cases v <;> simp_all [isTime, parseTime]
  · cases v <;> simp_all [isTime, parseTime]

/-- C7 witness: the amended theorem applied to a succeeding string, a
failing string, and the `TypeError`-raising tuple `(2000,)`. -/
theorem C7_witness :
    isTime now0 (.str "2012/08/01") = .ok true ∧
    isTime now0 (.str "never a time") = .ok false ∧
    isTime now0 (.tuple [2000]) = .error .typeError :=
  ⟨(C7_amended_isTime now0 (.str "2012/08/01")).1
      ⟨⟨2012, 8, 1, 0, 0, 0, 0⟩, by decide⟩,
   (C7_amended_isTime now0 (.str "never a time")).2.1 .notValid (by decide),
   (C7_amended_isTime now0 (.tuple [2000])).2.2 .typeError (by decide)
     (fun k => by simp)⟩

/-- C3 counterexample: on `"2007-05-04T24:30:00"` the catalog pattern
`"%Y-%m-%dT%H:%M:%S"` captures hour `"24"` with nonzero minute and the
normalizer raises its bare `ValueError` (MalformedTime) — but
`parse_time` catches it, tries the remaining formats, and fails with
the generic "not a valid time string" `ValueError` instead of the
MalformedTime failure the claim promises. -/
theorem C3_counterexample :
    "%Y-%m-%dT%H:%M:%S" ∈ TIME_FORMAT_LIST ∧
    regexParseTime "2007-05-04T24:30:00" "%Y-%m-%dT%H:%M:%S" =
      .error (.valueError .malformed) ∧
    parseTime now0 (.str "2007-05-04T24:30:00") =
      .error (.valueError .notValid) ∧
    parseTime now0 (.str "2007-05-04T24:30:00") ≠
      .error (.valueError .malformed) := by
  decide

/-- C3 (amended): whenever a pattern's regex matches with hour `"24"`
and a nonzero minute, second or microsecond capture, the *normalizer*
fails with the MalformedTime `ValueError`; `parse_time` however
swallows it (`except ValueError: pass`), continues with the remaining
formats, and — as on `"2007-05-04T24:30:00"` — ends with the generic
"not a valid time string" error rather than MalformedTime. -/
theorem C3_amended_malformed (s fmt : String) (e : Nat) (g : Groups)
    (ab : Nat × Nat)
    (h1 : reMatch (compileSunpy fmt.data) s.data = some (e, g))
    (h2 : List.lookup "hour" g = some ab)
    (h3 : sliceL s.data ab.1 ab.2 = "24".data)
    (h4 : (nOrEq (groupOrNoneNat s.data g "minute") 0 &&
           nOrEq (groupOrNoneNat s.data g "second") 0 &&
           nOrEq (groupOrNoneNat s.data g "microsecond") 0) = false) :
    regexParseTime s fmt = .error (.valueError .malformed) ∧
    parseTime now0 (.str "2007-05-04T24:30:00") =
      .error (.valueError .notValid) := by
  constructor
  · simp [regexParseTime, h1, h2, h3, h4]
  · decide

/-- C3 witness: the amended theorem at `"2007-05-04T24:30:00"` under
`"%Y-%m-%dT%H:%M:%S"`, with the concrete match of that regex. -/
theorem C3_witness :
    regexParseTime "2007-05-04T24:30:00" "%Y-%m-%dT%H:%M:%S" =
      .error (.valueError .malformed) ∧
    parseTime now0 (.str "2007-05-04T24:30:00") =
      .error (.valueError .notValid) :=
  C3_amended_malformed "2007-05-04T24:30:00" "%Y-%m-%dT%H:%M:%S" 19
    [("year", (0, 4)), ("month", (5, 7)), ("day", (8, 10)),
     ("hour", (11, 13)), ("minute", (14, 16)), ("second", (17, 19))]
    (11, 13) (by decide) (by decide) (by decide) (by decide)

/-- C2 counterexample: the claim's hypotheses can hold while `parse`
fails: on `"2007-05-04T24:00:00x"` the pattern `"%Y-%m-%dT%H:%M:%S"`
regex-matches at the start with hour `"24"` and zero minute/second (no
microsecond in the pattern) and the normalizer rewrites the hour and
reports the one-day offset — but strict parsing of the rewritten
string fails on the trailing `"x"` under every format, so `parse`
raises instead of returning midnight of the following day. -/
theorem C2_counterexample :
    "%Y-%m-%dT%H:%M:%S" ∈ TIME_FORMAT_LIST ∧
    regexParseTime "2007-05-04T24:00:00x" "%Y-%m-%dT%H:%M:%S" =
      .ok (some ("2007-05-04T00:00:00x", ⟨1, 0, 0⟩)) ∧
    parseTime now0 (.str "2007-05-04T24:00:00x") =
      .error (.valueError .notValid) := by
  decide

/-- C2 (amended): whenever a pattern's regex matches at the start with
hour capture `"24"` and minute, second and microsecond captures each
zero or absent, the normalizer rewrites exactly the hour span to
`"00"` (all other characters preserved) and reports a one-day offset;
when the rewritten string then strictly parses under that pattern —
as for `"2007-05-04T24:00:00"` — `parse` adds the offset and returns
midnight of the calendar day following the matched date. -/
theorem C2_amended_leapHour (now : DT) (s fmt : String) (e : Nat)
    (g : Groups) (ab : Nat × Nat)
    (h1 : reMatch (compileSunpy fmt.data) s.data = some (e, g))
    (h2 : List.lookup "hour" g = some ab)
    (h3 : sliceL s.data ab.1 ab.2 = "24".data)
    (h4 : (nOrEq (groupOrNoneNat s.data g "minute") 0 &&
           nOrEq (groupOrNoneNat s.data g "second") 0 &&
           nOrEq (groupOrNoneNat s.data g "microsecond") 0) = true) :
    regexParseTime s fmt =
      .ok (some (String.mk (s.data.take ab.1 ++ "00".data ++ s.data.drop ab.2),
                 ⟨1, 0, 0⟩)) ∧
    parseTime now (.str "2007-05-04T24:00:00") =
      .ok ⟨2007, 5, 5, 0, 0, 0, 0⟩ := by
  constructor
  · simp [regexParseTime, h1, h2, h3, h4]
  · rfl

/-- C2 witness: the amended theorem at `"2007-05-04T24:00:00"` under
`"%Y-%m-%dT%H:%M:%S"`, with the concrete match of that regex. -/
theorem C2_witness :
    regexParseTime "2007-05-04T24:00:00" "%Y-%m-%dT%H:%M:%S" =
      .ok (some ("2007-05-04T00:00:00", ⟨1, 0, 0⟩)) ∧
    parseTime now0 (.str "2007-05-04T24:00:00") =
      .ok ⟨2007, 5, 5, 0, 0, 0, 0⟩ := by
  have h := C2_amended_leapHour now0 "2007-05-04T24:00:00"
    "%Y-%m-%dT%H:%M:%S" 19
    [("year", (0, 4)), ("month", (5, 7)), ("day", (8, 10)),
     ("hour", (11, 13)), ("minute", (14, 16)), ("second", (17, 19))]
    (11, 13) (by decide) (by decide) (by decide) (by decide)
  exact ⟨h.1, h.2⟩

theorem pcomp_refl (p : String) : pcomp p p = true := by
  simp [pcomp, List.isPrefixOf_iff_prefix]

theorem pcomp_symm {p q : String} (h : pcomp p q = false) :
    pcomp q p = false := by
  simp only [pcomp, Bool.or_eq_false_iff] at *
  exact ⟨h.2, h.1⟩

theorem pcomp_false_iff {p q : String} :
    pcomp p q = false ↔ ¬ p.data <+: q.data ∧ ¬ q.data <+: p.data := by
  simp [pcomp, ← List.isPrefixOf_iff_prefix]

theorem pcomp_left {p q : String} (h : p.data <+: q.data) :
    pcomp p q = true := by
  simp [pcomp, List.isPrefixOf_iff_prefix, h]

theorem pcomp_right {p q : String} (h : q.data <+: p.data) :
    pcomp p q = true := by
  simp [pcomp, List.isPrefixOf_iff_prefix, h]

/-- If `p` is incomparable with `a` and `a` is a prefix of `b`, then
`p` is incomparable with `b`. -/
theorem pcomp_false_of_prefix {p a b : String}
    (h : pcomp p a = false) (hab : a.data <+: b.data) :
    pcomp p b = false := by
  rw [pcomp_false_iff] at h ⊢
  obtain ⟨h1, h2⟩ := h
  constructor
  · intro hpb
    rcases List.prefix_or_prefix_of_prefix hpb hab with hc | hc
    · exact h1 hc
    · exact h2 hc
  · intro hbp
    exact h2 (hab.trans hbp)

theorem singleton_not_two {s fmt : String} {m : DT}
    (h : findTime s fmt = [m]) : ¬ 2 ≤ (findTime s fmt).length := by
  rw [h]; simp

/-- Transfer: dropping a non-matching head pattern. -/
theorem ambExtra_cons_none {s fmt m0 : String} {rest : List String}
    (hm : findTime s fmt = []) :
    ambExtra s (fmt :: rest) m0 ↔ ambExtra s rest m0 := by
  unfold ambExtra
  constructor
  · rintro (⟨p, hp, h2⟩ | ⟨p, hp, hne, hcomp⟩ | ⟨p, hp, q, hq, hnp, hnq, hpq⟩)
    · rcases List.mem_cons.mp hp with heqp | hp2
      · subst heqp
        rw [hm] at h2; simp at h2
      · exact .inl ⟨p, hp2, h2⟩
    · rcases List.mem_cons.mp hp with heqp | hp2
      · subst heqp
        exact absurd hm hne
      · exact .inr (.inl ⟨p, hp2, hne, hcomp⟩)
    · rcases List.mem_cons.mp hp with heqp | hp2
      · subst heqp
        exact absurd hm hnp
      · rcases List.mem_cons.mp hq with heqq | hq2
        · subst heqq
          exact absurd hm hnq
        · exact .inr (.inr ⟨p, hp2, q, hq2, hnp, hnq, hpq⟩)
  · rintro (⟨p, hp, h2⟩ | ⟨p, hp, hne, hcomp⟩ | ⟨p, hp, q, hq, hnp, hnq, hpq⟩)
    · exact .inl ⟨p, List.mem_cons_of_mem _ hp, h2⟩
    · exact .inr (.inl ⟨p, List.mem_cons_of_mem _ hp, hne, hcomp⟩)
    · exact .inr (.inr ⟨p, List.mem_cons_of_mem _ hp, q,
        List.mem_cons_of_mem _ hq, hnp, hnq, hpq⟩)

/-- Transfer: upgrading the matched format from `m0` to its extension
`fmt` (which has a single find). -/
theorem ambExtra_cons_upgrade {s fmt m0 : String} {rest : List String}
    {m : DT} (hm : findTime s fmt = [m]) (hpre : m0.data <+: fmt.data) :
    ambExtra s (fmt :: rest) m0 ↔ ambExtra s rest fmt := by
  unfold ambExtra
  constructor
  · rintro (⟨p, hp, h2⟩ | ⟨p, hp, hne, hcomp⟩ | ⟨p, hp, q, hq, hnp, hnq, hpq⟩)
    · rcases List.mem_cons.mp hp with heqp | hp2
      · subst heqp
        exact absurd h2 (singleton_not_two hm)
      · exact .inl ⟨p, hp2, h2⟩
    · rcases List.mem_cons.mp hp with heqp | hp2
      · subst heqp
        rw [pcomp_right hpre] at hcomp; cases hcomp
      · exact .inr (.inl ⟨p, hp2, hne, pcomp_false_of_prefix hcomp hpre⟩)
    · rcases List.mem_cons.mp hp with heqp | hp2
      · subst heqp
        rcases List.mem_cons.mp hq with heqq | hq2
        · subst heqq
          rw [pcomp_refl] at hpq; cases hpq
        · exact .inr (.inl ⟨q, hq2, hnq, pcomp_symm hpq⟩)
      · rcases List.mem_cons.mp hq with heqq | hq2
        · subst heqq
          exact .inr (.inl ⟨p, hp2, hnp, hpq⟩)
        · exact .inr (.inr ⟨p, hp2, q, hq2, hnp, hnq, hpq⟩)
  · have hfne : findTime s fmt ≠ [] := by rw [hm]; simp
    rintro (⟨p, hp, h2⟩ | ⟨p, hp, hne, hcomp⟩ | ⟨p, hp, q, hq, hnp, hnq, hpq⟩)
    · exact .inl ⟨p, List.mem_cons_of_mem _ hp, h2⟩
    · exact .inr (.inr ⟨p, List.mem_cons_of_mem _ hp, fmt,
        List.mem_cons_self _ _, hne, hfne, hcomp⟩)
    · exact .inr (.inr ⟨p, List.mem_cons_of_mem _ hp, q,
        List.mem_cons_of_mem _ hq, hnp, hnq, hpq⟩)

/-- Transfer: ignoring a head pattern that is a prefix of the matched
format `m0` (and has a single find). -/
theorem ambExtra_cons_ignore {s fmt m0 : String} {rest : List String}
    {m : DT} (hm : findTime s fmt = [m]) (hpre : fmt.data <+: m0.data) :
    ambExtra s (fmt :: rest) m0 ↔ ambExtra s rest m0 := by
  unfold ambExtra
  constructor
  · rintro (⟨p, hp, h2⟩ | ⟨p, hp, hne, hcomp⟩ | ⟨p, hp, q, hq, hnp, hnq, hpq⟩)
    · rcases List.mem_cons.mp hp with heqp | hp2
      · subst heqp
        exact absurd h2 (singleton_not_two hm)
      · exact .inl ⟨p, hp2, h2⟩
    · rcases List.mem_cons.mp hp with heqp | hp2
      · subst heqp
        rw [pcomp_left hpre] at hcomp; cases hcomp
      · exact .inr (.inl ⟨p, hp2, hne, hcomp⟩)
    · rcases List.mem_cons.mp hp with heqp | hp2
      · subst heqp
        rcases List.mem_cons.mp hq with heqq | hq2
        · subst heqq
          rw [pcomp_refl] at hpq; cases hpq
        · exact .inr (.inl ⟨q, hq2, hnq,
            pcomp_false_of_prefix (pcomp_symm hpq) hpre⟩)
      · rcases List.mem_cons.mp hq with heqq | hq2
        · subst heqq
          exact .inr (.inl ⟨p, hp2, hnp, pcomp_false_of_prefix hpq hpre⟩)
        · exact .inr (.inr ⟨p, hp2, q, hq2, hnp, hnq, hpq⟩)
  · rintro (⟨p, hp, h2⟩ | ⟨p, hp, hne, hcomp⟩ | ⟨p, hp, q, hq, hnp, hnq, hpq⟩)
    · exact .inl ⟨p, List.mem_cons_of_mem _ hp, h2⟩
    · exact .inr (.inl ⟨p, List.mem_cons_of_mem _ hp, hne, hcomp⟩)
    · exact .inr (.inr ⟨p, List.mem_cons_of_mem _ hp, q,
        List.mem_cons_of_mem _ hq, hnp, hnq, hpq⟩)

/-- Transfer: entering the loop at the first matching pattern. -/
theorem ambCond_cons_first {s fmt : String} {rest : List String}
    {m : DT} (hm : findTime s fmt = [m]) :
    ambCond s (fmt :: rest) ↔ ambExtra s rest fmt := by
  unfold ambCond ambExtra
  have hfne : findTime s fmt ≠ [] := by rw [hm]; simp
  constructor
  · rintro (⟨p, hp, h2⟩ | ⟨p, hp, q, hq, hnp, hnq, hpq⟩)
    · rcases List.mem_cons.mp hp with heqp | hp2
      · subst heqp
        exact absurd h2 (singleton_not_two hm)
      · exact .inl ⟨p, hp2, h2⟩
    · rcases List.mem_cons.mp hp with heqp | hp2
      · subst heqp
        rcases List.mem_cons.mp hq with heqq | hq2
        · subst heqq
          rw [pcomp_refl] at hpq; cases hpq
        · exact .inr (.inl ⟨q, hq2, hnq, pcomp_symm hpq⟩)
      · rcases List.mem_cons.mp hq with heqq | hq2
        · subst heqq
          exact .inr (.inl ⟨p, hp2, hnp, hpq⟩)
        · exact .inr (.inr ⟨p, hp2, q, hq2, hnp, hnq, hpq⟩)
  · rintro (⟨p, hp, h2⟩ | ⟨p, hp, hne, hcomp⟩ | ⟨p, hp, q, hq, hnp, hnq, hpq⟩)
    · exact .inl ⟨p, List.mem_cons_of_mem _ hp, h2⟩
    · exact .inr ⟨p, List.mem_cons_of_mem _ hp, fmt,
        List.mem_cons_self _ _, hne, hfne, hcomp⟩
    · exact .inr ⟨p, List.mem_cons_of_mem _ hp, q,
        List.mem_cons_of_mem _ hq, hnp, hnq, hpq⟩

theorem ambCond_cons_none {s fmt : String} {rest : List String}
    (hm : findTime s fmt = []) :
    ambCond s (fmt :: rest) ↔ ambCond s rest := by
  unfold ambCond
  constructor
  · rintro (⟨p, hp, h2⟩ | ⟨p, hp, q, hq, hnp, hnq, hpq⟩)
    · rcases List.mem_cons.mp hp with heqp | hp2
      · subst heqp
        rw [hm] at h2; simp at h2
      · exact .inl ⟨p, hp2, h2⟩
    · rcases List.mem_cons.mp hp with heqp | hp2
      · subst heqp
        exact absurd hm hnp
      · rcases List.mem_cons.mp hq with heqq | hq2
        · subst heqq
          exact absurd hm hnq
        · exact .inr ⟨p, hp2, q, hq2, hnp, hnq, hpq⟩
  · rintro (⟨p, hp, h2⟩ | ⟨p, hp, q, hq, hnp, hnq, hpq⟩)
    · exact .inl ⟨p, List.mem_cons_of_mem _ hp, h2⟩
    · exact .inr ⟨p, List.mem_cons_of_mem _ hp, q,
        List.mem_cons_of_mem _ hq, hnp, hnq, hpq⟩

theorem extractLoop_some_amb (s : String) : ∀ (l : List String)
    (m0 : String) (b0 : DT),
    (extractLoop s l (some (m0, b0)) = .error (.valueError .ambiguous) ↔
      ambExtra s l m0)
  | [], m0, b0 => by simp [extractLoop, ambExtra]
  | fmt :: rest, m0, b0 => by
    cases hF : findTime s fmt with
    | nil =>
      simp only [extractLoop, hF]
      rw [extractLoop_some_amb s rest m0 b0, ambExtra_cons_none hF]
    | cons m more =>
      cases more with
      | nil =>
        simp only [extractLoop, hF]
        cases hb1 : m0.data.isPrefixOf fmt.data with
        | true =>
          have hpre : m0.data <+: fmt.data :=
            List.isPrefixOf_iff_prefix.mp hb1
          simp only [hb1, if_true, if_pos rfl]
          rw [extractLoop_some_amb s rest fmt m,
            ambExtra_cons_upgrade hF hpre]
        | false =>
          cases hb2 : fmt.data.isPrefixOf m0.data with
          | true =>
            have hpre : fmt.data <+: m0.data :=
              List.isPrefixOf_iff_prefix.mp hb2
            simp only [hb1, hb2, Bool.false_eq_true, if_false, if_true,
              if_pos rfl]
            rw [extractLoop_some_amb s rest m0 b0,
              ambExtra_cons_ignore hF hpre]
          | false =>
            simp only [hb1, hb2, Bool.false_eq_true, if_false]
            constructor
            · intro _
              refine .inr (.inl ⟨fmt, List.mem_cons_self _ _, ?_, ?_⟩)
              · rw [hF]; simp
              · simp [pcomp, hb1, hb2]
            · intro _; trivial
      | cons m2 more2 =>
        simp only [extractLoop, hF]
        have hlen : 2 ≤ (findTime s fmt).length := by rw [hF]; simp
        have hmem : fmt ∈ fmt :: rest := List.mem_cons_self _ _
        constructor
        · intro _
          exact .inl ⟨fmt, hmem, hlen⟩
        · intro _
          cases hb1 : m0.data.isPrefixOf fmt.data with
          | true => simp [hb1]
          | false =>
            cases hb2 : fmt.data.isPrefixOf m0.data with
            | true => simp [hb1, hb2]
            | false => simp [hb1, hb2]

theorem extractLoop_none_amb (s : String) : ∀ (l : List String),
    (extractLoop s l none = .error (.valueError .ambiguous) ↔ ambCond s l)
  | [] => by simp [extractLoop, ambCond]
  | fmt :: rest => by
    cases hF : findTime s fmt with
    | nil =>
      simp only [extractLoop, hF]
      rw [extractLoop_none_amb s rest, ambCond_cons_none hF]
    | cons m more =>
      cases more with
      | nil =>
        simp only [extractLoop, hF, if_true]
        rw [extractLoop_some_amb s rest fmt m, ambCond_cons_first hF]
      | cons m2 more2 =>
        simp only [extractLoop, hF]
        have hlen : 2 ≤ (findTime s fmt).length := by rw [hF]; simp
        constructor
        · intro _
          exact .inl ⟨fmt, List.mem_cons_self _ _, hlen⟩
        · intro _
          simp

theorem extractLoop_some_value (s : String) : ∀ (l : List String)
    (m0 : String) (b0 : DT), m0 ∉ l → l.Nodup → ¬ ambExtra s l m0 →
    ∃ c, extractLoop s l (some (m0, b0)) = .ok c ∧
      (((∀ p ∈ l, findTime s p ≠ [] → p.data <+: m0.data) ∧ c = b0) ∨
       (∃ p ∈ l, findTime s p ≠ [] ∧ m0.data <+: p.data ∧
         (∀ q ∈ l, findTime s q ≠ [] → q.data <+: p.data) ∧
         (findTime s p).head? = some c))
  | [], m0, b0, _, _, _ => by
    refine ⟨b0, by simp [extractLoop], .inl ⟨?_, rfl⟩⟩
    simp
  | fmt :: rest, m0, b0, hnin, hnd, hnamb => by
    have hnin' : m0 ∉ rest := fun hc => hnin (List.mem_cons_of_mem _ hc)
    have hfninr : fmt ∉ rest := (List.nodup_cons.mp hnd).1
    have hndr : rest.Nodup := (List.nodup_cons.mp hnd).2
    cases hF : findTime s fmt with
    | nil =>
      have hnamb' : ¬ ambExtra s rest m0 := fun hc =>
        hnamb ((ambExtra_cons_none hF).mpr hc)
      obtain ⟨c, hc, hdisj⟩ :=
        extractLoop_some_value s rest m0 b0 hnin' hndr hnamb'
      refine ⟨c, ?_, ?_⟩
      · simp only [extractLoop, hF]
        exact hc
      · rcases hdisj with ⟨hub, rfl⟩ | ⟨p, hp, hne, hm0p, hub, hhd⟩
        · refine .inl ⟨?_, rfl⟩
          intro p hp hne
          rcases List.mem_cons.mp hp with heqp | hp2
          · subst heqp; exact absurd hF hne
          · exact hub p hp2 hne
        · refine .inr ⟨p, List.mem_cons_of_mem _ hp, hne, hm0p, ?_, hhd⟩
          intro q hq hqne
          rcases List.mem_cons.mp hq with heqq | hq2
          · subst heqq; exact absurd hF hqne
          · exact hub q hq2 hqne
    | cons m more =>
      cases more with
      | nil =>
        have hfne : findTime s fmt ≠ [] := by rw [hF]; simp
        cases hb1 : m0.data.isPrefixOf fmt.data with
        | true =>
          have hpre : m0.data <+: fmt.data :=
            List.isPrefixOf_iff_prefix.mp hb1
          have hnamb' : ¬ ambExtra s rest fmt := fun hc =>
            hnamb ((ambExtra_cons_upgrade hF hpre).mpr hc)
          obtain ⟨c, hc, hdisj⟩ :=
            extractLoop_some_value s rest fmt m hfninr hndr hnamb'
          refine ⟨c, ?_, ?_⟩
          · simp only [extractLoop, hF, hb1, if_true, if_pos rfl]
            exact hc
          · rcases hdisj with ⟨hub, rfl⟩ | ⟨p, hp, hne, hm0p, hub, hhd⟩
            · refine .inr ⟨fmt, List.mem_cons_self _ _, hfne, hpre, ?_, ?_⟩
              · intro q hq hqne
                rcases List.mem_cons.mp hq with heqq | hq2
                · subst heqq; exact List.prefix_refl _
                · exact hub q hq2 hqne
              · rw [hF]; rfl
            · refine .inr ⟨p, List.mem_cons_of_mem _ hp, hne,
                hpre.trans hm0p, ?_, hhd⟩
              intro q hq hqne
              rcases List.mem_cons.mp hq with heqq | hq2
              · subst heqq; exact hm0p
              · exact hub q hq2 hqne
        | false =>
          cases hb2 : fmt.data.isPrefixOf m0.data with
          | true =>
            have hpre : fmt.data <+: m0.data :=
              List.isPrefixOf_iff_prefix.mp hb2
            have hnamb' : ¬ ambExtra s rest m0 := fun hc =>
              hnamb ((ambExtra_cons_ignore hF hpre).mpr hc)
            obtain ⟨c, hc, hdisj⟩ :=
              extractLoop_some_value s rest m0 b0 hnin' hndr hnamb'
            refine ⟨c, ?_, ?_⟩
            · simp only [extractLoop, hF, hb1, hb2, Bool.false_eq_true,
                if_false, if_true, if_pos rfl]
              exact hc
            · rcases hdisj with ⟨hub, rfl⟩ | ⟨p, hp, hne, hm0p, hub, hhd⟩
              · refine .inl ⟨?_, rfl⟩
                intro p hp hne
                rcases List.mem_cons.mp hp with heqp | hp2
                · subst heqp; exact hpre
                · exact hub p hp2 hne
              · refine .inr ⟨p, List.mem_cons_of_mem _ hp, hne, hm0p, ?_, hhd⟩
                intro q hq hqne
                rcases List.mem_cons.mp hq with heqq | hq2
                · subst heqq; exact hpre.trans hm0p
                · exact hub q hq2 hqne
          | false =>
            exfalso
            refine hnamb (.inr (.inl ⟨fmt, List.mem_cons_self _ _, hfne, ?_⟩))
            simp [pcomp, hb1, hb2]
      | cons m2 more2 =>
        exfalso
        refine hnamb (.inl ⟨fmt, List.mem_cons_self _ _, ?_⟩)
        rw [hF]; simp

theorem extractLoop_none_value (s : String) : ∀ (l : List String),
    l.Nodup → ¬ ambCond s l →
    ((∀ p ∈ l, findTime s p = []) ∧
      extractLoop s l none = .error (.valueError .notFound)) ∨
    (∃ c p, p ∈ l ∧ findTime s p ≠ [] ∧
      (∀ q ∈ l, findTime s q ≠ [] → q.data <+: p.data) ∧
      (findTime s p).head? = some c ∧ extractLoop s l none = .ok c)
  | [], _, _ => by
    refine .inl ⟨by simp, ?_⟩
    simp [extractLoop]
  | fmt :: rest, hnd, hnamb => by
    have hfninr : fmt ∉ rest := (List.nodup_cons.mp hnd).1
    have hndr : rest.Nodup := (List.nodup_cons.mp hnd).2
    cases hF : findTime s fmt with
    | nil =>
      have hnamb' : ¬ ambCond s rest := fun hc =>
        hnamb ((ambCond_cons_none hF).mpr hc)
      rcases extractLoop_none_value s rest hndr hnamb' with
        ⟨hall, hres⟩ | ⟨c, p, hp, hne, hub, hhd, hres⟩
      · refine .inl ⟨?_, ?_⟩
        · intro p hp
          rcases List.mem_cons.mp hp with heqp | hp2
          · subst heqp; exact hF
          · exact hall p hp2
        · simp only [extractLoop, hF]
          exact hres
      · refine .inr ⟨c, p, List.mem_cons_of_mem _ hp, hne, ?_, hhd, ?_⟩
        · intro q hq hqne
          rcases List.mem_cons.mp hq with heqq | hq2
          · subst heqq; exact absurd hF hqne
          · exact hub q hq2 hqne
        · simp only [extractLoop, hF]
          exact hres
    | cons m more =>
      cases more with
      | nil =>
        have hfne : findTime s fmt ≠ [] := by rw [hF]; simp
        have hnamb' : ¬ ambExtra s rest fmt := fun hc =>
          hnamb ((ambCond_cons_first hF).mpr hc)
        obtain ⟨c, hc, hdisj⟩ :=
          extractLoop_some_value s rest fmt m hfninr hndr hnamb'
        have hres : extractLoop s (fmt :: rest) none = .ok c := by
          simp only [extractLoop, hF, if_pos rfl]
          exact hc
        rcases hdisj with ⟨hub, rfl⟩ | ⟨p, hp, hne, hm0p, hub, hhd⟩
        · refine .inr ⟨c, fmt, List.mem_cons_self _ _, hfne, ?_, ?_, hres⟩
          · intro q hq hqne
            rcases List.mem_cons.mp hq with heqq | hq2
            · subst heqq; exact List.prefix_refl _
            · exact hub q hq2 hqne
          · rw [hF]; rfl
        · refine .inr ⟨c, p, List.mem_cons_of_mem _ hp, hne, ?_, hhd, hres⟩
          intro q hq hqne
          rcases List.mem_cons.mp hq with heqq | hq2
          · subst heqq; exact hm0p
          · exact hub q hq2 hqne
      | cons m2 more2 =>
        exfalso
        refine hnamb (.inl ⟨fmt, List.mem_cons_self _ _, ?_⟩)
        rw [hF]; simp

/-- C4: `extract` fails with the Ambiguous error iff, among the catalog
patterns locating at least one match in the text, two patterns neither
of which is a textual prefix of the other each yield a match, or a
single pattern matches more than once; otherwise, when some pattern
matches, all matching patterns are prefixes of one of them (the
longest), whose first match is returned without error. -/
theorem C4_extract_ambiguous (s : String) :
    (extractTime s = .error (.valueError .ambiguous) ↔
      ambCond s TIME_FORMAT_LIST) ∧
    (¬ ambCond s TIME_FORMAT_LIST →
      ((∀ p ∈ TIME_FORMAT_LIST, findTime s p = []) ∧
        extractTime s = .error (.valueError .notFound)) ∨
      (∃ c p, p ∈ TIME_FORMAT_LIST ∧ findTime s p ≠ [] ∧
        (∀ q ∈ TIME_FORMAT_LIST, findTime s q ≠ [] →
          q.data.isPrefixOf p.data = true) ∧
        (findTime s p).head? = some c ∧ extractTime s = .ok c)) := by
  constructor
  · exact extractLoop_none_amb s TIME_FORMAT_LIST
  · intro hnamb
    rcases extractLoop_none_value s TIME_FORMAT_LIST (by decide) hnamb with
      ⟨hall, hres⟩ | ⟨c, p, hp, hne, hub, hhd, hres⟩
    · exact .inl ⟨hall, hres⟩
    · refine .inr ⟨c, p, hp, hne, ?_, hhd, hres⟩
      intro q hq hqne
      exact List.isPrefixOf_iff_prefix.mpr (hub q hq hqne)

/-- C4 witness: applying the characterization to an ambiguous text
(two incompatible formats match), to a free text with one timestamp,
and to a text with two occurrences under one pattern. -/
theorem C4_witness :
    extractTime "a 2012-08-01 b 2013/09/02 c" =
      .error (.valueError .ambiguous) ∧
    extractTime "a 2012-08-01 b 2013-09-02 c" =
      .error (.valueError .ambiguous) ∧
    (((∀ p ∈ TIME_FORMAT_LIST,
        findTime "log entry at 2012-08-01 and again" p = []) ∧
      extractTime "log entry at 2012-08-01 and again" =
        .error (.valueError .notFound)) ∨
     (∃ c p, p ∈ TIME_FORMAT_LIST ∧
        findTime "log entry at 2012-08-01 and again" p ≠ [] ∧
        (∀ q ∈ TIME_FORMAT_LIST,
          findTime "log entry at 2012-08-01 and again" q ≠ [] →
          q.data.isPrefixOf p.data = true) ∧
        (findTime "log entry at 2012-08-01 and again" p).head? = some c ∧
        extractTime "log entry at 2012-08-01 and again" = .ok c)) :=
  ⟨(C4_extract_ambiguous "a 2012-08-01 b 2013/09/02 c").1.mpr (by unfold ambCond; decide),
   (C4_extract_ambiguous "a 2012-08-01 b 2013-09-02 c").1.mpr (by unfold ambCond; decide),
   (C4_extract_ambiguous "log entry at 2012-08-01 and again").2 (by unfold ambCond; decide)⟩

/-! ### Digit-character facts -/
theorem digitChar_isDigit {d : Nat} (h : d < 10) :
    (Nat.digitChar d).isDigit = true := by
  interval_cases d <;> decide

theorem digitChar_mod_isDigit (n : Nat) :
    (Nat.digitChar (n % 10)).isDigit = true :=
  digitChar_isDigit (Nat.mod_lt _ (by norm_num))

theorem char_le_toNat {a b : Char} : (a ≤ b) ↔ a.val.toNat ≤ b.val.toNat :=
  Iff.rfl

theorem char_digit_val {c : Char} (h : c.isDigit = true) :
    48 ≤ c.val.toNat ∧ c.val.toNat ≤ 57 := by
  simp only [Char.isDigit, Bool.and_eq_true, decide_eq_true_eq] at h
  exact ⟨h.1, h.2⟩

theorem isDigit_not_alpha {c : Char} (h : c.isDigit = true) :
    CT.test .alpha c = false := by
  have hv := char_digit_val h
  have h1 : ¬ ('a' ≤ c) := by
    rw [char_le_toNat]; show ¬ (97 ≤ c.val.toNat); omega
  have h2 : ¬ ('A' ≤ c) := by
    rw [char_le_toNat]; show ¬ (65 ≤ c.val.toNat); omega
  simp [CT.test, h1, h2]

theorem isDigit_ne {c a : Char} (hc : c.isDigit = true)
    (ha : a.isDigit = false) : ¬ (c = a) := by
  intro h
  rw [h, ha] at hc
  cases hc

theorem isDigit_not_white {c : Char} (h : c.isDigit = true) :
    pyWhite c = false := by
  have hv := char_digit_val h
  have hne : ∀ a : Char, a.val.toNat < 48 → ¬ (c = a) := by
    intro a hlt he
    rw [he] at hv
    omega
  simp only [pyWhite]
  simp [hne ' ' (by decide), hne '\t' (by decide), hne '\n' (by decide),
    hne '\r' (by decide), hne '\x0b' (by decide), hne '\x0c' (by decide)]

theorem isDigit_toLower {c : Char} (h : c.isDigit = true) :
    c.toLower = c := by
  have hv := char_digit_val h
  have hno : ¬ (c.toNat ≥ 65 ∧ c.toNat ≤ 90) := by
    show ¬ (65 ≤ c.val.toNat ∧ c.val.toNat ≤ 90)
    omega
  simp [Char.toLower, hno]

theorem ctest_chEq {t : CT} {c d : Char} (hok : okCT t = true)
    (h : chEq c d) : CT.test t c = CT.test t d := by
  rcases h with ⟨hc, hd⟩ | rfl
  · cases t with
    | digit => simp [CT.test, hc, hd]
    | alpha => rw [isDigit_not_alpha hc, isDigit_not_alpha hd]
    | any =>
      have hcn : ¬ (c = '\n') := isDigit_ne hc (by decide)
      have hdn : ¬ (d = '\n') := isDigit_ne hd (by decide)
      simp only [CT.test]
      simp [hcn, hdn]
    | one a =>
      simp only [okCT, Bool.not_eq_true'] at hok
      simp only [CT.test]
      rw [decide_eq_false (isDigit_ne hc hok), decide_eq_false (isDigit_ne hd hok)]
    | oneCI a =>
      simp only [okCT, Bool.not_eq_true'] at hok
      simp only [CT.test]
      rw [isDigit_toLower hc, isDigit_toLower hd]
      rw [decide_eq_false (isDigit_ne hc hok), decide_eq_false (isDigit_ne hd hok)]
    | rng lo hi => simp [okCT] at hok
  · rfl

theorem pyWhite_chEq {c d : Char} (h : chEq c d) : pyWhite c = pyWhite d := by
  rcases h with ⟨hc, hd⟩ | rfl
  · rw [isDigit_not_white hc, isDigit_not_white hd]
  · rfl

theorem seqCT_chEq {a : List CT} : ∀ {s₁ s₂ : List Char},
    (∀ t ∈ a, okCT t = true) → List.Forall₂ chEq s₁ s₂ →
    seqCT a s₁ = seqCT a s₂ := by
  induction a with
  | nil => intro s₁ s₂ _ _; rfl
  | cons t ts ih =>
    intro s₁ s₂ hok hF
    cases hF with
    | nil => rfl
    | cons hcd hF' =>
      simp only [seqCT]
      rw [ctest_chEq (hok t (List.mem_cons_self _ _)) hcd,
        ih (fun u hu => hok u (List.mem_cons_of_mem _ hu)) hF']

theorem runLen_chEq {t : CT} (hok : okCT t = true) :
    ∀ {s₁ s₂ : List Char}, List.Forall₂ chEq s₁ s₂ →
    runLen t s₁ = runLen t s₂ := by
  intro s₁ s₂ hF
  induction hF with
  | nil => rfl
  | cons hcd hF' ih =>
    simp only [runLen]
    rw [ctest_chEq hok hcd, ih]

theorem wsLen_chEq : ∀ {s₁ s₂ : List Char}, List.Forall₂ chEq s₁ s₂ →
    wsLen s₁ = wsLen s₂ := by
  intro s₁ s₂ hF
  induction hF with
  | nil => rfl
  | cons hcd hF' ih =>
    simp only [wsLen]
    rw [pyWhite_chEq hcd, ih]

theorem itemChoices_chEq {it : Item} (hok : okItem it = true)
    {s₁ s₂ : List Char} (hF : List.Forall₂ chEq s₁ s₂) :
    itemChoices it s₁ = itemChoices it s₂ := by
  cases it with
  | tst t =>
    cases hF with
    | nil => rfl
    | cons hcd hF' =>
      simp only [itemChoices]
      rw [ctest_chEq hok hcd]
  | grp n alts =>
    simp only [itemChoices]
    apply List.filterMap_congr
    intro a ha
    simp only [okItem, List.all_eq_true] at hok
    rw [seqCT_chEq (fun t ht => hok a ha t ht) hF]
  | rep n t lo hi =>
    simp only [itemChoices]
    rw [runLen_chEq hok hF]
  | ws =>
    simp only [itemChoices]
    rw [wsLen_chEq hF]

theorem findSome?_congr {A B : Type} {f g : A → Option B} :
    ∀ {l : List A}, (∀ a ∈ l, f a = g a) →
    List.findSome? f l = List.findSome? g l
  | [], _ => rfl
  | a :: l, h => by
    simp only [List.findSome?]
    rw [h a (List.mem_cons_self _ _)]
    cases g a with
    | some b => rfl
    | none => exact findSome?_congr fun x hx => h x (List.mem_cons_of_mem _ hx)

/-- The matcher is driven only by character classes: on `chEq`-related
subjects it produces identical results (same end position, same capture
spans). -/
theorem mrun_chEq : ∀ {items : List Item},
    items.all okItem = true → ∀ {s₁ s₂ : List Char} (pos : Nat) (g : Groups),
    List.Forall₂ chEq s₁ s₂ → mrun items s₁ pos g = mrun items s₂ pos g
  | [], _, s₁, s₂, pos, g, _ => rfl
  | it :: items, hok, s₁, s₂, pos, g, hF => by
    have hok1 : okItem it = true := (List.all_eq_true.mp hok) it (List.mem_cons_self _ _)
    have hok2 : items.all okItem = true := by
      rw [List.all_eq_true]
      exact fun x hx => (List.all_eq_true.mp hok) x (List.mem_cons_of_mem _ hx)
    simp only [mrun]
    rw [← itemChoices_chEq hok1 hF]
    apply findSome?_congr
    intro kc _
    rw [mrun_chEq hok2 (pos + kc.1) _ (List.forall₂_drop kc.1 hF)]

theorem any_congr {A : Type} {f g : A → Bool} :
    ∀ {l : List A}, (∀ a ∈ l, f a = g a) → l.any f = l.any g
  | [], _ => rfl
  | a :: l, h => by
    simp only [List.any]
    rw [h a (List.mem_cons_self _ _),
      any_congr fun x hx => h x (List.mem_cons_of_mem _ hx)]

theorem existsFull_chEq : ∀ {items : List Item},
    items.all okItem = true → ∀ {s₁ s₂ : List Char},
    List.Forall₂ chEq s₁ s₂ → existsFull items s₁ = existsFull items s₂
  | [], _, s₁, s₂, hF => by
    cases hF with
    | nil => rfl
    | cons hcd hF2 => rfl
  | it :: items, hok, s₁, s₂, hF => by
    have hok1 : okItem it = true := (List.all_eq_true.mp hok) it (List.mem_cons_self _ _)
    have hok2 : items.all okItem = true := by
      rw [List.all_eq_true]
      exact fun x hx => (List.all_eq_true.mp hok) x (List.mem_cons_of_mem _ hx)
    simp only [existsFull]
    rw [← itemChoices_chEq hok1 hF]
    apply any_congr
    intro kc _
    rw [existsFull_chEq hok2 (List.forall₂_drop kc.1 hF)]

/-! ### Consumption bounds and full-match paths -/
theorem seqCT_length {a : List CT} : ∀ {s : List Char},
    seqCT a s = true → a.length ≤ s.length := by
  induction a with
  | nil => intro s _; simp
  | cons t ts ih =>
    intro s h
    cases s with
    | nil => simp [seqCT] at h
    | cons c cs =>
      simp only [seqCT, Bool.and_eq_true] at h
      have := ih h.2
      simp only [List.length_cons]
      omega

theorem runLen_le {t : CT} : ∀ {s : List Char}, runLen t s ≤ s.length := by
  intro s
  induction s with
  | nil => simp [runLen]
  | cons c cs ih =>
    simp only [runLen]
    split <;> simp <;> omega

theorem wsLen_le : ∀ {s : List Char}, wsLen s ≤ s.length := by
  intro s
  induction s with
  | nil => simp [wsLen]
  | cons c cs ih =>
    simp only [wsLen]
    split <;> simp <;> omega

theorem mem_countdown {hi lo k : Nat} (h : k ∈ countdown hi lo) :
    lo ≤ k ∧ k ≤ hi := by
  simp only [countdown, List.mem_reverse, List.mem_range'] at h
  omega

theorem itemChoices_le {it : Item} {s : List Char} {kc : Nat × Option String}
    (h : kc ∈ itemChoices it s) : kc.1 ≤ s.length := by
  cases it with
  | tst t =>
    cases s with
    | nil => simp [itemChoices] at h
    | cons c cs =>
      simp only [itemChoices] at h
      split at h <;> simp_all
  | grp n alts =>
    simp only [itemChoices, List.mem_filterMap] at h
    obtain ⟨a, _, ha⟩ := h
    split at ha
    · cases ha
      exact seqCT_length (by assumption)
    · exact absurd ha (by simp)
  | rep n t lo hi =>
    simp only [itemChoices, List.mem_map] at h
    obtain ⟨k, hk, hkc⟩ := h
    have h2 := (mem_countdown hk).2
    have h3 : kc.1 = k := by rw [← hkc]
    rw [h3]
    cases hi with
    | none => exact le_trans h2 runLen_le
    | some hh =>
      simp at h2
      exact le_trans h2.2 runLen_le
  | ws =>
    simp only [itemChoices, List.mem_map] at h
    obtain ⟨k, hk, hkc⟩ := h
    have h2 := (mem_countdown hk).2
    have h3 : kc.1 = k := by rw [← hkc]
    rw [h3]
    exact le_trans h2 wsLen_le

theorem mrun_end_bound : ∀ {items : List Item} {s : List Char}
    {pos : Nat} {g : Groups} {e : Nat} {g2 : Groups},
    mrun items s pos g = some (e, g2) → pos ≤ e ∧ e ≤ pos + s.length
  | [], s, pos, g, e, g2 => by
    intro h
    simp only [mrun, Option.some.injEq, Prod.mk.injEq] at h
    omega
  | it :: items, s, pos, g, e, g2 => by
    intro h
    simp only [mrun] at h
    obtain ⟨kc, hkc, hrec⟩ := List.exists_of_findSome?_eq_some h
    have hb := mrun_end_bound hrec
    have hle := itemChoices_le hkc
    have hdl : (s.drop kc.1).length = s.length - kc.1 := List.length_drop _ _
    omega

theorem any_of_mem {A : Type} {f : A → Bool} {l : List A} {a : A}
    (ha : a ∈ l) (hf : f a = true) : l.any f = true := by
  rw [List.any_eq_true]
  exact ⟨a, ha, hf⟩

/-- A first-choice match that consumes the entire subject witnesses a
full backtracking path. -/
theorem mrun_full_existsFull : ∀ {items : List Item} {s : List Char}
    {pos : Nat} {g : Groups} {g2 : Groups},
    mrun items s pos g = some (pos + s.length, g2) →
    existsFull items s = true
  | [], s, pos, g, g2 => by
    intro h
    simp only [mrun, Option.some.injEq, Prod.mk.injEq] at h
    have hz : s.length = 0 := by omega
    cases s with
    | nil => rfl
    | cons c cs => simp at hz
  | it :: items, s, pos, g, g2 => by
    intro h
    simp only [mrun] at h
    obtain ⟨kc, hkc, hrec⟩ := List.exists_of_findSome?_eq_some h
    have hb := mrun_end_bound hrec
    have hle := itemChoices_le hkc
    have hdl : (s.drop kc.1).length = s.length - kc.1 := List.length_drop _ _
    have hfull : pos + s.length = (pos + kc.1) + (s.drop kc.1).length := by omega
    rw [hfull] at hrec
    simp only [existsFull]
    exact any_of_mem hkc (mrun_full_existsFull hrec)

theorem isDigit_of_val {c : Char} (h1 : 48 ≤ c.val.toNat)
    (h2 : c.val.toNat ≤ 57) : c.isDigit = true := by
  simp only [Char.isDigit, Bool.and_eq_true, decide_eq_true_eq]
  exact ⟨h1, h2⟩

theorem ctest_relax {t : CT} {c : Char} (h : CT.test t c = true) :
    CT.test (relaxCT t) c = true := by
  cases t with
  | rng lo hi =>
    simp only [relaxCT]
    by_cases hd : (lo.isDigit && hi.isDigit) = true
    · rw [if_pos hd]
      simp only [Bool.and_eq_true] at hd
      have hlo := char_digit_val hd.1
      have hhi := char_digit_val hd.2
      simp only [CT.test, Bool.and_eq_true, decide_eq_true_eq] at h
      have h1 : lo.val.toNat ≤ c.val.toNat := h.1
      have h2 : c.val.toNat ≤ hi.val.toNat := h.2
      exact isDigit_of_val (by omega) (by omega)
    · rw [if_neg hd]
      exact h
  | one a =>
    simp only [relaxCT]
    by_cases hd : a.isDigit = true
    · rw [if_pos hd]
      simp only [CT.test, decide_eq_true_eq] at h
      rw [h]
      exact hd
    · rw [if_neg hd]
      exact h
  | digit => exact h
  | alpha => exact h
  | any => exact h
  | oneCI a => exact h

theorem seqCT_relax {a : List CT} : ∀ {s : List Char},
    seqCT a s = true → seqCT (a.map relaxCT) s = true := by
  induction a with
  | nil => intro s h; exact h
  | cons t ts ih =>
    intro s h
    cases s with
    | nil => simp [seqCT] at h
    | cons c cs =>
      simp only [seqCT, Bool.and_eq_true] at h
      simp only [List.map_cons, seqCT, Bool.and_eq_true]
      exact ⟨ctest_relax h.1, ih h.2⟩

theorem runLen_relax {t : CT} : ∀ {s : List Char},
    runLen t s ≤ runLen (relaxCT t) s := by
  intro s
  induction s with
  | nil => simp [runLen]
  | cons c cs ih =>
    simp only [runLen]
    by_cases h : CT.test t c = true
    · rw [if_pos h, if_pos (ctest_relax h)]
      omega
    · rw [if_neg h]
      omega

theorem mem_countdown_of {hi lo k : Nat} (h1 : lo ≤ k) (h2 : k ≤ hi) :
    k ∈ countdown hi lo := by
  simp only [countdown, List.mem_reverse, List.mem_range'_1]
  omega

/-- Every choice of an item has a relaxed counterpart with the same
consumption. -/
theorem itemChoices_relax {it : Item} {s : List Char}
    {kc : Nat × Option String} (h : kc ∈ itemChoices it s) :
    ∃ kc2, kc2 ∈ itemChoices (relaxItem it) s ∧ kc2.1 = kc.1 := by
  cases it with
  | tst t =>
    cases s with
    | nil => simp [itemChoices] at h
    | cons c cs =>
      simp only [itemChoices] at h
      split at h
      · simp only [List.mem_singleton] at h
        refine ⟨(1, none), ?_, by rw [h]⟩
        simp only [relaxItem, itemChoices]
        rw [if_pos (ctest_relax (by assumption))]
        simp
      · simp at h
  | grp n alts =>
    simp only [itemChoices, List.mem_filterMap] at h
    obtain ⟨a, ha, hfa⟩ := h
    split at hfa
    · cases hfa
      refine ⟨(a.length, some n), ?_, rfl⟩
      simp only [relaxItem, itemChoices, List.mem_filterMap]
      refine ⟨a.map relaxCT, List.mem_map_of_mem _ ha, ?_⟩
      rw [if_pos (seqCT_relax (by assumption))]
      simp
    · exact absurd hfa (by simp)
  | rep n t lo hi =>
    simp only [itemChoices, List.mem_map] at h
    obtain ⟨k, hk, hkc⟩ := h
    have hm := mem_countdown hk
    refine ⟨(k, some n), ?_, by rw [← hkc]⟩
    simp only [relaxItem, itemChoices, List.mem_map]
    refine ⟨k, ?_, rfl⟩
    apply mem_countdown_of hm.1
    have hrl := @runLen_relax t s
    cases hi with
    | none => exact le_trans hm.2 hrl
    | some hh =>
      have h2 := hm.2
      have hk1 : k ≤ hh := le_trans h2 (min_le_left _ _)
      have hk2 : k ≤ runLen t s := le_trans h2 (min_le_right _ _)
      exact le_min hk1 (le_trans hk2 hrl)
  | ws =>
    simp only [relaxItem]
    exact ⟨kc, h, rfl⟩

theorem existsFull_relax : ∀ {items : List Item} {s : List Char},
    existsFull items s = true → existsFull (relaxItems items) s = true
  | [], s => by
    intro h
    exact h
  | it :: items, s => by
    intro h
    simp only [existsFull, List.any_eq_true] at h
    obtain ⟨kc, hkc, hfull⟩ := h
    obtain ⟨kc2, hkc2, hlen⟩ := itemChoices_relax hkc
    simp only [relaxItems, List.map_cons, existsFull]
    apply any_of_mem hkc2
    rw [hlen]
    exact existsFull_relax hfull

/-! ### Packaged failure lemmas for one parse trial -/
theorem strptime_kill {fmt : String} {I E : List Char}
    (hF : List.Forall₂ chEq I E)
    (hok : (relaxItems (compileStrp fmt.data)).all okItem = true)
    (hex : existsFull (relaxItems (compileStrp fmt.data)) E = false) :
    strptime (String.mk I) fmt = .error (.valueError .data) := by
  have hIE : (String.mk I).data = I := rfl
  simp only [strptime, hIE]
  cases hm : mrun (compileStrp fmt.data) I 0 [] with
  | none => rfl
  | some r =>
    obtain ⟨e, g⟩ := r
    by_cases he : e = I.length
    · exfalso
      have hm2 : mrun (compileStrp fmt.data) I 0 [] =
          some (0 + I.length, g) := by
        rw [Nat.zero_add]
        rw [hm, he]
      have h1 : existsFull (compileStrp fmt.data) I = true :=
        mrun_full_existsFull hm2
      have h2 : existsFull (relaxItems (compileStrp fmt.data)) I = true :=
        existsFull_relax h1
      rw [existsFull_chEq hok hF] at h2
      rw [h2] at hex
      cases hex
    · simp only [he, if_false]

theorem regexParseTime_none {s fmt : String}
    (h : reMatch (compileSunpy fmt.data) s.data = none) :
    regexParseTime s fmt = .ok none := by
  simp only [regexParseTime, h]

theorem regexParseTime_noHour {s fmt : String} {e : Nat} {g : Groups}
    (h : reMatch (compileSunpy fmt.data) s.data = some (e, g))
    (hh : List.lookup "hour" g = none) :
    regexParseTime s fmt = .ok (some (s, ⟨0, 0, 0⟩)) := by
  simp only [regexParseTime, h, hh]

theorem regexParseTime_hour_ne24 {s fmt : String} {e : Nat} {g : Groups}
    {a b : Nat}
    (h : reMatch (compileSunpy fmt.data) s.data = some (e, g))
    (hl : List.lookup "hour" g = some (a, b))
    (hs : ¬ (sliceL s.data a b = "24".data)) :
    regexParseTime s fmt = .ok (some (s, ⟨0, 0, 0⟩)) := by
  simp only [regexParseTime, h, hl]
  rw [if_neg hs]

theorem digits2_ne24 {h : Nat} (hh : h ≤ 23) :
    ¬ (digits2 h = "24".data) := by
  interval_cases h <;> decide

theorem parseLoop_skip_none {s fmt : String} {rest : List String}
    (h : regexParseTime s fmt = .ok none) :
    parseLoop (.str s) (fmt :: rest) = parseLoop (.str s) rest := by
  simp only [parseLoop, h]

theorem parseLoop_skip_strp {s fmt : String} {rest : List String} {td : Td}
    (h1 : regexParseTime s fmt = .ok (some (s, td)))
    (h2 : strptime s fmt = .error (.valueError .data)) :
    parseLoop (.str s) (fmt :: rest) = parseLoop (.str s) rest := by
  simp only [parseLoop, h1, h2]

/-! ### Step lemmas for running the strptime regex on formatted text -/
theorem stepTst {t0 : CT} {c : Char} {tl : List Char} {items : List Item}
    {pos : Nat} {g : Groups} {r : Nat × Groups}
    (h : CT.test t0 c = true)
    (hrec : mrun items tl (pos + 1) g = some r) :
    mrun (.tst t0 :: items) (c :: tl) pos g = some r := by
  simp only [mrun, itemChoices, h, if_true, List.findSome?]
  simp only [List.drop_succ_cons, List.drop_zero, hrec]

theorem stepY {y : Nat} {tl : List Char} {items : List Item}
    {pos : Nat} {g : Groups} {r : Nat × Groups}
    (hrec : mrun items tl (pos + 4) (g ++ [("Y", (pos, pos + 4))]) = some r) :
    mrun (.grp "Y" [[.digit, .digit, .digit, .digit]] :: items)
      (digits4 y ++ tl) pos g = some r := by
  simp only [digits4, List.cons_append, List.nil_append, mrun, itemChoices,
    seqCT, CT.test, digitChar_mod_isDigit, Bool.and_true, Bool.true_and,
    List.filterMap, List.findSome?]
  simp only [List.drop_succ_cons, List.drop_zero, List.length_cons,
    List.length_nil]
  rw [show (0 + 1 + 1 + 1 + 1 : Nat) = 4 from rfl] at *
  rw [hrec]

theorem stepm {m : Nat} {tl : List Char} {items : List Item}
    {pos : Nat} {g : Groups} {r : Nat × Groups}
    (h1 : 1 ≤ m) (h2 : m ≤ 12)
    (hrec : mrun items tl (pos + 2) (g ++ [("m", (pos, pos + 2))]) = some r) :
    mrun (.grp "m" [[.one '1', .rng '0' '2'], [.one '0', .rng '1' '9'],
        [.rng '1' '9']] :: items) (digits2 m ++ tl) pos g = some r := by
  interval_cases m <;>
  · simp only [digits2, show (10:Nat) ≠ 0 from by decide]
    norm_num [Nat.digitChar]
    simp only [mrun, itemChoices, seqCT, CT.test, List.filterMap,
      List.findSome?, List.cons_append, List.nil_append]
    norm_num
    rw [hrec]

theorem stepd {x : Nat} {tl : List Char} {items : List Item}
    {pos : Nat} {g : Groups} {r : Nat × Groups}
    (h1 : 1 ≤ x) (h2 : x ≤ 31)
    (hrec : mrun items tl (pos + 2) (g ++ [("d", (pos, pos + 2))]) = some r) :
    mrun (.grp "d" [[.one '3', .rng '0' '1'], [.rng '1' '2', .digit], [.one '0', .rng '1' '9'], [.rng '1' '9'], [.one ' ', .rng '1' '9']] :: items) (digits2 x ++ tl) pos g = some r := by
  interval_cases x <;>
  · simp only [digits2, show (10:Nat) ≠ 0 from by decide]
    norm_num [Nat.digitChar]
    simp only [mrun, itemChoices, seqCT, CT.test, List.filterMap,
      List.findSome?, List.cons_append, List.nil_append]
    norm_num
    rw [hrec]

theorem stepH {x : Nat} {tl : List Char} {items : List Item}
    {pos : Nat} {g : Groups} {r : Nat × Groups}
    (h1 : 0 ≤ x) (h2 : x ≤ 23)
    (hrec : mrun items tl (pos + 2) (g ++ [("H", (pos, pos + 2))]) = some r) :
    mrun (.grp "H" [[.one '2', .rng '0' '3'], [.rng '0' '1', .digit], [.digit]] :: items) (digits2 x ++ tl) pos g = some r := by
  interval_cases x <;>
  · simp only [digits2, show (10:Nat) ≠ 0 from by decide]
    norm_num [Nat.digitChar]
    simp only [mrun, itemChoices, seqCT, CT.test, List.filterMap,
      List.findSome?, List.cons_append, List.nil_append]
    norm_num
    rw [hrec]

theorem stepM {x : Nat} {tl : List Char} {items : List Item}
    {pos : Nat} {g : Groups} {r : Nat × Groups}
    (h1 : 0 ≤ x) (h2 : x ≤ 59)
    (hrec : mrun items tl (pos + 2) (g ++ [("M", (pos, pos + 2))]) = some r) :
    mrun (.grp "M" [[.rng '0' '5', .digit], [.digit]] :: items) (digits2 x ++ tl) pos g = some r := by
  interval_cases x <;>
  · simp only [digits2, show (10:Nat) ≠ 0 from by decide]
    norm_num [Nat.digitChar]
    simp only [mrun, itemChoices, seqCT, CT.test, List.filterMap,
      List.findSome?, List.cons_append, List.nil_append]
    norm_num
    rw [hrec]

theorem stepS {x : Nat} {tl : List Char} {items : List Item}
    {pos : Nat} {g : Groups} {r : Nat × Groups}
    (h1 : 0 ≤ x) (h2 : x ≤ 59)
    (hrec : mrun items tl (pos + 2) (g ++ [("S", (pos, pos + 2))]) = some r) :
    mrun (.grp "S" [[.one '6', .rng '0' '1'], [.rng '0' '5', .digit], [.digit]] :: items) (digits2 x ++ tl) pos g = some r := by
  interval_cases x <;>
  · simp only [digits2, show (10:Nat) ≠ 0 from by decide]
    norm_num [Nat.digitChar]
    simp only [mrun, itemChoices, seqCT, CT.test, List.filterMap,
      List.findSome?, List.cons_append, List.nil_append]
    norm_num
    rw [hrec]

theorem runLen_digits6 {us : Nat} {tl : List Char}
    (ht : runLen .digit tl = 0) :
    runLen .digit (digits6 us ++ tl) = 6 := by
  simp [digits6, runLen, CT.test, digitChar_mod_isDigit, ht]

theorem stepf {us : Nat} {tl : List Char} {items : List Item}
    {pos : Nat} {g : Groups} {r : Nat × Groups}
    (ht : runLen .digit tl = 0)
    (hrec : mrun items tl (pos + 6) (g ++ [("f", (pos, pos + 6))]) = some r) :
    mrun (.rep "f" .digit 1 (some 6) :: items) (digits6 us ++ tl) pos g
      = some r := by
  simp only [mrun, itemChoices, runLen_digits6 ht]
  norm_num [countdown, List.range', List.findSome?]
  simp only [digits6, List.cons_append, List.drop_succ_cons, List.drop_zero,
    List.nil_append]
  rw [hrec]

theorem stepWs {tl : List Char} {items : List Item}
    {pos : Nat} {g : Groups} {r : Nat × Groups}
    (ht : wsLen tl = 0)
    (hrec : mrun items tl (pos + 1) g = some r) :
    mrun (.ws :: items) (' ' :: tl) pos g = some r := by
  simp only [mrun, itemChoices, wsLen, pyWhite]
  norm_num [ht, countdown, List.range', List.findSome?]
  simp [hrec]

theorem stepb {m : Nat} {tl : List Char} {items : List Item}
    {pos : Nat} {g : Groups} {r : Nat × Groups}
    (h1 : 1 ≤ m) (h2 : m ≤ 12)
    (hrec : mrun items tl (pos + 3) (g ++ [("b", (pos, pos + 3))]) = some r) :
    mrun (.grp "b" (monthAbbrs.map fun nm => nm.data.map CT.oneCI) :: items)
      (monthCap m ++ tl) pos g = some r := by
  interval_cases m <;>
  · simp only [monthCap, monthAbbrs]
    simp +decide only [mrun, itemChoices, seqCT, CT.test, List.map,
      List.filterMap, List.findSome?, List.cons_append, List.nil_append,
      String.data]
    norm_num
    rw [hrec]

/-! ### Reading formatted fields back -/
theorem digitChar_sub {d : Nat} (h : d < 10) :
    (Nat.digitChar d).toNat - '0'.toNat = d := by
  interval_cases d <;> decide

theorem digitsToNat_digits2 {x : Nat} (h : x < 100) :
    digitsToNat (digits2 x) = x := by
  simp only [digits2, digitsToNat, List.foldl]
  rw [digitChar_sub (Nat.mod_lt _ (by norm_num)),
    digitChar_sub (Nat.mod_lt _ (by norm_num))]
  omega

theorem digitsToNat_digits4 {x : Nat} (h : x < 10000) :
    digitsToNat (digits4 x) = x := by
  simp only [digits4, digitsToNat, List.foldl]
  rw [digitChar_sub (Nat.mod_lt _ (by norm_num)),
    digitChar_sub (Nat.mod_lt _ (by norm_num)),
    digitChar_sub (Nat.mod_lt _ (by norm_num)),
    digitChar_sub (Nat.mod_lt _ (by norm_num))]
  omega

theorem digitsToNat_digits6 {x : Nat} (h : x < 1000000) :
    digitsToNat (digits6 x) = x := by
  simp only [digits6, digitsToNat, List.foldl]
  rw [digitChar_sub (Nat.mod_lt _ (by norm_num)),
    digitChar_sub (Nat.mod_lt _ (by norm_num)),
    digitChar_sub (Nat.mod_lt _ (by norm_num)),
    digitChar_sub (Nat.mod_lt _ (by norm_num)),
    digitChar_sub (Nat.mod_lt _ (by norm_num)),
    digitChar_sub (Nat.mod_lt _ (by norm_num))]
  omega

/-- Adding a zero timedelta returns a valid datetime unchanged. -/
theorem dtAddTd_zero {v : DT} (hv : validDT v = true) :
    dtAddTd v ⟨0, 0, 0⟩ = .ok v := by
  have hv2 := hv
  simp only [validDT, Bool.and_eq_true, decide_eq_true_eq] at hv2
  have hkey : (((v.hour * 3600 + v.minute * 60 + v.second) * 1000000
      + v.microsecond : Nat) : Int) +
      ((0 : Int) * 86400 + 0) * 1000000 + 0 =
      ((v.hour * 3600 + v.minute * 60 + v.second) * 1000000
      + v.microsecond : Nat) := by ring
  simp only [dtAddTd, hkey]
  have hq : (((v.hour * 3600 + v.minute * 60 + v.second) * 1000000
      + v.microsecond : Nat) : Int).fdiv 86400000000 = 0 := by
    rw [Int.fdiv_eq_ediv _ (by norm_num)]
    omega
  rw [hq]
  simp only [shiftYMD, le_refl, if_pos, Int.toNat_zero,
    Function.iterate_zero, id_eq]
  rw [if_pos (⟨by omega, by omega⟩ : 1 ≤ v.year ∧ v.year ≤ 9999)]
  simp only [Except.ok.injEq]
  have heta : v = ⟨v.year, v.month, v.day, v.hour, v.minute,
      v.second, v.microsecond⟩ := rfl
  rw [heta]
  simp only [DT.mk.injEq]
  refine ⟨trivial, trivial, trivial, ?_, ?_, ?_, ?_⟩ <;> omega

theorem chEq_refl (c : Char) : chEq c c := Or.inr rfl

theorem forall₂_chEq_refl (l : List Char) : List.Forall₂ chEq l l :=
  List.forall₂_same.2 fun c _ => chEq_refl c

theorem chEq_digits2 (x y : Nat) :
    List.Forall₂ chEq (digits2 x) (digits2 y) := by
  simp only [digits2, List.forall₂_cons, List.Forall₂.nil]
  exact ⟨Or.inl ⟨digitChar_mod_isDigit _, digitChar_mod_isDigit _⟩,
    Or.inl ⟨digitChar_mod_isDigit _, digitChar_mod_isDigit _⟩, trivial⟩

theorem chEq_digits4 (x y : Nat) :
    List.Forall₂ chEq (digits4 x) (digits4 y) := by
  simp only [digits4, List.forall₂_cons, List.Forall₂.nil]
  refine ⟨?_, ?_, ?_, ?_, trivial⟩ <;>
    exact Or.inl ⟨digitChar_mod_isDigit _, digitChar_mod_isDigit _⟩

theorem chEq_digits6 (x y : Nat) :
    List.Forall₂ chEq (digits6 x) (digits6 y) := by
  simp only [digits6, List.forall₂_cons, List.Forall₂.nil]
  refine ⟨?_, ?_, ?_, ?_, ?_, ?_, trivial⟩ <;>
    exact Or.inl ⟨digitChar_mod_isDigit _, digitChar_mod_isDigit _⟩

theorem dirFormat_none {c : Char} (h1 : c ≠ 'Y') (h2 : c ≠ 'm')
    (h3 : c ≠ 'd') (h4 : c ≠ 'H') (h5 : c ≠ 'M') (h6 : c ≠ 'S')
    (h7 : c ≠ 'f') (h8 : c ≠ 'b') (v : DT) : dirFormat c v = none := by
  unfold dirFormat
  split <;> simp_all

/-- Two instances of the same format are `chEq`-related character by
character (given equal rendered months, only needed when the format
uses `%b`). -/
theorem formatAux_chEq {v w : DT} : ∀ (b : Bool) (f : List Char),
    (hasB b f = false ∨ monthCap v.month = monthCap w.month) →
    List.Forall₂ chEq (formatAux v b f) (formatAux w b f)
  | false, [], _ => List.Forall₂.nil
  | true, [], _ => List.Forall₂.cons (chEq_refl _) List.Forall₂.nil
  | false, c :: rest, h => by
      by_cases hc : c = '%'
      · rw [formatAux, if_pos hc, formatAux, if_pos hc]
        refine formatAux_chEq true rest ?_
        rcases h with h | h
        · left; rw [hasB, hc] at h; simpa using h
        · right; exact h
      · rw [formatAux, if_neg hc, formatAux, if_neg hc]
        refine List.Forall₂.cons (chEq_refl c) (formatAux_chEq false rest ?_)
        rcases h with h | h
        · left; rw [hasB] at h; simpa [hc] using h
        · right; exact h
  | true, c :: rest, h => by
      have htail : hasB false rest = false ∨
          monthCap v.month = monthCap w.month := by
        rcases h with h | h
        · by_cases hc : c = 'b'
          · rw [hasB, if_pos hc] at h; exact absurd h (by simp)
          · left; rw [hasB, if_neg hc] at h; exact h
        · right; exact h
      by_cases hc : c = 'b'
      · subst hc
        have hm : monthCap v.month = monthCap w.month := by
          rcases h with h | h
          · rw [hasB] at h; simp at h
          · exact h
        rw [formatAux, formatAux]
        simp only [dirFormat]
        rw [hm]
        exact List.rel_append (forall₂_chEq_refl _)
          (formatAux_chEq false rest htail)
      · rw [formatAux, formatAux]
        have hrec := formatAux_chEq (v := v) (w := w) false rest htail
        by_cases hY : c = 'Y'
        · subst hY; exact List.rel_append (chEq_digits4 _ _) hrec
        by_cases hm2 : c = 'm'
        · subst hm2; exact List.rel_append (chEq_digits2 _ _) hrec
        by_cases hd2 : c = 'd'
        · subst hd2; exact List.rel_append (chEq_digits2 _ _) hrec
        by_cases hH : c = 'H'
        · subst hH; exact List.rel_append (chEq_digits2 _ _) hrec
        by_cases hM : c = 'M'
        · subst hM; exact List.rel_append (chEq_digits2 _ _) hrec
        by_cases hS : c = 'S'
        · subst hS; exact List.rel_append (chEq_digits2 _ _) hrec
        by_cases hf : c = 'f'
        · subst hf; exact List.rel_append (chEq_digits6 _ _) hrec
        rw [dirFormat_none hY hm2 hd2 hH hM hS hf hc v,
          dirFormat_none hY hm2 hd2 hH hM hS hf hc w]
        exact List.Forall₂.cons (chEq_refl _)
          (List.Forall₂.cons (chEq_refl _) hrec)

/-- `reMatch` is invariant under `chEq`-replacement of the subject. -/
theorem reMatch_chEq {items : List Item} {I E : List Char}
    (hok : items.all okItem = true) (hF : List.Forall₂ chEq I E) :
    reMatch items I = reMatch items E :=
  mrun_chEq hok 0 [] hF

/-- A trial that matches and strictly parses delivers the parsed value
(plus the day offset). -/
theorem parseLoop_success {s fmt : String} {rest : List String} {td : Td}
    {d : DT}
    (h1 : regexParseTime s fmt = .ok (some (s, td)))
    (h2 : strptime s fmt = .ok d) :
    parseLoop (.str s) (fmt :: rest) = dtAddTd d td := by
  simp only [parseLoop, h1, h2]

theorem daysInMonth_le31 (y m : Nat) : daysInMonth y m ≤ 31 := by
  unfold daysInMonth
  split_ifs <;> omega

theorem wsLen_digits2 (x : Nat) (tl : List Char) :
    wsLen (digits2 x ++ tl) = 0 := by
  simp [digits2, wsLen, isDigit_not_white (digitChar_mod_isDigit _)]

theorem monthOfAbbr_monthCap {m : Nat} (h1 : 1 ≤ m) (h2 : m ≤ 12) :
    monthOfAbbr (monthCap m) = m := by
  interval_cases m <;> decide

theorem okS0 : (compileSunpy "%Y-%m-%dT%H:%M:%S.%f".data).all okItem = true := by
  decide

theorem okS1 : (compileSunpy "%Y/%m/%dT%H:%M:%S.%f".data).all okItem = true := by
  decide

theorem okS2 : (compileSunpy "%Y-%m-%dT%H:%M:%S.%fZ".data).all okItem = true := by
  decide

theorem okS3 : (compileSunpy "%Y-%m-%dT%H:%M:%S".data).all okItem = true := by
  decide

theorem okS4 : (compileSunpy "%Y/%m/%dT%H:%M:%S".data).all okItem = true := by
  decide

theorem okS5 : (compileSunpy "%Y%m%dT%H%M%S.%f".data).all okItem = true := by
  decide

theorem okS6 : (compileSunpy "%Y%m%dT%H%M%S".data).all okItem = true := by
  decide

theorem okS7 : (compileSunpy "%Y/%m/%d %H:%M:%S".data).all okItem = true := by
  decide

theorem okS8 : (compileSunpy "%Y/%m/%d %H:%M".data).all okItem = true := by
  decide

theorem okS9 : (compileSunpy "%Y/%m/%d %H:%M:%S.%f".data).all okItem = true := by
  decide

theorem okS10 : (compileSunpy "%Y-%m-%d %H:%M:%S.%f".data).all okItem = true := by
  decide

theorem okS11 : (compileSunpy "%Y-%m-%d %H:%M:%S".data).all okItem = true := by
  decide

theorem okS12 : (compileSunpy "%Y-%m-%d %H:%M".data).all okItem = true := by
  decide

theorem okS13 : (compileSunpy "%Y-%b-%d %H:%M:%S".data).all okItem = true := by
  decide

theorem okS14 : (compileSunpy "%Y-%b-%d %H:%M".data).all okItem = true := by
  decide

theorem okS15 : (compileSunpy "%Y-%b-%d".data).all okItem = true := by
  decide

theorem okS16 : (compileSunpy "%Y-%m-%d".data).all okItem = true := by
  decide

theorem okS17 : (compileSunpy "%Y/%m/%d".data).all okItem = true := by
  decide

theorem okS18 : (compileSunpy "%d-%b-%Y".data).all okItem = true := by
  decide

theorem okS19 : (compileSunpy "%Y%m%d_%H%M%S".data).all okItem = true := by
  decide

theorem okR0 : (relaxItems (compileStrp "%Y-%m-%dT%H:%M:%S.%f".data)).all okItem = true := by
  decide

theorem okR5 : (relaxItems (compileStrp "%Y%m%dT%H%M%S.%f".data)).all okItem = true := by
  decide

theorem okR7 : (relaxItems (compileStrp "%Y/%m/%d %H:%M:%S".data)).all okItem = true := by
  decide

theorem okR8 : (relaxItems (compileStrp "%Y/%m/%d %H:%M".data)).all okItem = true := by
  decide

theorem roundtrip0 (now : DT) (y m d h mi s us : Nat)
    (hv : validDT ⟨y, m, d, h, mi, s, us⟩ = true) :
    parseTime now (.str (String.mk
      (formatPattern "%Y-%m-%dT%H:%M:%S.%f".data ⟨y, m, d, h, mi, s, us⟩))) =
      .ok ⟨y, m, d, h, mi, s, us⟩ := by
  have hv2 := hv
  simp only [validDT, Bool.and_eq_true, decide_eq_true_eq] at hv2
  have hd31 : d ≤ 31 := by
    have := daysInMonth_le31 y m
    omega
  set I := formatPattern "%Y-%m-%dT%H:%M:%S.%f".data
    (⟨y, m, d, h, mi, s, us⟩ : DT) with hI
  have hFor : List.Forall₂ chEq I
      (formatPattern "%Y-%m-%dT%H:%M:%S.%f".data ⟨1111, 11, 11, 11, 11, 11, 111111⟩) := by
    rw [hI]
    exact formatAux_chEq false _ (Or.inl (by decide))
  have hIeq : I = digits4 y ++ '-' :: (digits2 m ++ '-' :: (digits2 d ++ 'T' :: (digits2 h ++ ':' :: (digits2 mi ++ ':' :: (digits2 s ++ '.' :: (digits6 us ++ [])))))) := by
    rw [hI]; rfl
  have hlen : I.length = 26 := by rw [hIeq]; rfl
  have hsY : sliceL I 0 4 = digits4 y := by rw [hIeq]; rfl
  have hsm : sliceL I 5 7 = digits2 m := by rw [hIeq]; rfl
  have hsd : sliceL I 8 10 = digits2 d := by rw [hIeq]; rfl
  have hsH : sliceL I 11 13 = digits2 h := by rw [hIeq]; rfl
  have hsM : sliceL I 14 16 = digits2 mi := by rw [hIeq]; rfl
  have hsS : sliceL I 17 19 = digits2 s := by rw [hIeq]; rfl
  have hsf : sliceL I 20 26 = digits6 us := by rw [hIeq]; rfl
  have hre : reMatch (compileSunpy "%Y-%m-%dT%H:%M:%S.%f".data) I =
      some (26, [("year", (0, 4)), ("month", (5, 7)), ("day", (8, 10)), ("hour", (11, 13)), ("minute", (14, 16)), ("second", (17, 19)), ("microsecond", (20, 26))]) := by
    rw [reMatch_chEq okS0 hFor]
    decide
  have hrp : regexParseTime (String.mk I) "%Y-%m-%dT%H:%M:%S.%f" =
      .ok (some (String.mk I, ⟨0, 0, 0⟩)) := by
    refine regexParseTime_hour_ne24 hre rfl ?_
    show ¬ sliceL I 11 13 = "24".data
    rw [hsH]
    exact digits2_ne24 (by omega)
  have hmrun : mrun (compileStrp "%Y-%m-%dT%H:%M:%S.%f".data) I 0 [] =
      some (26, [("Y", (0, 4)), ("m", (5, 7)), ("d", (8, 10)), ("H", (11, 13)), ("M", (14, 16)), ("S", (17, 19)), ("f", (20, 26))]) := by
    rw [show compileStrp "%Y-%m-%dT%H:%M:%S.%f".data =
      [.grp "Y" [[.digit, .digit, .digit, .digit]],
       .tst (.oneCI '-'),
       .grp "m" [[.one '1', .rng '0' '2'], [.one '0', .rng '1' '9'], [.rng '1' '9']],
       .tst (.oneCI '-'),
       .grp "d" [[.one '3', .rng '0' '1'], [.rng '1' '2', .digit], [.one '0', .rng '1' '9'], [.rng '1' '9'], [.one ' ', .rng '1' '9']],
       .tst (.oneCI 'T'),
       .grp "H" [[.one '2', .rng '0' '3'], [.rng '0' '1', .digit], [.digit]],
       .tst (.oneCI ':'),
       .grp "M" [[.rng '0' '5', .digit], [.digit]],
       .tst (.oneCI ':'),
       .grp "S" [[.one '6', .rng '0' '1'], [.rng '0' '5', .digit], [.digit]],
       .tst (.oneCI '.'),
       .rep "f" .digit 1 (some 6)]
      from rfl, hIeq]
    apply stepY
    apply stepTst (by decide)
    apply stepm (by omega) (by omega)
    apply stepTst (by decide)
    apply stepd (by omega) (by omega)
    apply stepTst (by decide)
    apply stepH (by omega) (by omega)
    apply stepTst (by decide)
    apply stepM (by omega) (by omega)
    apply stepTst (by decide)
    apply stepS (by omega) (by omega)
    apply stepTst (by decide)
    apply stepf (by decide)
    decide
  have hstrp : strptime (String.mk I) "%Y-%m-%dT%H:%M:%S.%f" =
      .ok ⟨y, m, d, h, mi, s, us⟩ := by
    rw [strptime, show (String.mk I).data = I from rfl]
    rw [hmrun]
    simp only [hlen, if_true]
    simp only [show groupSlice I [("Y", (0, 4)), ("m", (5, 7)), ("d", (8, 10)), ("H", (11, 13)), ("M", (14, 16)), ("S", (17, 19)), ("f", (20, 26))] "Y" =
        some (sliceL I 0 4) from rfl,
      show groupSlice I [("Y", (0, 4)), ("m", (5, 7)), ("d", (8, 10)), ("H", (11, 13)), ("M", (14, 16)), ("S", (17, 19)), ("f", (20, 26))] "m" =
        some (sliceL I 5 7) from rfl,
      show groupSlice I [("Y", (0, 4)), ("m", (5, 7)), ("d", (8, 10)), ("H", (11, 13)), ("M", (14, 16)), ("S", (17, 19)), ("f", (20, 26))] "d" =
        some (sliceL I 8 10) from rfl,
      show groupSlice I [("Y", (0, 4)), ("m", (5, 7)), ("d", (8, 10)), ("H", (11, 13)), ("M", (14, 16)), ("S", (17, 19)), ("f", (20, 26))] "H" =
        some (sliceL I 11 13) from rfl,
      show groupSlice I [("Y", (0, 4)), ("m", (5, 7)), ("d", (8, 10)), ("H", (11, 13)), ("M", (14, 16)), ("S", (17, 19)), ("f", (20, 26))] "M" =
        some (sliceL I 14 16) from rfl,
      show groupSlice I [("Y", (0, 4)), ("m", (5, 7)), ("d", (8, 10)), ("H", (11, 13)), ("M", (14, 16)), ("S", (17, 19)), ("f", (20, 26))] "S" =
        some (sliceL I 17 19) from rfl,
      show groupSlice I [("Y", (0, 4)), ("m", (5, 7)), ("d", (8, 10)), ("H", (11, 13)), ("M", (14, 16)), ("S", (17, 19)), ("f", (20, 26))] "f" =
        some (sliceL I 20 26) from rfl,
      show groupSlice I [("Y", (0, 4)), ("m", (5, 7)), ("d", (8, 10)), ("H", (11, 13)), ("M", (14, 16)), ("S", (17, 19)), ("f", (20, 26))] "b" =
        none from rfl,
      hsY,
      hsm,
      hsd,
      hsH,
      hsM,
      hsS,
      hsf,
      show List.replicate (6 - (digits6 us).length) '0' = [] from rfl,
      List.append_nil,
      Option.map_some', Option.getD_some, Option.map_none', Option.getD_none]
    rw [digitsToNat_digits4 (by omega), digitsToNat_digits2 (by omega), digitsToNat_digits2 (by omega), digitsToNat_digits2 (by omega), digitsToNat_digits2 (by omega), digitsToNat_digits2 (by omega), digitsToNat_digits6 (by omega)]
    simp only [datetimeNew, hv, if_true]
  simp only [parseTime, TIME_FORMAT_LIST]
  rw [parseLoop_success hrp hstrp]
  exact dtAddTd_zero hv

theorem roundtrip1 (now : DT) (y m d h mi s us : Nat)
    (hv : validDT ⟨y, m, d, h, mi, s, us⟩ = true) :
    parseTime now (.str (String.mk
      (formatPattern "%Y/%m/%dT%H:%M:%S.%f".data ⟨y, m, d, h, mi, s, us⟩))) =
      .ok ⟨y, m, d, h, mi, s, us⟩ := by
  have hv2 := hv
  simp only [validDT, Bool.and_eq_true, decide_eq_true_eq] at hv2
  have hd31 : d ≤ 31 := by
    have := daysInMonth_le31 y m
    omega
  set I := formatPattern "%Y/%m/%dT%H:%M:%S.%f".data
    (⟨y, m, d, h, mi, s, us⟩ : DT) with hI
  have hFor : List.Forall₂ chEq I
      (formatPattern "%Y/%m/%dT%H:%M:%S.%f".data ⟨1111, 11, 11, 11, 11, 11, 111111⟩) := by
    rw [hI]
    exact formatAux_chEq false _ (Or.inl (by decide))
  have hIeq : I = digits4 y ++ '/' :: (digits2 m ++ '/' :: (digits2 d ++ 'T' :: (digits2 h ++ ':' :: (digits2 mi ++ ':' :: (digits2 s ++ '.' :: (digits6 us ++ [])))))) := by
    rw [hI]; rfl
  have hlen : I.length = 26 := by rw [hIeq]; rfl
  have hsY : sliceL I 0 4 = digits4 y := by rw [hIeq]; rfl
  have hsm : sliceL I 5 7 = digits2 m := by rw [hIeq]; rfl
  have hsd : sliceL I 8 10 = digits2 d := by rw [hIeq]; rfl
  have hsH : sliceL I 11 13 = digits2 h := by rw [hIeq]; rfl
  have hsM : sliceL I 14 16 = digits2 mi := by rw [hIeq]; rfl
  have hsS : sliceL I 17 19 = digits2 s := by rw [hIeq]; rfl
  have hsf : sliceL I 20 26 = digits6 us := by rw [hIeq]; rfl
  have hskA0 : regexParseTime (String.mk I) "%Y-%m-%dT%H:%M:%S.%f" = .ok none := by
    apply regexParseTime_none
    rw [show (String.mk I).data = I from rfl, reMatch_chEq okS0 hFor]
    decide
  have hre : reMatch (compileSunpy "%Y/%m/%dT%H:%M:%S.%f".data) I =
      some (26, [("year", (0, 4)), ("month", (5, 7)), ("day", (8, 10)), ("hour", (11, 13)), ("minute", (14, 16)), ("second", (17, 19)), ("microsecond", (20, 26))]) := by
    rw [reMatch_chEq okS1 hFor]
    decide
  have hrp : regexParseTime (String.mk I) "%Y/%m/%dT%H:%M:%S.%f" =
      .ok (some (String.mk I, ⟨0, 0, 0⟩)) := by
    refine regexParseTime_hour_ne24 hre rfl ?_
    show ¬ sliceL I 11 13 = "24".data
    rw [hsH]
    exact digits2_ne24 (by omega)
  have hmrun : mrun (compileStrp "%Y/%m/%dT%H:%M:%S.%f".data) I 0 [] =
      some (26, [("Y", (0, 4)), ("m", (5, 7)), ("d", (8, 10)), ("H", (11, 13)), ("M", (14, 16)), ("S", (17, 19)), ("f", (20, 26))]) := by
    rw [show compileStrp "%Y/%m/%dT%H:%M:%S.%f".data =
      [.grp "Y" [[.digit, .digit, .digit, .digit]],
       .tst (.oneCI '/'),
       .grp "m" [[.one '1', .rng '0' '2'], [.one '0', .rng '1' '9'], [.rng '1' '9']],
       .tst (.oneCI '/'),
       .grp "d" [[.one '3', .rng '0' '1'], [.rng '1' '2', .digit], [.one '0', .rng '1' '9'], [.rng '1' '9'], [.one ' ', .rng '1' '9']],
       .tst (.oneCI 'T'),
       .grp "H" [[.one '2', .rng '0' '3'], [.rng '0' '1', .digit], [.digit]],
       .tst (.oneCI ':'),
       .grp "M" [[.rng '0' '5', .digit], [.digit]],
       .tst (.oneCI ':'),
       .grp "S" [[.one '6', .rng '0' '1'], [.rng '0' '5', .digit], [.digit]],
       .tst (.oneCI '.'),
       .rep "f" .digit 1 (some 6)]
      from rfl, hIeq]
    apply stepY
    apply stepTst (by decide)
    apply stepm (by omega) (by omega)
    apply stepTst (by decide)
    apply stepd (by omega) (by omega)
    apply stepTst (by decide)
    apply stepH (by omega) (by omega)
    apply stepTst (by decide)
    apply stepM (by omega) (by omega)
    apply stepTst (by decide)
    apply stepS (by omega) (by omega)
    apply stepTst (by decide)
    apply stepf (by decide)
    decide
  have hstrp : strptime (String.mk I) "%Y/%m/%dT%H:%M:%S.%f" =
      .ok ⟨y, m, d, h, mi, s, us⟩ := by
    rw [strptime, show (String.mk I).data = I from rfl]
    rw [hmrun]
    simp only [hlen, if_true]
    simp only [show groupSlice I [("Y", (0, 4)), ("m", (5, 7)), ("d", (8, 10)), ("H", (11, 13)), ("M", (14, 16)), ("S", (17, 19)), ("f", (20, 26))] "Y" =
        some (sliceL I 0 4) from rfl,
      show groupSlice I [("Y", (0, 4)), ("m", (5, 7)), ("d", (8, 10)), ("H", (11, 13)), ("M", (14, 16)), ("S", (17, 19)), ("f", (20, 26))] "m" =
        some (sliceL I 5 7) from rfl,
      show groupSlice I [("Y", (0, 4)), ("m", (5, 7)), ("d", (8, 10)), ("H", (11, 13)), ("M", (14, 16)), ("S", (17, 19)), ("f", (20, 26))] "d" =
        some (sliceL I 8 10) from rfl,
      show groupSlice I [("Y", (0, 4)), ("m", (5, 7)), ("d", (8, 10)), ("H", (11, 13)), ("M", (14, 16)), ("S", (17, 19)), ("f", (20, 26))] "H" =
        some (sliceL I 11 13) from rfl,
      show groupSlice I [("Y", (0, 4)), ("m", (5, 7)), ("d", (8, 10)), ("H", (11, 13)), ("M", (14, 16)), ("S", (17, 19)), ("f", (20, 26))] "M" =
        some (sliceL I 14 16) from rfl,
      show groupSlice I [("Y", (0, 4)), ("m", (5, 7)), ("d", (8, 10)), ("H", (11, 13)), ("M", (14, 16)), ("S", (17, 19)), ("f", (20, 26))] "S" =
        some (sliceL I 17 19) from rfl,
      show groupSlice I [("Y", (0, 4)), ("m", (5, 7)), ("d", (8, 10)), ("H", (11, 13)), ("M", (14, 16)), ("S", (17, 19)), ("f", (20, 26))] "f" =
        some (sliceL I 20 26) from rfl,
      show groupSlice I [("Y", (0, 4)), ("m", (5, 7)), ("d", (8, 10)), ("H", (11, 13)), ("M", (14, 16)), ("S", (17, 19)), ("f", (20, 26))] "b" =
        none from rfl,
      hsY,
      hsm,
      hsd,
      hsH,
      hsM,
      hsS,
      hsf,
      show List.replicate (6 - (digits6 us).length) '0' = [] from rfl,
      List.append_nil,
      Option.map_some', Option.getD_some, Option.map_none', Option.getD_none]
    rw [digitsToNat_digits4 (by omega), digitsToNat_digits2 (by omega), digitsToNat_digits2 (by omega), digitsToNat_digits2 (by omega), digitsToNat_digits2 (by omega), digitsToNat_digits2 (by omega), digitsToNat_digits6 (by omega)]
    simp only [datetimeNew, hv, if_true]
  simp only [parseTime, TIME_FORMAT_LIST]
  rw [parseLoop_skip_none hskA0,
    parseLoop_success hrp hstrp]
  exact dtAddTd_zero hv

theorem roundtrip2 (now : DT) (y m d h mi s us : Nat)
    (hv : validDT ⟨y, m, d, h, mi, s, us⟩ = true) :
    parseTime now (.str (String.mk
      (formatPattern "%Y-%m-%dT%H:%M:%S.%fZ".data ⟨y, m, d, h, mi, s, us⟩))) =
      .ok ⟨y, m, d, h, mi, s, us⟩ := by
  have hv2 := hv
  simp only [validDT, Bool.and_eq_true, decide_eq_true_eq] at hv2
  have hd31 : d ≤ 31 := by
    have := daysInMonth_le31 y m
    omega
  set I := formatPattern "%Y-%m-%dT%H:%M:%S.%fZ".data
    (⟨y, m, d, h, mi, s, us⟩ : DT) with hI
  have hFor : List.Forall₂ chEq I
      (formatPattern "%Y-%m-%dT%H:%M:%S.%fZ".data ⟨1111, 11, 11, 11, 11, 11, 111111⟩) := by
    rw [hI]
    exact formatAux_chEq false _ (Or.inl (by decide))
  have hIeq : I = digits4 y ++ '-' :: (digits2 m ++ '-' :: (digits2 d ++ 'T' :: (digits2 h ++ ':' :: (digits2 mi ++ ':' :: (digits2 s ++ '.' :: (digits6 us ++ 'Z' :: ([]))))))) := by
    rw [hI]; rfl
  have hlen : I.length = 27 := by rw [hIeq]; rfl
  have hsY : sliceL I 0 4 = digits4 y := by rw [hIeq]; rfl
  have hsm : sliceL I 5 7 = digits2 m := by rw [hIeq]; rfl
  have hsd : sliceL I 8 10 = digits2 d := by rw [hIeq]; rfl
  have hsH : sliceL I 11 13 = digits2 h := by rw [hIeq]; rfl
  have hsM : sliceL I 14 16 = digits2 mi := by rw [hIeq]; rfl
  have hsS : sliceL I 17 19 = digits2 s := by rw [hIeq]; rfl
  have hsf : sliceL I 20 26 = digits6 us := by rw [hIeq]; rfl
  have hreB0 : reMatch (compileSunpy "%Y-%m-%dT%H:%M:%S.%f".data) I =
      some (26, [("year", (0, 4)), ("month", (5, 7)), ("day", (8, 10)), ("hour", (11, 13)), ("minute", (14, 16)), ("second", (17, 19)), ("microsecond", (20, 26))]) := by
    rw [reMatch_chEq okS0 hFor]
    decide
  have hskB0 : regexParseTime (String.mk I) "%Y-%m-%dT%H:%M:%S.%f" =
      .ok (some (String.mk I, ⟨0, 0, 0⟩)) := by
    refine regexParseTime_hour_ne24 hreB0 rfl ?_
    show ¬ sliceL I 11 13 = "24".data
    rw [hsH]
    exact digits2_ne24 (by omega)
  have hstK0 : strptime (String.mk I) "%Y-%m-%dT%H:%M:%S.%f" =
      .error (.valueError .data) :=
    strptime_kill hFor okR0 (by decide)
  have hskA1 : regexParseTime (String.mk I) "%Y/%m/%dT%H:%M:%S.%f" = .ok none := by
    apply regexParseTime_none
    rw [show (String.mk I).data = I from rfl, reMatch_chEq okS1 hFor]
    decide
  have hre : reMatch (compileSunpy "%Y-%m-%dT%H:%M:%S.%fZ".data) I =
      some (27, [("year", (0, 4)), ("month", (5, 7)), ("day", (8, 10)), ("hour", (11, 13)), ("minute", (14, 16)), ("second", (17, 19)), ("microsecond", (20, 26))]) := by
    rw [reMatch_chEq okS2 hFor]
    decide
  have hrp : regexParseTime (String.mk I) "%Y-%m-%dT%H:%M:%S.%fZ" =
      .ok (some (String.mk I, ⟨0, 0, 0⟩)) := by
    refine regexParseTime_hour_ne24 hre rfl ?_
    show ¬ sliceL I 11 13 = "24".data
    rw [hsH]
    exact digits2_ne24 (by omega)
  have hmrun : mrun (compileStrp "%Y-%m-%dT%H:%M:%S.%fZ".data) I 0 [] =
      some (27, [("Y", (0, 4)), ("m", (5, 7)), ("d", (8, 10)), ("H", (11, 13)), ("M", (14, 16)), ("S", (17, 19)), ("f", (20, 26))]) := by
    rw [show compileStrp "%Y-%m-%dT%H:%M:%S.%fZ".data =
      [.grp "Y" [[.digit, .digit, .digit, .digit]],
       .tst (.oneCI '-'),
       .grp "m" [[.one '1', .rng '0' '2'], [.one '0', .rng '1' '9'], [.rng '1' '9']],
       .tst (.oneCI '-'),
       .grp "d" [[.one '3', .rng '0' '1'], [.rng '1' '2', .digit], [.one '0', .rng '1' '9'], [.rng '1' '9'], [.one ' ', .rng '1' '9']],
       .tst (.oneCI 'T'),
       .grp "H" [[.one '2', .rng '0' '3'], [.rng '0' '1', .digit], [.digit]],
       .tst (.oneCI ':'),
       .grp "M" [[.rng '0' '5', .digit], [.digit]],
       .tst (.oneCI ':'),
       .grp "S" [[.one '6', .rng '0' '1'], [.rng '0' '5', .digit], [.digit]],
       .tst (.oneCI '.'),
       .rep "f" .digit 1 (some 6),
       .tst (.oneCI 'Z')]
      from rfl, hIeq]
    apply stepY
    apply stepTst (by decide)
    apply stepm (by omega) (by omega)
    apply stepTst (by decide)
    apply stepd (by omega) (by omega)
    apply stepTst (by decide)
    apply stepH (by omega) (by omega)
    apply stepTst (by decide)
    apply stepM (by omega) (by omega)
    apply stepTst (by decide)
    apply stepS (by omega) (by omega)
    apply stepTst (by decide)
    apply stepf (by decide)
    apply stepTst (by decide)
    decide
  have hstrp : strptime (String.mk I) "%Y-%m-%dT%H:%M:%S.%fZ" =
      .ok ⟨y, m, d, h, mi, s, us⟩ := by
    rw [strptime, show (String.mk I).data = I from rfl]
    rw [hmrun]
    simp only [hlen, if_true]
    simp only [show groupSlice I [("Y", (0, 4)), ("m", (5, 7)), ("d", (8, 10)), ("H", (11, 13)), ("M", (14, 16)), ("S", (17, 19)), ("f", (20, 26))] "Y" =
        some (sliceL I 0 4) from rfl,
      show groupSlice I [("Y", (0, 4)), ("m", (5, 7)), ("d", (8, 10)), ("H", (11, 13)), ("M", (14, 16)), ("S", (17, 19)), ("f", (20, 26))] "m" =
        some (sliceL I 5 7) from rfl,
      show groupSlice I [("Y", (0, 4)), ("m", (5, 7)), ("d", (8, 10)), ("H", (11, 13)), ("M", (14, 16)), ("S", (17, 19)), ("f", (20, 26))] "d" =
        some (sliceL I 8 10) from rfl,
      show groupSlice I [("Y", (0, 4)), ("m", (5, 7)), ("d", (8, 10)), ("H", (11, 13)), ("M", (14, 16)), ("S", (17, 19)), ("f", (20, 26))] "H" =
        some (sliceL I 11 13) from rfl,
      show groupSlice I [("Y", (0, 4)), ("m", (5, 7)), ("d", (8, 10)), ("H", (11, 13)), ("M", (14, 16)), ("S", (17, 19)), ("f", (20, 26))] "M" =
        some (sliceL I 14 16) from rfl,
      show groupSlice I [("Y", (0, 4)), ("m", (5, 7)), ("d", (8, 10)), ("H", (11, 13)), ("M", (14, 16)), ("S", (17, 19)), ("f", (20, 26))] "S" =
        some (sliceL I 17 19) from rfl,
      show groupSlice I [("Y", (0, 4)), ("m", (5, 7)), ("d", (8, 10)), ("H", (11, 13)), ("M", (14, 16)), ("S", (17, 19)), ("f", (20, 26))] "f" =
        some (sliceL I 20 26) from rfl,
      show groupSlice I [("Y", (0, 4)), ("m", (5, 7)), ("d", (8, 10)), ("H", (11, 13)), ("M", (14, 16)), ("S", (17, 19)), ("f", (20, 26))] "b" =
        none from rfl,
      hsY,
      hsm,
      hsd,
      hsH,
      hsM,
      hsS,
      hsf,
      show List.replicate (6 - (digits6 us).length) '0' = [] from rfl,
      List.append_nil,
      Option.map_some', Option.getD_some, Option.map_none', Option.getD_none]
    rw [digitsToNat_digits4 (by omega), digitsToNat_digits2 (by omega), digitsToNat_digits2 (by omega), digitsToNat_digits2 (by omega), digitsToNat_digits2 (by omega), digitsToNat_digits2 (by omega), digitsToNat_digits6 (by omega)]
    simp only [datetimeNew, hv, if_true]
  simp only [parseTime, TIME_FORMAT_LIST]
  rw [parseLoop_skip_strp hskB0 hstK0,
    parseLoop_skip_none hskA1,
    parseLoop_success hrp hstrp]
  exact dtAddTd_zero hv

theorem roundtrip3 (now : DT) (y m d h mi s : Nat)
    (hv : validDT ⟨y, m, d, h, mi, s, 0⟩ = true) :
    parseTime now (.str (String.mk
      (formatPattern "%Y-%m-%dT%H:%M:%S".data ⟨y, m, d, h, mi, s, 0⟩))) =
      .ok ⟨y, m, d, h, mi, s, 0⟩ := by
  have hv2 := hv
  simp only [validDT, Bool.and_eq_true, decide_eq_true_eq] at hv2
  have hd31 : d ≤ 31 := by
    have := daysInMonth_le31 y m
    omega
  set I := formatPattern "%Y-%m-%dT%H:%M:%S".data
    (⟨y, m, d, h, mi, s, 0⟩ : DT) with hI
  have hFor : List.Forall₂ chEq I
      (formatPattern "%Y-%m-%dT%H:%M:%S".data ⟨1111, 11, 11, 11, 11, 11, 111111⟩) := by
    rw [hI]
    exact formatAux_chEq false _ (Or.inl (by decide))
  have hIeq : I = digits4 y ++ '-' :: (digits2 m ++ '-' :: (digits2 d ++ 'T' :: (digits2 h ++ ':' :: (digits2 mi ++ ':' :: (digits2 s ++ []))))) := by
    rw [hI]; rfl
  have hlen : I.length = 19 := by rw [hIeq]; rfl
  have hsY : sliceL I 0 4 = digits4 y := by rw [hIeq]; rfl
  have hsm : sliceL I 5 7 = digits2 m := by rw [hIeq]; rfl
  have hsd : sliceL I 8 10 = digits2 d := by rw [hIeq]; rfl
  have hsH : sliceL I 11 13 = digits2 h := by rw [hIeq]; rfl
  have hsM : sliceL I 14 16 = digits2 mi := by rw [hIeq]; rfl
  have hsS : sliceL I 17 19 = digits2 s := by rw [hIeq]; rfl
  have hskA0 : regexParseTime (String.mk I) "%Y-%m-%dT%H:%M:%S.%f" = .ok none := by
    apply regexParseTime_none
    rw [show (String.mk I).data = I from rfl, reMatch_chEq okS0 hFor]
    decide
  have hskA1 : regexParseTime (String.mk I) "%Y/%m/%dT%H:%M:%S.%f" = .ok none := by
    apply regexParseTime_none
    rw [show (String.mk I).data = I from rfl, reMatch_chEq okS1 hFor]
    decide
  have hskA2 : regexParseTime (String.mk I) "%Y-%m-%dT%H:%M:%S.%fZ" = .ok none := by
    apply regexParseTime_none
    rw [show (String.mk I).data = I from rfl, reMatch_chEq okS2 hFor]
    decide
  have hre : reMatch (compileSunpy "%Y-%m-%dT%H:%M:%S".data) I =
      some (19, [("year", (0, 4)), ("month", (5, 7)), ("day", (8, 10)), ("hour", (11, 13)), ("minute", (14, 16)), ("second", (17, 19))]) := by
    rw [reMatch_chEq okS3 hFor]
    decide
  have hrp : regexParseTime (String.mk I) "%Y-%m-%dT%H:%M:%S" =
      .ok (some (String.mk I, ⟨0, 0, 0⟩)) := by
    refine regexParseTime_hour_ne24 hre rfl ?_
    show ¬ sliceL I 11 13 = "24".data
    rw [hsH]
    exact digits2_ne24 (by omega)
  have hmrun : mrun (compileStrp "%Y-%m-%dT%H:%M:%S".data) I 0 [] =
      some (19, [("Y", (0, 4)), ("m", (5, 7)), ("d", (8, 10)), ("H", (11, 13)), ("M", (14, 16)), ("S", (17, 19))]) := by
    rw [show compileStrp "%Y-%m-%dT%H:%M:%S".data =
      [.grp "Y" [[.digit, .digit, .digit, .digit]],
       .tst (.oneCI '-'),
       .grp "m" [[.one '1', .rng '0' '2'], [.one '0', .rng '1' '9'], [.rng '1' '9']],
       .tst (.oneCI '-'),
       .grp "d" [[.one '3', .rng '0' '1'], [.rng '1' '2', .digit], [.one '0', .rng '1' '9'], [.rng '1' '9'], [.one ' ', .rng '1' '9']],
       .tst (.oneCI 'T'),
       .grp "H" [[.one '2', .rng '0' '3'], [.rng '0' '1', .digit], [.digit]],
       .tst (.oneCI ':'),
       .grp "M" [[.rng '0' '5', .digit], [.digit]],
       .tst (.oneCI ':'),
       .grp "S" [[.one '6', .rng '0' '1'], [.rng '0' '5', .digit], [.digit]]]
      from rfl, hIeq]
    apply stepY
    apply stepTst (by decide)
    apply stepm (by omega) (by omega)
    apply stepTst (by decide)
    apply stepd (by omega) (by omega)
    apply stepTst (by decide)
    apply stepH (by omega) (by omega)
    apply stepTst (by decide)
    apply stepM (by omega) (by omega)
    apply stepTst (by decide)
    apply stepS (by omega) (by omega)
    decide
  have hstrp : strptime (String.mk I) "%Y-%m-%dT%H:%M:%S" =
      .ok ⟨y, m, d, h, mi, s, 0⟩ := by
    rw [strptime, show (String.mk I).data = I from rfl]
    rw [hmrun]
    simp only [hlen, if_true]
    simp only [show groupSlice I [("Y", (0, 4)), ("m", (5, 7)), ("d", (8, 10)), ("H", (11, 13)), ("M", (14, 16)), ("S", (17, 19))] "Y" =
        some (sliceL I 0 4) from rfl,
      show groupSlice I [("Y", (0, 4)), ("m", (5, 7)), ("d", (8, 10)), ("H", (11, 13)), ("M", (14, 16)), ("S", (17, 19))] "m" =
        some (sliceL I 5 7) from rfl,
      show groupSlice I [("Y", (0, 4)), ("m", (5, 7)), ("d", (8, 10)), ("H", (11, 13)), ("M", (14, 16)), ("S", (17, 19))] "d" =
        some (sliceL I 8 10) from rfl,
      show groupSlice I [("Y", (0, 4)), ("m", (5, 7)), ("d", (8, 10)), ("H", (11, 13)), ("M", (14, 16)), ("S", (17, 19))] "H" =
        some (sliceL I 11 13) from rfl,
      show groupSlice I [("Y", (0, 4)), ("m", (5, 7)), ("d", (8, 10)), ("H", (11, 13)), ("M", (14, 16)), ("S", (17, 19))] "M" =
        some (sliceL I 14 16) from rfl,
      show groupSlice I [("Y", (0, 4)), ("m", (5, 7)), ("d", (8, 10)), ("H", (11, 13)), ("M", (14, 16)), ("S", (17, 19))] "S" =
        some (sliceL I 17 19) from rfl,
      show groupSlice I [("Y", (0, 4)), ("m", (5, 7)), ("d", (8, 10)), ("H", (11, 13)), ("M", (14, 16)), ("S", (17, 19))] "f" =
        none from rfl,
      show groupSlice I [("Y", (0, 4)), ("m", (5, 7)), ("d", (8, 10)), ("H", (11, 13)), ("M", (14, 16)), ("S", (17, 19))] "b" =
        none from rfl,
      hsY,
      hsm,
      hsd,
      hsH,
      hsM,
      hsS,
      Option.map_some', Option.getD_some, Option.map_none', Option.getD_none]
    rw [digitsToNat_digits4 (by omega), digitsToNat_digits2 (by omega), digitsToNat_digits2 (by omega), digitsToNat_digits2 (by omega), digitsToNat_digits2 (by omega), digitsToNat_digits2 (by omega)]
    simp only [datetimeNew, hv, if_true]
  simp only [parseTime, TIME_FORMAT_LIST]
  rw [parseLoop_skip_none hskA0,
    parseLoop_skip_none hskA1,
    parseLoop_skip_none hskA2,
    parseLoop_success hrp hstrp]
  exact dtAddTd_zero hv

theorem roundtrip4 (now : DT) (y m d h mi s : Nat)
    (hv : validDT ⟨y, m, d, h, mi, s, 0⟩ = true) :
    parseTime now (.str (String.mk
      (formatPattern "%Y/%m/%dT%H:%M:%S".data ⟨y, m, d, h, mi, s, 0⟩))) =
      .ok ⟨y, m, d, h, mi, s, 0⟩ := by
  have hv2 := hv
  simp only [validDT, Bool.and_eq_true, decide_eq_true_eq] at hv2
  have hd31 : d ≤ 31 := by
    have := daysInMonth_le31 y m
    omega
  set I := formatPattern "%Y/%m/%dT%H:%M:%S".data
    (⟨y, m, d, h, mi, s, 0⟩ : DT) with hI
  have hFor : List.Forall₂ chEq I
      (formatPattern "%Y/%m/%dT%H:%M:%S".data ⟨1111, 11, 11, 11, 11, 11, 111111⟩) := by
    rw [hI]
    exact formatAux_chEq false _ (Or.inl (by decide))
  have hIeq : I = digits4 y ++ '/' :: (digits2 m ++ '/' :: (digits2 d ++ 'T' :: (digits2 h ++ ':' :: (digits2 mi ++ ':' :: (digits2 s ++ []))))) := by
    rw [hI]; rfl
  have hlen : I.length = 19 := by rw [hIeq]; rfl
  have hsY : sliceL I 0 4 = digits4 y := by rw [hIeq]; rfl
  have hsm : sliceL I 5 7 = digits2 m := by rw [hIeq]; rfl
  have hsd : sliceL I 8 10 = digits2 d := by rw [hIeq]; rfl
  have hsH : sliceL I 11 13 = digits2 h := by rw [hIeq]; rfl
  have hsM : sliceL I 14 16 = digits2 mi := by rw [hIeq]; rfl
  have hsS : sliceL I 17 19 = digits2 s := by rw [hIeq]; rfl
  have hskA0 : regexParseTime (String.mk I) "%Y-%m-%dT%H:%M:%S.%f" = .ok none := by
    apply regexParseTime_none
    rw [show (String.mk I).data = I from rfl, reMatch_chEq okS0 hFor]
    decide
  have hskA1 : regexParseTime (String.mk I) "%Y/%m/%dT%H:%M:%S.%f" = .ok none := by
    apply regexParseTime_none
    rw [show (String.mk I).data = I from rfl, reMatch_chEq okS1 hFor]
    decide
  have hskA2 : regexParseTime (String.mk I) "%Y-%m-%dT%H:%M:%S.%fZ" = .ok none := by
    apply regexParseTime_none
    rw [show (String.mk I).data = I from rfl, reMatch_chEq okS2 hFor]
    decide
  have hskA3 : regexParseTime (String.mk I) "%Y-%m-%dT%H:%M:%S" = .ok none := by
    apply regexParseTime_none
    rw [show (String.mk I).data = I from rfl, reMatch_chEq okS3 hFor]
    decide
  have hre : reMatch (compileSunpy "%Y/%m/%dT%H:%M:%S".data) I =
      some (19, [("year", (0, 4)), ("month", (5, 7)), ("day", (8, 10)), ("hour", (11, 13)), ("minute", (14, 16)), ("second", (17, 19))]) := by
    rw [reMatch_chEq okS4 hFor]
    decide
  have hrp : regexParseTime (String.mk I) "%Y/%m/%dT%H:%M:%S" =
      .ok (some (String.mk I, ⟨0, 0, 0⟩)) := by
    refine regexParseTime_hour_ne24 hre rfl ?_
    show ¬ sliceL I 11 13 = "24".data
    rw [hsH]
    exact digits2_ne24 (by omega)
  have hmrun : mrun (compileStrp "%Y/%m/%dT%H:%M:%S".data) I 0 [] =
      some (19, [("Y", (0, 4)), ("m", (5, 7)), ("d", (8, 10)), ("H", (11, 13)), ("M", (14, 16)), ("S", (17, 19))]) := by
    rw [show compileStrp "%Y/%m/%dT%H:%M:%S".data =
      [.grp "Y" [[.digit, .digit, .digit, .digit]],
       .tst (.oneCI '/'),
       .grp "m" [[.one '1', .rng '0' '2'], [.one '0', .rng '1' '9'], [.rng '1' '9']],
       .tst (.oneCI '/'),
       .grp "d" [[.one '3', .rng '0' '1'], [.rng '1' '2', .digit], [.one '0', .rng '1' '9'], [.rng '1' '9'], [.one ' ', .rng '1' '9']],
       .tst (.oneCI 'T'),
       .grp "H" [[.one '2', .rng '0' '3'], [.rng '0' '1', .digit], [.digit]],
       .tst (.oneCI ':'),
       .grp "M" [[.rng '0' '5', .digit], [.digit]],
       .tst (.oneCI ':'),
       .grp "S" [[.one '6', .rng '0' '1'], [.rng '0' '5', .digit], [.digit]]]
      from rfl, hIeq]
    apply stepY
    apply stepTst (by decide)
    apply stepm (by omega) (by omega)
    apply stepTst (by decide)
    apply stepd (by omega) (by omega)
    apply stepTst (by decide)
    apply stepH (by omega) (by omega)
    apply stepTst (by decide)
    apply stepM (by omega) (by omega)
    apply stepTst (by decide)
    apply stepS (by omega) (by omega)
    decide
  have hstrp : strptime (String.mk I) "%Y/%m/%dT%H:%M:%S" =
      .ok ⟨y, m, d, h, mi, s, 0⟩ := by
    rw [strptime, show (String.mk I).data = I from rfl]
    rw [hmrun]
    simp only [hlen, if_true]
    simp only [show groupSlice I [("Y", (0, 4)), ("m", (5, 7)), ("d", (8, 10)), ("H", (11, 13)), ("M", (14, 16)), ("S", (17, 19))] "Y" =
        some (sliceL I 0 4) from rfl,
      show groupSlice I [("Y", (0, 4)), ("m", (5, 7)), ("d", (8, 10)), ("H", (11, 13)), ("M", (14, 16)), ("S", (17, 19))] "m" =
        some (sliceL I 5 7) from rfl,
      show groupSlice I [("Y", (0, 4)), ("m", (5, 7)), ("d", (8, 10)), ("H", (11, 13)), ("M", (14, 16)), ("S", (17, 19))] "d" =
        some (sliceL I 8 10) from rfl,
      show groupSlice I [("Y", (0, 4)), ("m", (5, 7)), ("d", (8, 10)), ("H", (11, 13)), ("M", (14, 16)), ("S", (17, 19))] "H" =
        some (sliceL I 11 13) from rfl,
      show groupSlice I [("Y", (0, 4)), ("m", (5, 7)), ("d", (8, 10)), ("H", (11, 13)), ("M", (14, 16)), ("S", (17, 19))] "M" =
        some (sliceL I 14 16) from rfl,
      show groupSlice I [("Y", (0, 4)), ("m", (5, 7)), ("d", (8, 10)), ("H", (11, 13)), ("M", (14, 16)), ("S", (17, 19))] "S" =
        some (sliceL I 17 19) from rfl,
      show groupSlice I [("Y", (0, 4)), ("m", (5, 7)), ("d", (8, 10)), ("H", (11, 13)), ("M", (14, 16)), ("S", (17, 19))] "f" =
        none from rfl,
      show groupSlice I [("Y", (0, 4)), ("m", (5, 7)), ("d", (8, 10)), ("H", (11, 13)), ("M", (14, 16)), ("S", (17, 19))] "b" =
        none from rfl,
      hsY,
      hsm,
      hsd,
      hsH,
      hsM,
      hsS,
      Option.map_some', Option.getD_some, Option.map_none', Option.getD_none]
    rw [digitsToNat_digits4 (by omega), digitsToNat_digits2 (by omega), digitsToNat_digits2 (by omega), digitsToNat_digits2 (by omega), digitsToNat_digits2 (by omega), digitsToNat_digits2 (by omega)]
    simp only [datetimeNew, hv, if_true]
  simp only [parseTime, TIME_FORMAT_LIST]
  rw [parseLoop_skip_none hskA0,
    parseLoop_skip_none hskA1,
    parseLoop_skip_none hskA2,
    parseLoop_skip_none hskA3,
    parseLoop_success hrp hstrp]
  exact dtAddTd_zero hv

theorem roundtrip5 (now : DT) (y m d h mi s us : Nat)
    (hv : validDT ⟨y, m, d, h, mi, s, us⟩ = true) :
    parseTime now (.str (String.mk
      (formatPattern "%Y%m%dT%H%M%S.%f".data ⟨y, m, d, h, mi, s, us⟩))) =
      .ok ⟨y, m, d, h, mi, s, us⟩ := by
  have hv2 := hv
  simp only [validDT, Bool.and_eq_true, decide_eq_true_eq] at hv2
  have hd31 : d ≤ 31 := by
    have := daysInMonth_le31 y m
    omega
  set I := formatPattern "%Y%m%dT%H%M%S.%f".data
    (⟨y, m, d, h, mi, s, us⟩ : DT) with hI
  have hFor : List.Forall₂ chEq I
      (formatPattern "%Y%m%dT%H%M%S.%f".data ⟨1111, 11, 11, 11, 11, 11, 111111⟩) := by
    rw [hI]
    exact formatAux_chEq false _ (Or.inl (by decide))
  have hIeq : I = digits4 y ++ digits2 m ++ digits2 d ++ 'T' :: (digits2 h ++ digits2 mi ++ digits2 s ++ '.' :: (digits6 us ++ [])) := by
    rw [hI]; rfl
  have hlen : I.length = 22 := by rw [hIeq]; rfl
  have hsY : sliceL I 0 4 = digits4 y := by rw [hIeq]; rfl
  have hsm : sliceL I 4 6 = digits2 m := by rw [hIeq]; rfl
  have hsd : sliceL I 6 8 = digits2 d := by rw [hIeq]; rfl
  have hsH : sliceL I 9 11 = digits2 h := by rw [hIeq]; rfl
  have hsM : sliceL I 11 13 = digits2 mi := by rw [hIeq]; rfl
  have hsS : sliceL I 13 15 = digits2 s := by rw [hIeq]; rfl
  have hsf : sliceL I 16 22 = digits6 us := by rw [hIeq]; rfl
  have hskA0 : regexParseTime (String.mk I) "%Y-%m-%dT%H:%M:%S.%f" = .ok none := by
    apply regexParseTime_none
    rw [show (String.mk I).data = I from rfl, reMatch_chEq okS0 hFor]
    decide
  have hskA1 : regexParseTime (String.mk I) "%Y/%m/%dT%H:%M:%S.%f" = .ok none := by
    apply regexParseTime_none
    rw [show (String.mk I).data = I from rfl, reMatch_chEq okS1 hFor]
    decide
  have hskA2 : regexParseTime (String.mk I) "%Y-%m-%dT%H:%M:%S.%fZ" = .ok none := by
    apply regexParseTime_none
    rw [show (String.mk I).data = I from rfl, reMatch_chEq okS2 hFor]
    decide
  have hskA3 : regexParseTime (String.mk I) "%Y-%m-%dT%H:%M:%S" = .ok none := by
    apply regexParseTime_none
    rw [show (String.mk I).data = I from rfl, reMatch_chEq okS3 hFor]
    decide
  have hskA4 : regexParseTime (String.mk I) "%Y/%m/%dT%H:%M:%S" = .ok none := by
    apply regexParseTime_none
    rw [show (String.mk I).data = I from rfl, reMatch_chEq okS4 hFor]
    decide
  have hre : reMatch (compileSunpy "%Y%m%dT%H%M%S.%f".data) I =
      some (22, [("year", (0, 4)), ("month", (4, 6)), ("day", (6, 8)), ("hour", (9, 11)), ("minute", (11, 13)), ("second", (13, 15)), ("microsecond", (16, 22))]) := by
    rw [reMatch_chEq okS5 hFor]
    decide
  have hrp : regexParseTime (String.mk I) "%Y%m%dT%H%M%S.%f" =
      .ok (some (String.mk I, ⟨0, 0, 0⟩)) := by
    refine regexParseTime_hour_ne24 hre rfl ?_
    show ¬ sliceL I 9 11 = "24".data
    rw [hsH]
    exact digits2_ne24 (by omega)
  have hmrun : mrun (compileStrp "%Y%m%dT%H%M%S.%f".data) I 0 [] =
      some (22, [("Y", (0, 4)), ("m", (4, 6)), ("d", (6, 8)), ("H", (9, 11)), ("M", (11, 13)), ("S", (13, 15)), ("f", (16, 22))]) := by
    rw [show compileStrp "%Y%m%dT%H%M%S.%f".data =
      [.grp "Y" [[.digit, .digit, .digit, .digit]],
       .grp "m" [[.one '1', .rng '0' '2'], [.one '0', .rng '1' '9'], [.rng '1' '9']],
       .grp "d" [[.one '3', .rng '0' '1'], [.rng '1' '2', .digit], [.one '0', .rng '1' '9'], [.rng '1' '9'], [.one ' ', .rng '1' '9']],
       .tst (.oneCI 'T'),
       .grp "H" [[.one '2', .rng '0' '3'], [.rng '0' '1', .digit], [.digit]],
       .grp "M" [[.rng '0' '5', .digit], [.digit]],
       .grp "S" [[.one '6', .rng '0' '1'], [.rng '0' '5', .digit], [.digit]],
       .tst (.oneCI '.'),
       .rep "f" .digit 1 (some 6)]
      from rfl, hIeq]
    apply stepY
    apply stepm (by omega) (by omega)
    apply stepd (by omega) (by omega)
    apply stepTst (by decide)
    apply stepH (by omega) (by omega)
    apply stepM (by omega) (by omega)
    apply stepS (by omega) (by omega)
    apply stepTst (by decide)
    apply stepf (by decide)
    decide
  have hstrp : strptime (String.mk I) "%Y%m%dT%H%M%S.%f" =
      .ok ⟨y, m, d, h, mi, s, us⟩ := by
    rw [strptime, show (String.mk I).data = I from rfl]
    rw [hmrun]
    simp only [hlen, if_true]
    simp only [show groupSlice I [("Y", (0, 4)), ("m", (4, 6)), ("d", (6, 8)), ("H", (9, 11)), ("M", (11, 13)), ("S", (13, 15)), ("f", (16, 22))] "Y" =
        some (sliceL I 0 4) from rfl,
      show groupSlice I [("Y", (0, 4)), ("m", (4, 6)), ("d", (6, 8)), ("H", (9, 11)), ("M", (11, 13)), ("S", (13, 15)), ("f", (16, 22))] "m" =
        some (sliceL I 4 6) from rfl,
      show groupSlice I [("Y", (0, 4)), ("m", (4, 6)), ("d", (6, 8)), ("H", (9, 11)), ("M", (11, 13)), ("S", (13, 15)), ("f", (16, 22))] "d" =
        some (sliceL I 6 8) from rfl,
      show groupSlice I [("Y", (0, 4)), ("m", (4, 6)), ("d", (6, 8)), ("H", (9, 11)), ("M", (11, 13)), ("S", (13, 15)), ("f", (16, 22))] "H" =
        some (sliceL I 9 11) from rfl,
      show groupSlice I [("Y", (0, 4)), ("m", (4, 6)), ("d", (6, 8)), ("H", (9, 11)), ("M", (11, 13)), ("S", (13, 15)), ("f", (16, 22))] "M" =
        some (sliceL I 11 13) from rfl,
      show groupSlice I [("Y", (0, 4)), ("m", (4, 6)), ("d", (6, 8)), ("H", (9, 11)), ("M", (11, 13)), ("S", (13, 15)), ("f", (16, 22))] "S" =
        some (sliceL I 13 15) from rfl,
      show groupSlice I [("Y", (0, 4)), ("m", (4, 6)), ("d", (6, 8)), ("H", (9, 11)), ("M", (11, 13)), ("S", (13, 15)), ("f", (16, 22))] "f" =
        some (sliceL I 16 22) from rfl,
      show groupSlice I [("Y", (0, 4)), ("m", (4, 6)), ("d", (6, 8)), ("H", (9, 11)), ("M", (11, 13)), ("S", (13, 15)), ("f", (16, 22))] "b" =
        none from rfl,
      hsY,
      hsm,
      hsd,
      hsH,
      hsM,
      hsS,
      hsf,
      show List.replicate (6 - (digits6 us).length) '0' = [] from rfl,
      List.append_nil,
      Option.map_some', Option.getD_some, Option.map_none', Option.getD_none]
    rw [digitsToNat_digits4 (by omega), digitsToNat_digits2 (by omega), digitsToNat_digits2 (by omega), digitsToNat_digits2 (by omega), digitsToNat_digits2 (by omega), digitsToNat_digits2 (by omega), digitsToNat_digits6 (by omega)]
    simp only [datetimeNew, hv, if_true]
  simp only [parseTime, TIME_FORMAT_LIST]
  rw [parseLoop_skip_none hskA0,
    parseLoop_skip_none hskA1,
    parseLoop_skip_none hskA2,
    parseLoop_skip_none hskA3,
    parseLoop_skip_none hskA4,
    parseLoop_success hrp hstrp]
  exact dtAddTd_zero hv

theorem roundtrip6 (now : DT) (y m d h mi s : Nat)
    (hv : validDT ⟨y, m, d, h, mi, s, 0⟩ = true) :
    parseTime now (.str (String.mk
      (formatPattern "%Y%m%dT%H%M%S".data ⟨y, m, d, h, mi, s, 0⟩))) =
      .ok ⟨y, m, d, h, mi, s, 0⟩ := by
  have hv2 := hv
  simp only [validDT, Bool.and_eq_true, decide_eq_true_eq] at hv2
  have hd31 : d ≤ 31 := by
    have := daysInMonth_le31 y m
    omega
  set I := formatPattern "%Y%m%dT%H%M%S".data
    (⟨y, m, d, h, mi, s, 0⟩ : DT) with hI
  have hFor : List.Forall₂ chEq I
      (formatPattern "%Y%m%dT%H%M%S".data ⟨1111, 11, 11, 11, 11, 11, 111111⟩) := by
    rw [hI]
    exact formatAux_chEq false _ (Or.inl (by decide))
  have hIeq : I = digits4 y ++ digits2 m ++ digits2 d ++ 'T' :: (digits2 h ++ digits2 mi ++ digits2 s ++ []) := by
    rw [hI]; rfl
  have hlen : I.length = 15 := by rw [hIeq]; rfl
  have hsY : sliceL I 0 4 = digits4 y := by rw [hIeq]; rfl
  have hsm : sliceL I 4 6 = digits2 m := by rw [hIeq]; rfl
  have hsd : sliceL I 6 8 = digits2 d := by rw [hIeq]; rfl
  have hsH : sliceL I 9 11 = digits2 h := by rw [hIeq]; rfl
  have hsM : sliceL I 11 13 = digits2 mi := by rw [hIeq]; rfl
  have hsS : sliceL I 13 15 = digits2 s := by rw [hIeq]; rfl
  have hskA0 : regexParseTime (String.mk I) "%Y-%m-%dT%H:%M:%S.%f" = .ok none := by
    apply regexParseTime_none
    rw [show (String.mk I).data = I from rfl, reMatch_chEq okS0 hFor]
    decide
  have hskA1 : regexParseTime (String.mk I) "%Y/%m/%dT%H:%M:%S.%f" = .ok none := by
    apply regexParseTime_none
    rw [show (String.mk I).data = I from rfl, reMatch_chEq okS1 hFor]
    decide
  have hskA2 : regexParseTime (String.mk I) "%Y-%m-%dT%H:%M:%S.%fZ" = .ok none := by
    apply regexParseTime_none
    rw [show (String.mk I).data = I from rfl, reMatch_chEq okS2 hFor]
    decide
  have hskA3 : regexParseTime (String.mk I) "%Y-%m-%dT%H:%M:%S" = .ok none := by
    apply regexParseTime_none
    rw [show (String.mk I).data = I from rfl, reMatch_chEq okS3 hFor]
    decide
  have hskA4 : regexParseTime (String.mk I) "%Y/%m/%dT%H:%M:%S" = .ok none := by
    apply regexParseTime_none
    rw [show (String.mk I).data = I from rfl, reMatch_chEq okS4 hFor]
    decide
  have hreB5 : reMatch (compileSunpy "%Y%m%dT%H%M%S.%f".data) I =
      some (15, [("year", (0, 4)), ("month", (4, 6)), ("day", (6, 8)), ("hour", (9, 11)), ("minute", (11, 12)), ("second", (12, 13)), ("microsecond", (14, 15))]) := by
    rw [reMatch_chEq okS5 hFor]
    decide
  have hskB5 : regexParseTime (String.mk I) "%Y%m%dT%H%M%S.%f" =
      .ok (some (String.mk I, ⟨0, 0, 0⟩)) := by
    refine regexParseTime_hour_ne24 hreB5 rfl ?_
    show ¬ sliceL I 9 11 = "24".data
    rw [hsH]
    exact digits2_ne24 (by omega)
  have hstK5 : strptime (String.mk I) "%Y%m%dT%H%M%S.%f" =
      .error (.valueError .data) :=
    strptime_kill hFor okR5 (by decide)
  have hre : reMatch (compileSunpy "%Y%m%dT%H%M%S".data) I =
      some (15, [("year", (0, 4)), ("month", (4, 6)), ("day", (6, 8)), ("hour", (9, 11)), ("minute", (11, 13)), ("second", (13, 15))]) := by
    rw [reMatch_chEq okS6 hFor]
    decide
  have hrp : regexParseTime (String.mk I) "%Y%m%dT%H%M%S" =
      .ok (some (String.mk I, ⟨0, 0, 0⟩)) := by
    refine regexParseTime_hour_ne24 hre rfl ?_
    show ¬ sliceL I 9 11 = "24".data
    rw [hsH]
    exact digits2_ne24 (by omega)
  have hmrun : mrun (compileStrp "%Y%m%dT%H%M%S".data) I 0 [] =
      some (15, [("Y", (0, 4)), ("m", (4, 6)), ("d", (6, 8)), ("H", (9, 11)), ("M", (11, 13)), ("S", (13, 15))]) := by
    rw [show compileStrp "%Y%m%dT%H%M%S".data =
      [.grp "Y" [[.digit, .digit, .digit, .digit]],
       .grp "m" [[.one '1', .rng '0' '2'], [.one '0', .rng '1' '9'], [.rng '1' '9']],
       .grp "d" [[.one '3', .rng '0' '1'], [.rng '1' '2', .digit], [.one '0', .rng '1' '9'], [.rng '1' '9'], [.one ' ', .rng '1' '9']],
       .tst (.oneCI 'T'),
       .grp "H" [[.one '2', .rng '0' '3'], [.rng '0' '1', .digit], [.digit]],
       .grp "M" [[.rng '0' '5', .digit], [.digit]],
       .grp "S" [[.one '6', .rng '0' '1'], [.rng '0' '5', .digit], [.digit]]]
      from rfl, hIeq]
    apply stepY
    apply stepm (by omega) (by omega)
    apply stepd (by omega) (by omega)
    apply stepTst (by decide)
    apply stepH (by omega) (by omega)
    apply stepM (by omega) (by omega)
    apply stepS (by omega) (by omega)
    decide
  have hstrp : strptime (String.mk I) "%Y%m%dT%H%M%S" =
      .ok ⟨y, m, d, h, mi, s, 0⟩ := by
    rw [strptime, show (String.mk I).data = I from rfl]
    rw [hmrun]
    simp only [hlen, if_true]
    simp only [show groupSlice I [("Y", (0, 4)), ("m", (4, 6)), ("d", (6, 8)), ("H", (9, 11)), ("M", (11, 13)), ("S", (13, 15))] "Y" =
        some (sliceL I 0 4) from rfl,
      show groupSlice I [("Y", (0, 4)), ("m", (4, 6)), ("d", (6, 8)), ("H", (9, 11)), ("M", (11, 13)), ("S", (13, 15))] "m" =
        some (sliceL I 4 6) from rfl,
      show groupSlice I [("Y", (0, 4)), ("m", (4, 6)), ("d", (6, 8)), ("H", (9, 11)), ("M", (11, 13)), ("S", (13, 15))] "d" =
        some (sliceL I 6 8) from rfl,
      show groupSlice I [("Y", (0, 4)), ("m", (4, 6)), ("d", (6, 8)), ("H", (9, 11)), ("M", (11, 13)), ("S", (13, 15))] "H" =
        some (sliceL I 9 11) from rfl,
      show groupSlice I [("Y", (0, 4)), ("m", (4, 6)), ("d", (6, 8)), ("H", (9, 11)), ("M", (11, 13)), ("S", (13, 15))] "M" =
        some (sliceL I 11 13) from rfl,
      show groupSlice I [("Y", (0, 4)), ("m", (4, 6)), ("d", (6, 8)), ("H", (9, 11)), ("M", (11, 13)), ("S", (13, 15))] "S" =
        some (sliceL I 13 15) from rfl,
      show groupSlice I [("Y", (0, 4)), ("m", (4, 6)), ("d", (6, 8)), ("H", (9, 11)), ("M", (11, 13)), ("S", (13, 15))] "f" =
        none from rfl,
      show groupSlice I [("Y", (0, 4)), ("m", (4, 6)), ("d", (6, 8)), ("H", (9, 11)), ("M", (11, 13)), ("S", (13, 15))] "b" =
        none from rfl,
      hsY,
      hsm,
      hsd,
      hsH,
      hsM,
      hsS,
      Option.map_some', Option.getD_some, Option.map_none', Option.getD_none]
    rw [digitsToNat_digits4 (by omega), digitsToNat_digits2 (by omega), digitsToNat_digits2 (by omega), digitsToNat_digits2 (by omega), digitsToNat_digits2 (by omega), digitsToNat_digits2 (by omega)]
    simp only [datetimeNew, hv, if_true]
  simp only [parseTime, TIME_FORMAT_LIST]
  rw [parseLoop_skip_none hskA0,
    parseLoop_skip_none hskA1,
    parseLoop_skip_none hskA2,
    parseLoop_skip_none hskA3,
    parseLoop_skip_none hskA4,
    parseLoop_skip_strp hskB5 hstK5,
    parseLoop_success hrp hstrp]
  exact dtAddTd_zero hv

theorem roundtrip7 (now : DT) (y m d h mi s : Nat)
    (hv : validDT ⟨y, m, d, h, mi, s, 0⟩ = true) :
    parseTime now (.str (String.mk
      (formatPattern "%Y/%m/%d %H:%M:%S".data ⟨y, m, d, h, mi, s, 0⟩))) =
      .ok ⟨y, m, d, h, mi, s, 0⟩ := by
  have hv2 := hv
  simp only [validDT, Bool.and_eq_true, decide_eq_true_eq] at hv2
  have hd31 : d ≤ 31 := by
    have := daysInMonth_le31 y m
    omega
  set I := formatPattern "%Y/%m/%d %H:%M:%S".data
    (⟨y, m, d, h, mi, s, 0⟩ : DT) with hI
  have hFor : List.Forall₂ chEq I
      (formatPattern "%Y/%m/%d %H:%M:%S".data ⟨1111, 11, 11, 11, 11, 11, 111111⟩) := by
    rw [hI]
    exact formatAux_chEq false _ (Or.inl (by decide))
  have hIeq : I = digits4 y ++ '/' :: (digits2 m ++ '/' :: (digits2 d ++ ' ' :: (digits2 h ++ ':' :: (digits2 mi ++ ':' :: (digits2 s ++ []))))) := by
    rw [hI]; rfl
  have hlen : I.length = 19 := by rw [hIeq]; rfl
  have hsY : sliceL I 0 4 = digits4 y := by rw [hIeq]; rfl
  have hsm : sliceL I 5 7 = digits2 m := by rw [hIeq]; rfl
  have hsd : sliceL I 8 10 = digits2 d := by rw [hIeq]; rfl
  have hsH : sliceL I 11 13 = digits2 h := by rw [hIeq]; rfl
  have hsM : sliceL I 14 16 = digits2 mi := by rw [hIeq]; rfl
  have hsS : sliceL I 17 19 = digits2 s := by rw [hIeq]; rfl
  have hskA0 : regexParseTime (String.mk I) "%Y-%m-%dT%H:%M:%S.%f" = .ok none := by
    apply regexParseTime_none
    rw [show (String.mk I).data = I from rfl, reMatch_chEq okS0 hFor]
    decide
  have hskA1 : regexParseTime (String.mk I) "%Y/%m/%dT%H:%M:%S.%f" = .ok none := by
    apply regexParseTime_none
    rw [show (String.mk I).data = I from rfl, reMatch_chEq okS1 hFor]
    decide
  have hskA2 : regexParseTime (String.mk I) "%Y-%m-%dT%H:%M:%S.%fZ" = .ok none := by
    apply regexParseTime_none
    rw [show (String.mk I).data = I from rfl, reMatch_chEq okS2 hFor]
    decide
  have hskA3 : regexParseTime (String.mk I) "%Y-%m-%dT%H:%M:%S" = .ok none := by
    apply regexParseTime_none
    rw [show (String.mk I).data = I from rfl, reMatch_chEq okS3 hFor]
    decide
  have hskA4 : regexParseTime (String.mk I) "%Y/%m/%dT%H:%M:%S" = .ok none := by
    apply regexParseTime_none
    rw [show (String.mk I).data = I from rfl, reMatch_chEq okS4 hFor]
    decide
  have hskA5 : regexParseTime (String.mk I) "%Y%m%dT%H%M%S.%f" = .ok none := by
    apply regexParseTime_none
    rw [show (String.mk I).data = I from rfl, reMatch_chEq okS5 hFor]
    decide
  have hskA6 : regexParseTime (String.mk I) "%Y%m%dT%H%M%S" = .ok none := by
    apply regexParseTime_none
    rw [show (String.mk I).data = I from rfl, reMatch_chEq okS6 hFor]
    decide
  have hre : reMatch (compileSunpy "%Y/%m/%d %H:%M:%S".data) I =
      some (19, [("year", (0, 4)), ("month", (5, 7)), ("day", (8, 10)), ("hour", (11, 13)), ("minute", (14, 16)), ("second", (17, 19))]) := by
    rw [reMatch_chEq okS7 hFor]
    decide
  have hrp : regexParseTime (String.mk I) "%Y/%m/%d %H:%M:%S" =
      .ok (some (String.mk I, ⟨0, 0, 0⟩)) := by
    refine regexParseTime_hour_ne24 hre rfl ?_
    show ¬ sliceL I 11 13 = "24".data
    rw [hsH]
    exact digits2_ne24 (by omega)
  have hmrun : mrun (compileStrp "%Y/%m/%d %H:%M:%S".data) I 0 [] =
      some (19, [("Y", (0, 4)), ("m", (5, 7)), ("d", (8, 10)), ("H", (11, 13)), ("M", (14, 16)), ("S", (17, 19))]) := by
    rw [show compileStrp "%Y/%m/%d %H:%M:%S".data =
      [.grp "Y" [[.digit, .digit, .digit, .digit]],
       .tst (.oneCI '/'),
       .grp "m" [[.one '1', .rng '0' '2'], [.one '0', .rng '1' '9'], [.rng '1' '9']],
       .tst (.oneCI '/'),
       .grp "d" [[.one '3', .rng '0' '1'], [.rng '1' '2', .digit], [.one '0', .rng '1' '9'], [.rng '1' '9'], [.one ' ', .rng '1' '9']],
       .ws,
       .grp "H" [[.one '2', .rng '0' '3'], [.rng '0' '1', .digit], [.digit]],
       .tst (.oneCI ':'),
       .grp "M" [[.rng '0' '5', .digit], [.digit]],
       .tst (.oneCI ':'),
       .grp "S" [[.one '6', .rng '0' '1'], [.rng '0' '5', .digit], [.digit]]]
      from rfl, hIeq]
    apply stepY
    apply stepTst (by decide)
    apply stepm (by omega) (by omega)
    apply stepTst (by decide)
    apply stepd (by omega) (by omega)
    apply stepWs (wsLen_digits2 _ _)
    apply stepH (by omega) (by omega)
    apply stepTst (by decide)
    apply stepM (by omega) (by omega)
    apply stepTst (by decide)
    apply stepS (by omega) (by omega)
    decide
  have hstrp : strptime (String.mk I) "%Y/%m/%d %H:%M:%S" =
      .ok ⟨y, m, d, h, mi, s, 0⟩ := by
    rw [strptime, show (String.mk I).data = I from rfl]
    rw [hmrun]
    simp only [hlen, if_true]
    simp only [show groupSlice I [("Y", (0, 4)), ("m", (5, 7)), ("d", (8, 10)), ("H", (11, 13)), ("M", (14, 16)), ("S", (17, 19))] "Y" =
        some (sliceL I 0 4) from rfl,
      show groupSlice I [("Y", (0, 4)), ("m", (5, 7)), ("d", (8, 10)), ("H", (11, 13)), ("M", (14, 16)), ("S", (17, 19))] "m" =
        some (sliceL I 5 7) from rfl,
      show groupSlice I [("Y", (0, 4)), ("m", (5, 7)), ("d", (8, 10)), ("H", (11, 13)), ("M", (14, 16)), ("S", (17, 19))] "d" =
        some (sliceL I 8 10) from rfl,
      show groupSlice I [("Y", (0, 4)), ("m", (5, 7)), ("d", (8, 10)), ("H", (11, 13)), ("M", (14, 16)), ("S", (17, 19))] "H" =
        some (sliceL I 11 13) from rfl,
      show groupSlice I [("Y", (0, 4)), ("m", (5, 7)), ("d", (8, 10)), ("H", (11, 13)), ("M", (14, 16)), ("S", (17, 19))] "M" =
        some (sliceL I 14 16) from rfl,
      show groupSlice I [("Y", (0, 4)), ("m", (5, 7)), ("d", (8, 10)), ("H", (11, 13)), ("M", (14, 16)), ("S", (17, 19))] "S" =
        some (sliceL I 17 19) from rfl,
      show groupSlice I [("Y", (0, 4)), ("m", (5, 7)), ("d", (8, 10)), ("H", (11, 13)), ("M", (14, 16)), ("S", (17, 19))] "f" =
        none from rfl,
      show groupSlice I [("Y", (0, 4)), ("m", (5, 7)), ("d", (8, 10)), ("H", (11, 13)), ("M", (14, 16)), ("S", (17, 19))] "b" =
        none from rfl,
      hsY,
      hsm,
      hsd,
      hsH,
      hsM,
      hsS,
      Option.map_some', Option.getD_some, Option.map_none', Option.getD_none]
    rw [digitsToNat_digits4 (by omega), digitsToNat_digits2 (by omega), digitsToNat_digits2 (by omega), digitsToNat_digits2 (by omega), digitsToNat_digits2 (by omega), digitsToNat_digits2 (by omega)]
    simp only [datetimeNew, hv, if_true]
  simp only [parseTime, TIME_FORMAT_LIST]
  rw [parseLoop_skip_none hskA0,
    parseLoop_skip_none hskA1,
    parseLoop_skip_none hskA2,
    parseLoop_skip_none hskA3,
    parseLoop_skip_none hskA4,
    parseLoop_skip_none hskA5,
    parseLoop_skip_none hskA6,
    parseLoop_success hrp hstrp]
  exact dtAddTd_zero hv

theorem roundtrip8 (now : DT) (y m d h mi : Nat)
    (hv : validDT ⟨y, m, d, h, mi, 0, 0⟩ = true) :
    parseTime now (.str (String.mk
      (formatPattern "%Y/%m/%d %H:%M".data ⟨y, m, d, h, mi, 0, 0⟩))) =
      .ok ⟨y, m, d, h, mi, 0, 0⟩ := by
  have hv2 := hv
  simp only [validDT, Bool.and_eq_true, decide_eq_true_eq] at hv2
  have hd31 : d ≤ 31 := by
    have := daysInMonth_le31 y m
    omega
  set I := formatPattern "%Y/%m/%d %H:%M".data
    (⟨y, m, d, h, mi, 0, 0⟩ : DT) with hI
  have hFor : List.Forall₂ chEq I
      (formatPattern "%Y/%m/%d %H:%M".data ⟨1111, 11, 11, 11, 11, 11, 111111⟩) := by
    rw [hI]
    exact formatAux_chEq false _ (Or.inl (by decide))
  have hIeq : I = digits4 y ++ '/' :: (digits2 m ++ '/' :: (digits2 d ++ ' ' :: (digits2 h ++ ':' :: (digits2 mi ++ [])))) := by
    rw [hI]; rfl
  have hlen : I.length = 16 := by rw [hIeq]; rfl
  have hsY : sliceL I 0 4 = digits4 y := by rw [hIeq]; rfl
  have hsm : sliceL I 5 7 = digits2 m := by rw [hIeq]; rfl
  have hsd : sliceL I 8 10 = digits2 d := by rw [hIeq]; rfl
  have hsH : sliceL I 11 13 = digits2 h := by rw [hIeq]; rfl
  have hsM : sliceL I 14 16 = digits2 mi := by rw [hIeq]; rfl
  have hskA0 : regexParseTime (String.mk I) "%Y-%m-%dT%H:%M:%S.%f" = .ok none := by
    apply regexParseTime_none
    rw [show (String.mk I).data = I from rfl, reMatch_chEq okS0 hFor]
    decide
  have hskA1 : regexParseTime (String.mk I) "%Y/%m/%dT%H:%M:%S.%f" = .ok none := by
    apply regexParseTime_none
    rw [show (String.mk I).data = I from rfl, reMatch_chEq okS1 hFor]
    decide
  have hskA2 : regexParseTime (String.mk I) "%Y-%m-%dT%H:%M:%S.%fZ" = .ok none := by
    apply regexParseTime_none
    rw [show (String.mk I).data = I from rfl, reMatch_chEq okS2 hFor]
    decide
  have hskA3 : regexParseTime (String.mk I) "%Y-%m-%dT%H:%M:%S" = .ok none := by
    apply regexParseTime_none
    rw [show (String.mk I).data = I from rfl, reMatch_chEq okS3 hFor]
    decide
  have hskA4 : regexParseTime (String.mk I) "%Y/%m/%dT%H:%M:%S" = .ok none := by
    apply regexParseTime_none
    rw [show (String.mk I).data = I from rfl, reMatch_chEq okS4 hFor]
    decide
  have hskA5 : regexParseTime (String.mk I) "%Y%m%dT%H%M%S.%f" = .ok none := by
    apply regexParseTime_none
    rw [show (String.mk I).data = I from rfl, reMatch_chEq okS5 hFor]
    decide
  have hskA6 : regexParseTime (String.mk I) "%Y%m%dT%H%M%S" = .ok none := by
    apply regexParseTime_none
    rw [show (String.mk I).data = I from rfl, reMatch_chEq okS6 hFor]
    decide
  have hskA7 : regexParseTime (String.mk I) "%Y/%m/%d %H:%M:%S" = .ok none := by
    apply regexParseTime_none
    rw [show (String.mk I).data = I from rfl, reMatch_chEq okS7 hFor]
    decide
  have hre : reMatch (compileSunpy "%Y/%m/%d %H:%M".data) I =
      some (16, [("year", (0, 4)), ("month", (5, 7)), ("day", (8, 10)), ("hour", (11, 13)), ("minute", (14, 16))]) := by
    rw [reMatch_chEq okS8 hFor]
    decide
  have hrp : regexParseTime (String.mk I) "%Y/%m/%d %H:%M" =
      .ok (some (String.mk I, ⟨0, 0, 0⟩)) := by
    refine regexParseTime_hour_ne24 hre rfl ?_
    show ¬ sliceL I 11 13 = "24".data
    rw [hsH]
    exact digits2_ne24 (by omega)
  have hmrun : mrun (compileStrp "%Y/%m/%d %H:%M".data) I 0 [] =
      some (16, [("Y", (0, 4)), ("m", (5, 7)), ("d", (8, 10)), ("H", (11, 13)), ("M", (14, 16))]) := by
    rw [show compileStrp "%Y/%m/%d %H:%M".data =
      [.grp "Y" [[.digit, .digit, .digit, .digit]],
       .tst (.oneCI '/'),
       .grp "m" [[.one '1', .rng '0' '2'], [.one '0', .rng '1' '9'], [.rng '1' '9']],
       .tst (.oneCI '/'),
       .grp "d" [[.one '3', .rng '0' '1'], [.rng '1' '2', .digit], [.one '0', .rng '1' '9'], [.rng '1' '9'], [.one ' ', .rng '1' '9']],
       .ws,
       .grp "H" [[.one '2', .rng '0' '3'], [.rng '0' '1', .digit], [.digit]],
       .tst (.oneCI ':'),
       .grp "M" [[.rng '0' '5', .digit], [.digit]]]
      from rfl, hIeq]
    apply stepY
    apply stepTst (by decide)
    apply stepm (by omega) (by omega)
    apply stepTst (by decide)
    apply stepd (by omega) (by omega)
    apply stepWs (wsLen_digits2 _ _)
    apply stepH (by omega) (by omega)
    apply stepTst (by decide)
    apply stepM (by omega) (by omega)
    decide
  have hstrp : strptime (String.mk I) "%Y/%m/%d %H:%M" =
      .ok ⟨y, m, d, h, mi, 0, 0⟩ := by
    rw [strptime, show (String.mk I).data = I from rfl]
    rw [hmrun]
    simp only [hlen, if_true]
    simp only [show groupSlice I [("Y", (0, 4)), ("m", (5, 7)), ("d", (8, 10)), ("H", (11, 13)), ("M", (14, 16))] "Y" =
        some (sliceL I 0 4) from rfl,
      show groupSlice I [("Y", (0, 4)), ("m", (5, 7)), ("d", (8, 10)), ("H", (11, 13)), ("M", (14, 16))] "m" =
        some (sliceL I 5 7) from rfl,
      show groupSlice I [("Y", (0, 4)), ("m", (5, 7)), ("d", (8, 10)), ("H", (11, 13)), ("M", (14, 16))] "d" =
        some (sliceL I 8 10) from rfl,
      show groupSlice I [("Y", (0, 4)), ("m", (5, 7)), ("d", (8, 10)), ("H", (11, 13)), ("M", (14, 16))] "H" =
        some (sliceL I 11 13) from rfl,
      show groupSlice I [("Y", (0, 4)), ("m", (5, 7)), ("d", (8, 10)), ("H", (11, 13)), ("M", (14, 16))] "M" =
        some (sliceL I 14 16) from rfl,
      show groupSlice I [("Y", (0, 4)), ("m", (5, 7)), ("d", (8, 10)), ("H", (11, 13)), ("M", (14, 16))] "S" =
        none from rfl,
      show groupSlice I [("Y", (0, 4)), ("m", (5, 7)), ("d", (8, 10)), ("H", (11, 13)), ("M", (14, 16))] "f" =
        none from rfl,
      show groupSlice I [("Y", (0, 4)), ("m", (5, 7)), ("d", (8, 10)), ("H", (11, 13)), ("M", (14, 16))] "b" =
        none from rfl,
      hsY,
      hsm,
      hsd,
      hsH,
      hsM,
      Option.map_some', Option.getD_some, Option.map_none', Option.getD_none]
    rw [digitsToNat_digits4 (by omega), digitsToNat_digits2 (by omega), digitsToNat_digits2 (by omega), digitsToNat_digits2 (by omega), digitsToNat_digits2 (by omega)]
    simp only [datetimeNew, hv, if_true]
  simp only [parseTime, TIME_FORMAT_LIST]
  rw [parseLoop_skip_none hskA0,
    parseLoop_skip_none hskA1,
    parseLoop_skip_none hskA2,
    parseLoop_skip_none hskA3,
    parseLoop_skip_none hskA4,
    parseLoop_skip_none hskA5,
    parseLoop_skip_none hskA6,
    parseLoop_skip_none hskA7,
    parseLoop_success hrp hstrp]
  exact dtAddTd_zero hv

theorem roundtrip9 (now : DT) (y m d h mi s us : Nat)
    (hv : validDT ⟨y, m, d, h, mi, s, us⟩ = true) :
    parseTime now (.str (String.mk
      (formatPattern "%Y/%m/%d %H:%M:%S.%f".data ⟨y, m, d, h, mi, s, us⟩))) =
      .ok ⟨y, m, d, h, mi, s, us⟩ := by
  have hv2 := hv
  simp only [validDT, Bool.and_eq_true, decide_eq_true_eq] at hv2
  have hd31 : d ≤ 31 := by
    have := daysInMonth_le31 y m
    omega
  set I := formatPattern "%Y/%m/%d %H:%M:%S.%f".data
    (⟨y, m, d, h, mi, s, us⟩ : DT) with hI
  have hFor : List.Forall₂ chEq I
      (formatPattern "%Y/%m/%d %H:%M:%S.%f".data ⟨1111, 11, 11, 11, 11, 11, 111111⟩) := by
    rw [hI]
    exact formatAux_chEq false _ (Or.inl (by decide))
  have hIeq : I = digits4 y ++ '/' :: (digits2 m ++ '/' :: (digits2 d ++ ' ' :: (digits2 h ++ ':' :: (digits2 mi ++ ':' :: (digits2 s ++ '.' :: (digits6 us ++ [])))))) := by
    rw [hI]; rfl
  have hlen : I.length = 26 := by rw [hIeq]; rfl
  have hsY : sliceL I 0 4 = digits4 y := by rw [hIeq]; rfl
  have hsm : sliceL I 5 7 = digits2 m := by rw [hIeq]; rfl
  have hsd : sliceL I 8 10 = digits2 d := by rw [hIeq]; rfl
  have hsH : sliceL I 11 13 = digits2 h := by rw [hIeq]; rfl
  have hsM : sliceL I 14 16 = digits2 mi := by rw [hIeq]; rfl
  have hsS : sliceL I 17 19 = digits2 s := by rw [hIeq]; rfl
  have hsf : sliceL I 20 26 = digits6 us := by rw [hIeq]; rfl
  have hskA0 : regexParseTime (String.mk I) "%Y-%m-%dT%H:%M:%S.%f" = .ok none := by
    apply regexParseTime_none
    rw [show (String.mk I).data = I from rfl, reMatch_chEq okS0 hFor]
    decide
  have hskA1 : regexParseTime (String.mk I) "%Y/%m/%dT%H:%M:%S.%f" = .ok none := by
    apply regexParseTime_none
    rw [show (String.mk I).data = I from rfl, reMatch_chEq okS1 hFor]
    decide
  have hskA2 : regexParseTime (String.mk I) "%Y-%m-%dT%H:%M:%S.%fZ" = .ok none := by
    apply regexParseTime_none
    rw [show (String.mk I).data = I from rfl, reMatch_chEq okS2 hFor]
    decide
  have hskA3 : regexParseTime (String.mk I) "%Y-%m-%dT%H:%M:%S" = .ok none := by
    apply regexParseTime_none
    rw [show (String.mk I).data = I from rfl, reMatch_chEq okS3 hFor]
    decide
  have hskA4 : regexParseTime (String.mk I) "%Y/%m/%dT%H:%M:%S" = .ok none := by
    apply regexParseTime_none
    rw [show (String.mk I).data = I from rfl, reMatch_chEq okS4 hFor]
    decide
  have hskA5 : regexParseTime (String.mk I) "%Y%m%dT%H%M%S.%f" = .ok none := by
    apply regexParseTime_none
    rw [show (String.mk I).data = I from rfl, reMatch_chEq okS5 hFor]
    decide
  have hskA6 : regexParseTime (String.mk I) "%Y%m%dT%H%M%S" = .ok none := by
    apply regexParseTime_none
    rw [show (String.mk I).data = I from rfl, reMatch_chEq okS6 hFor]
    decide
  have hreB7 : reMatch (compileSunpy "%Y/%m/%d %H:%M:%S".data) I =
      some (19, [("year", (0, 4)), ("month", (5, 7)), ("day", (8, 10)), ("hour", (11, 13)), ("minute", (14, 16)), ("second", (17, 19))]) := by
    rw [reMatch_chEq okS7 hFor]
    decide
  have hskB7 : regexParseTime (String.mk I) "%Y/%m/%d %H:%M:%S" =
      .ok (some (String.mk I, ⟨0, 0, 0⟩)) := by
    refine regexParseTime_hour_ne24 hreB7 rfl ?_
    show ¬ sliceL I 11 13 = "24".data
    rw [hsH]
    exact digits2_ne24 (by omega)
  have hstK7 : strptime (String.mk I) "%Y/%m/%d %H:%M:%S" =
      .error (.valueError .data) :=
    strptime_kill hFor okR7 (by decide)
  have hreB8 : reMatch (compileSunpy "%Y/%m/%d %H:%M".data) I =
      some (16, [("year", (0, 4)), ("month", (5, 7)), ("day", (8, 10)), ("hour", (11, 13)), ("minute", (14, 16))]) := by
    rw [reMatch_chEq okS8 hFor]
    decide
  have hskB8 : regexParseTime (String.mk I) "%Y/%m/%d %H:%M" =
      .ok (some (String.mk I, ⟨0, 0, 0⟩)) := by
    refine regexParseTime_hour_ne24 hreB8 rfl ?_
    show ¬ sliceL I 11 13 = "24".data
    rw [hsH]
    exact digits2_ne24 (by omega)
  have hstK8 : strptime (String.mk I) "%Y/%m/%d %H:%M" =
      .error (.valueError .data) :=
    strptime_kill hFor okR8 (by decide)
  have hre : reMatch (compileSunpy "%Y/%m/%d %H:%M:%S.%f".data) I =
      some (26, [("year", (0, 4)), ("month", (5, 7)), ("day", (8, 10)), ("hour", (11, 13)), ("minute", (14, 16)), ("second", (17, 19)), ("microsecond", (20, 26))]) := by
    rw [reMatch_chEq okS9 hFor]
    decide
  have hrp : regexParseTime (String.mk I) "%Y/%m/%d %H:%M:%S.%f" =
      .ok (some (String.mk I, ⟨0, 0, 0⟩)) := by
    refine regexParseTime_hour_ne24 hre rfl ?_
    show ¬ sliceL I 11 13 = "24".data
    rw [hsH]
    exact digits2_ne24 (by omega)
  have hmrun : mrun (compileStrp "%Y/%m/%d %H:%M:%S.%f".data) I 0 [] =
      some (26, [("Y", (0, 4)), ("m", (5, 7)), ("d", (8, 10)), ("H", (11, 13)), ("M", (14, 16)), ("S", (17, 19)), ("f", (20, 26))]) := by
    rw [show compileStrp "%Y/%m/%d %H:%M:%S.%f".data =
      [.grp "Y" [[.digit, .digit, .digit, .digit]],
       .tst (.oneCI '/'),
       .grp "m" [[.one '1', .rng '0' '2'], [.one '0', .rng '1' '9'], [.rng '1' '9']],
       .tst (.oneCI '/'),
       .grp "d" [[.one '3', .rng '0' '1'], [.rng '1' '2', .digit], [.one '0', .rng '1' '9'], [.rng '1' '9'], [.one ' ', .rng '1' '9']],
       .ws,
       .grp "H" [[.one '2', .rng '0' '3'], [.rng '0' '1', .digit], [.digit]],
       .tst (.oneCI ':'),
       .grp "M" [[.rng '0' '5', .digit], [.digit]],
       .tst (.oneCI ':'),
       .grp "S" [[.one '6', .rng '0' '1'], [.rng '0' '5', .digit], [.digit]],
       .tst (.oneCI '.'),
       .rep "f" .digit 1 (some 6)]
      from rfl, hIeq]
    apply stepY
    apply stepTst (by decide)
    apply stepm (by omega) (by omega)
    apply stepTst (by decide)
    apply stepd (by omega) (by omega)
    apply stepWs (wsLen_digits2 _ _)
    apply stepH (by omega) (by omega)
    apply stepTst (by decide)
    apply stepM (by omega) (by omega)
    apply stepTst (by decide)
    apply stepS (by omega) (by omega)
    apply stepTst (by decide)
    apply stepf (by decide)
    decide
  have hstrp : strptime (String.mk I) "%Y/%m/%d %H:%M:%S.%f" =
      .ok ⟨y, m, d, h, mi, s, us⟩ := by
    rw [strptime, show (String.mk I).data = I from rfl]
    rw [hmrun]
    simp only [hlen, if_true]
    simp only [show groupSlice I [("Y", (0, 4)), ("m", (5, 7)), ("d", (8, 10)), ("H", (11, 13)), ("M", (14, 16)), ("S", (17, 19)), ("f", (20, 26))] "Y" =
        some (sliceL I 0 4) from rfl,
      show groupSlice I [("Y", (0, 4)), ("m", (5, 7)), ("d", (8, 10)), ("H", (11, 13)), ("M", (14, 16)), ("S", (17, 19)), ("f", (20, 26))] "m" =
        some (sliceL I 5 7) from rfl,
      show groupSlice I [("Y", (0, 4)), ("m", (5, 7)), ("d", (8, 10)), ("H", (11, 13)), ("M", (14, 16)), ("S", (17, 19)), ("f", (20, 26))] "d" =
        some (sliceL I 8 10) from rfl,
      show groupSlice I [("Y", (0, 4)), ("m", (5, 7)), ("d", (8, 10)), ("H", (11, 13)), ("M", (14, 16)), ("S", (17, 19)), ("f", (20, 26))] "H" =
        some (sliceL I 11 13) from rfl,
      show groupSlice I [("Y", (0, 4)), ("m", (5, 7)), ("d", (8, 10)), ("H", (11, 13)), ("M", (14, 16)), ("S", (17, 19)), ("f", (20, 26))] "M" =
        some (sliceL I 14 16) from rfl,
      show groupSlice I [("Y", (0, 4)), ("m", (5, 7)), ("d", (8, 10)), ("H", (11, 13)), ("M", (14, 16)), ("S", (17, 19)), ("f", (20, 26))] "S" =
        some (sliceL I 17 19) from rfl,
      show groupSlice I [("Y", (0, 4)), ("m", (5, 7)), ("d", (8, 10)), ("H", (11, 13)), ("M", (14, 16)), ("S", (17, 19)), ("f", (20, 26))] "f" =
        some (sliceL I 20 26) from rfl,
      show groupSlice I [("Y", (0, 4)), ("m", (5, 7)), ("d", (8, 10)), ("H", (11, 13)), ("M", (14, 16)), ("S", (17, 19)), ("f", (20, 26))] "b" =
        none from rfl,
      hsY,
      hsm,
      hsd,
      hsH,
      hsM,
      hsS,
      hsf,
      show List.replicate (6 - (digits6 us).length) '0' = [] from rfl,
      List.append_nil,
      Option.map_some', Option.getD_some, Option.map_none', Option.getD_none]
    rw [digitsToNat_digits4 (by omega), digitsToNat_digits2 (by omega), digitsToNat_digits2 (by omega), digitsToNat_digits2 (by omega), digitsToNat_digits2 (by omega), digitsToNat_digits2 (by omega), digitsToNat_digits6 (by omega)]
    simp only [datetimeNew, hv, if_true]
  simp only [parseTime, TIME_FORMAT_LIST]
  rw [parseLoop_skip_none hskA0,
    parseLoop_skip_none hskA1,
    parseLoop_skip_none hskA2,
    parseLoop_skip_none hskA3,
    parseLoop_skip_none hskA4,
    parseLoop_skip_none hskA5,
    parseLoop_skip_none hskA6,
    parseLoop_skip_strp hskB7 hstK7,
    parseLoop_skip_strp hskB8 hstK8,
    parseLoop_success hrp hstrp]
  exact dtAddTd_zero hv

theorem roundtrip10 (now : DT) (y m d h mi s us : Nat)
    (hv : validDT ⟨y, m, d, h, mi, s, us⟩ = true) :
    parseTime now (.str (String.mk
      (formatPattern "%Y-%m-%d %H:%M:%S.%f".data ⟨y, m, d, h, mi, s, us⟩))) =
      .ok ⟨y, m, d, h, mi, s, us⟩ := by
  have hv2 := hv
  simp only [validDT, Bool.and_eq_true, decide_eq_true_eq] at hv2
  have hd31 : d ≤ 31 := by
    have := daysInMonth_le31 y m
    omega
  set I := formatPattern "%Y-%m-%d %H:%M:%S.%f".data
    (⟨y, m, d, h, mi, s, us⟩ : DT) with hI
  have hFor : List.Forall₂ chEq I
      (formatPattern "%Y-%m-%d %H:%M:%S.%f".data ⟨1111, 11, 11, 11, 11, 11, 111111⟩) := by
    rw [hI]
    exact formatAux_chEq false _ (Or.inl (by decide))
  have hIeq : I = digits4 y ++ '-' :: (digits2 m ++ '-' :: (digits2 d ++ ' ' :: (digits2 h ++ ':' :: (digits2 mi ++ ':' :: (digits2 s ++ '.' :: (digits6 us ++ [])))))) := by
    rw [hI]; rfl
  have hlen : I.length = 26 := by rw [hIeq]; rfl
  have hsY : sliceL I 0 4 = digits4 y := by rw [hIeq]; rfl
  have hsm : sliceL I 5 7 = digits2 m := by rw [hIeq]; rfl
  have hsd : sliceL I 8 10 = digits2 d := by rw [hIeq]; rfl
  have hsH : sliceL I 11 13 = digits2 h := by rw [hIeq]; rfl
  have hsM : sliceL I 14 16 = digits2 mi := by rw [hIeq]; rfl
  have hsS : sliceL I 17 19 = digits2 s := by rw [hIeq]; rfl
  have hsf : sliceL I 20 26 = digits6 us := by rw [hIeq]; rfl
  have hskA0 : regexParseTime (String.mk I) "%Y-%m-%dT%H:%M:%S.%f" = .ok none := by
    apply regexParseTime_none
    rw [show (String.mk I).data = I from rfl, reMatch_chEq okS0 hFor]
    decide
  have hskA1 : regexParseTime (String.mk I) "%Y/%m/%dT%H:%M:%S.%f" = .ok none := by
    apply regexParseTime_none
    rw [show (String.mk I).data = I from rfl, reMatch_chEq okS1 hFor]
    decide
  have hskA2 : regexParseTime (String.mk I) "%Y-%m-%dT%H:%M:%S.%fZ" = .ok none := by
    apply regexParseTime_none
    rw [show (String.mk I).data = I from rfl, reMatch_chEq okS2 hFor]
    decide
  have hskA3 : regexParseTime (String.mk I) "%Y-%m-%dT%H:%M:%S" = .ok none := by
    apply regexParseTime_none
    rw [show (String.mk I).data = I from rfl, reMatch_chEq okS3 hFor]
    decide
  have hskA4 : regexParseTime (String.mk I) "%Y/%m/%dT%H:%M:%S" = .ok none := by
    apply regexParseTime_none
    rw [show (String.mk I).data = I from rfl, reMatch_chEq okS4 hFor]
    decide
  have hskA5 : regexParseTime (String.mk I) "%Y%m%dT%H%M%S.%f" = .ok none := by
    apply regexParseTime_none
    rw [show (String.mk I).data = I from rfl, reMatch_chEq okS5 hFor]
    decide
  have hskA6 : regexParseTime (String.mk I) "%Y%m%dT%H%M%S" = .ok none := by
    apply regexParseTime_none
    rw [show (String.mk I).data = I from rfl, reMatch_chEq okS6 hFor]
    decide
  have hskA7 : regexParseTime (String.mk I) "%Y/%m/%d %H:%M:%S" = .ok none := by
    apply regexParseTime_none
    rw [show (String.mk I).data = I from rfl, reMatch_chEq okS7 hFor]
    decide
  have hskA8 : regexParseTime (String.mk I) "%Y/%m/%d %H:%M" = .ok none := by
    apply regexParseTime_none
    rw [show (String.mk I).data = I from rfl, reMatch_chEq okS8 hFor]
    decide
  have hskA9 : regexParseTime (String.mk I) "%Y/%m/%d %H:%M:%S.%f" = .ok none := by
    apply regexParseTime_none
    rw [show (String.mk I).data = I from rfl, reMatch_chEq okS9 hFor]
    decide
  have hre : reMatch (compileSunpy "%Y-%m-%d %H:%M:%S.%f".data) I =
      some (26, [("year", (0, 4)), ("month", (5, 7)), ("day", (8, 10)), ("hour", (11, 13)), ("minute", (14, 16)), ("second", (17, 19)), ("microsecond", (20, 26))]) := by
    rw [reMatch_chEq okS10 hFor]
    decide
  have hrp : regexParseTime (String.mk I) "%Y-%m-%d %H:%M:%S.%f" =
      .ok (some (String.mk I, ⟨0, 0, 0⟩)) := by
    refine regexParseTime_hour_ne24 hre rfl ?_
    show ¬ sliceL I 11 13 = "24".data
    rw [hsH]
    exact digits2_ne24 (by omega)
  have hmrun : mrun (compileStrp "%Y-%m-%d %H:%M:%S.%f".data) I 0 [] =
      some (26, [("Y", (0, 4)), ("m", (5, 7)), ("d", (8, 10)), ("H", (11, 13)), ("M", (14, 16)), ("S", (17, 19)), ("f", (20, 26))]) := by
    rw [show compileStrp "%Y-%m-%d %H:%M:%S.%f".data =
      [.grp "Y" [[.digit, .digit, .digit, .digit]],
       .tst (.oneCI '-'),
       .grp "m" [[.one '1', .rng '0' '2'], [.one '0', .rng '1' '9'], [.rng '1' '9']],
       .tst (.oneCI '-'),
       .grp "d" [[.one '3', .rng '0' '1'], [.rng '1' '2', .digit], [.one '0', .rng '1' '9'], [.rng '1' '9'], [.one ' ', .rng '1' '9']],
       .ws,
       .grp "H" [[.one '2', .rng '0' '3'], [.rng '0' '1', .digit], [.digit]],
       .tst (.oneCI ':'),
       .grp "M" [[.rng '0' '5', .digit], [.digit]],
       .tst (.oneCI ':'),
       .grp "S" [[.one '6', .rng '0' '1'], [.rng '0' '5', .digit], [.digit]],
       .tst (.oneCI '.'),
       .rep "f" .digit 1 (some 6)]
      from rfl, hIeq]
    apply stepY
    apply stepTst (by decide)
    apply stepm (by omega) (by omega)
    apply stepTst (by decide)
    apply stepd (by omega) (by omega)
    apply stepWs (wsLen_digits2 _ _)
    apply stepH (by omega) (by omega)
    apply stepTst (by decide)
    apply stepM (by omega) (by omega)
    apply stepTst (by decide)
    apply stepS (by omega) (by omega)
    apply stepTst (by decide)
    apply stepf (by decide)
    decide
  have hstrp : strptime (String.mk I) "%Y-%m-%d %H:%M:%S.%f" =
      .ok ⟨y, m, d, h, mi, s, us⟩ := by
    rw [strptime, show (String.mk I).data = I from rfl]
    rw [hmrun]
    simp only [hlen, if_true]
    simp only [show groupSlice I [("Y", (0, 4)), ("m", (5, 7)), ("d", (8, 10)), ("H", (11, 13)), ("M", (14, 16)), ("S", (17, 19)), ("f", (20, 26))] "Y" =
        some (sliceL I 0 4) from rfl,
      show groupSlice I [("Y", (0, 4)), ("m", (5, 7)), ("d", (8, 10)), ("H", (11, 13)), ("M", (14, 16)), ("S", (17, 19)), ("f", (20, 26))] "m" =
        some (sliceL I 5 7) from rfl,
      show groupSlice I [("Y", (0, 4)), ("m", (5, 7)), ("d", (8, 10)), ("H", (11, 13)), ("M", (14, 16)), ("S", (17, 19)), ("f", (20, 26))] "d" =
        some (sliceL I 8 10) from rfl,
      show groupSlice I [("Y", (0, 4)), ("m", (5, 7)), ("d", (8, 10)), ("H", (11, 13)), ("M", (14, 16)), ("S", (17, 19)), ("f", (20, 26))] "H" =
        some (sliceL I 11 13) from rfl,
      show groupSlice I [("Y", (0, 4)), ("m", (5, 7)), ("d", (8, 10)), ("H", (11, 13)), ("M", (14, 16)), ("S", (17, 19)), ("f", (20, 26))] "M" =
        some (sliceL I 14 16) from rfl,
      show groupSlice I [("Y", (0, 4)), ("m", (5, 7)), ("d", (8, 10)), ("H", (11, 13)), ("M", (14, 16)), ("S", (17, 19)), ("f", (20, 26))] "S" =
        some (sliceL I 17 19) from rfl,
      show groupSlice I [("Y", (0, 4)), ("m", (5, 7)), ("d", (8, 10)), ("H", (11, 13)), ("M", (14, 16)), ("S", (17, 19)), ("f", (20, 26))] "f" =
        some (sliceL I 20 26) from rfl,
      show groupSlice I [("Y", (0, 4)), ("m", (5, 7)), ("d", (8, 10)), ("H", (11, 13)), ("M", (14, 16)), ("S", (17, 19)), ("f", (20, 26))] "b" =
        none from rfl,
      hsY,
      hsm,
      hsd,
      hsH,
      hsM,
      hsS,
      hsf,
      show List.replicate (6 - (digits6 us).length) '0' = [] from rfl,
      List.append_nil,
      Option.map_some', Option.getD_some, Option.map_none', Option.getD_none]
    rw [digitsToNat_digits4 (by omega), digitsToNat_digits2 (by omega), digitsToNat_digits2 (by omega), digitsToNat_digits2 (by omega), digitsToNat_digits2 (by omega), digitsToNat_digits2 (by omega), digitsToNat_digits6 (by omega)]
    simp only [datetimeNew, hv, if_true]
  simp only [parseTime, TIME_FORMAT_LIST]
  rw [parseLoop_skip_none hskA0,
    parseLoop_skip_none hskA1,
    parseLoop_skip_none hskA2,
    parseLoop_skip_none hskA3,
    parseLoop_skip_none hskA4,
    parseLoop_skip_none hskA5,
    parseLoop_skip_none hskA6,
    parseLoop_skip_none hskA7,
    parseLoop_skip_none hskA8,
    parseLoop_skip_none hskA9,
    parseLoop_success hrp hstrp]
  exact dtAddTd_zero hv

theorem roundtrip11 (now : DT) (y m d h mi s : Nat)
    (hv : validDT ⟨y, m, d, h, mi, s, 0⟩ = true) :
    parseTime now (.str (String.mk
      (formatPattern "%Y-%m-%d %H:%M:%S".data ⟨y, m, d, h, mi, s, 0⟩))) =
      .ok ⟨y, m, d, h, mi, s, 0⟩ := by
  have hv2 := hv
  simp only [validDT, Bool.and_eq_true, decide_eq_true_eq] at hv2
  have hd31 : d ≤ 31 := by
    have := daysInMonth_le31 y m
    omega
  set I := formatPattern "%Y-%m-%d %H:%M:%S".data
    (⟨y, m, d, h, mi, s, 0⟩ : DT) with hI
  have hFor : List.Forall₂ chEq I
      (formatPattern "%Y-%m-%d %H:%M:%S".data ⟨1111, 11, 11, 11, 11, 11, 111111⟩) := by
    rw [hI]
    exact formatAux_chEq false _ (Or.inl (by decide))
  have hIeq : I = digits4 y ++ '-' :: (digits2 m ++ '-' :: (digits2 d ++ ' ' :: (digits2 h ++ ':' :: (digits2 mi ++ ':' :: (digits2 s ++ []))))) := by
    rw [hI]; rfl
  have hlen : I.length = 19 := by rw [hIeq]; rfl
  have hsY : sliceL I 0 4 = digits4 y := by rw [hIeq]; rfl
  have hsm : sliceL I 5 7 = digits2 m := by rw [hIeq]; rfl
  have hsd : sliceL I 8 10 = digits2 d := by rw [hIeq]; rfl
  have hsH : sliceL I 11 13 = digits2 h := by rw [hIeq]; rfl
  have hsM : sliceL I 14 16 = digits2 mi := by rw [hIeq]; rfl
  have hsS : sliceL I 17 19 = digits2 s := by rw [hIeq]; rfl
  have hskA0 : regexParseTime (String.mk I) "%Y-%m-%dT%H:%M:%S.%f" = .ok none := by
    apply regexParseTime_none
    rw [show (String.mk I).data = I from rfl, reMatch_chEq okS0 hFor]
    decide
  have hskA1 : regexParseTime (String.mk I) "%Y/%m/%dT%H:%M:%S.%f" = .ok none := by
    apply regexParseTime_none
    rw [show (String.mk I).data = I from rfl, reMatch_chEq okS1 hFor]
    decide
  have hskA2 : regexParseTime (String.mk I) "%Y-%m-%dT%H:%M:%S.%fZ" = .ok none := by
    apply regexParseTime_none
    rw [show (String.mk I).data = I from rfl, reMatch_chEq okS2 hFor]
    decide
  have hskA3 : regexParseTime (String.mk I) "%Y-%m-%dT%H:%M:%S" = .ok none := by
    apply regexParseTime_none
    rw [show (String.mk I).data = I from rfl, reMatch_chEq okS3 hFor]
    decide
  have hskA4 : regexParseTime (String.mk I) "%Y/%m/%dT%H:%M:%S" = .ok none := by
    apply regexParseTime_none
    rw [show (String.mk I).data = I from rfl, reMatch_chEq okS4 hFor]
    decide
  have hskA5 : regexParseTime (String.mk I) "%Y%m%dT%H%M%S.%f" = .ok none := by
    apply regexParseTime_none
    rw [show (String.mk I).data = I from rfl, reMatch_chEq okS5 hFor]
    decide
  have hskA6 : regexParseTime (String.mk I) "%Y%m%dT%H%M%S" = .ok none := by
    apply regexParseTime_none
    rw [show (String.mk I).data = I from rfl, reMatch_chEq okS6 hFor]
    decide
  have hskA7 : regexParseTime (String.mk I) "%Y/%m/%d %H:%M:%S" = .ok none := by
    apply regexParseTime_none
    rw [show (String.mk I).data = I from rfl, reMatch_chEq okS7 hFor]
    decide
  have hskA8 : regexParseTime (String.mk I) "%Y/%m/%d %H:%M" = .ok none := by
    apply regexParseTime_none
    rw [show (String.mk I).data = I from rfl, reMatch_chEq okS8 hFor]
    decide
  have hskA9 : regexParseTime (String.mk I) "%Y/%m/%d %H:%M:%S.%f" = .ok none := by
    apply regexParseTime_none
    rw [show (String.mk I).data = I from rfl, reMatch_chEq okS9 hFor]
    decide
  have hskA10 : regexParseTime (String.mk I) "%Y-%m-%d %H:%M:%S.%f" = .ok none := by
    apply regexParseTime_none
    rw [show (String.mk I).data = I from rfl, reMatch_chEq okS10 hFor]
    decide
  have hre : reMatch (compileSunpy "%Y-%m-%d %H:%M:%S".data) I =
      some (19, [("year", (0, 4)), ("month", (5, 7)), ("day", (8, 10)), ("hour", (11, 13)), ("minute", (14, 16)), ("second", (17, 19))]) := by
    rw [reMatch_chEq okS11 hFor]
    decide
  have hrp : regexParseTime (String.mk I) "%Y-%m-%d %H:%M:%S" =
      .ok (some (String.mk I, ⟨0, 0, 0⟩)) := by
    refine regexParseTime_hour_ne24 hre rfl ?_
    show ¬ sliceL I 11 13 = "24".data
    rw [hsH]
    exact digits2_ne24 (by omega)
  have hmrun : mrun (compileStrp "%Y-%m-%d %H:%M:%S".data) I 0 [] =
      some (19, [("Y", (0, 4)), ("m", (5, 7)), ("d", (8, 10)), ("H", (11, 13)), ("M", (14, 16)), ("S", (17, 19))]) := by
    rw [show compileStrp "%Y-%m-%d %H:%M:%S".data =
      [.grp "Y" [[.digit, .digit, .digit, .digit]],
       .tst (.oneCI '-'),
       .grp "m" [[.one '1', .rng '0' '2'], [.one '0', .rng '1' '9'], [.rng '1' '9']],
       .tst (.oneCI '-'),
       .grp "d" [[.one '3', .rng '0' '1'], [.rng '1' '2', .digit], [.one '0', .rng '1' '9'], [.rng '1' '9'], [.one ' ', .rng '1' '9']],
       .ws,
       .grp "H" [[.one '2', .rng '0' '3'], [.rng '0' '1', .digit], [.digit]],
       .tst (.oneCI ':'),
       .grp "M" [[.rng '0' '5', .digit], [.digit]],
       .tst (.oneCI ':'),
       .grp "S" [[.one '6', .rng '0' '1'], [.rng '0' '5', .digit], [.digit]]]
      from rfl, hIeq]
    apply stepY
    apply stepTst (by decide)
    apply stepm (by omega) (by omega)
    apply stepTst (by decide)
    apply stepd (by omega) (by omega)
    apply stepWs (wsLen_digits2 _ _)
    apply stepH (by omega) (by omega)
    apply stepTst (by decide)
    apply stepM (by omega) (by omega)
    apply stepTst (by decide)
    apply stepS (by omega) (by omega)
    decide
  have hstrp : strptime (String.mk I) "%Y-%m-%d %H:%M:%S" =
      .ok ⟨y, m, d, h, mi, s, 0⟩ := by
    rw [strptime, show (String.mk I).data = I from rfl]
    rw [hmrun]
    simp only [hlen, if_true]
    simp only [show groupSlice I [("Y", (0, 4)), ("m", (5, 7)), ("d", (8, 10)), ("H", (11, 13)), ("M", (14, 16)), ("S", (17, 19))] "Y" =
        some (sliceL I 0 4) from rfl,
      show groupSlice I [("Y", (0, 4)), ("m", (5, 7)), ("d", (8, 10)), ("H", (11, 13)), ("M", (14, 16)), ("S", (17, 19))] "m" =
        some (sliceL I 5 7) from rfl,
      show groupSlice I [("Y", (0, 4)), ("m", (5, 7)), ("d", (8, 10)), ("H", (11, 13)), ("M", (14, 16)), ("S", (17, 19))] "d" =
        some (sliceL I 8 10) from rfl,
      show groupSlice I [("Y", (0, 4)), ("m", (5, 7)), ("d", (8, 10)), ("H", (11, 13)), ("M", (14, 16)), ("S", (17, 19))] "H" =
        some (sliceL I 11 13) from rfl,
      show groupSlice I [("Y", (0, 4)), ("m", (5, 7)), ("d", (8, 10)), ("H", (11, 13)), ("M", (14, 16)), ("S", (17, 19))] "M" =
        some (sliceL I 14 16) from rfl,
      show groupSlice I [("Y", (0, 4)), ("m", (5, 7)), ("d", (8, 10)), ("H", (11, 13)), ("M", (14, 16)), ("S", (17, 19))] "S" =
        some (sliceL I 17 19) from rfl,
      show groupSlice I [("Y", (0, 4)), ("m", (5, 7)), ("d", (8, 10)), ("H", (11, 13)), ("M", (14, 16)), ("S", (17, 19))] "f" =
        none from rfl,
      show groupSlice I [("Y", (0, 4)), ("m", (5, 7)), ("d", (8, 10)), ("H", (11, 13)), ("M", (14, 16)), ("S", (17, 19))] "b" =
        none from rfl,
      hsY,
      hsm,
      hsd,
      hsH,
      hsM,
      hsS,
      Option.map_some', Option.getD_some, Option.map_none', Option.getD_none]
    rw [digitsToNat_digits4 (by omega), digitsToNat_digits2 (by omega), digitsToNat_digits2 (by omega), digitsToNat_digits2 (by omega), digitsToNat_digits2 (by omega), digitsToNat_digits2 (by omega)]
    simp only [datetimeNew, hv, if_true]
  simp only [parseTime, TIME_FORMAT_LIST]
  rw [parseLoop_skip_none hskA0,
    parseLoop_skip_none hskA1,
    parseLoop_skip_none hskA2,
    parseLoop_skip_none hskA3,
    parseLoop_skip_none hskA4,
    parseLoop_skip_none hskA5,
    parseLoop_skip_none hskA6,
    parseLoop_skip_none hskA7,
    parseLoop_skip_none hskA8,
    parseLoop_skip_none hskA9,
    parseLoop_skip_none hskA10,
    parseLoop_success hrp hstrp]
  exact dtAddTd_zero hv

theorem roundtrip12 (now : DT) (y m d h mi : Nat)
    (hv : validDT ⟨y, m, d, h, mi, 0, 0⟩ = true) :
    parseTime now (.str (String.mk
      (formatPattern "%Y-%m-%d %H:%M".data ⟨y, m, d, h, mi, 0, 0⟩))) =
      .ok ⟨y, m, d, h, mi, 0, 0⟩ := by
  have hv2 := hv
  simp only [validDT, Bool.and_eq_true, decide_eq_true_eq] at hv2
  have hd31 : d ≤ 31 := by
    have := daysInMonth_le31 y m
    omega
  set I := formatPattern "%Y-%m-%d %H:%M".data
    (⟨y, m, d, h, mi, 0, 0⟩ : DT) with hI
  have hFor : List.Forall₂ chEq I
      (formatPattern "%Y-%m-%d %H:%M".data ⟨1111, 11, 11, 11, 11, 11, 111111⟩) := by
    rw [hI]
    exact formatAux_chEq false _ (Or.inl (by decide))
  have hIeq : I = digits4 y ++ '-' :: (digits2 m ++ '-' :: (digits2 d ++ ' ' :: (digits2 h ++ ':' :: (digits2 mi ++ [])))) := by
    rw [hI]; rfl
  have hlen : I.length = 16 := by rw [hIeq]; rfl
  have hsY : sliceL I 0 4 = digits4 y := by rw [hIeq]; rfl
  have hsm : sliceL I 5 7 = digits2 m := by rw [hIeq]; rfl
  have hsd : sliceL I 8 10 = digits2 d := by rw [hIeq]; rfl
  have hsH : sliceL I 11 13 = digits2 h := by rw [hIeq]; rfl
  have hsM : sliceL I 14 16 = digits2 mi := by rw [hIeq]; rfl
  have hskA0 : regexParseTime (String.mk I) "%Y-%m-%dT%H:%M:%S.%f" = .ok none := by
    apply regexParseTime_none
    rw [show (String.mk I).data = I from rfl, reMatch_chEq okS0 hFor]
    decide
  have hskA1 : regexParseTime (String.mk I) "%Y/%m/%dT%H:%M:%S.%f" = .ok none := by
    apply regexParseTime_none
    rw [show (String.mk I).data = I from rfl, reMatch_chEq okS1 hFor]
    decide
  have hskA2 : regexParseTime (String.mk I) "%Y-%m-%dT%H:%M:%S.%fZ" = .ok none := by
    apply regexParseTime_none
    rw [show (String.mk I).data = I from rfl, reMatch_chEq okS2 hFor]
    decide
  have hskA3 : regexParseTime (String.mk I) "%Y-%m-%dT%H:%M:%S" = .ok none := by
    apply regexParseTime_none
    rw [show (String.mk I).data = I from rfl, reMatch_chEq okS3 hFor]
    decide
  have hskA4 : regexParseTime (String.mk I) "%Y/%m/%dT%H:%M:%S" = .ok none := by
    apply regexParseTime_none
    rw [show (String.mk I).data = I from rfl, reMatch_chEq okS4 hFor]
    decide
  have hskA5 : regexParseTime (String.mk I) "%Y%m%dT%H%M%S.%f" = .ok none := by
    apply regexParseTime_none
    rw [show (String.mk I).data = I from rfl, reMatch_chEq okS5 hFor]
    decide
  have hskA6 : regexParseTime (String.mk I) "%Y%m%dT%H%M%S" = .ok none := by
    apply regexParseTime_none
    rw [show (String.mk I).data = I from rfl, reMatch_chEq okS6 hFor]
    decide
  have hskA7 : regexParseTime (String.mk I) "%Y/%m/%d %H:%M:%S" = .ok none := by
    apply regexParseTime_none
    rw [show (String.mk I).data = I from rfl, reMatch_chEq okS7 hFor]
    decide
  have hskA8 : regexParseTime (String.mk I) "%Y/%m/%d %H:%M" = .ok none := by
    apply regexParseTime_none
    rw [show (String.mk I).data = I from rfl, reMatch_chEq okS8 hFor]
    decide
  have hskA9 : regexParseTime (String.mk I) "%Y/%m/%d %H:%M:%S.%f" = .ok none := by
    apply regexParseTime_none
    rw [show (String.mk I).data = I from rfl, reMatch_chEq okS9 hFor]
    decide
  have hskA10 : regexParseTime (String.mk I) "%Y-%m-%d %H:%M:%S.%f" = .ok none := by
    apply regexParseTime_none
    rw [show (String.mk I).data = I from rfl, reMatch_chEq okS10 hFor]
    decide
  have hskA11 : regexParseTime (String.mk I) "%Y-%m-%d %H:%M:%S" = .ok none := by
    apply regexParseTime_none
    rw [show (String.mk I).data = I from rfl, reMatch_chEq okS11 hFor]
    decide
  have hre : reMatch (compileSunpy "%Y-%m-%d %H:%M".data) I =
      some (16, [("year", (0, 4)), ("month", (5, 7)), ("day", (8, 10)), ("hour", (11, 13)), ("minute", (14, 16))]) := by
    rw [reMatch_chEq okS12 hFor]
    decide
  have hrp : regexParseTime (String.mk I) "%Y-%m-%d %H:%M" =
      .ok (some (String.mk I, ⟨0, 0, 0⟩)) := by
    refine regexParseTime_hour_ne24 hre rfl ?_
    show ¬ sliceL I 11 13 = "24".data
    rw [hsH]
    exact digits2_ne24 (by omega)
  have hmrun : mrun (compileStrp "%Y-%m-%d %H:%M".data) I 0 [] =
      some (16, [("Y", (0, 4)), ("m", (5, 7)), ("d", (8, 10)), ("H", (11, 13)), ("M", (14, 16))]) := by
    rw [show compileStrp "%Y-%m-%d %H:%M".data =
      [.grp "Y" [[.digit, .digit, .digit, .digit]],
       .tst (.oneCI '-'),
       .grp "m" [[.one '1', .rng '0' '2'], [.one '0', .rng '1' '9'], [.rng '1' '9']],
       .tst (.oneCI '-'),
       .grp "d" [[.one '3', .rng '0' '1'], [.rng '1' '2', .digit], [.one '0', .rng '1' '9'], [.rng '1' '9'], [.one ' ', .rng '1' '9']],
       .ws,
       .grp "H" [[.one '2', .rng '0' '3'], [.rng '0' '1', .digit], [.digit]],
       .tst (.oneCI ':'),
       .grp "M" [[.rng '0' '5', .digit], [.digit]]]
      from rfl, hIeq]
    apply stepY
    apply stepTst (by decide)
    apply stepm (by omega) (by omega)
    apply stepTst (by decide)
    apply stepd (by omega) (by omega)
    apply stepWs (wsLen_digits2 _ _)
    apply stepH (by omega) (by omega)
    apply stepTst (by decide)
    apply stepM (by omega) (by omega)
    decide
  have hstrp : strptime (String.mk I) "%Y-%m-%d %H:%M" =
      .ok ⟨y, m, d, h, mi, 0, 0⟩ := by
    rw [strptime, show (String.mk I).data = I from rfl]
    rw [hmrun]
    simp only [hlen, if_true]
    simp only [show groupSlice I [("Y", (0, 4)), ("m", (5, 7)), ("d", (8, 10)), ("H", (11, 13)), ("M", (14, 16))] "Y" =
        some (sliceL I 0 4) from rfl,
      show groupSlice I [("Y", (0, 4)), ("m", (5, 7)), ("d", (8, 10)), ("H", (11, 13)), ("M", (14, 16))] "m" =
        some (sliceL I 5 7) from rfl,
      show groupSlice I [("Y", (0, 4)), ("m", (5, 7)), ("d", (8, 10)), ("H", (11, 13)), ("M", (14, 16))] "d" =
        some (sliceL I 8 10) from rfl,
      show groupSlice I [("Y", (0, 4)), ("m", (5, 7)), ("d", (8, 10)), ("H", (11, 13)), ("M", (14, 16))] "H" =
        some (sliceL I 11 13) from rfl,
      show groupSlice I [("Y", (0, 4)), ("m", (5, 7)), ("d", (8, 10)), ("H", (11, 13)), ("M", (14, 16))] "M" =
        some (sliceL I 14 16) from rfl,
      show groupSlice I [("Y", (0, 4)), ("m", (5, 7)), ("d", (8, 10)), ("H", (11, 13)), ("M", (14, 16))] "S" =
        none from rfl,
      show groupSlice I [("Y", (0, 4)), ("m", (5, 7)), ("d", (8, 10)), ("H", (11, 13)), ("M", (14, 16))] "f" =
        none from rfl,
      show groupSlice I [("Y", (0, 4)), ("m", (5, 7)), ("d", (8, 10)), ("H", (11, 13)), ("M", (14, 16))] "b" =
        none from rfl,
      hsY,
      hsm,
      hsd,
      hsH,
      hsM,
      Option.map_some', Option.getD_some, Option.map_none', Option.getD_none]
    rw [digitsToNat_digits4 (by omega), digitsToNat_digits2 (by omega), digitsToNat_digits2 (by omega), digitsToNat_digits2 (by omega), digitsToNat_digits2 (by omega)]
    simp only [datetimeNew, hv, if_true]
  simp only [parseTime, TIME_FORMAT_LIST]
  rw [parseLoop_skip_none hskA0,
    parseLoop_skip_none hskA1,
    parseLoop_skip_none hskA2,
    parseLoop_skip_none hskA3,
    parseLoop_skip_none hskA4,
    parseLoop_skip_none hskA5,
    parseLoop_skip_none hskA6,
    parseLoop_skip_none hskA7,
    parseLoop_skip_none hskA8,
    parseLoop_skip_none hskA9,
    parseLoop_skip_none hskA10,
    parseLoop_skip_none hskA11,
    parseLoop_success hrp hstrp]
  exact dtAddTd_zero hv

theorem roundtrip13x1 (now : DT) (y d h mi s : Nat)
    (hv : validDT ⟨y, 1, d, h, mi, s, 0⟩ = true) :
    parseTime now (.str (String.mk
      (formatPattern "%Y-%b-%d %H:%M:%S".data ⟨y, 1, d, h, mi, s, 0⟩))) =
      .ok ⟨y, 1, d, h, mi, s, 0⟩ := by
  have hv2 := hv
  simp only [validDT, Bool.and_eq_true, decide_eq_true_eq] at hv2
  have hd31 : d ≤ 31 := by
    have := daysInMonth_le31 y 1
    omega
  set I := formatPattern "%Y-%b-%d %H:%M:%S".data
    (⟨y, 1, d, h, mi, s, 0⟩ : DT) with hI
  have hFor : List.Forall₂ chEq I
      (formatPattern "%Y-%b-%d %H:%M:%S".data ⟨1111, 1, 11, 11, 11, 11, 111111⟩) := by
    rw [hI]
    exact formatAux_chEq false _ (Or.inr rfl)
  have hIeq : I = digits4 y ++ '-' :: (monthCap 1 ++ '-' :: (digits2 d ++ ' ' :: (digits2 h ++ ':' :: (digits2 mi ++ ':' :: (digits2 s ++ []))))) := by
    rw [hI]; rfl
  have hlen : I.length = 20 := by rw [hIeq]; rfl
  have hsY : sliceL I 0 4 = digits4 y := by rw [hIeq]; rfl
  have hsd : sliceL I 9 11 = digits2 d := by rw [hIeq]; rfl
  have hsH : sliceL I 12 14 = digits2 h := by rw [hIeq]; rfl
  have hsM : sliceL I 15 17 = digits2 mi := by rw [hIeq]; rfl
  have hsS : sliceL I 18 20 = digits2 s := by rw [hIeq]; rfl
  have hsb : sliceL I 5 8 = monthCap 1 := by rw [hIeq]; rfl
  have hskA0 : regexParseTime (String.mk I) "%Y-%m-%dT%H:%M:%S.%f" = .ok none := by
    apply regexParseTime_none
    rw [show (String.mk I).data = I from rfl, reMatch_chEq okS0 hFor]
    decide
  have hskA1 : regexParseTime (String.mk I) "%Y/%m/%dT%H:%M:%S.%f" = .ok none := by
    apply regexParseTime_none
    rw [show (String.mk I).data = I from rfl, reMatch_chEq okS1 hFor]
    decide
  have hskA2 : regexParseTime (String.mk I) "%Y-%m-%dT%H:%M:%S.%fZ" = .ok none := by
    apply regexParseTime_none
    rw [show (String.mk I).data = I from rfl, reMatch_chEq okS2 hFor]
    decide
  have hskA3 : regexParseTime (String.mk I) "%Y-%m-%dT%H:%M:%S" = .ok none := by
    apply regexParseTime_none
    rw [show (String.mk I).data = I from rfl, reMatch_chEq okS3 hFor]
    decide
  have hskA4 : regexParseTime (String.mk I) "%Y/%m/%dT%H:%M:%S" = .ok none := by
    apply regexParseTime_none
    rw [show (String.mk I).data = I from rfl, reMatch_chEq okS4 hFor]
    decide
  have hskA5 : regexParseTime (String.mk I) "%Y%m%dT%H%M%S.%f" = .ok none := by
    apply regexParseTime_none
    rw [show (String.mk I).data = I from rfl, reMatch_chEq okS5 hFor]
    decide
  have hskA6 : regexParseTime (String.mk I) "%Y%m%dT%H%M%S" = .ok none := by
    apply regexParseTime_none
    rw [show (String.mk I).data = I from rfl, reMatch_chEq okS6 hFor]
    decide
  have hskA7 : regexParseTime (String.mk I) "%Y/%m/%d %H:%M:%S" = .ok none := by
    apply regexParseTime_none
    rw [show (String.mk I).data = I from rfl, reMatch_chEq okS7 hFor]
    decide
  have hskA8 : regexParseTime (String.mk I) "%Y/%m/%d %H:%M" = .ok none := by
    apply regexParseTime_none
    rw [show (String.mk I).data = I from rfl, reMatch_chEq okS8 hFor]
    decide
  have hskA9 : regexParseTime (String.mk I) "%Y/%m/%d %H:%M:%S.%f" = .ok none := by
    apply regexParseTime_none
    rw [show (String.mk I).data = I from rfl, reMatch_chEq okS9 hFor]
    decide
  have hskA10 : regexParseTime (String.mk I) "%Y-%m-%d %H:%M:%S.%f" = .ok none := by
    apply regexParseTime_none
    rw [show (String.mk I).data = I from rfl, reMatch_chEq okS10 hFor]
    decide
  have hskA11 : regexParseTime (String.mk I) "%Y-%m-%d %H:%M:%S" = .ok none := by
    apply regexParseTime_none
    rw [show (String.mk I).data = I from rfl, reMatch_chEq okS11 hFor]
    decide
  have hskA12 : regexParseTime (String.mk I) "%Y-%m-%d %H:%M" = .ok none := by
    apply regexParseTime_none
    rw [show (String.mk I).data = I from rfl, reMatch_chEq okS12 hFor]
    decide
  have hre : reMatch (compileSunpy "%Y-%b-%d %H:%M:%S".data) I =
      some (20, [("year", (0, 4)), ("month_str", (5, 8)), ("day", (9, 11)), ("hour", (12, 14)), ("minute", (15, 17)), ("second", (18, 20))]) := by
    rw [reMatch_chEq okS13 hFor]
    decide
  have hrp : regexParseTime (String.mk I) "%Y-%b-%d %H:%M:%S" =
      .ok (some (String.mk I, ⟨0, 0, 0⟩)) := by
    refine regexParseTime_hour_ne24 hre rfl ?_
    show ¬ sliceL I 12 14 = "24".data
    rw [hsH]
    exact digits2_ne24 (by omega)
  have hmrun : mrun (compileStrp "%Y-%b-%d %H:%M:%S".data) I 0 [] =
      some (20, [("Y", (0, 4)), ("b", (5, 8)), ("d", (9, 11)), ("H", (12, 14)), ("M", (15, 17)), ("S", (18, 20))]) := by
    rw [show compileStrp "%Y-%b-%d %H:%M:%S".data =
      [.grp "Y" [[.digit, .digit, .digit, .digit]],
       .tst (.oneCI '-'),
       .grp "b" (monthAbbrs.map fun nm => nm.data.map CT.oneCI),
       .tst (.oneCI '-'),
       .grp "d" [[.one '3', .rng '0' '1'], [.rng '1' '2', .digit], [.one '0', .rng '1' '9'], [.rng '1' '9'], [.one ' ', .rng '1' '9']],
       .ws,
       .grp "H" [[.one '2', .rng '0' '3'], [.rng '0' '1', .digit], [.digit]],
       .tst (.oneCI ':'),
       .grp "M" [[.rng '0' '5', .digit], [.digit]],
       .tst (.oneCI ':'),
       .grp "S" [[.one '6', .rng '0' '1'], [.rng '0' '5', .digit], [.digit]]]
      from rfl, hIeq]
    apply stepY
    apply stepTst (by decide)
    apply stepb (by decide) (by decide)
    apply stepTst (by decide)
    apply stepd (by omega) (by omega)
    apply stepWs (wsLen_digits2 _ _)
    apply stepH (by omega) (by omega)
    apply stepTst (by decide)
    apply stepM (by omega) (by omega)
    apply stepTst (by decide)
    apply stepS (by omega) (by omega)
    decide
  have hstrp : strptime (String.mk I) "%Y-%b-%d %H:%M:%S" =
      .ok ⟨y, 1, d, h, mi, s, 0⟩ := by
    rw [strptime, show (String.mk I).data = I from rfl]
    rw [hmrun]
    simp only [hlen, if_true]
    simp only [show groupSlice I [("Y", (0, 4)), ("b", (5, 8)), ("d", (9, 11)), ("H", (12, 14)), ("M", (15, 17)), ("S", (18, 20))] "Y" =
        some (sliceL I 0 4) from rfl,
      show groupSlice I [("Y", (0, 4)), ("b", (5, 8)), ("d", (9, 11)), ("H", (12, 14)), ("M", (15, 17)), ("S", (18, 20))] "m" =
        none from rfl,
      show groupSlice I [("Y", (0, 4)), ("b", (5, 8)), ("d", (9, 11)), ("H", (12, 14)), ("M", (15, 17)), ("S", (18, 20))] "d" =
        some (sliceL I 9 11) from rfl,
      show groupSlice I [("Y", (0, 4)), ("b", (5, 8)), ("d", (9, 11)), ("H", (12, 14)), ("M", (15, 17)), ("S", (18, 20))] "H" =
        some (sliceL I 12 14) from rfl,
      show groupSlice I [("Y", (0, 4)), ("b", (5, 8)), ("d", (9, 11)), ("H", (12, 14)), ("M", (15, 17)), ("S", (18, 20))] "M" =
        some (sliceL I 15 17) from rfl,
      show groupSlice I [("Y", (0, 4)), ("b", (5, 8)), ("d", (9, 11)), ("H", (12, 14)), ("M", (15, 17)), ("S", (18, 20))] "S" =
        some (sliceL I 18 20) from rfl,
      show groupSlice I [("Y", (0, 4)), ("b", (5, 8)), ("d", (9, 11)), ("H", (12, 14)), ("M", (15, 17)), ("S", (18, 20))] "f" =
        none from rfl,
      show groupSlice I [("Y", (0, 4)), ("b", (5, 8)), ("d", (9, 11)), ("H", (12, 14)), ("M", (15, 17)), ("S", (18, 20))] "b" =
        some (sliceL I 5 8) from rfl,
      hsY,
      hsd,
      hsH,
      hsM,
      hsS,
      hsb,
      Option.map_some', Option.getD_some, Option.map_none', Option.getD_none]
    rw [digitsToNat_digits4 (by omega), show monthOfAbbr (monthCap 1) = 1 from by decide, digitsToNat_digits2 (by omega), digitsToNat_digits2 (by omega), digitsToNat_digits2 (by omega), digitsToNat_digits2 (by omega)]
    simp only [datetimeNew, hv, if_true]
  simp only [parseTime, TIME_FORMAT_LIST]
  rw [parseLoop_skip_none hskA0,
    parseLoop_skip_none hskA1,
    parseLoop_skip_none hskA2,
    parseLoop_skip_none hskA3,
    parseLoop_skip_none hskA4,
    parseLoop_skip_none hskA5,
    parseLoop_skip_none hskA6,
    parseLoop_skip_none hskA7,
    parseLoop_skip_none hskA8,
    parseLoop_skip_none hskA9,
    parseLoop_skip_none hskA10,
    parseLoop_skip_none hskA11,
    parseLoop_skip_none hskA12,
    parseLoop_success hrp hstrp]
  exact dtAddTd_zero hv

theorem roundtrip13x2 (now : DT) (y d h mi s : Nat)
    (hv : validDT ⟨y, 2, d, h, mi, s, 0⟩ = true) :
    parseTime now (.str (String.mk
      (formatPattern "%Y-%b-%d %H:%M:%S".data ⟨y, 2, d, h, mi, s, 0⟩))) =
      .ok ⟨y, 2, d, h, mi, s, 0⟩ := by
  have hv2 := hv
  simp only [validDT, Bool.and_eq_true, decide_eq_true_eq] at hv2
  have hd31 : d ≤ 31 := by
    have := daysInMonth_le31 y 2
    omega
  set I := formatPattern "%Y-%b-%d %H:%M:%S".data
    (⟨y, 2, d, h, mi, s, 0⟩ : DT) with hI
  have hFor : List.Forall₂ chEq I
      (formatPattern "%Y-%b-%d %H:%M:%S".data ⟨1111, 2, 11, 11, 11, 11, 111111⟩) := by
    rw [hI]
    exact formatAux_chEq false _ (Or.inr rfl)
  have hIeq : I = digits4 y ++ '-' :: (monthCap 2 ++ '-' :: (digits2 d ++ ' ' :: (digits2 h ++ ':' :: (digits2 mi ++ ':' :: (digits2 s ++ []))))) := by
    rw [hI]; rfl
  have hlen : I.length = 20 := by rw [hIeq]; rfl
  have hsY : sliceL I 0 4 = digits4 y := by rw [hIeq]; rfl
  have hsd : sliceL I 9 11 = digits2 d := by rw [hIeq]; rfl
  have hsH : sliceL I 12 14 = digits2 h := by rw [hIeq]; rfl
  have hsM : sliceL I 15 17 = digits2 mi := by rw [hIeq]; rfl
  have hsS : sliceL I 18 20 = digits2 s := by rw [hIeq]; rfl
  have hsb : sliceL I 5 8 = monthCap 2 := by rw [hIeq]; rfl
  have hskA0 : regexParseTime (String.mk I) "%Y-%m-%dT%H:%M:%S.%f" = .ok none := by
    apply regexParseTime_none
    rw [show (String.mk I).data = I from rfl, reMatch_chEq okS0 hFor]
    decide
  have hskA1 : regexParseTime (String.mk I) "%Y/%m/%dT%H:%M:%S.%f" = .ok none := by
    apply regexParseTime_none
    rw [show (String.mk I).data = I from rfl, reMatch_chEq okS1 hFor]
    decide
  have hskA2 : regexParseTime (String.mk I) "%Y-%m-%dT%H:%M:%S.%fZ" = .ok none := by
    apply regexParseTime_none
    rw [show (String.mk I).data = I from rfl, reMatch_chEq okS2 hFor]
    decide
  have hskA3 : regexParseTime (String.mk I) "%Y-%m-%dT%H:%M:%S" = .ok none := by
    apply regexParseTime_none
    rw [show (String.mk I).data = I from rfl, reMatch_chEq okS3 hFor]
    decide
  have hskA4 : regexParseTime (String.mk I) "%Y/%m/%dT%H:%M:%S" = .ok none := by
    apply regexParseTime_none
    rw [show (String.mk I).data = I from rfl, reMatch_chEq okS4 hFor]
    decide
  have hskA5 : regexParseTime (String.mk I) "%Y%m%dT%H%M%S.%f" = .ok none := by
    apply regexParseTime_none
    rw [show (String.mk I).data = I from rfl, reMatch_chEq okS5 hFor]
    decide
  have hskA6 : regexParseTime (String.mk I) "%Y%m%dT%H%M%S" = .ok none := by
    apply regexParseTime_none
    rw [show (String.mk I).data = I from rfl, reMatch_chEq okS6 hFor]
    decide
  have hskA7 : regexParseTime (String.mk I) "%Y/%m/%d %H:%M:%S" = .ok none := by
    apply regexParseTime_none
    rw [show (String.mk I).data = I from rfl, reMatch_chEq okS7 hFor]
    decide
  have hskA8 : regexParseTime (String.mk I) "%Y/%m/%d %H:%M" = .ok none := by
    apply regexParseTime_none
    rw [show (String.mk I).data = I from rfl, reMatch_chEq okS8 hFor]
    decide
  have hskA9 : regexParseTime (String.mk I) "%Y/%m/%d %H:%M:%S.%f" = .ok none := by
    apply regexParseTime_none
    rw [show (String.mk I).data = I from rfl, reMatch_chEq okS9 hFor]
    decide
  have hskA10 : regexParseTime (String.mk I) "%Y-%m-%d %H:%M:%S.%f" = .ok none := by
    apply regexParseTime_none
    rw [show (String.mk I).data = I from rfl, reMatch_chEq okS10 hFor]
    decide
  have hskA11 : regexParseTime (String.mk I) "%Y-%m-%d %H:%M:%S" = .ok none := by
    apply regexParseTime_none
    rw [show (String.mk I).data = I from rfl, reMatch_chEq okS11 hFor]
    decide
  have hskA12 : regexParseTime (String.mk I) "%Y-%m-%d %H:%M" = .ok none := by
    apply regexParseTime_none
    rw [show (String.mk I).data = I from rfl, reMatch_chEq okS12 hFor]
    decide
  have hre : reMatch (compileSunpy "%Y-%b-%d %H:%M:%S".data) I =
      some (20, [("year", (0, 4)), ("month_str", (5, 8)), ("day", (9, 11)), ("hour", (12, 14)), ("minute", (15, 17)), ("second", (18, 20))]) := by
    rw [reMatch_chEq okS13 hFor]
    decide
  have hrp : regexParseTime (String.mk I) "%Y-%b-%d %H:%M:%S" =
      .ok (some (String.mk I, ⟨0, 0, 0⟩)) := by
    refine regexParseTime_hour_ne24 hre rfl ?_
    show ¬ sliceL I 12 14 = "24".data
    rw [hsH]
    exact digits2_ne24 (by omega)
  have hmrun : mrun (compileStrp "%Y-%b-%d %H:%M:%S".data) I 0 [] =
      some (20, [("Y", (0, 4)), ("b", (5, 8)), ("d", (9, 11)), ("H", (12, 14)), ("M", (15, 17)), ("S", (18, 20))]) := by
    rw [show compileStrp "%Y-%b-%d %H:%M:%S".data =
      [.grp "Y" [[.digit, .digit, .digit, .digit]],
       .tst (.oneCI '-'),
       .grp "b" (monthAbbrs.map fun nm => nm.data.map CT.oneCI),
       .tst (.oneCI '-'),
       .grp "d" [[.one '3', .rng '0' '1'], [.rng '1' '2', .digit], [.one '0', .rng '1' '9'], [.rng '1' '9'], [.one ' ', .rng '1' '9']],
       .ws,
       .grp "H" [[.one '2', .rng '0' '3'], [.rng '0' '1', .digit], [.digit]],
       .tst (.oneCI ':'),
       .grp "M" [[.rng '0' '5', .digit], [.digit]],
       .tst (.oneCI ':'),
       .grp "S" [[.one '6', .rng '0' '1'], [.rng '0' '5', .digit], [.digit]]]
      from rfl, hIeq]
    apply stepY
    apply stepTst (by decide)
    apply stepb (by decide) (by decide)
    apply stepTst (by decide)
    apply stepd (by omega) (by omega)
    apply stepWs (wsLen_digits2 _ _)
    apply stepH (by omega) (by omega)
    apply stepTst (by decide)
    apply stepM (by omega) (by omega)
    apply stepTst (by decide)
    apply stepS (by omega) (by omega)
    decide
  have hstrp : strptime (String.mk I) "%Y-%b-%d %H:%M:%S" =
      .ok ⟨y, 2, d, h, mi, s, 0⟩ := by
    rw [strptime, show (String.mk I).data = I from rfl]
    rw [hmrun]
    simp only [hlen, if_true]
    simp only [show groupSlice I [("Y", (0, 4)), ("b", (5, 8)), ("d", (9, 11)), ("H", (12, 14)), ("M", (15, 17)), ("S", (18, 20))] "Y" =
        some (sliceL I 0 4) from rfl,
      show groupSlice I [("Y", (0, 4)), ("b", (5, 8)), ("d", (9, 11)), ("H", (12, 14)), ("M", (15, 17)), ("S", (18, 20))] "m" =
        none from rfl,
      show groupSlice I [("Y", (0, 4)), ("b", (5, 8)), ("d", (9, 11)), ("H", (12, 14)), ("M", (15, 17)), ("S", (18, 20))] "d" =
        some (sliceL I 9 11) from rfl,
      show groupSlice I [("Y", (0, 4)), ("b", (5, 8)), ("d", (9, 11)), ("H", (12, 14)), ("M", (15, 17)), ("S", (18, 20))] "H" =
        some (sliceL I 12 14) from rfl,
      show groupSlice I [("Y", (0, 4)), ("b", (5, 8)), ("d", (9, 11)), ("H", (12, 14)), ("M", (15, 17)), ("S", (18, 20))] "M" =
        some (sliceL I 15 17) from rfl,
      show groupSlice I [("Y", (0, 4)), ("b", (5, 8)), ("d", (9, 11)), ("H", (12, 14)), ("M", (15, 17)), ("S", (18, 20))] "S" =
        some (sliceL I 18 20) from rfl,
      show groupSlice I [("Y", (0, 4)), ("b", (5, 8)), ("d", (9, 11)), ("H", (12, 14)), ("M", (15, 17)), ("S", (18, 20))] "f" =
        none from rfl,
      show groupSlice I [("Y", (0, 4)), ("b", (5, 8)), ("d", (9, 11)), ("H", (12, 14)), ("M", (15, 17)), ("S", (18, 20))] "b" =
        some (sliceL I 5 8) from rfl,
      hsY,
      hsd,
      hsH,
      hsM,
      hsS,
      hsb,
      Option.map_some', Option.getD_some, Option.map_none', Option.getD_none]
    rw [digitsToNat_digits4 (by omega), show monthOfAbbr (monthCap 2) = 2 from by decide, digitsToNat_digits2 (by omega), digitsToNat_digits2 (by omega), digitsToNat_digits2 (by omega), digitsToNat_digits2 (by omega)]
    simp only [datetimeNew, hv, if_true]
  simp only [parseTime, TIME_FORMAT_LIST]
  rw [parseLoop_skip_none hskA0,
    parseLoop_skip_none hskA1,
    parseLoop_skip_none hskA2,
    parseLoop_skip_none hskA3,
    parseLoop_skip_none hskA4,
    parseLoop_skip_none hskA5,
    parseLoop_skip_none hskA6,
    parseLoop_skip_none hskA7,
    parseLoop_skip_none hskA8,
    parseLoop_skip_none hskA9,
    parseLoop_skip_none hskA10,
    parseLoop_skip_none hskA11,
    parseLoop_skip_none hskA12,
    parseLoop_success hrp hstrp]
  exact dtAddTd_zero hv

theorem roundtrip13x3 (now : DT) (y d h mi s : Nat)
    (hv : validDT ⟨y, 3, d, h, mi, s, 0⟩ = true) :
    parseTime now (.str (String.mk
      (formatPattern "%Y-%b-%d %H:%M:%S".data ⟨y, 3, d, h, mi, s, 0⟩))) =
      .ok ⟨y, 3, d, h, mi, s, 0⟩ := by
  have hv2 := hv
  simp only [validDT, Bool.and_eq_true, decide_eq_true_eq] at hv2
  have hd31 : d ≤ 31 := by
    have := daysInMonth_le31 y 3
    omega
  set I := formatPattern "%Y-%b-%d %H:%M:%S".data
    (⟨y, 3, d, h, mi, s, 0⟩ : DT) with hI
  have hFor : List.Forall₂ chEq I
      (formatPattern "%Y-%b-%d %H:%M:%S".data ⟨1111, 3, 11, 11, 11, 11, 111111⟩) := by
    rw [hI]
    exact formatAux_chEq false _ (Or.inr rfl)
  have hIeq : I = digits4 y ++ '-' :: (monthCap 3 ++ '-' :: (digits2 d ++ ' ' :: (digits2 h ++ ':' :: (digits2 mi ++ ':' :: (digits2 s ++ []))))) := by
    rw [hI]; rfl
  have hlen : I.length = 20 := by rw [hIeq]; rfl
  have hsY : sliceL I 0 4 = digits4 y := by rw [hIeq]; rfl
  have hsd : sliceL I 9 11 = digits2 d := by rw [hIeq]; rfl
  have hsH : sliceL I 12 14 = digits2 h := by rw [hIeq]; rfl
  have hsM : sliceL I 15 17 = digits2 mi := by rw [hIeq]; rfl
  have hsS : sliceL I 18 20 = digits2 s := by rw [hIeq]; rfl
  have hsb : sliceL I 5 8 = monthCap 3 := by rw [hIeq]; rfl
  have hskA0 : regexParseTime (String.mk I) "%Y-%m-%dT%H:%M:%S.%f" = .ok none := by
    apply regexParseTime_none
    rw [show (String.mk I).data = I from rfl, reMatch_chEq okS0 hFor]
    decide
  have hskA1 : regexParseTime (String.mk I) "%Y/%m/%dT%H:%M:%S.%f" = .ok none := by
    apply regexParseTime_none
    rw [show (String.mk I).data = I from rfl, reMatch_chEq okS1 hFor]
    decide
  have hskA2 : regexParseTime (String.mk I) "%Y-%m-%dT%H:%M:%S.%fZ" = .ok none := by
    apply regexParseTime_none
    rw [show (String.mk I).data = I from rfl, reMatch_chEq okS2 hFor]
    decide
  have hskA3 : regexParseTime (String.mk I) "%Y-%m-%dT%H:%M:%S" = .ok none := by
    apply regexParseTime_none
    rw [show (String.mk I).data = I from rfl, reMatch_chEq okS3 hFor]
    decide
  have hskA4 : regexParseTime (String.mk I) "%Y/%m/%dT%H:%M:%S" = .ok none := by
    apply regexParseTime_none
    rw [show (String.mk I).data = I from rfl, reMatch_chEq okS4 hFor]
    decide
  have hskA5 : regexParseTime (String.mk I) "%Y%m%dT%H%M%S.%f" = .ok none := by
    apply regexParseTime_none
    rw [show (String.mk I).data = I from rfl, reMatch_chEq okS5 hFor]
    decide
  have hskA6 : regexParseTime (String.mk I) "%Y%m%dT%H%M%S" = .ok none := by
    apply regexParseTime_none
    rw [show (String.mk I).data = I from rfl, reMatch_chEq okS6 hFor]
    decide
  have hskA7 : regexParseTime (String.mk I) "%Y/%m/%d %H:%M:%S" = .ok none := by
    apply regexParseTime_none
    rw [show (String.mk I).data = I from rfl, reMatch_chEq okS7 hFor]
    decide
  have hskA8 : regexParseTime (String.mk I) "%Y/%m/%d %H:%M" = .ok none := by
    apply regexParseTime_none
    rw [show (String.mk I).data = I from rfl, reMatch_chEq okS8 hFor]
    decide
  have hskA9 : regexParseTime (String.mk I) "%Y/%m/%d %H:%M:%S.%f" = .ok none := by
    apply regexParseTime_none
    rw [show (String.mk I).data = I from rfl, reMatch_chEq okS9 hFor]
    decide
  have hskA10 : regexParseTime (String.mk I) "%Y-%m-%d %H:%M:%S.%f" = .ok none := by
    apply regexParseTime_none
    rw [show (String.mk I).data = I from rfl, reMatch_chEq okS10 hFor]
    decide
  have hskA11 : regexParseTime (String.mk I) "%Y-%m-%d %H:%M:%S" = .ok none := by
    apply regexParseTime_none
    rw [show (String.mk I).data = I from rfl, reMatch_chEq okS11 hFor]
    decide
  have hskA12 : regexParseTime (String.mk I) "%Y-%m-%d %H:%M" = .ok none := by
    apply regexParseTime_none
    rw [show (String.mk I).data = I from rfl, reMatch_chEq okS12 hFor]
    decide
  have hre : reMatch (compileSunpy "%Y-%b-%d %H:%M:%S".data) I =
      some (20, [("year", (0, 4)), ("month_str", (5, 8)), ("day", (9, 11)), ("hour", (12, 14)), ("minute", (15, 17)), ("second", (18, 20))]) := by
    rw [reMatch_chEq okS13 hFor]
    decide
  have hrp : regexParseTime (String.mk I) "%Y-%b-%d %H:%M:%S" =
      .ok (some (String.mk I, ⟨0, 0, 0⟩)) := by
    refine regexParseTime_hour_ne24 hre rfl ?_
    show ¬ sliceL I 12 14 = "24".data
    rw [hsH]
    exact digits2_ne24 (by omega)
  have hmrun : mrun (compileStrp "%Y-%b-%d %H:%M:%S".data) I 0 [] =
      some (20, [("Y", (0, 4)), ("b", (5, 8)), ("d", (9, 11)), ("H", (12, 14)), ("M", (15, 17)), ("S", (18, 20))]) := by
    rw [show compileStrp "%Y-%b-%d %H:%M:%S".data =
      [.grp "Y" [[.digit, .digit, .digit, .digit]],
       .tst (.oneCI '-'),
       .grp "b" (monthAbbrs.map fun nm => nm.data.map CT.oneCI),
       .tst (.oneCI '-'),
       .grp "d" [[.one '3', .rng '0' '1'], [.rng '1' '2', .digit], [.one '0', .rng '1' '9'], [.rng '1' '9'], [.one ' ', .rng '1' '9']],
       .ws,
       .grp "H" [[.one '2', .rng '0' '3'], [.rng '0' '1', .digit], [.digit]],
       .tst (.oneCI ':'),
       .grp "M" [[.rng '0' '5', .digit], [.digit]],
       .tst (.oneCI ':'),
       .grp "S" [[.one '6', .rng '0' '1'], [.rng '0' '5', .digit], [.digit]]]
      from rfl, hIeq]
    apply stepY
    apply stepTst (by decide)
    apply stepb (by decide) (by decide)
    apply stepTst (by decide)
    apply stepd (by omega) (by omega)
    apply stepWs (wsLen_digits2 _ _)
    apply stepH (by omega) (by omega)
    apply stepTst (by decide)
    apply stepM (by omega) (by omega)
    apply stepTst (by decide)
    apply stepS (by omega) (by omega)
    decide
  have hstrp : strptime (String.mk I) "%Y-%b-%d %H:%M:%S" =
      .ok ⟨y, 3, d, h, mi, s, 0⟩ := by
    rw [strptime, show (String.mk I).data = I from rfl]
    rw [hmrun]
    simp only [hlen, if_true]
    simp only [show groupSlice I [("Y", (0, 4)), ("b", (5, 8)), ("d", (9, 11)), ("H", (12, 14)), ("M", (15, 17)), ("S", (18, 20))] "Y" =
        some (sliceL I 0 4) from rfl,
      show groupSlice I [("Y", (0, 4)), ("b", (5, 8)), ("d", (9, 11)), ("H", (12, 14)), ("M", (15, 17)), ("S", (18, 20))] "m" =
        none from rfl,
      show groupSlice I [("Y", (0, 4)), ("b", (5, 8)), ("d", (9, 11)), ("H", (12, 14)), ("M", (15, 17)), ("S", (18, 20))] "d" =
        some (sliceL I 9 11) from rfl,
      show groupSlice I [("Y", (0, 4)), ("b", (5, 8)), ("d", (9, 11)), ("H", (12, 14)), ("M", (15, 17)), ("S", (18, 20))] "H" =
        some (sliceL I 12 14) from rfl,
      show groupSlice I [("Y", (0, 4)), ("b", (5, 8)), ("d", (9, 11)), ("H", (12, 14)), ("M", (15, 17)), ("S", (18, 20))] "M" =
        some (sliceL I 15 17) from rfl,
      show groupSlice I [("Y", (0, 4)), ("b", (5, 8)), ("d", (9, 11)), ("H", (12, 14)), ("M", (15, 17)), ("S", (18, 20))] "S" =
        some (sliceL I 18 20) from rfl,
      show groupSlice I [("Y", (0, 4)), ("b", (5, 8)), ("d", (9, 11)), ("H", (12, 14)), ("M", (15, 17)), ("S", (18, 20))] "f" =
        none from rfl,
      show groupSlice I [("Y", (0, 4)), ("b", (5, 8)), ("d", (9, 11)), ("H", (12, 14)), ("M", (15, 17)), ("S", (18, 20))] "b" =
        some (sliceL I 5 8) from rfl,
      hsY,
      hsd,
      hsH,
      hsM,
      hsS,
      hsb,
      Option.map_some', Option.getD_some, Option.map_none', Option.getD_none]
    rw [digitsToNat_digits4 (by omega), show monthOfAbbr (monthCap 3) = 3 from by decide, digitsToNat_digits2 (by omega), digitsToNat_digits2 (by omega), digitsToNat_digits2 (by omega), digitsToNat_digits2 (by omega)]
    simp only [datetimeNew, hv, if_true]
  simp only [parseTime, TIME_FORMAT_LIST]
  rw [parseLoop_skip_none hskA0,
    parseLoop_skip_none hskA1,
    parseLoop_skip_none hskA2,
    parseLoop_skip_none hskA3,
    parseLoop_skip_none hskA4,
    parseLoop_skip_none hskA5,
    parseLoop_skip_none hskA6,
    parseLoop_skip_none hskA7,
    parseLoop_skip_none hskA8,
    parseLoop_skip_none hskA9,
    parseLoop_skip_none hskA10,
    parseLoop_skip_none hskA11,
    parseLoop_skip_none hskA12,
    parseLoop_success hrp hstrp]
  exact dtAddTd_zero hv

theorem roundtrip13x4 (now : DT) (y d h mi s : Nat)
    (hv : validDT ⟨y, 4, d, h, mi, s, 0⟩ = true) :
    parseTime now (.str (String.mk
      (formatPattern "%Y-%b-%d %H:%M:%S".data ⟨y, 4, d, h, mi, s, 0⟩))) =
      .ok ⟨y, 4, d, h, mi, s, 0⟩ := by
  have hv2 := hv
  simp only [validDT, Bool.and_eq_true, decide_eq_true_eq] at hv2
  have hd31 : d ≤ 31 := by
    have := daysInMonth_le31 y 4
    omega
  set I := formatPattern "%Y-%b-%d %H:%M:%S".data
    (⟨y, 4, d, h, mi, s, 0⟩ : DT) with hI
  have hFor : List.Forall₂ chEq I
      (formatPattern "%Y-%b-%d %H:%M:%S".data ⟨1111, 4, 11, 11, 11, 11, 111111⟩) := by
    rw [hI]
    exact formatAux_chEq false _ (Or.inr rfl)
  have hIeq : I = digits4 y ++ '-' :: (monthCap 4 ++ '-' :: (digits2 d ++ ' ' :: (digits2 h ++ ':' :: (digits2 mi ++ ':' :: (digits2 s ++ []))))) := by
    rw [hI]; rfl
  have hlen : I.length = 20 := by rw [hIeq]; rfl
  have hsY : sliceL I 0 4 = digits4 y := by rw [hIeq]; rfl
  have hsd : sliceL I 9 11 = digits2 d := by rw [hIeq]; rfl
  have hsH : sliceL I 12 14 = digits2 h := by rw [hIeq]; rfl
  have hsM : sliceL I 15 17 = digits2 mi := by rw [hIeq]; rfl
  have hsS : sliceL I 18 20 = digits2 s := by rw [hIeq]; rfl
  have hsb : sliceL I 5 8 = monthCap 4 := by rw [hIeq]; rfl
  have hskA0 : regexParseTime (String.mk I) "%Y-%m-%dT%H:%M:%S.%f" = .ok none := by
    apply regexParseTime_none
    rw [show (String.mk I).data = I from rfl, reMatch_chEq okS0 hFor]
    decide
  have hskA1 : regexParseTime (String.mk I) "%Y/%m/%dT%H:%M:%S.%f" = .ok none := by
    apply regexParseTime_none
    rw [show (String.mk I).data = I from rfl, reMatch_chEq okS1 hFor]
    decide
  have hskA2 : regexParseTime (String.mk I) "%Y-%m-%dT%H:%M:%S.%fZ" = .ok none := by
    apply regexParseTime_none
    rw [show (String.mk I).data = I from rfl, reMatch_chEq okS2 hFor]
    decide
  have hskA3 : regexParseTime (String.mk I) "%Y-%m-%dT%H:%M:%S" = .ok none := by
    apply regexParseTime_none
    rw [show (String.mk I).data = I from rfl, reMatch_chEq okS3 hFor]
    decide
  have hskA4 : regexParseTime (String.mk I) "%Y/%m/%dT%H:%M:%S" = .ok none := by
    apply regexParseTime_none
    rw [show (String.mk I).data = I from rfl, reMatch_chEq okS4 hFor]
    decide
  have hskA5 : regexParseTime (String.mk I) "%Y%m%dT%H%M%S.%f" = .ok none := by
    apply regexParseTime_none
    rw [show (String.mk I).data = I from rfl, reMatch_chEq okS5 hFor]
    decide
  have hskA6 : regexParseTime (String.mk I) "%Y%m%dT%H%M%S" = .ok none := by
    apply regexParseTime_none
    rw [show (String.mk I).data = I from rfl, reMatch_chEq okS6 hFor]
    decide
  have hskA7 : regexParseTime (String.mk I) "%Y/%m/%d %H:%M:%S" = .ok none := by
    apply regexParseTime_none
    rw [show (String.mk I).data = I from rfl, reMatch_chEq okS7 hFor]
    decide
  have hskA8 : regexParseTime (String.mk I) "%Y/%m/%d %H:%M" = .ok none := by
    apply regexParseTime_none
    rw [show (String.mk I).data = I from rfl, reMatch_chEq okS8 hFor]
    decide
  have hskA9 : regexParseTime (String.mk I) "%Y/%m/%d %H:%M:%S.%f" = .ok none := by
    apply regexParseTime_none
    rw [show (String.mk I).data = I from rfl, reMatch_chEq okS9 hFor]
    decide
  have hskA10 : regexParseTime (String.mk I) "%Y-%m-%d %H:%M:%S.%f" = .ok none := by
    apply regexParseTime_none
    rw [show (String.mk I).data = I from rfl, reMatch_chEq okS10 hFor]
    decide
  have hskA11 : regexParseTime (String.mk I) "%Y-%m-%d %H:%M:%S" = .ok none := by
    apply regexParseTime_none
    rw [show (String.mk I).data = I from rfl, reMatch_chEq okS11 hFor]
    decide
  have hskA12 : regexParseTime (String.mk I) "%Y-%m-%d %H:%M" = .ok none := by
    apply regexParseTime_none
    rw [show (String.mk I).data = I from rfl, reMatch_chEq okS12 hFor]
    decide
  have hre : reMatch (compileSunpy "%Y-%b-%d %H:%M:%S".data) I =
      some (20, [("year", (0, 4)), ("month_str", (5, 8)), ("day", (9, 11)), ("hour", (12, 14)), ("minute", (15, 17)), ("second", (18, 20))]) := by
    rw [reMatch_chEq okS13 hFor]
    decide
  have hrp : regexParseTime (String.mk I) "%Y-%b-%d %H:%M:%S" =
      .ok (some (String.mk I, ⟨0, 0, 0⟩)) := by
    refine regexParseTime_hour_ne24 hre rfl ?_
    show ¬ sliceL I 12 14 = "24".data
    rw [hsH]
    exact digits2_ne24 (by omega)
  have hmrun : mrun (compileStrp "%Y-%b-%d %H:%M:%S".data) I 0 [] =
      some (20, [("Y", (0, 4)), ("b", (5, 8)), ("d", (9, 11)), ("H", (12, 14)), ("M", (15, 17)), ("S", (18, 20))]) := by
    rw [show compileStrp "%Y-%b-%d %H:%M:%S".data =
      [.grp "Y" [[.digit, .digit, .digit, .digit]],
       .tst (.oneCI '-'),
       .grp "b" (monthAbbrs.map fun nm => nm.data.map CT.oneCI),
       .tst (.oneCI '-'),
       .grp "d" [[.one '3', .rng '0' '1'], [.rng '1' '2', .digit], [.one '0', .rng '1' '9'], [.rng '1' '9'], [.one ' ', .rng '1' '9']],
       .ws,
       .grp "H" [[.one '2', .rng '0' '3'], [.rng '0' '1', .digit], [.digit]],
       .tst (.oneCI ':'),
       .grp "M" [[.rng '0' '5', .digit], [.digit]],
       .tst (.oneCI ':'),
       .grp "S" [[.one '6', .rng '0' '1'], [.rng '0' '5', .digit], [.digit]]]
      from rfl, hIeq]
    apply stepY
    apply stepTst (by decide)
    apply stepb (by decide) (by decide)
    apply stepTst (by decide)
    apply stepd (by omega) (by omega)
    apply stepWs (wsLen_digits2 _ _)
    apply stepH (by omega) (by omega)
    apply stepTst (by decide)
    apply stepM (by omega) (by omega)
    apply stepTst (by decide)
    apply stepS (by omega) (by omega)
    decide
  have hstrp : strptime (String.mk I) "%Y-%b-%d %H:%M:%S" =
      .ok ⟨y, 4, d, h, mi, s, 0⟩ := by
    rw [strptime, show (String.mk I).data = I from rfl]
    rw [hmrun]
    simp only [hlen, if_true]
    simp only [show groupSlice I [("Y", (0, 4)), ("b", (5, 8)), ("d", (9, 11)), ("H", (12, 14)), ("M", (15, 17)), ("S", (18, 20))] "Y" =
        some (sliceL I 0 4) from rfl,
      show groupSlice I [("Y", (0, 4)), ("b", (5, 8)), ("d", (9, 11)), ("H", (12, 14)), ("M", (15, 17)), ("S", (18, 20))] "m" =
        none from rfl,
      show groupSlice I [("Y", (0, 4)), ("b", (5, 8)), ("d", (9, 11)), ("H", (12, 14)), ("M", (15, 17)), ("S", (18, 20))] "d" =
        some (sliceL I 9 11) from rfl,
      show groupSlice I [("Y", (0, 4)), ("b", (5, 8)), ("d", (9, 11)), ("H", (12, 14)), ("M", (15, 17)), ("S", (18, 20))] "H" =
        some (sliceL I 12 14) from rfl,
      show groupSlice I [("Y", (0, 4)), ("b", (5, 8)), ("d", (9, 11)), ("H", (12, 14)), ("M", (15, 17)), ("S", (18, 20))] "M" =
        some (sliceL I 15 17) from rfl,
      show groupSlice I [("Y", (0, 4)), ("b", (5, 8)), ("d", (9, 11)), ("H", (12, 14)), ("M", (15, 17)), ("S", (18, 20))] "S" =
        some (sliceL I 18 20) from rfl,
      show groupSlice I [("Y", (0, 4)), ("b", (5, 8)), ("d", (9, 11)), ("H", (12, 14)), ("M", (15, 17)), ("S", (18, 20))] "f" =
        none from rfl,
      show groupSlice I [("Y", (0, 4)), ("b", (5, 8)), ("d", (9, 11)), ("H", (12, 14)), ("M", (15, 17)), ("S", (18, 20))] "b" =
        some (sliceL I 5 8) from rfl,
      hsY,
      hsd,
      hsH,
      hsM,
      hsS,
      hsb,
      Option.map_some', Option.getD_some, Option.map_none', Option.getD_none]
    rw [digitsToNat_digits4 (by omega), show monthOfAbbr (monthCap 4) = 4 from by decide, digitsToNat_digits2 (by omega), digitsToNat_digits2 (by omega), digitsToNat_digits2 (by omega), digitsToNat_digits2 (by omega)]
    simp only [datetimeNew, hv, if_true]
  simp only [parseTime, TIME_FORMAT_LIST]
  rw [parseLoop_skip_none hskA0,
    parseLoop_skip_none hskA1,
    parseLoop_skip_none hskA2,
    parseLoop_skip_none hskA3,
    parseLoop_skip_none hskA4,
    parseLoop_skip_none hskA5,
    parseLoop_skip_none hskA6,
    parseLoop_skip_none hskA7,
    parseLoop_skip_none hskA8,
    parseLoop_skip_none hskA9,
    parseLoop_skip_none hskA10,
    parseLoop_skip_none hskA11,
    parseLoop_skip_none hskA12,
    parseLoop_success hrp hstrp]
  exact dtAddTd_zero hv

theorem roundtrip13x5 (now : DT) (y d h mi s : Nat)
    (hv : validDT ⟨y, 5, d, h, mi, s, 0⟩ = true) :
    parseTime now (.str (String.mk
      (formatPattern "%Y-%b-%d %H:%M:%S".data ⟨y, 5, d, h, mi, s, 0⟩))) =
      .ok ⟨y, 5, d, h, mi, s, 0⟩ := by
  have hv2 := hv
  simp only [validDT, Bool.and_eq_true, decide_eq_true_eq] at hv2
  have hd31 : d ≤ 31 := by
    have := daysInMonth_le31 y 5
    omega
  set I := formatPattern "%Y-%b-%d %H:%M:%S".data
    (⟨y, 5, d, h, mi, s, 0⟩ : DT) with hI
  have hFor : List.Forall₂ chEq I
      (formatPattern "%Y-%b-%d %H:%M:%S".data ⟨1111, 5, 11, 11, 11, 11, 111111⟩) := by
    rw [hI]
    exact formatAux_chEq false _ (Or.inr rfl)
  have hIeq : I = digits4 y ++ '-' :: (monthCap 5 ++ '-' :: (digits2 d ++ ' ' :: (digits2 h ++ ':' :: (digits2 mi ++ ':' :: (digits2 s ++ []))))) := by
    rw [hI]; rfl
  have hlen : I.length = 20 := by rw [hIeq]; rfl
  have hsY : sliceL I 0 4 = digits4 y := by rw [hIeq]; rfl
  have hsd : sliceL I 9 11 = digits2 d := by rw [hIeq]; rfl
  have hsH : sliceL I 12 14 = digits2 h := by rw [hIeq]; rfl
  have hsM : sliceL I 15 17 = digits2 mi := by rw [hIeq]; rfl
  have hsS : sliceL I 18 20 = digits2 s := by rw [hIeq]; rfl
  have hsb : sliceL I 5 8 = monthCap 5 := by rw [hIeq]; rfl
  have hskA0 : regexParseTime (String.mk I) "%Y-%m-%dT%H:%M:%S.%f" = .ok none := by
    apply regexParseTime_none
    rw [show (String.mk I).data = I from rfl, reMatch_chEq okS0 hFor]
    decide
  have hskA1 : regexParseTime (String.mk I) "%Y/%m/%dT%H:%M:%S.%f" = .ok none := by
    apply regexParseTime_none
    rw [show (String.mk I).data = I from rfl, reMatch_chEq okS1 hFor]
    decide
  have hskA2 : regexParseTime (String.mk I) "%Y-%m-%dT%H:%M:%S.%fZ" = .ok none := by
    apply regexParseTime_none
    rw [show (String.mk I).data = I from rfl, reMatch_chEq okS2 hFor]
    decide
  have hskA3 : regexParseTime (String.mk I) "%Y-%m-%dT%H:%M:%S" = .ok none := by
    apply regexParseTime_none
    rw [show (String.mk I).data = I from rfl, reMatch_chEq okS3 hFor]
    decide
  have hskA4 : regexParseTime (String.mk I) "%Y/%m/%dT%H:%M:%S" = .ok none := by
    apply regexParseTime_none
    rw [show (String.mk I).data = I from rfl, reMatch_chEq okS4 hFor]
    decide
  have hskA5 : regexParseTime (String.mk I) "%Y%m%dT%H%M%S.%f" = .ok none := by
    apply regexParseTime_none
    rw [show (String.mk I).data = I from rfl, reMatch_chEq okS5 hFor]
    decide
  have hskA6 : regexParseTime (String.mk I) "%Y%m%dT%H%M%S" = .ok none := by
    apply regexParseTime_none
    rw [show (String.mk I).data = I from rfl, reMatch_chEq okS6 hFor]
    decide
  have hskA7 : regexParseTime (String.mk I) "%Y/%m/%d %H:%M:%S" = .ok none := by
    apply regexParseTime_none
    rw [show (String.mk I).data = I from rfl, reMatch_chEq okS7 hFor]
    decide
  have hskA8 : regexParseTime (String.mk I) "%Y/%m/%d %H:%M" = .ok none := by
    apply regexParseTime_none
    rw [show (String.mk I).data = I from rfl, reMatch_chEq okS8 hFor]
    decide
  have hskA9 : regexParseTime (String.mk I) "%Y/%m/%d %H:%M:%S.%f" = .ok none := by
    apply regexParseTime_none
    rw [show (String.mk I).data = I from rfl, reMatch_chEq okS9 hFor]
    decide
  have hskA10 : regexParseTime (String.mk I) "%Y-%m-%d %H:%M:%S.%f" = .ok none := by
    apply regexParseTime_none
    rw [show (String.mk I).data = I from rfl, reMatch_chEq okS10 hFor]
    decide
  have hskA11 : regexParseTime (String.mk I) "%Y-%m-%d %H:%M:%S" = .ok none := by
    apply regexParseTime_none
    rw [show (String.mk I).data = I from rfl, reMatch_chEq okS11 hFor]
    decide
  have hskA12 : regexParseTime (String.mk I) "%Y-%m-%d %H:%M" = .ok none := by
    apply regexParseTime_none
    rw [show (String.mk I).data = I from rfl, reMatch_chEq okS12 hFor]
    decide
  have hre : reMatch (compileSunpy "%Y-%b-%d %H:%M:%S".data) I =
      some (20, [("year", (0, 4)), ("month_str", (5, 8)), ("day", (9, 11)), ("hour", (12, 14)), ("minute", (15, 17)), ("second", (18, 20))]) := by
    rw [reMatch_chEq okS13 hFor]
    decide
  have hrp : regexParseTime (String.mk I) "%Y-%b-%d %H:%M:%S" =
      .ok (some (String.mk I, ⟨0, 0, 0⟩)) := by
    refine regexParseTime_hour_ne24 hre rfl ?_
    show ¬ sliceL I 12 14 = "24".data
    rw [hsH]
    exact digits2_ne24 (by omega)
  have hmrun : mrun (compileStrp "%Y-%b-%d %H:%M:%S".data) I 0 [] =
      some (20, [("Y", (0, 4)), ("b", (5, 8)), ("d", (9, 11)), ("H", (12, 14)), ("M", (15, 17)), ("S", (18, 20))]) := by
    rw [show compileStrp "%Y-%b-%d %H:%M:%S".data =
      [.grp "Y" [[.digit, .digit, .digit, .digit]],
       .tst (.oneCI '-'),
       .grp "b" (monthAbbrs.map fun nm => nm.data.map CT.oneCI),
       .tst (.oneCI '-'),
       .grp "d" [[.one '3', .rng '0' '1'], [.rng '1' '2', .digit], [.one '0', .rng '1' '9'], [.rng '1' '9'], [.one ' ', .rng '1' '9']],
       .ws,
       .grp "H" [[.one '2', .rng '0' '3'], [.rng '0' '1', .digit], [.digit]],
       .tst (.oneCI ':'),
       .grp "M" [[.rng '0' '5', .digit], [.digit]],
       .tst (.oneCI ':'),
       .grp "S" [[.one '6', .rng '0' '1'], [.rng '0' '5', .digit], [.digit]]]
      from rfl, hIeq]
    apply stepY
    apply stepTst (by decide)
    apply stepb (by decide) (by decide)
    apply stepTst (by decide)
    apply stepd (by omega) (by omega)
    apply stepWs (wsLen_digits2 _ _)
    apply stepH (by omega) (by omega)
    apply stepTst (by decide)
    apply stepM (by omega) (by omega)
    apply stepTst (by decide)
    apply stepS (by omega) (by omega)
    decide
  have hstrp : strptime (String.mk I) "%Y-%b-%d %H:%M:%S" =
      .ok ⟨y, 5, d, h, mi, s, 0⟩ := by
    rw [strptime, show (String.mk I).data = I from rfl]
    rw [hmrun]
    simp only [hlen, if_true]
    simp only [show groupSlice I [("Y", (0, 4)), ("b", (5, 8)), ("d", (9, 11)), ("H", (12, 14)), ("M", (15, 17)), ("S", (18, 20))] "Y" =
        some (sliceL I 0 4) from rfl,
      show groupSlice I [("Y", (0, 4)), ("b", (5, 8)), ("d", (9, 11)), ("H", (12, 14)), ("M", (15, 17)), ("S", (18, 20))] "m" =
        none from rfl,
      show groupSlice I [("Y", (0, 4)), ("b", (5, 8)), ("d", (9, 11)), ("H", (12, 14)), ("M", (15, 17)), ("S", (18, 20))] "d" =
        some (sliceL I 9 11) from rfl,
      show groupSlice I [("Y", (0, 4)), ("b", (5, 8)), ("d", (9, 11)), ("H", (12, 14)), ("M", (15, 17)), ("S", (18, 20))] "H" =
        some (sliceL I 12 14) from rfl,
      show groupSlice I [("Y", (0, 4)), ("b", (5, 8)), ("d", (9, 11)), ("H", (12, 14)), ("M", (15, 17)), ("S", (18, 20))] "M" =
        some (sliceL I 15 17) from rfl,
      show groupSlice I [("Y", (0, 4)), ("b", (5, 8)), ("d", (9, 11)), ("H", (12, 14)), ("M", (15, 17)), ("S", (18, 20))] "S" =
        some (sliceL I 18 20) from rfl,
      show groupSlice I [("Y", (0, 4)), ("b", (5, 8)), ("d", (9, 11)), ("H", (12, 14)), ("M", (15, 17)), ("S", (18, 20))] "f" =
        none from rfl,
      show groupSlice I [("Y", (0, 4)), ("b", (5, 8)), ("d", (9, 11)), ("H", (12, 14)), ("M", (15, 17)), ("S", (18, 20))] "b" =
        some (sliceL I 5 8) from rfl,
      hsY,
      hsd,
      hsH,
      hsM,
      hsS,
      hsb,
      Option.map_some', Option.getD_some, Option.map_none', Option.getD_none]
    rw [digitsToNat_digits4 (by omega), show monthOfAbbr (monthCap 5) = 5 from by decide, digitsToNat_digits2 (by omega), digitsToNat_digits2 (by omega), digitsToNat_digits2 (by omega), digitsToNat_digits2 (by omega)]
    simp only [datetimeNew, hv, if_true]
  simp only [parseTime, TIME_FORMAT_LIST]
  rw [parseLoop_skip_none hskA0,
    parseLoop_skip_none hskA1,
    parseLoop_skip_none hskA2,
    parseLoop_skip_none hskA3,
    parseLoop_skip_none hskA4,
    parseLoop_skip_none hskA5,
    parseLoop_skip_none hskA6,
    parseLoop_skip_none hskA7,
    parseLoop_skip_none hskA8,
    parseLoop_skip_none hskA9,
    parseLoop_skip_none hskA10,
    parseLoop_skip_none hskA11,
    parseLoop_skip_none hskA12,
    parseLoop_success hrp hstrp]
  exact dtAddTd_zero hv

theorem roundtrip13x6 (now : DT) (y d h mi s : Nat)
    (hv : validDT ⟨y, 6, d, h, mi, s, 0⟩ = true) :
    parseTime now (.str (String.mk
      (formatPattern "%Y-%b-%d %H:%M:%S".data ⟨y, 6, d, h, mi, s, 0⟩))) =
      .ok ⟨y, 6, d, h, mi, s, 0⟩ := by
  have hv2 := hv
  simp only [validDT, Bool.and_eq_true, decide_eq_true_eq] at hv2
  have hd31 : d ≤ 31 := by
    have := daysInMonth_le31 y 6
    omega
  set I := formatPattern "%Y-%b-%d %H:%M:%S".data
    (⟨y, 6, d, h, mi, s, 0⟩ : DT) with hI
  have hFor : List.Forall₂ chEq I
      (formatPattern "%Y-%b-%d %H:%M:%S".data ⟨1111, 6, 11, 11, 11, 11, 111111⟩) := by
    rw [hI]
    exact formatAux_chEq false _ (Or.inr rfl)
  have hIeq : I = digits4 y ++ '-' :: (monthCap 6 ++ '-' :: (digits2 d ++ ' ' :: (digits2 h ++ ':' :: (digits2 mi ++ ':' :: (digits2 s ++ []))))) := by
    rw [hI]; rfl
  have hlen : I.length = 20 := by rw [hIeq]; rfl
  have hsY : sliceL I 0 4 = digits4 y := by rw [hIeq]; rfl
  have hsd : sliceL I 9 11 = digits2 d := by rw [hIeq]; rfl
  have hsH : sliceL I 12 14 = digits2 h := by rw [hIeq]; rfl
  have hsM : sliceL I 15 17 = digits2 mi := by rw [hIeq]; rfl
  have hsS : sliceL I 18 20 = digits2 s := by rw [hIeq]; rfl
  have hsb : sliceL I 5 8 = monthCap 6 := by rw [hIeq]; rfl
  have hskA0 : regexParseTime (String.mk I) "%Y-%m-%dT%H:%M:%S.%f" = .ok none := by
    apply regexParseTime_none
    rw [show (String.mk I).data = I from rfl, reMatch_chEq okS0 hFor]
    decide
  have hskA1 : regexParseTime (String.mk I) "%Y/%m/%dT%H:%M:%S.%f" = .ok none := by
    apply regexParseTime_none
    rw [show (String.mk I).data = I from rfl, reMatch_chEq okS1 hFor]
    decide
  have hskA2 : regexParseTime (String.mk I) "%Y-%m-%dT%H:%M:%S.%fZ" = .ok none := by
    apply regexParseTime_none
    rw [show (String.mk I).data = I from rfl, reMatch_chEq okS2 hFor]
    decide
  have hskA3 : regexParseTime (String.mk I) "%Y-%m-%dT%H:%M:%S" = .ok none := by
    apply regexParseTime_none
    rw [show (String.mk I).data = I from rfl, reMatch_chEq okS3 hFor]
    decide
  have hskA4 : regexParseTime (String.mk I) "%Y/%m/%dT%H:%M:%S" = .ok none := by
    apply regexParseTime_none
    rw [show (String.mk I).data = I from rfl, reMatch_chEq okS4 hFor]
    decide
  have hskA5 : regexParseTime (String.mk I) "%Y%m%dT%H%M%S.%f" = .ok none := by
    apply regexParseTime_none
    rw [show (String.mk I).data = I from rfl, reMatch_chEq okS5 hFor]
    decide
  have hskA6 : regexParseTime (String.mk I) "%Y%m%dT%H%M%S" = .ok none := by
    apply regexParseTime_none
    rw [show (String.mk I).data = I from rfl, reMatch_chEq okS6 hFor]
    decide
  have hskA7 : regexParseTime (String.mk I) "%Y/%m/%d %H:%M:%S" = .ok none := by
    apply regexParseTime_none
    rw [show (String.mk I).data = I from rfl, reMatch_chEq okS7 hFor]
    decide
  have hskA8 : regexParseTime (String.mk I) "%Y/%m/%d %H:%M" = .ok none := by
    apply regexParseTime_none
    rw [show (String.mk I).data = I from rfl, reMatch_chEq okS8 hFor]
    decide
  have hskA9 : regexParseTime (String.mk I) "%Y/%m/%d %H:%M:%S.%f" = .ok none := by
    apply regexParseTime_none
    rw [show (String.mk I).data = I from rfl, reMatch_chEq okS9 hFor]
    decide
  have hskA10 : regexParseTime (String.mk I) "%Y-%m-%d %H:%M:%S.%f" = .ok none := by
    apply regexParseTime_none
    rw [show (String.mk I).data = I from rfl, reMatch_chEq okS10 hFor]
    decide
  have hskA11 : regexParseTime (String.mk I) "%Y-%m-%d %H:%M:%S" = .ok none := by
    apply regexParseTime_none
    rw [show (String.mk I).data = I from rfl, reMatch_chEq okS11 hFor]
    decide
  have hskA12 : regexParseTime (String.mk I) "%Y-%m-%d %H:%M" = .ok none := by
    apply regexParseTime_none
    rw [show (String.mk I).data = I from rfl, reMatch_chEq okS12 hFor]
    decide
  have hre : reMatch (compileSunpy "%Y-%b-%d %H:%M:%S".data) I =
      some (20, [("year", (0, 4)), ("month_str", (5, 8)), ("day", (9, 11)), ("hour", (12, 14)), ("minute", (15, 17)), ("second", (18, 20))]) := by
    rw [reMatch_chEq okS13 hFor]
    decide
  have hrp : regexParseTime (String.mk I) "%Y-%b-%d %H:%M:%S" =
      .ok (some (String.mk I, ⟨0, 0, 0⟩)) := by
    refine regexParseTime_hour_ne24 hre rfl ?_
    show ¬ sliceL I 12 14 = "24".data
    rw [hsH]
    exact digits2_ne24 (by omega)
  have hmrun : mrun (compileStrp "%Y-%b-%d %H:%M:%S".data) I 0 [] =
      some (20, [("Y", (0, 4)), ("b", (5, 8)), ("d", (9, 11)), ("H", (12, 14)), ("M", (15, 17)), ("S", (18, 20))]) := by
    rw [show compileStrp "%Y-%b-%d %H:%M:%S".data =
      [.grp "Y" [[.digit, .digit, .digit, .digit]],
       .tst (.oneCI '-'),
       .grp "b" (monthAbbrs.map fun nm => nm.data.map CT.oneCI),
       .tst (.oneCI '-'),
       .grp "d" [[.one '3', .rng '0' '1'], [.rng '1' '2', .digit], [.one '0', .rng '1' '9'], [.rng '1' '9'], [.one ' ', .rng '1' '9']],
       .ws,
       .grp "H" [[.one '2', .rng '0' '3'], [.rng '0' '1', .digit], [.digit]],
       .tst (.oneCI ':'),
       .grp "M" [[.rng '0' '5', .digit], [.digit]],
       .tst (.oneCI ':'),
       .grp "S" [[.one '6', .rng '0' '1'], [.rng '0' '5', .digit], [.digit]]]
      from rfl, hIeq]
    apply stepY
    apply stepTst (by decide)
    apply stepb (by decide) (by decide)
    apply stepTst (by decide)
    apply stepd (by omega) (by omega)
    apply stepWs (wsLen_digits2 _ _)
    apply stepH (by omega) (by omega)
    apply stepTst (by decide)
    apply stepM (by omega) (by omega)
    apply stepTst (by decide)
    apply stepS (by omega) (by omega)
    decide
  have hstrp : strptime (String.mk I) "%Y-%b-%d %H:%M:%S" =
      .ok ⟨y, 6, d, h, mi, s, 0⟩ := by
    rw [strptime, show (String.mk I).data = I from rfl]
    rw [hmrun]
    simp only [hlen, if_true]
    simp only [show groupSlice I [("Y", (0, 4)), ("b", (5, 8)), ("d", (9, 11)), ("H", (12, 14)), ("M", (15, 17)), ("S", (18, 20))] "Y" =
        some (sliceL I 0 4) from rfl,
      show groupSlice I [("Y", (0, 4)), ("b", (5, 8)), ("d", (9, 11)), ("H", (12, 14)), ("M", (15, 17)), ("S", (18, 20))] "m" =
        none from rfl,
      show groupSlice I [("Y", (0, 4)), ("b", (5, 8)), ("d", (9, 11)), ("H", (12, 14)), ("M", (15, 17)), ("S", (18, 20))] "d" =
        some (sliceL I 9 11) from rfl,
      show groupSlice I [("Y", (0, 4)), ("b", (5, 8)), ("d", (9, 11)), ("H", (12, 14)), ("M", (15, 17)), ("S", (18, 20))] "H" =
        some (sliceL I 12 14) from rfl,
      show groupSlice I [("Y", (0, 4)), ("b", (5, 8)), ("d", (9, 11)), ("H", (12, 14)), ("M", (15, 17)), ("S", (18, 20))] "M" =
        some (sliceL I 15 17) from rfl,
      show groupSlice I [("Y", (0, 4)), ("b", (5, 8)), ("d", (9, 11)), ("H", (12, 14)), ("M", (15, 17)), ("S", (18, 20))] "S" =
        some (sliceL I 18 20) from rfl,
      show groupSlice I [("Y", (0, 4)), ("b", (5, 8)), ("d", (9, 11)), ("H", (12, 14)), ("M", (15, 17)), ("S", (18, 20))] "f" =
        none from rfl,
      show groupSlice I [("Y", (0, 4)), ("b", (5, 8)), ("d", (9, 11)), ("H", (12, 14)), ("M", (15, 17)), ("S", (18, 20))] "b" =
        some (sliceL I 5 8) from rfl,
      hsY,
      hsd,
      hsH,
      hsM,
      hsS,
      hsb,
      Option.map_some', Option.getD_some, Option.map_none', Option.getD_none]
    rw [digitsToNat_digits4 (by omega), show monthOfAbbr (monthCap 6) = 6 from by decide, digitsToNat_digits2 (by omega), digitsToNat_digits2 (by omega), digitsToNat_digits2 (by omega), digitsToNat_digits2 (by omega)]
    simp only [datetimeNew, hv, if_true]
  simp only [parseTime, TIME_FORMAT_LIST]
  rw [parseLoop_skip_none hskA0,
    parseLoop_skip_none hskA1,
    parseLoop_skip_none hskA2,
    parseLoop_skip_none hskA3,
    parseLoop_skip_none hskA4,
    parseLoop_skip_none hskA5,
    parseLoop_skip_none hskA6,
    parseLoop_skip_none hskA7,
    parseLoop_skip_none hskA8,
    parseLoop_skip_none hskA9,
    parseLoop_skip_none hskA10,
    parseLoop_skip_none hskA11,
    parseLoop_skip_none hskA12,
    parseLoop_success hrp hstrp]
  exact dtAddTd_zero hv

theorem roundtrip13x7 (now : DT) (y d h mi s : Nat)
    (hv : validDT ⟨y, 7, d, h, mi, s, 0⟩ = true) :
    parseTime now (.str (String.mk
      (formatPattern "%Y-%b-%d %H:%M:%S".data ⟨y, 7, d, h, mi, s, 0⟩))) =
      .ok ⟨y, 7, d, h, mi, s, 0⟩ := by
  have hv2 := hv
  simp only [validDT, Bool.and_eq_true, decide_eq_true_eq] at hv2
  have hd31 : d ≤ 31 := by
    have := daysInMonth_le31 y 7
    omega
  set I := formatPattern "%Y-%b-%d %H:%M:%S".data
    (⟨y, 7, d, h, mi, s, 0⟩ : DT) with hI
  have hFor : List.Forall₂ chEq I
      (formatPattern "%Y-%b-%d %H:%M:%S".data ⟨1111, 7, 11, 11, 11, 11, 111111⟩) := by
    rw [hI]
    exact formatAux_chEq false _ (Or.inr rfl)
  have hIeq : I = digits4 y ++ '-' :: (monthCap 7 ++ '-' :: (digits2 d ++ ' ' :: (digits2 h ++ ':' :: (digits2 mi ++ ':' :: (digits2 s ++ []))))) := by
    rw [hI]; rfl
  have hlen : I.length = 20 := by rw [hIeq]; rfl
  have hsY : sliceL I 0 4 = digits4 y := by rw [hIeq]; rfl
  have hsd : sliceL I 9 11 = digits2 d := by rw [hIeq]; rfl
  have hsH : sliceL I 12 14 = digits2 h := by rw [hIeq]; rfl
  have hsM : sliceL I 15 17 = digits2 mi := by rw [hIeq]; rfl
  have hsS : sliceL I 18 20 = digits2 s := by rw [hIeq]; rfl
  have hsb : sliceL I 5 8 = monthCap 7 := by rw [hIeq]; rfl
  have hskA0 : regexParseTime (String.mk I) "%Y-%m-%dT%H:%M:%S.%f" = .ok none := by
    apply regexParseTime_none
    rw [show (String.mk I).data = I from rfl, reMatch_chEq okS0 hFor]
    decide
  have hskA1 : regexParseTime (String.mk I) "%Y/%m/%dT%H:%M:%S.%f" = .ok none := by
    apply regexParseTime_none
    rw [show (String.mk I).data = I from rfl, reMatch_chEq okS1 hFor]
    decide
  have hskA2 : regexParseTime (String.mk I) "%Y-%m-%dT%H:%M:%S.%fZ" = .ok none := by
    apply regexParseTime_none
    rw [show (String.mk I).data = I from rfl, reMatch_chEq okS2 hFor]
    decide
  have hskA3 : regexParseTime (String.mk I) "%Y-%m-%dT%H:%M:%S" = .ok none := by
    apply regexParseTime_none
    rw [show (String.mk I).data = I from rfl, reMatch_chEq okS3 hFor]
    decide
  have hskA4 : regexParseTime (String.mk I) "%Y/%m/%dT%H:%M:%S" = .ok none := by
    apply regexParseTime_none
    rw [show (String.mk I).data = I from rfl, reMatch_chEq okS4 hFor]
    decide
  have hskA5 : regexParseTime (String.mk I) "%Y%m%dT%H%M%S.%f" = .ok none := by
    apply regexParseTime_none
    rw [show (String.mk I).data = I from rfl, reMatch_chEq okS5 hFor]
    decide
  have hskA6 : regexParseTime (String.mk I) "%Y%m%dT%H%M%S" = .ok none := by
    apply regexParseTime_none
    rw [show (String.mk I).data = I from rfl, reMatch_chEq okS6 hFor]
    decide
  have hskA7 : regexParseTime (String.mk I) "%Y/%m/%d %H:%M:%S" = .ok none := by
    apply regexParseTime_none
    rw [show (String.mk I).data = I from rfl, reMatch_chEq okS7 hFor]
    decide
  have hskA8 : regexParseTime (String.mk I) "%Y/%m/%d %H:%M" = .ok none := by
    apply regexParseTime_none
    rw [show (String.mk I).data = I from rfl, reMatch_chEq okS8 hFor]
    decide
  have hskA9 : regexParseTime (String.mk I) "%Y/%m/%d %H:%M:%S.%f" = .ok none := by
    apply regexParseTime_none
    rw [show (String.mk I).data = I from rfl, reMatch_chEq okS9 hFor]
    decide
  have hskA10 : regexParseTime (String.mk I) "%Y-%m-%d %H:%M:%S.%f" = .ok none := by
    apply regexParseTime_none
    rw [show (String.mk I).data = I from rfl, reMatch_chEq okS10 hFor]
    decide
  have hskA11 : regexParseTime (String.mk I) "%Y-%m-%d %H:%M:%S" = .ok none := by
    apply regexParseTime_none
    rw [show (String.mk I).data = I from rfl, reMatch_chEq okS11 hFor]
    decide
  have hskA12 : regexParseTime (String.mk I) "%Y-%m-%d %H:%M" = .ok none := by
    apply regexParseTime_none
    rw [show (String.mk I).data = I from rfl, reMatch_chEq okS12 hFor]
    decide
  have hre : reMatch (compileSunpy "%Y-%b-%d %H:%M:%S".data) I =
      some (20, [("year", (0, 4)), ("month_str", (5, 8)), ("day", (9, 11)), ("hour", (12, 14)), ("minute", (15, 17)), ("second", (18, 20))]) := by
    rw [reMatch_chEq okS13 hFor]
    decide
  have hrp : regexParseTime (String.mk I) "%Y-%b-%d %H:%M:%S" =
      .ok (some (String.mk I, ⟨0, 0, 0⟩)) := by
    refine regexParseTime_hour_ne24 hre rfl ?_
    show ¬ sliceL I 12 14 = "24".data
    rw [hsH]
    exact digits2_ne24 (by omega)
  have hmrun : mrun (compileStrp "%Y-%b-%d %H:%M:%S".data) I 0 [] =
      some (20, [("Y", (0, 4)), ("b", (5, 8)), ("d", (9, 11)), ("H", (12, 14)), ("M", (15, 17)), ("S", (18, 20))]) := by
    rw [show compileStrp "%Y-%b-%d %H:%M:%S".data =
      [.grp "Y" [[.digit, .digit, .digit, .digit]],
       .tst (.oneCI '-'),
       .grp "b" (monthAbbrs.map fun nm => nm.data.map CT.oneCI),
       .tst (.oneCI '-'),
       .grp "d" [[.one '3', .rng '0' '1'], [.rng '1' '2', .digit], [.one '0', .rng '1' '9'], [.rng '1' '9'], [.one ' ', .rng '1' '9']],
       .ws,
       .grp "H" [[.one '2', .rng '0' '3'], [.rng '0' '1', .digit], [.digit]],
       .tst (.oneCI ':'),
       .grp "M" [[.rng '0' '5', .digit], [.digit]],
       .tst (.oneCI ':'),
       .grp "S" [[.one '6', .rng '0' '1'], [.rng '0' '5', .digit], [.digit]]]
      from rfl, hIeq]
    apply stepY
    apply stepTst (by decide)
    apply stepb (by decide) (by decide)
    apply stepTst (by decide)
    apply stepd (by omega) (by omega)
    apply stepWs (wsLen_digits2 _ _)
    apply stepH (by omega) (by omega)
    apply stepTst (by decide)
    apply stepM (by omega) (by omega)
    apply stepTst (by decide)
    apply stepS (by omega) (by omega)
    decide
  have hstrp : strptime (String.mk I) "%Y-%b-%d %H:%M:%S" =
      .ok ⟨y, 7, d, h, mi, s, 0⟩ := by
    rw [strptime, show (String.mk I).data = I from rfl]
    rw [hmrun]
    simp only [hlen, if_true]
    simp only [show groupSlice I [("Y", (0, 4)), ("b", (5, 8)), ("d", (9, 11)), ("H", (12, 14)), ("M", (15, 17)), ("S", (18, 20))] "Y" =
        some (sliceL I 0 4) from rfl,
      show groupSlice I [("Y", (0, 4)), ("b", (5, 8)), ("d", (9, 11)), ("H", (12, 14)), ("M", (15, 17)), ("S", (18, 20))] "m" =
        none from rfl,
      show groupSlice I [("Y", (0, 4)), ("b", (5, 8)), ("d", (9, 11)), ("H", (12, 14)), ("M", (15, 17)), ("S", (18, 20))] "d" =
        some (sliceL I 9 11) from rfl,
      show groupSlice I [("Y", (0, 4)), ("b", (5, 8)), ("d", (9, 11)), ("H", (12, 14)), ("M", (15, 17)), ("S", (18, 20))] "H" =
        some (sliceL I 12 14) from rfl,
      show groupSlice I [("Y", (0, 4)), ("b", (5, 8)), ("d", (9, 11)), ("H", (12, 14)), ("M", (15, 17)), ("S", (18, 20))] "M" =
        some (sliceL I 15 17) from rfl,
      show groupSlice I [("Y", (0, 4)), ("b", (5, 8)), ("d", (9, 11)), ("H", (12, 14)), ("M", (15, 17)), ("S", (18, 20))] "S" =
        some (sliceL I 18 20) from rfl,
      show groupSlice I [("Y", (0, 4)), ("b", (5, 8)), ("d", (9, 11)), ("H", (12, 14)), ("M", (15, 17)), ("S", (18, 20))] "f" =
        none from rfl,
      show groupSlice I [("Y", (0, 4)), ("b", (5, 8)), ("d", (9, 11)), ("H", (12, 14)), ("M", (15, 17)), ("S", (18, 20))] "b" =
        some (sliceL I 5 8) from rfl,
      hsY,
      hsd,
      hsH,
      hsM,
      hsS,
      hsb,
      Option.map_some', Option.getD_some, Option.map_none', Option.getD_none]
    rw [digitsToNat_digits4 (by omega), show monthOfAbbr (monthCap 7) = 7 from by decide, digitsToNat_digits2 (by omega), digitsToNat_digits2 (by omega), digitsToNat_digits2 (by omega), digitsToNat_digits2 (by omega)]
    simp only [datetimeNew, hv, if_true]
  simp only [parseTime, TIME_FORMAT_LIST]
  rw [parseLoop_skip_none hskA0,
    parseLoop_skip_none hskA1,
    parseLoop_skip_none hskA2,
    parseLoop_skip_none hskA3,
    parseLoop_skip_none hskA4,
    parseLoop_skip_none hskA5,
    parseLoop_skip_none hskA6,
    parseLoop_skip_none hskA7,
    parseLoop_skip_none hskA8,
    parseLoop_skip_none hskA9,
    parseLoop_skip_none hskA10,
    parseLoop_skip_none hskA11,
    parseLoop_skip_none hskA12,
    parseLoop_success hrp hstrp]
  exact dtAddTd_zero hv

theorem roundtrip13x8 (now : DT) (y d h mi s : Nat)
    (hv : validDT ⟨y, 8, d, h, mi, s, 0⟩ = true) :
    parseTime now (.str (String.mk
      (formatPattern "%Y-%b-%d %H:%M:%S".data ⟨y, 8, d, h, mi, s, 0⟩))) =
      .ok ⟨y, 8, d, h, mi, s, 0⟩ := by
  have hv2 := hv
  simp only [validDT, Bool.and_eq_true, decide_eq_true_eq] at hv2
  have hd31 : d ≤ 31 := by
    have := daysInMonth_le31 y 8
    omega
  set I := formatPattern "%Y-%b-%d %H:%M:%S".data
    (⟨y, 8, d, h, mi, s, 0⟩ : DT) with hI
  have hFor : List.Forall₂ chEq I
      (formatPattern "%Y-%b-%d %H:%M:%S".data ⟨1111, 8, 11, 11, 11, 11, 111111⟩) := by
    rw [hI]
    exact formatAux_chEq false _ (Or.inr rfl)
  have hIeq : I = digits4 y ++ '-' :: (monthCap 8 ++ '-' :: (digits2 d ++ ' ' :: (digits2 h ++ ':' :: (digits2 mi ++ ':' :: (digits2 s ++ []))))) := by
    rw [hI]; rfl
  have hlen : I.length = 20 := by rw [hIeq]; rfl
  have hsY : sliceL I 0 4 = digits4 y := by rw [hIeq]; rfl
  have hsd : sliceL I 9 11 = digits2 d := by rw [hIeq]; rfl
  have hsH : sliceL I 12 14 = digits2 h := by rw [hIeq]; rfl
  have hsM : sliceL I 15 17 = digits2 mi := by rw [hIeq]; rfl
  have hsS : sliceL I 18 20 = digits2 s := by rw [hIeq]; rfl
  have hsb : sliceL I 5 8 = monthCap 8 := by rw [hIeq]; rfl
  have hskA0 : regexParseTime (String.mk I) "%Y-%m-%dT%H:%M:%S.%f" = .ok none := by
    apply regexParseTime_none
    rw [show (String.mk I).data = I from rfl, reMatch_chEq okS0 hFor]
    decide
  have hskA1 : regexParseTime (String.mk I) "%Y/%m/%dT%H:%M:%S.%f" = .ok none := by
    apply regexParseTime_none
    rw [show (String.mk I).data = I from rfl, reMatch_chEq okS1 hFor]
    decide
  have hskA2 : regexParseTime (String.mk I) "%Y-%m-%dT%H:%M:%S.%fZ" = .ok none := by
    apply regexParseTime_none
    rw [show (String.mk I).data = I from rfl, reMatch_chEq okS2 hFor]
    decide
  have hskA3 : regexParseTime (String.mk I) "%Y-%m-%dT%H:%M:%S" = .ok none := by
    apply regexParseTime_none
    rw [show (String.mk I).data = I from rfl, reMatch_chEq okS3 hFor]
    decide
  have hskA4 : regexParseTime (String.mk I) "%Y/%m/%dT%H:%M:%S" = .ok none := by
    apply regexParseTime_none
    rw [show (String.mk I).data = I from rfl, reMatch_chEq okS4 hFor]
    decide
  have hskA5 : regexParseTime (String.mk I) "%Y%m%dT%H%M%S.%f" = .ok none := by
    apply regexParseTime_none
    rw [show (String.mk I).data = I from rfl, reMatch_chEq okS5 hFor]
    decide
  have hskA6 : regexParseTime (String.mk I) "%Y%m%dT%H%M%S" = .ok none := by
    apply regexParseTime_none
    rw [show (String.mk I).data = I from rfl, reMatch_chEq okS6 hFor]
    decide
  have hskA7 : regexParseTime (String.mk I) "%Y/%m/%d %H:%M:%S" = .ok none := by
    apply regexParseTime_none
    rw [show (String.mk I).data = I from rfl, reMatch_chEq okS7 hFor]
    decide
  have hskA8 : regexParseTime (String.mk I) "%Y/%m/%d %H:%M" = .ok none := by
    apply regexParseTime_none
    rw [show (String.mk I).data = I from rfl, reMatch_chEq okS8 hFor]
    decide
  have hskA9 : regexParseTime (String.mk I) "%Y/%m/%d %H:%M:%S.%f" = .ok none := by
    apply regexParseTime_none
    rw [show (String.mk I).data = I from rfl, reMatch_chEq okS9 hFor]
    decide
  have hskA10 : regexParseTime (String.mk I) "%Y-%m-%d %H:%M:%S.%f" = .ok none := by
    apply regexParseTime_none
    rw [show (String.mk I).data = I from rfl, reMatch_chEq okS10 hFor]
    decide
  have hskA11 : regexParseTime (String.mk I) "%Y-%m-%d %H:%M:%S" = .ok none := by
    apply regexParseTime_none
    rw [show (String.mk I).data = I from rfl, reMatch_chEq okS11 hFor]
    decide
  have hskA12 : regexParseTime (String.mk I) "%Y-%m-%d %H:%M" = .ok none := by
    apply regexParseTime_none
    rw [show (String.mk I).data = I from rfl, reMatch_chEq okS12 hFor]
    decide
  have hre : reMatch (compileSunpy "%Y-%b-%d %H:%M:%S".data) I =
      some (20, [("year", (0, 4)), ("month_str", (5, 8)), ("day", (9, 11)), ("hour", (12, 14)), ("minute", (15, 17)), ("second", (18, 20))]) := by
    rw [reMatch_chEq okS13 hFor]
    decide
  have hrp : regexParseTime (String.mk I) "%Y-%b-%d %H:%M:%S" =
      .ok (some (String.mk I, ⟨0, 0, 0⟩)) := by
    refine regexParseTime_hour_ne24 hre rfl ?_
    show ¬ sliceL I 12 14 = "24".data
    rw [hsH]
    exact digits2_ne24 (by omega)
  have hmrun : mrun (compileStrp "%Y-%b-%d %H:%M:%S".data) I 0 [] =
      some (20, [("Y", (0, 4)), ("b", (5, 8)), ("d", (9, 11)), ("H", (12, 14)), ("M", (15, 17)), ("S", (18, 20))]) := by
    rw [show compileStrp "%Y-%b-%d %H:%M:%S".data =
      [.grp "Y" [[.digit, .digit, .digit, .digit]],
       .tst (.oneCI '-'),
       .grp "b" (monthAbbrs.map fun nm => nm.data.map CT.oneCI),
       .tst (.oneCI '-'),
       .grp "d" [[.one '3', .rng '0' '1'], [.rng '1' '2', .digit], [.one '0', .rng '1' '9'], [.rng '1' '9'], [.one ' ', .rng '1' '9']],
       .ws,
       .grp "H" [[.one '2', .rng '0' '3'], [.rng '0' '1', .digit], [.digit]],
       .tst (.oneCI ':'),
       .grp "M" [[.rng '0' '5', .digit], [.digit]],
       .tst (.oneCI ':'),
       .grp "S" [[.one '6', .rng '0' '1'], [.rng '0' '5', .digit], [.digit]]]
      from rfl, hIeq]
    apply stepY
    apply stepTst (by decide)
    apply stepb (by decide) (by decide)
    apply stepTst (by decide)
    apply stepd (by omega) (by omega)
    apply stepWs (wsLen_digits2 _ _)
    apply stepH (by omega) (by omega)
    apply stepTst (by decide)
    apply stepM (by omega) (by omega)
    apply stepTst (by decide)
    apply stepS (by omega) (by omega)
    decide
  have hstrp : strptime (String.mk I) "%Y-%b-%d %H:%M:%S" =
      .ok ⟨y, 8, d, h, mi, s, 0⟩ := by
    rw [strptime, show (String.mk I).data = I from rfl]
    rw [hmrun]
    simp only [hlen, if_true]
    simp only [show groupSlice I [("Y", (0, 4)), ("b", (5, 8)), ("d", (9, 11)), ("H", (12, 14)), ("M", (15, 17)), ("S", (18, 20))] "Y" =
        some (sliceL I 0 4) from rfl,
      show groupSlice I [("Y", (0, 4)), ("b", (5, 8)), ("d", (9, 11)), ("H", (12, 14)), ("M", (15, 17)), ("S", (18, 20))] "m" =
        none from rfl,
      show groupSlice I [("Y", (0, 4)), ("b", (5, 8)), ("d", (9, 11)), ("H", (12, 14)), ("M", (15, 17)), ("S", (18, 20))] "d" =
        some (sliceL I 9 11) from rfl,
      show groupSlice I [("Y", (0, 4)), ("b", (5, 8)), ("d", (9, 11)), ("H", (12, 14)), ("M", (15, 17)), ("S", (18, 20))] "H" =
        some (sliceL I 12 14) from rfl,
      show groupSlice I [("Y", (0, 4)), ("b", (5, 8)), ("d", (9, 11)), ("H", (12, 14)), ("M", (15, 17)), ("S", (18, 20))] "M" =
        some (sliceL I 15 17) from rfl,
      show groupSlice I [("Y", (0, 4)), ("b", (5, 8)), ("d", (9, 11)), ("H", (12, 14)), ("M", (15, 17)), ("S", (18, 20))] "S" =
        some (sliceL I 18 20) from rfl,
      show groupSlice I [("Y", (0, 4)), ("b", (5, 8)), ("d", (9, 11)), ("H", (12, 14)), ("M", (15, 17)), ("S", (18, 20))] "f" =
        none from rfl,
      show groupSlice I [("Y", (0, 4)), ("b", (5, 8)), ("d", (9, 11)), ("H", (12, 14)), ("M", (15, 17)), ("S", (18, 20))] "b" =
        some (sliceL I 5 8) from rfl,
      hsY,
      hsd,
      hsH,
      hsM,
      hsS,
      hsb,
      Option.map_some', Option.getD_some, Option.map_none', Option.getD_none]
    rw [digitsToNat_digits4 (by omega), show monthOfAbbr (monthCap 8) = 8 from by decide, digitsToNat_digits2 (by omega), digitsToNat_digits2 (by omega), digitsToNat_digits2 (by omega), digitsToNat_digits2 (by omega)]
    simp only [datetimeNew, hv, if_true]
  simp only [parseTime, TIME_FORMAT_LIST]
  rw [parseLoop_skip_none hskA0,
    parseLoop_skip_none hskA1,
    parseLoop_skip_none hskA2,
    parseLoop_skip_none hskA3,
    parseLoop_skip_none hskA4,
    parseLoop_skip_none hskA5,
    parseLoop_skip_none hskA6,
    parseLoop_skip_none hskA7,
    parseLoop_skip_none hskA8,
    parseLoop_skip_none hskA9,
    parseLoop_skip_none hskA10,
    parseLoop_skip_none hskA11,
    parseLoop_skip_none hskA12,
    parseLoop_success hrp hstrp]
  exact dtAddTd_zero hv

theorem roundtrip13x9 (now : DT) (y d h mi s : Nat)
    (hv : validDT ⟨y, 9, d, h, mi, s, 0⟩ = true) :
    parseTime now (.str (String.mk
      (formatPattern "%Y-%b-%d %H:%M:%S".data ⟨y, 9, d, h, mi, s, 0⟩))) =
      .ok ⟨y, 9, d, h, mi, s, 0⟩ := by
  have hv2 := hv
  simp only [validDT, Bool.and_eq_true, decide_eq_true_eq] at hv2
  have hd31 : d ≤ 31 := by
    have := daysInMonth_le31 y 9
    omega
  set I := formatPattern "%Y-%b-%d %H:%M:%S".data
    (⟨y, 9, d, h, mi, s, 0⟩ : DT) with hI
  have hFor : List.Forall₂ chEq I
      (formatPattern "%Y-%b-%d %H:%M:%S".data ⟨1111, 9, 11, 11, 11, 11, 111111⟩) := by
    rw [hI]
    exact formatAux_chEq false _ (Or.inr rfl)
  have hIeq : I = digits4 y ++ '-' :: (monthCap 9 ++ '-' :: (digits2 d ++ ' ' :: (digits2 h ++ ':' :: (digits2 mi ++ ':' :: (digits2 s ++ []))))) := by
    rw [hI]; rfl
  have hlen : I.length = 20 := by rw [hIeq]; rfl
  have hsY : sliceL I 0 4 = digits4 y := by rw [hIeq]; rfl
  have hsd : sliceL I 9 11 = digits2 d := by rw [hIeq]; rfl
  have hsH : sliceL I 12 14 = digits2 h := by rw [hIeq]; rfl
  have hsM : sliceL I 15 17 = digits2 mi := by rw [hIeq]; rfl
  have hsS : sliceL I 18 20 = digits2 s := by rw [hIeq]; rfl
  have hsb : sliceL I 5 8 = monthCap 9 := by rw [hIeq]; rfl
  have hskA0 : regexParseTime (String.mk I) "%Y-%m-%dT%H:%M:%S.%f" = .ok none := by
    apply regexParseTime_none
    rw [show (String.mk I).data = I from rfl, reMatch_chEq okS0 hFor]
    decide
  have hskA1 : regexParseTime (String.mk I) "%Y/%m/%dT%H:%M:%S.%f" = .ok none := by
    apply regexParseTime_none
    rw [show (String.mk I).data = I from rfl, reMatch_chEq okS1 hFor]
    decide
  have hskA2 : regexParseTime (String.mk I) "%Y-%m-%dT%H:%M:%S.%fZ" = .ok none := by
    apply regexParseTime_none
    rw [show (String.mk I).data = I from rfl, reMatch_chEq okS2 hFor]
    decide
  have hskA3 : regexParseTime (String.mk I) "%Y-%m-%dT%H:%M:%S" = .ok none := by
    apply regexParseTime_none
    rw [show (String.mk I).data = I from rfl, reMatch_chEq okS3 hFor]
    decide
  have hskA4 : regexParseTime (String.mk I) "%Y/%m/%dT%H:%M:%S" = .ok none := by
    apply regexParseTime_none
    rw [show (String.mk I).data = I from rfl, reMatch_chEq okS4 hFor]
    decide
  have hskA5 : regexParseTime (String.mk I) "%Y%m%dT%H%M%S.%f" = .ok none := by
    apply regexParseTime_none
    rw [show (String.mk I).data = I from rfl, reMatch_chEq okS5 hFor]
    decide
  have hskA6 : regexParseTime (String.mk I) "%Y%m%dT%H%M%S" = .ok none := by
    apply regexParseTime_none
    rw [show (String.mk I).data = I from rfl, reMatch_chEq okS6 hFor]
    decide
  have hskA7 : regexParseTime (String.mk I) "%Y/%m/%d %H:%M:%S" = .ok none := by
    apply regexParseTime_none
    rw [show (String.mk I).data = I from rfl, reMatch_chEq okS7 hFor]
    decide
  have hskA8 : regexParseTime (String.mk I) "%Y/%m/%d %H:%M" = .ok none := by
    apply regexParseTime_none
    rw [show (String.mk I).data = I from rfl, reMatch_chEq okS8 hFor]
    decide
  have hskA9 : regexParseTime (String.mk I) "%Y/%m/%d %H:%M:%S.%f" = .ok none := by
    apply regexParseTime_none
    rw [show (String.mk I).data = I from rfl, reMatch_chEq okS9 hFor]
    decide
  have hskA10 : regexParseTime (String.mk I) "%Y-%m-%d %H:%M:%S.%f" = .ok none := by
    apply regexParseTime_none
    rw [show (String.mk I).data = I from rfl, reMatch_chEq okS10 hFor]
    decide
  have hskA11 : regexParseTime (String.mk I) "%Y-%m-%d %H:%M:%S" = .ok none := by
    apply regexParseTime_none
    rw [show (String.mk I).data = I from rfl, reMatch_chEq okS11 hFor]
    decide
  have hskA12 : regexParseTime (String.mk I) "%Y-%m-%d %H:%M" = .ok none := by
    apply regexParseTime_none
    rw [show (String.mk I).data = I from rfl, reMatch_chEq okS12 hFor]
    decide
  have hre : reMatch (compileSunpy "%Y-%b-%d %H:%M:%S".data) I =
      some (20, [("year", (0, 4)), ("month_str", (5, 8)), ("day", (9, 11)), ("hour", (12, 14)), ("minute", (15, 17)), ("second", (18, 20))]) := by
    rw [reMatch_chEq okS13 hFor]
    decide
  have hrp : regexParseTime (String.mk I) "%Y-%b-%d %H:%M:%S" =
      .ok (some (String.mk I, ⟨0, 0, 0⟩)) := by
    refine regexParseTime_hour_ne24 hre rfl ?_
    show ¬ sliceL I 12 14 = "24".data
    rw [hsH]
    exact digits2_ne24 (by omega)
  have hmrun : mrun (compileStrp "%Y-%b-%d %H:%M:%S".data) I 0 [] =
      some (20, [("Y", (0, 4)), ("b", (5, 8)), ("d", (9, 11)), ("H", (12, 14)), ("M", (15, 17)), ("S", (18, 20))]) := by
    rw [show compileStrp "%Y-%b-%d %H:%M:%S".data =
      [.grp "Y" [[.digit, .digit, .digit, .digit]],
       .tst (.oneCI '-'),
       .grp "b" (monthAbbrs.map fun nm => nm.data.map CT.oneCI),
       .tst (.oneCI '-'),
       .grp "d" [[.one '3', .rng '0' '1'], [.rng '1' '2', .digit], [.one '0', .rng '1' '9'], [.rng '1' '9'], [.one ' ', .rng '1' '9']],
       .ws,
       .grp "H" [[.one '2', .rng '0' '3'], [.rng '0' '1', .digit], [.digit]],
       .tst (.oneCI ':'),
       .grp "M" [[.rng '0' '5', .digit], [.digit]],
       .tst (.oneCI ':'),
       .grp "S" [[.one '6', .rng '0' '1'], [.rng '0' '5', .digit], [.digit]]]
      from rfl, hIeq]
    apply stepY
    apply stepTst (by decide)
    apply stepb (by decide) (by decide)
    apply stepTst (by decide)
    apply stepd (by omega) (by omega)
    apply stepWs (wsLen_digits2 _ _)
    apply stepH (by omega) (by omega)
    apply stepTst (by decide)
    apply stepM (by omega) (by omega)
    apply stepTst (by decide)
    apply stepS (by omega) (by omega)
    decide
  have hstrp : strptime (String.mk I) "%Y-%b-%d %H:%M:%S" =
      .ok ⟨y, 9, d, h, mi, s, 0⟩ := by
    rw [strptime, show (String.mk I).data = I from rfl]
    rw [hmrun]
    simp only [hlen, if_true]
    simp only [show groupSlice I [("Y", (0, 4)), ("b", (5, 8)), ("d", (9, 11)), ("H", (12, 14)), ("M", (15, 17)), ("S", (18, 20))] "Y" =
        some (sliceL I 0 4) from rfl,
      show groupSlice I [("Y", (0, 4)), ("b", (5, 8)), ("d", (9, 11)), ("H", (12, 14)), ("M", (15, 17)), ("S", (18, 20))] "m" =
        none from rfl,
      show groupSlice I [("Y", (0, 4)), ("b", (5, 8)), ("d", (9, 11)), ("H", (12, 14)), ("M", (15, 17)), ("S", (18, 20))] "d" =
        some (sliceL I 9 11) from rfl,
      show groupSlice I [("Y", (0, 4)), ("b", (5, 8)), ("d", (9, 11)), ("H", (12, 14)), ("M", (15, 17)), ("S", (18, 20))] "H" =
        some (sliceL I 12 14) from rfl,
      show groupSlice I [("Y", (0, 4)), ("b", (5, 8)), ("d", (9, 11)), ("H", (12, 14)), ("M", (15, 17)), ("S", (18, 20))] "M" =
        some (sliceL I 15 17) from rfl,
      show groupSlice I [("Y", (0, 4)), ("b", (5, 8)), ("d", (9, 11)), ("H", (12, 14)), ("M", (15, 17)), ("S", (18, 20))] "S" =
        some (sliceL I 18 20) from rfl,
      show groupSlice I [("Y", (0, 4)), ("b", (5, 8)), ("d", (9, 11)), ("H", (12, 14)), ("M", (15, 17)), ("S", (18, 20))] "f" =
        none from rfl,
      show groupSlice I [("Y", (0, 4)), ("b", (5, 8)), ("d", (9, 11)), ("H", (12, 14)), ("M", (15, 17)), ("S", (18, 20))] "b" =
        some (sliceL I 5 8) from rfl,
      hsY,
      hsd,
      hsH,
      hsM,
      hsS,
      hsb,
      Option.map_some', Option.getD_some, Option.map_none', Option.getD_none]
    rw [digitsToNat_digits4 (by omega), show monthOfAbbr (monthCap 9) = 9 from by decide, digitsToNat_digits2 (by omega), digitsToNat_digits2 (by omega), digitsToNat_digits2 (by omega), digitsToNat_digits2 (by omega)]
    simp only [datetimeNew, hv, if_true]
  simp only [parseTime, TIME_FORMAT_LIST]
  rw [parseLoop_skip_none hskA0,
    parseLoop_skip_none hskA1,
    parseLoop_skip_none hskA2,
    parseLoop_skip_none hskA3,
    parseLoop_skip_none hskA4,
    parseLoop_skip_none hskA5,
    parseLoop_skip_none hskA6,
    parseLoop_skip_none hskA7,
    parseLoop_skip_none hskA8,
    parseLoop_skip_none hskA9,
    parseLoop_skip_none hskA10,
    parseLoop_skip_none hskA11,
    parseLoop_skip_none hskA12,
    parseLoop_success hrp hstrp]
  exact dtAddTd_zero hv

theorem roundtrip13x10 (now : DT) (y d h mi s : Nat)
    (hv : validDT ⟨y, 10, d, h, mi, s, 0⟩ = true) :
    parseTime now (.str (String.mk
      (formatPattern "%Y-%b-%d %H:%M:%S".data ⟨y, 10, d, h, mi, s, 0⟩))) =
      .ok ⟨y, 10, d, h, mi, s, 0⟩ := by
  have hv2 := hv
  simp only [validDT, Bool.and_eq_true, decide_eq_true_eq] at hv2
  have hd31 : d ≤ 31 := by
    have := daysInMonth_le31 y 10
    omega
  set I := formatPattern "%Y-%b-%d %H:%M:%S".data
    (⟨y, 10, d, h, mi, s, 0⟩ : DT) with hI
  have hFor : List.Forall₂ chEq I
      (formatPattern "%Y-%b-%d %H:%M:%S".data ⟨1111, 10, 11, 11, 11, 11, 111111⟩) := by
    rw [hI]
    exact formatAux_chEq false _ (Or.inr rfl)
  have hIeq : I = digits4 y ++ '-' :: (monthCap 10 ++ '-' :: (digits2 d ++ ' ' :: (digits2 h ++ ':' :: (digits2 mi ++ ':' :: (digits2 s ++ []))))) := by
    rw [hI]; rfl
  have hlen : I.length = 20 := by rw [hIeq]; rfl
  have hsY : sliceL I 0 4 = digits4 y := by rw [hIeq]; rfl
  have hsd : sliceL I 9 11 = digits2 d := by rw [hIeq]; rfl
  have hsH : sliceL I 12 14 = digits2 h := by rw [hIeq]; rfl
  have hsM : sliceL I 15 17 = digits2 mi := by rw [hIeq]; rfl
  have hsS : sliceL I 18 20 = digits2 s := by rw [hIeq]; rfl
  have hsb : sliceL I 5 8 = monthCap 10 := by rw [hIeq]; rfl
  have hskA0 : regexParseTime (String.mk I) "%Y-%m-%dT%H:%M:%S.%f" = .ok none := by
    apply regexParseTime_none
    rw [show (String.mk I).data = I from rfl, reMatch_chEq okS0 hFor]
    decide
  have hskA1 : regexParseTime (String.mk I) "%Y/%m/%dT%H:%M:%S.%f" = .ok none := by
    apply regexParseTime_none
    rw [show (String.mk I).data = I from rfl, reMatch_chEq okS1 hFor]
    decide
  have hskA2 : regexParseTime (String.mk I) "%Y-%m-%dT%H:%M:%S.%fZ" = .ok none := by
    apply regexParseTime_none
    rw [show (String.mk I).data = I from rfl, reMatch_chEq okS2 hFor]
    decide
  have hskA3 : regexParseTime (String.mk I) "%Y-%m-%dT%H:%M:%S" = .ok none := by
    apply regexParseTime_none
    rw [show (String.mk I).data = I from rfl, reMatch_chEq okS3 hFor]
    decide
  have hskA4 : regexParseTime (String.mk I) "%Y/%m/%dT%H:%M:%S" = .ok none := by
    apply regexParseTime_none
    rw [show (String.mk I).data = I from rfl, reMatch_chEq okS4 hFor]
    decide
  have hskA5 : regexParseTime (String.mk I) "%Y%m%dT%H%M%S.%f" = .ok none := by
    apply regexParseTime_none
    rw [show (String.mk I).data = I from rfl, reMatch_chEq okS5 hFor]
    decide
  have hskA6 : regexParseTime (String.mk I) "%Y%m%dT%H%M%S" = .ok none := by
    apply regexParseTime_none
    rw [show (String.mk I).data = I from rfl, reMatch_chEq okS6 hFor]
    decide
  have hskA7 : regexParseTime (String.mk I) "%Y/%m/%d %H:%M:%S" = .ok none := by
    apply regexParseTime_none
    rw [show (String.mk I).data = I from rfl, reMatch_chEq okS7 hFor]
    decide
  have hskA8 : regexParseTime (String.mk I) "%Y/%m/%d %H:%M" = .ok none := by
    apply regexParseTime_none
    rw [show (String.mk I).data = I from rfl, reMatch_chEq okS8 hFor]
    decide
  have hskA9 : regexParseTime (String.mk I) "%Y/%m/%d %H:%M:%S.%f" = .ok none := by
    apply regexParseTime_none
    rw [show (String.mk I).data = I from rfl, reMatch_chEq okS9 hFor]
    decide
  have hskA10 : regexParseTime (String.mk I) "%Y-%m-%d %H:%M:%S.%f" = .ok none := by
    apply regexParseTime_none
    rw [show (String.mk I).data = I from rfl, reMatch_chEq okS10 hFor]
    decide
  have hskA11 : regexParseTime (String.mk I) "%Y-%m-%d %H:%M:%S" = .ok none := by
    apply regexParseTime_none
    rw [show (String.mk I).data = I from rfl, reMatch_chEq okS11 hFor]
    decide
  have hskA12 : regexParseTime (String.mk I) "%Y-%m-%d %H:%M" = .ok none := by
    apply regexParseTime_none
    rw [show (String.mk I).data = I from rfl, reMatch_chEq okS12 hFor]
    decide
  have hre : reMatch (compileSunpy "%Y-%b-%d %H:%M:%S".data) I =
      some (20, [("year", (0, 4)), ("month_str", (5, 8)), ("day", (9, 11)), ("hour", (12, 14)), ("minute", (15, 17)), ("second", (18, 20))]) := by
    rw [reMatch_chEq okS13 hFor]
    decide
  have hrp : regexParseTime (String.mk I) "%Y-%b-%d %H:%M:%S" =
      .ok (some (String.mk I, ⟨0, 0, 0⟩)) := by
    refine regexParseTime_hour_ne24 hre rfl ?_
    show ¬ sliceL I 12 14 = "24".data
    rw [hsH]
    exact digits2_ne24 (by omega)
  have hmrun : mrun (compileStrp "%Y-%b-%d %H:%M:%S".data) I 0 [] =
      some (20, [("Y", (0, 4)), ("b", (5, 8)), ("d", (9, 11)), ("H", (12, 14)), ("M", (15, 17)), ("S", (18, 20))]) := by
    rw [show compileStrp "%Y-%b-%d %H:%M:%S".data =
      [.grp "Y" [[.digit, .digit, .digit, .digit]],
       .tst (.oneCI '-'),
       .grp "b" (monthAbbrs.map fun nm => nm.data.map CT.oneCI),
       .tst (.oneCI '-'),
       .grp "d" [[.one '3', .rng '0' '1'], [.rng '1' '2', .digit], [.one '0', .rng '1' '9'], [.rng '1' '9'], [.one ' ', .rng '1' '9']],
       .ws,
       .grp "H" [[.one '2', .rng '0' '3'], [.rng '0' '1', .digit], [.digit]],
       .tst (.oneCI ':'),
       .grp "M" [[.rng '0' '5', .digit], [.digit]],
       .tst (.oneCI ':'),
       .grp "S" [[.one '6', .rng '0' '1'], [.rng '0' '5', .digit], [.digit]]]
      from rfl, hIeq]
    apply stepY
    apply stepTst (by decide)
    apply stepb (by decide) (by decide)
    apply stepTst (by decide)
    apply stepd (by omega) (by omega)
    apply stepWs (wsLen_digits2 _ _)
    apply stepH (by omega) (by omega)
    apply stepTst (by decide)
    apply stepM (by omega) (by omega)
    apply stepTst (by decide)
    apply stepS (by omega) (by omega)
    decide
  have hstrp : strptime (String.mk I) "%Y-%b-%d %H:%M:%S" =
      .ok ⟨y, 10, d, h, mi, s, 0⟩ := by
    rw [strptime, show (String.mk I).data = I from rfl]
    rw [hmrun]
    simp only [hlen, if_true]
    simp only [show groupSlice I [("Y", (0, 4)), ("b", (5, 8)), ("d", (9, 11)), ("H", (12, 14)), ("M", (15, 17)), ("S", (18, 20))] "Y" =
        some (sliceL I 0 4) from rfl,
      show groupSlice I [("Y", (0, 4)), ("b", (5, 8)), ("d", (9, 11)), ("H", (12, 14)), ("M", (15, 17)), ("S", (18, 20))] "m" =
        none from rfl,
      show groupSlice I [("Y", (0, 4)), ("b", (5, 8)), ("d", (9, 11)), ("H", (12, 14)), ("M", (15, 17)), ("S", (18, 20))] "d" =
        some (sliceL I 9 11) from rfl,
      show groupSlice I [("Y", (0, 4)), ("b", (5, 8)), ("d", (9, 11)), ("H", (12, 14)), ("M", (15, 17)), ("S", (18, 20))] "H" =
        some (sliceL I 12 14) from rfl,
      show groupSlice I [("Y", (0, 4)), ("b", (5, 8)), ("d", (9, 11)), ("H", (12, 14)), ("M", (15, 17)), ("S", (18, 20))] "M" =
        some (sliceL I 15 17) from rfl,
      show groupSlice I [("Y", (0, 4)), ("b", (5, 8)), ("d", (9, 11)), ("H", (12, 14)), ("M", (15, 17)), ("S", (18, 20))] "S" =
        some (sliceL I 18 20) from rfl,
      show groupSlice I [("Y", (0, 4)), ("b", (5, 8)), ("d", (9, 11)), ("H", (12, 14)), ("M", (15, 17)), ("S", (18, 20))] "f" =
        none from rfl,
      show groupSlice I [("Y", (0, 4)), ("b", (5, 8)), ("d", (9, 11)), ("H", (12, 14)), ("M", (15, 17)), ("S", (18, 20))] "b" =
        some (sliceL I 5 8) from rfl,
      hsY,
      hsd,
      hsH,
      hsM,
      hsS,
      hsb,
      Option.map_some', Option.getD_some, Option.map_none', Option.getD_none]
    rw [digitsToNat_digits4 (by omega), show monthOfAbbr (monthCap 10) = 10 from by decide, digitsToNat_digits2 (by omega), digitsToNat_digits2 (by omega), digitsToNat_digits2 (by omega), digitsToNat_digits2 (by omega)]
    simp only [datetimeNew, hv, if_true]
  simp only [parseTime, TIME_FORMAT_LIST]
  rw [parseLoop_skip_none hskA0,
    parseLoop_skip_none hskA1,
    parseLoop_skip_none hskA2,
    parseLoop_skip_none hskA3,
    parseLoop_skip_none hskA4,
    parseLoop_skip_none hskA5,
    parseLoop_skip_none hskA6,
    parseLoop_skip_none hskA7,
    parseLoop_skip_none hskA8,
    parseLoop_skip_none hskA9,
    parseLoop_skip_none hskA10,
    parseLoop_skip_none hskA11,
    parseLoop_skip_none hskA12,
    parseLoop_success hrp hstrp]
  exact dtAddTd_zero hv

theorem roundtrip13x11 (now : DT) (y d h mi s : Nat)
    (hv : validDT ⟨y, 11, d, h, mi, s, 0⟩ = true) :
    parseTime now (.str (String.mk
      (formatPattern "%Y-%b-%d %H:%M:%S".data ⟨y, 11, d, h, mi, s, 0⟩))) =
      .ok ⟨y, 11, d, h, mi, s, 0⟩ := by
  have hv2 := hv
  simp only [validDT, Bool.and_eq_true, decide_eq_true_eq] at hv2
  have hd31 : d ≤ 31 := by
    have := daysInMonth_le31 y 11
    omega
  set I := formatPattern "%Y-%b-%d %H:%M:%S".data
    (⟨y, 11, d, h, mi, s, 0⟩ : DT) with hI
  have hFor : List.Forall₂ chEq I
      (formatPattern "%Y-%b-%d %H:%M:%S".data ⟨1111, 11, 11, 11, 11, 11, 111111⟩) := by
    rw [hI]
    exact formatAux_chEq false _ (Or.inr rfl)
  have hIeq : I = digits4 y ++ '-' :: (monthCap 11 ++ '-' :: (digits2 d ++ ' ' :: (digits2 h ++ ':' :: (digits2 mi ++ ':' :: (digits2 s ++ []))))) := by
    rw [hI]; rfl
  have hlen : I.length = 20 := by rw [hIeq]; rfl
  have hsY : sliceL I 0 4 = digits4 y := by rw [hIeq]; rfl
  have hsd : sliceL I 9 11 = digits2 d := by rw [hIeq]; rfl
  have hsH : sliceL I 12 14 = digits2 h := by rw [hIeq]; rfl
  have hsM : sliceL I 15 17 = digits2 mi := by rw [hIeq]; rfl
  have hsS : sliceL I 18 20 = digits2 s := by rw [hIeq]; rfl
  have hsb : sliceL I 5 8 = monthCap 11 := by rw [hIeq]; rfl
  have hskA0 : regexParseTime (String.mk I) "%Y-%m-%dT%H:%M:%S.%f" = .ok none := by
    apply regexParseTime_none
    rw [show (String.mk I).data = I from rfl, reMatch_chEq okS0 hFor]
    decide
  have hskA1 : regexParseTime (String.mk I) "%Y/%m/%dT%H:%M:%S.%f" = .ok none := by
    apply regexParseTime_none
    rw [show (String.mk I).data = I from rfl, reMatch_chEq okS1 hFor]
    decide
  have hskA2 : regexParseTime (String.mk I) "%Y-%m-%dT%H:%M:%S.%fZ" = .ok none := by
    apply regexParseTime_none
    rw [show (String.mk I).data = I from rfl, reMatch_chEq okS2 hFor]
    decide
  have hskA3 : regexParseTime (String.mk I) "%Y-%m-%dT%H:%M:%S" = .ok none := by
    apply regexParseTime_none
    rw [show (String.mk I).data = I from rfl, reMatch_chEq okS3 hFor]
    decide
  have hskA4 : regexParseTime (String.mk I) "%Y/%m/%dT%H:%M:%S" = .ok none := by
    apply regexParseTime_none
    rw [show (String.mk I).data = I from rfl, reMatch_chEq okS4 hFor]
    decide
  have hskA5 : regexParseTime (String.mk I) "%Y%m%dT%H%M%S.%f" = .ok none := by
    apply regexParseTime_none
    rw [show (String.mk I).data = I from rfl, reMatch_chEq okS5 hFor]
    decide
  have hskA6 : regexParseTime (String.mk I) "%Y%m%dT%H%M%S" = .ok none := by
    apply regexParseTime_none
    rw [show (String.mk I).data = I from rfl, reMatch_chEq okS6 hFor]
    decide
  have hskA7 : regexParseTime (String.mk I) "%Y/%m/%d %H:%M:%S" = .ok none := by
    apply regexParseTime_none
    rw [show (String.mk I).data = I from rfl, reMatch_chEq okS7 hFor]
    decide
  have hskA8 : regexParseTime (String.mk I) "%Y/%m/%d %H:%M" = .ok none := by
    apply regexParseTime_none
    rw [show (String.mk I).data = I from rfl, reMatch_chEq okS8 hFor]
    decide
  have hskA9 : regexParseTime (String.mk I) "%Y/%m/%d %H:%M:%S.%f" = .ok none := by
    apply regexParseTime_none
    rw [show (String.mk I).data = I from rfl, reMatch_chEq okS9 hFor]
    decide
  have hskA10 : regexParseTime (String.mk I) "%Y-%m-%d %H:%M:%S.%f" = .ok none := by
    apply regexParseTime_none
    rw [show (String.mk I).data = I from rfl, reMatch_chEq okS10 hFor]
    decide
  have hskA11 : regexParseTime (String.mk I) "%Y-%m-%d %H:%M:%S" = .ok none := by
    apply regexParseTime_none
    rw [show (String.mk I).data = I from rfl, reMatch_chEq okS11 hFor]
    decide
  have hskA12 : regexParseTime (String.mk I) "%Y-%m-%d %H:%M" = .ok none := by
    apply regexParseTime_none
    rw [show (String.mk I).data = I from rfl, reMatch_chEq okS12 hFor]
    decide
  have hre : reMatch (compileSunpy "%Y-%b-%d %H:%M:%S".data) I =
      some (20, [("year", (0, 4)), ("month_str", (5, 8)), ("day", (9, 11)), ("hour", (12, 14)), ("minute", (15, 17)), ("second", (18, 20))]) := by
    rw [reMatch_chEq okS13 hFor]
    decide
  have hrp : regexParseTime (String.mk I) "%Y-%b-%d %H:%M:%S" =
      .ok (some (String.mk I, ⟨0, 0, 0⟩)) := by
    refine regexParseTime_hour_ne24 hre rfl ?_
    show ¬ sliceL I 12 14 = "24".data
    rw [hsH]
    exact digits2_ne24 (by omega)
  have hmrun : mrun (compileStrp "%Y-%b-%d %H:%M:%S".data) I 0 [] =
      some (20, [("Y", (0, 4)), ("b", (5, 8)), ("d", (9, 11)), ("H", (12, 14)), ("M", (15, 17)), ("S", (18, 20))]) := by
    rw [show compileStrp "%Y-%b-%d %H:%M:%S".data =
      [.grp "Y" [[.digit, .digit, .digit, .digit]],
       .tst (.oneCI '-'),
       .grp "b" (monthAbbrs.map fun nm => nm.data.map CT.oneCI),
       .tst (.oneCI '-'),
       .grp "d" [[.one '3', .rng '0' '1'], [.rng '1' '2', .digit], [.one '0', .rng '1' '9'], [.rng '1' '9'], [.one ' ', .rng '1' '9']],
       .ws,
       .grp "H" [[.one '2', .rng '0' '3'], [.rng '0' '1', .digit], [.digit]],
       .tst (.oneCI ':'),
       .grp "M" [[.rng '0' '5', .digit], [.digit]],
       .tst (.oneCI ':'),
       .grp "S" [[.one '6', .rng '0' '1'], [.rng '0' '5', .digit], [.digit]]]
      from rfl, hIeq]
    apply stepY
    apply stepTst (by decide)
    apply stepb (by decide) (by decide)
    apply stepTst (by decide)
    apply stepd (by omega) (by omega)
    apply stepWs (wsLen_digits2 _ _)
    apply stepH (by omega) (by omega)
    apply stepTst (by decide)
    apply stepM (by omega) (by omega)
    apply stepTst (by decide)
    apply stepS (by omega) (by omega)
    decide
  have hstrp : strptime (String.mk I) "%Y-%b-%d %H:%M:%S" =
      .ok ⟨y, 11, d, h, mi, s, 0⟩ := by
    rw [strptime, show (String.mk I).data = I from rfl]
    rw [hmrun]
    simp only [hlen, if_true]
    simp only [show groupSlice I [("Y", (0, 4)), ("b", (5, 8)), ("d", (9, 11)), ("H", (12, 14)), ("M", (15, 17)), ("S", (18, 20))] "Y" =
        some (sliceL I 0 4) from rfl,
      show groupSlice I [("Y", (0, 4)), ("b", (5, 8)), ("d", (9, 11)), ("H", (12, 14)), ("M", (15, 17)), ("S", (18, 20))] "m" =
        none from rfl,
      show groupSlice I [("Y", (0, 4)), ("b", (5, 8)), ("d", (9, 11)), ("H", (12, 14)), ("M", (15, 17)), ("S", (18, 20))] "d" =
        some (sliceL I 9 11) from rfl,
      show groupSlice I [("Y", (0, 4)), ("b", (5, 8)), ("d", (9, 11)), ("H", (12, 14)), ("M", (15, 17)), ("S", (18, 20))] "H" =
        some (sliceL I 12 14) from rfl,
      show groupSlice I [("Y", (0, 4)), ("b", (5, 8)), ("d", (9, 11)), ("H", (12, 14)), ("M", (15, 17)), ("S", (18, 20))] "M" =
        some (sliceL I 15 17) from rfl,
      show groupSlice I [("Y", (0, 4)), ("b", (5, 8)), ("d", (9, 11)), ("H", (12, 14)), ("M", (15, 17)), ("S", (18, 20))] "S" =
        some (sliceL I 18 20) from rfl,
      show groupSlice I [("Y", (0, 4)), ("b", (5, 8)), ("d", (9, 11)), ("H", (12, 14)), ("M", (15, 17)), ("S", (18, 20))] "f" =
        none from rfl,
      show groupSlice I [("Y", (0, 4)), ("b", (5, 8)), ("d", (9, 11)), ("H", (12, 14)), ("M", (15, 17)), ("S", (18, 20))] "b" =
        some (sliceL I 5 8) from rfl,
      hsY,
      hsd,
      hsH,
      hsM,
      hsS,
      hsb,
      Option.map_some', Option.getD_some, Option.map_none', Option.getD_none]
    rw [digitsToNat_digits4 (by omega), show monthOfAbbr (monthCap 11) = 11 from by decide, digitsToNat_digits2 (by omega), digitsToNat_digits2 (by omega), digitsToNat_digits2 (by omega), digitsToNat_digits2 (by omega)]
    simp only [datetimeNew, hv, if_true]
  simp only [parseTime, TIME_FORMAT_LIST]
  rw [parseLoop_skip_none hskA0,
    parseLoop_skip_none hskA1,
    parseLoop_skip_none hskA2,
    parseLoop_skip_none hskA3,
    parseLoop_skip_none hskA4,
    parseLoop_skip_none hskA5,
    parseLoop_skip_none hskA6,
    parseLoop_skip_none hskA7,
    parseLoop_skip_none hskA8,
    parseLoop_skip_none hskA9,
    parseLoop_skip_none hskA10,
    parseLoop_skip_none hskA11,
    parseLoop_skip_none hskA12,
    parseLoop_success hrp hstrp]
  exact dtAddTd_zero hv

theorem roundtrip13x12 (now : DT) (y d h mi s : Nat)
    (hv : validDT ⟨y, 12, d, h, mi, s, 0⟩ = true) :
    parseTime now (.str (String.mk
      (formatPattern "%Y-%b-%d %H:%M:%S".data ⟨y, 12, d, h, mi, s, 0⟩))) =
      .ok ⟨y, 12, d, h, mi, s, 0⟩ := by
  have hv2 := hv
  simp only [validDT, Bool.and_eq_true, decide_eq_true_eq] at hv2
  have hd31 : d ≤ 31 := by
    have := daysInMonth_le31 y 12
    omega
  set I := formatPattern "%Y-%b-%d %H:%M:%S".data
    (⟨y, 12, d, h, mi, s, 0⟩ : DT) with hI
  have hFor : List.Forall₂ chEq I
      (formatPattern "%Y-%b-%d %H:%M:%S".data ⟨1111, 12, 11, 11, 11, 11, 111111⟩) := by
    rw [hI]
    exact formatAux_chEq false _ (Or.inr rfl)
  have hIeq : I = digits4 y ++ '-' :: (monthCap 12 ++ '-' :: (digits2 d ++ ' ' :: (digits2 h ++ ':' :: (digits2 mi ++ ':' :: (digits2 s ++ []))))) := by
    rw [hI]; rfl
  have hlen : I.length = 20 := by rw [hIeq]; rfl
  have hsY : sliceL I 0 4 = digits4 y := by rw [hIeq]; rfl
  have hsd : sliceL I 9 11 = digits2 d := by rw [hIeq]; rfl
  have hsH : sliceL I 12 14 = digits2 h := by rw [hIeq]; rfl
  have hsM : sliceL I 15 17 = digits2 mi := by rw [hIeq]; rfl
  have hsS : sliceL I 18 20 = digits2 s := by rw [hIeq]; rfl
  have hsb : sliceL I 5 8 = monthCap 12 := by rw [hIeq]; rfl
  have hskA0 : regexParseTime (String.mk I) "%Y-%m-%dT%H:%M:%S.%f" = .ok none := by
    apply regexParseTime_none
    rw [show (String.mk I).data = I from rfl, reMatch_chEq okS0 hFor]
    decide
  have hskA1 : regexParseTime (String.mk I) "%Y/%m/%dT%H:%M:%S.%f" = .ok none := by
    apply regexParseTime_none
    rw [show (String.mk I).data = I from rfl, reMatch_chEq okS1 hFor]
    decide
  have hskA2 : regexParseTime (String.mk I) "%Y-%m-%dT%H:%M:%S.%fZ" = .ok none := by
    apply regexParseTime_none
    rw [show (String.mk I).data = I from rfl, reMatch_chEq okS2 hFor]
    decide
  have hskA3 : regexParseTime (String.mk I) "%Y-%m-%dT%H:%M:%S" = .ok none := by
    apply regexParseTime_none
    rw [show (String.mk I).data = I from rfl, reMatch_chEq okS3 hFor]
    decide
  have hskA4 : regexParseTime (String.mk I) "%Y/%m/%dT%H:%M:%S" = .ok none := by
    apply regexParseTime_none
    rw [show (String.mk I).data = I from rfl, reMatch_chEq okS4 hFor]
    decide
  have hskA5 : regexParseTime (String.mk I) "%Y%m%dT%H%M%S.%f" = .ok none := by
    apply regexParseTime_none
    rw [show (String.mk I).data = I from rfl, reMatch_chEq okS5 hFor]
    decide
  have hskA6 : regexParseTime (String.mk I) "%Y%m%dT%H%M%S" = .ok none := by
    apply regexParseTime_none
    rw [show (String.mk I).data = I from rfl, reMatch_chEq okS6 hFor]
    decide
  have hskA7 : regexParseTime (String.mk I) "%Y/%m/%d %H:%M:%S" = .ok none := by
    apply regexParseTime_none
    rw [show (String.mk I).data = I from rfl, reMatch_chEq okS7 hFor]
    decide
  have hskA8 : regexParseTime (String.mk I) "%Y/%m/%d %H:%M" = .ok none := by
    apply regexParseTime_none
    rw [show (String.mk I).data = I from rfl, reMatch_chEq okS8 hFor]
    decide
  have hskA9 : regexParseTime (String.mk I) "%Y/%m/%d %H:%M:%S.%f" = .ok none := by
    apply regexParseTime_none
    rw [show (String.mk I).data = I from rfl, reMatch_chEq okS9 hFor]
    decide
  have hskA10 : regexParseTime (String.mk I) "%Y-%m-%d %H:%M:%S.%f" = .ok none := by
    apply regexParseTime_none
    rw [show (String.mk I).data = I from rfl, reMatch_chEq okS10 hFor]
    decide
  have hskA11 : regexParseTime (String.mk I) "%Y-%m-%d %H:%M:%S" = .ok none := by
    apply regexParseTime_none
    rw [show (String.mk I).data = I from rfl, reMatch_chEq okS11 hFor]
    decide
  have hskA12 : regexParseTime (String.mk I) "%Y-%m-%d %H:%M" = .ok none := by
    apply regexParseTime_none
    rw [show (String.mk I).data = I from rfl, reMatch_chEq okS12 hFor]
    decide
  have hre : reMatch (compileSunpy "%Y-%b-%d %H:%M:%S".data) I =
      some (20, [("year", (0, 4)), ("month_str", (5, 8)), ("day", (9, 11)), ("hour", (12, 14)), ("minute", (15, 17)), ("second", (18, 20))]) := by
    rw [reMatch_chEq okS13 hFor]
    decide
  have hrp : regexParseTime (String.mk I) "%Y-%b-%d %H:%M:%S" =
      .ok (some (String.mk I, ⟨0, 0, 0⟩)) := by
    refine regexParseTime_hour_ne24 hre rfl ?_
    show ¬ sliceL I 12 14 = "24".data
    rw [hsH]
    exact digits2_ne24 (by omega)
  have hmrun : mrun (compileStrp "%Y-%b-%d %H:%M:%S".data) I 0 [] =
      some (20, [("Y", (0, 4)), ("b", (5, 8)), ("d", (9, 11)), ("H", (12, 14)), ("M", (15, 17)), ("S", (18, 20))]) := by
    rw [show compileStrp "%Y-%b-%d %H:%M:%S".data =
      [.grp "Y" [[.digit, .digit, .digit, .digit]],
       .tst (.oneCI '-'),
       .grp "b" (monthAbbrs.map fun nm => nm.data.map CT.oneCI),
       .tst (.oneCI '-'),
       .grp "d" [[.one '3', .rng '0' '1'], [.rng '1' '2', .digit], [.one '0', .rng '1' '9'], [.rng '1' '9'], [.one ' ', .rng '1' '9']],
       .ws,
       .grp "H" [[.one '2', .rng '0' '3'], [.rng '0' '1', .digit], [.digit]],
       .tst (.oneCI ':'),
       .grp "M" [[.rng '0' '5', .digit], [.digit]],
       .tst (.oneCI ':'),
       .grp "S" [[.one '6', .rng '0' '1'], [.rng '0' '5', .digit], [.digit]]]
      from rfl, hIeq]
    apply stepY
    apply stepTst (by decide)
    apply stepb (by decide) (by decide)
    apply stepTst (by decide)
    apply stepd (by omega) (by omega)
    apply stepWs (wsLen_digits2 _ _)
    apply stepH (by omega) (by omega)
    apply stepTst (by decide)
    apply stepM (by omega) (by omega)
    apply stepTst (by decide)
    apply stepS (by omega) (by omega)
    decide
  have hstrp : strptime (String.mk I) "%Y-%b-%d %H:%M:%S" =
      .ok ⟨y, 12, d, h, mi, s, 0⟩ := by
    rw [strptime, show (String.mk I).data = I from rfl]
    rw [hmrun]
    simp only [hlen, if_true]
    simp only [show groupSlice I [("Y", (0, 4)), ("b", (5, 8)), ("d", (9, 11)), ("H", (12, 14)), ("M", (15, 17)), ("S", (18, 20))] "Y" =
        some (sliceL I 0 4) from rfl,
      show groupSlice I [("Y", (0, 4)), ("b", (5, 8)), ("d", (9, 11)), ("H", (12, 14)), ("M", (15, 17)), ("S", (18, 20))] "m" =
        none from rfl,
      show groupSlice I [("Y", (0, 4)), ("b", (5, 8)), ("d", (9, 11)), ("H", (12, 14)), ("M", (15, 17)), ("S", (18, 20))] "d" =
        some (sliceL I 9 11) from rfl,
      show groupSlice I [("Y", (0, 4)), ("b", (5, 8)), ("d", (9, 11)), ("H", (12, 14)), ("M", (15, 17)), ("S", (18, 20))] "H" =
        some (sliceL I 12 14) from rfl,
      show groupSlice I [("Y", (0, 4)), ("b", (5, 8)), ("d", (9, 11)), ("H", (12, 14)), ("M", (15, 17)), ("S", (18, 20))] "M" =
        some (sliceL I 15 17) from rfl,
      show groupSlice I [("Y", (0, 4)), ("b", (5, 8)), ("d", (9, 11)), ("H", (12, 14)), ("M", (15, 17)), ("S", (18, 20))] "S" =
        some (sliceL I 18 20) from rfl,
      show groupSlice I [("Y", (0, 4)), ("b", (5, 8)), ("d", (9, 11)), ("H", (12, 14)), ("M", (15, 17)), ("S", (18, 20))] "f" =
        none from rfl,
      show groupSlice I [("Y", (0, 4)), ("b", (5, 8)), ("d", (9, 11)), ("H", (12, 14)), ("M", (15, 17)), ("S", (18, 20))] "b" =
        some (sliceL I 5 8) from rfl,
      hsY,
      hsd,
      hsH,
      hsM,
      hsS,
      hsb,
      Option.map_some', Option.getD_some, Option.map_none', Option.getD_none]
    rw [digitsToNat_digits4 (by omega), show monthOfAbbr (monthCap 12) = 12 from by decide, digitsToNat_digits2 (by omega), digitsToNat_digits2 (by omega), digitsToNat_digits2 (by omega), digitsToNat_digits2 (by omega)]
    simp only [datetimeNew, hv, if_true]
  simp only [parseTime, TIME_FORMAT_LIST]
  rw [parseLoop_skip_none hskA0,
    parseLoop_skip_none hskA1,
    parseLoop_skip_none hskA2,
    parseLoop_skip_none hskA3,
    parseLoop_skip_none hskA4,
    parseLoop_skip_none hskA5,
    parseLoop_skip_none hskA6,
    parseLoop_skip_none hskA7,
    parseLoop_skip_none hskA8,
    parseLoop_skip_none hskA9,
    parseLoop_skip_none hskA10,
    parseLoop_skip_none hskA11,
    parseLoop_skip_none hskA12,
    parseLoop_success hrp hstrp]
  exact dtAddTd_zero hv

theorem roundtrip13 (now : DT) (y m d h mi s : Nat)
    (hv : validDT ⟨y, m, d, h, mi, s, 0⟩ = true) :
    parseTime now (.str (String.mk
      (formatPattern "%Y-%b-%d %H:%M:%S".data ⟨y, m, d, h, mi, s, 0⟩))) =
      .ok ⟨y, m, d, h, mi, s, 0⟩ := by
  have hv2 := hv
  simp only [validDT, Bool.and_eq_true, decide_eq_true_eq] at hv2
  have hm1 : 1 ≤ m := by omega
  have hm12 : m ≤ 12 := by omega
  clear hv2
  interval_cases m
  · exact roundtrip13x1 now y d h mi s hv
  · exact roundtrip13x2 now y d h mi s hv
  · exact roundtrip13x3 now y d h mi s hv
  · exact roundtrip13x4 now y d h mi s hv
  · exact roundtrip13x5 now y d h mi s hv
  · exact roundtrip13x6 now y d h mi s hv
  · exact roundtrip13x7 now y d h mi s hv
  · exact roundtrip13x8 now y d h mi s hv
  · exact roundtrip13x9 now y d h mi s hv
  · exact roundtrip13x10 now y d h mi s hv
  · exact roundtrip13x11 now y d h mi s hv
  · exact roundtrip13x12 now y d h mi s hv

theorem roundtrip14x1 (now : DT) (y d h mi : Nat)
    (hv : validDT ⟨y, 1, d, h, mi, 0, 0⟩ = true) :
    parseTime now (.str (String.mk
      (formatPattern "%Y-%b-%d %H:%M".data ⟨y, 1, d, h, mi, 0, 0⟩))) =
      .ok ⟨y, 1, d, h, mi, 0, 0⟩ := by
  have hv2 := hv
  simp only [validDT, Bool.and_eq_true, decide_eq_true_eq] at hv2
  have hd31 : d ≤ 31 := by
    have := daysInMonth_le31 y 1
    omega
  set I := formatPattern "%Y-%b-%d %H:%M".data
    (⟨y, 1, d, h, mi, 0, 0⟩ : DT) with hI
  have hFor : List.Forall₂ chEq I
      (formatPattern "%Y-%b-%d %H:%M".data ⟨1111, 1, 11, 11, 11, 11, 111111⟩) := by
    rw [hI]
    exact formatAux_chEq false _ (Or.inr rfl)
  have hIeq : I = digits4 y ++ '-' :: (monthCap 1 ++ '-' :: (digits2 d ++ ' ' :: (digits2 h ++ ':' :: (digits2 mi ++ [])))) := by
    rw [hI]; rfl
  have hlen : I.length = 17 := by rw [hIeq]; rfl
  have hsY : sliceL I 0 4 = digits4 y := by rw [hIeq]; rfl
  have hsd : sliceL I 9 11 = digits2 d := by rw [hIeq]; rfl
  have hsH : sliceL I 12 14 = digits2 h := by rw [hIeq]; rfl
  have hsM : sliceL I 15 17 = digits2 mi := by rw [hIeq]; rfl
  have hsb : sliceL I 5 8 = monthCap 1 := by rw [hIeq]; rfl
  have hskA0 : regexParseTime (String.mk I) "%Y-%m-%dT%H:%M:%S.%f" = .ok none := by
    apply regexParseTime_none
    rw [show (String.mk I).data = I from rfl, reMatch_chEq okS0 hFor]
    decide
  have hskA1 : regexParseTime (String.mk I) "%Y/%m/%dT%H:%M:%S.%f" = .ok none := by
    apply regexParseTime_none
    rw [show (String.mk I).data = I from rfl, reMatch_chEq okS1 hFor]
    decide
  have hskA2 : regexParseTime (String.mk I) "%Y-%m-%dT%H:%M:%S.%fZ" = .ok none := by
    apply regexParseTime_none
    rw [show (String.mk I).data = I from rfl, reMatch_chEq okS2 hFor]
    decide
  have hskA3 : regexParseTime (String.mk I) "%Y-%m-%dT%H:%M:%S" = .ok none := by
    apply regexParseTime_none
    rw [show (String.mk I).data = I from rfl, reMatch_chEq okS3 hFor]
    decide
  have hskA4 : regexParseTime (String.mk I) "%Y/%m/%dT%H:%M:%S" = .ok none := by
    apply regexParseTime_none
    rw [show (String.mk I).data = I from rfl, reMatch_chEq okS4 hFor]
    decide
  have hskA5 : regexParseTime (String.mk I) "%Y%m%dT%H%M%S.%f" = .ok none := by
    apply regexParseTime_none
    rw [show (String.mk I).data = I from rfl, reMatch_chEq okS5 hFor]
    decide
  have hskA6 : regexParseTime (String.mk I) "%Y%m%dT%H%M%S" = .ok none := by
    apply regexParseTime_none
    rw [show (String.mk I).data = I from rfl, reMatch_chEq okS6 hFor]
    decide
  have hskA7 : regexParseTime (String.mk I) "%Y/%m/%d %H:%M:%S" = .ok none := by
    apply regexParseTime_none
    rw [show (String.mk I).data = I from rfl, reMatch_chEq okS7 hFor]
    decide
  have hskA8 : regexParseTime (String.mk I) "%Y/%m/%d %H:%M" = .ok none := by
    apply regexParseTime_none
    rw [show (String.mk I).data = I from rfl, reMatch_chEq okS8 hFor]
    decide
  have hskA9 : regexParseTime (String.mk I) "%Y/%m/%d %H:%M:%S.%f" = .ok none := by
    apply regexParseTime_none
    rw [show (String.mk I).data = I from rfl, reMatch_chEq okS9 hFor]
    decide
  have hskA10 : regexParseTime (String.mk I) "%Y-%m-%d %H:%M:%S.%f" = .ok none := by
    apply regexParseTime_none
    rw [show (String.mk I).data = I from rfl, reMatch_chEq okS10 hFor]
    decide
  have hskA11 : regexParseTime (String.mk I) "%Y-%m-%d %H:%M:%S" = .ok none := by
    apply regexParseTime_none
    rw [show (String.mk I).data = I from rfl, reMatch_chEq okS11 hFor]
    decide
  have hskA12 : regexParseTime (String.mk I) "%Y-%m-%d %H:%M" = .ok none := by
    apply regexParseTime_none
    rw [show (String.mk I).data = I from rfl, reMatch_chEq okS12 hFor]
    decide
  have hskA13 : regexParseTime (String.mk I) "%Y-%b-%d %H:%M:%S" = .ok none := by
    apply regexParseTime_none
    rw [show (String.mk I).data = I from rfl, reMatch_chEq okS13 hFor]
    decide
  have hre : reMatch (compileSunpy "%Y-%b-%d %H:%M".data) I =
      some (17, [("year", (0, 4)), ("month_str", (5, 8)), ("day", (9, 11)), ("hour", (12, 14)), ("minute", (15, 17))]) := by
    rw [reMatch_chEq okS14 hFor]
    decide
  have hrp : regexParseTime (String.mk I) "%Y-%b-%d %H:%M" =
      .ok (some (String.mk I, ⟨0, 0, 0⟩)) := by
    refine regexParseTime_hour_ne24 hre rfl ?_
    show ¬ sliceL I 12 14 = "24".data
    rw [hsH]
    exact digits2_ne24 (by omega)
  have hmrun : mrun (compileStrp "%Y-%b-%d %H:%M".data) I 0 [] =
      some (17, [("Y", (0, 4)), ("b", (5, 8)), ("d", (9, 11)), ("H", (12, 14)), ("M", (15, 17))]) := by
    rw [show compileStrp "%Y-%b-%d %H:%M".data =
      [.grp "Y" [[.digit, .digit, .digit, .digit]],
       .tst (.oneCI '-'),
       .grp "b" (monthAbbrs.map fun nm => nm.data.map CT.oneCI),
       .tst (.oneCI '-'),
       .grp "d" [[.one '3', .rng '0' '1'], [.rng '1' '2', .digit], [.one '0', .rng '1' '9'], [.rng '1' '9'], [.one ' ', .rng '1' '9']],
       .ws,
       .grp "H" [[.one '2', .rng '0' '3'], [.rng '0' '1', .digit], [.digit]],
       .tst (.oneCI ':'),
       .grp "M" [[.rng '0' '5', .digit], [.digit]]]
      from rfl, hIeq]
    apply stepY
    apply stepTst (by decide)
    apply stepb (by decide) (by decide)
    apply stepTst (by decide)
    apply stepd (by omega) (by omega)
    apply stepWs (wsLen_digits2 _ _)
    apply stepH (by omega) (by omega)
    apply stepTst (by decide)
    apply stepM (by omega) (by omega)
    decide
  have hstrp : strptime (String.mk I) "%Y-%b-%d %H:%M" =
      .ok ⟨y, 1, d, h, mi, 0, 0⟩ := by
    rw [strptime, show (String.mk I).data = I from rfl]
    rw [hmrun]
    simp only [hlen, if_true]
    simp only [show groupSlice I [("Y", (0, 4)), ("b", (5, 8)), ("d", (9, 11)), ("H", (12, 14)), ("M", (15, 17))] "Y" =
        some (sliceL I 0 4) from rfl,
      show groupSlice I [("Y", (0, 4)), ("b", (5, 8)), ("d", (9, 11)), ("H", (12, 14)), ("M", (15, 17))] "m" =
        none from rfl,
      show groupSlice I [("Y", (0, 4)), ("b", (5, 8)), ("d", (9, 11)), ("H", (12, 14)), ("M", (15, 17))] "d" =
        some (sliceL I 9 11) from rfl,
      show groupSlice I [("Y", (0, 4)), ("b", (5, 8)), ("d", (9, 11)), ("H", (12, 14)), ("M", (15, 17))] "H" =
        some (sliceL I 12 14) from rfl,
      show groupSlice I [("Y", (0, 4)), ("b", (5, 8)), ("d", (9, 11)), ("H", (12, 14)), ("M", (15, 17))] "M" =
        some (sliceL I 15 17) from rfl,
      show groupSlice I [("Y", (0, 4)), ("b", (5, 8)), ("d", (9, 11)), ("H", (12, 14)), ("M", (15, 17))] "S" =
        none from rfl,
      show groupSlice I [("Y", (0, 4)), ("b", (5, 8)), ("d", (9, 11)), ("H", (12, 14)), ("M", (15, 17))] "f" =
        none from rfl,
      show groupSlice I [("Y", (0, 4)), ("b", (5, 8)), ("d", (9, 11)), ("H", (12, 14)), ("M", (15, 17))] "b" =
        some (sliceL I 5 8) from rfl,
      hsY,
      hsd,
      hsH,
      hsM,
      hsb,
      Option.map_some', Option.getD_some, Option.map_none', Option.getD_none]
    rw [digitsToNat_digits4 (by omega), show monthOfAbbr (monthCap 1) = 1 from by decide, digitsToNat_digits2 (by omega), digitsToNat_digits2 (by omega), digitsToNat_digits2 (by omega)]
    simp only [datetimeNew, hv, if_true]
  simp only [parseTime, TIME_FORMAT_LIST]
  rw [parseLoop_skip_none hskA0,
    parseLoop_skip_none hskA1,
    parseLoop_skip_none hskA2,
    parseLoop_skip_none hskA3,
    parseLoop_skip_none hskA4,
    parseLoop_skip_none hskA5,
    parseLoop_skip_none hskA6,
    parseLoop_skip_none hskA7,
    parseLoop_skip_none hskA8,
    parseLoop_skip_none hskA9,
    parseLoop_skip_none hskA10,
    parseLoop_skip_none hskA11,
    parseLoop_skip_none hskA12,
    parseLoop_skip_none hskA13,
    parseLoop_success hrp hstrp]
  exact dtAddTd_zero hv

theorem roundtrip14x2 (now : DT) (y d h mi : Nat)
    (hv : validDT ⟨y, 2, d, h, mi, 0, 0⟩ = true) :
    parseTime now (.str (String.mk
      (formatPattern "%Y-%b-%d %H:%M".data ⟨y, 2, d, h, mi, 0, 0⟩))) =
      .ok ⟨y, 2, d, h, mi, 0, 0⟩ := by
  have hv2 := hv
  simp only [validDT, Bool.and_eq_true, decide_eq_true_eq] at hv2
  have hd31 : d ≤ 31 := by
    have := daysInMonth_le31 y 2
    omega
  set I := formatPattern "%Y-%b-%d %H:%M".data
    (⟨y, 2, d, h, mi, 0, 0⟩ : DT) with hI
  have hFor : List.Forall₂ chEq I
      (formatPattern "%Y-%b-%d %H:%M".data ⟨1111, 2, 11, 11, 11, 11, 111111⟩) := by
    rw [hI]
    exact formatAux_chEq false _ (Or.inr rfl)
  have hIeq : I = digits4 y ++ '-' :: (monthCap 2 ++ '-' :: (digits2 d ++ ' ' :: (digits2 h ++ ':' :: (digits2 mi ++ [])))) := by
    rw [hI]; rfl
  have hlen : I.length = 17 := by rw [hIeq]; rfl
  have hsY : sliceL I 0 4 = digits4 y := by rw [hIeq]; rfl
  have hsd : sliceL I 9 11 = digits2 d := by rw [hIeq]; rfl
  have hsH : sliceL I 12 14 = digits2 h := by rw [hIeq]; rfl
  have hsM : sliceL I 15 17 = digits2 mi := by rw [hIeq]; rfl
  have hsb : sliceL I 5 8 = monthCap 2 := by rw [hIeq]; rfl
  have hskA0 : regexParseTime (String.mk I) "%Y-%m-%dT%H:%M:%S.%f" = .ok none := by
    apply regexParseTime_none
    rw [show (String.mk I).data = I from rfl, reMatch_chEq okS0 hFor]
    decide
  have hskA1 : regexParseTime (String.mk I) "%Y/%m/%dT%H:%M:%S.%f" = .ok none := by
    apply regexParseTime_none
    rw [show (String.mk I).data = I from rfl, reMatch_chEq okS1 hFor]
    decide
  have hskA2 : regexParseTime (String.mk I) "%Y-%m-%dT%H:%M:%S.%fZ" = .ok none := by
    apply regexParseTime_none
    rw [show (String.mk I).data = I from rfl, reMatch_chEq okS2 hFor]
    decide
  have hskA3 : regexParseTime (String.mk I) "%Y-%m-%dT%H:%M:%S" = .ok none := by
    apply regexParseTime_none
    rw [show (String.mk I).data = I from rfl, reMatch_chEq okS3 hFor]
    decide
  have hskA4 : regexParseTime (String.mk I) "%Y/%m/%dT%H:%M:%S" = .ok none := by
    apply regexParseTime_none
    rw [show (String.mk I).data = I from rfl, reMatch_chEq okS4 hFor]
    decide
  have hskA5 : regexParseTime (String.mk I) "%Y%m%dT%H%M%S.%f" = .ok none := by
    apply regexParseTime_none
    rw [show (String.mk I).data = I from rfl, reMatch_chEq okS5 hFor]
    decide
  have hskA6 : regexParseTime (String.mk I) "%Y%m%dT%H%M%S" = .ok none := by
    apply regexParseTime_none
    rw [show (String.mk I).data = I from rfl, reMatch_chEq okS6 hFor]
    decide
  have hskA7 : regexParseTime (String.mk I) "%Y/%m/%d %H:%M:%S" = .ok none := by
    apply regexParseTime_none
    rw [show (String.mk I).data = I from rfl, reMatch_chEq okS7 hFor]
    decide
  have hskA8 : regexParseTime (String.mk I) "%Y/%m/%d %H:%M" = .ok none := by
    apply regexParseTime_none
    rw [show (String.mk I).data = I from rfl, reMatch_chEq okS8 hFor]
    decide
  have hskA9 : regexParseTime (String.mk I) "%Y/%m/%d %H:%M:%S.%f" = .ok none := by
    apply regexParseTime_none
    rw [show (String.mk I).data = I from rfl, reMatch_chEq okS9 hFor]
    decide
  have hskA10 : regexParseTime (String.mk I) "%Y-%m-%d %H:%M:%S.%f" = .ok none := by
    apply regexParseTime_none
    rw [show (String.mk I).data = I from rfl, reMatch_chEq okS10 hFor]
    decide
  have hskA11 : regexParseTime (String.mk I) "%Y-%m-%d %H:%M:%S" = .ok none := by
    apply regexParseTime_none
    rw [show (String.mk I).data = I from rfl, reMatch_chEq okS11 hFor]
    decide
  have hskA12 : regexParseTime (String.mk I) "%Y-%m-%d %H:%M" = .ok none := by
    apply regexParseTime_none
    rw [show (String.mk I).data = I from rfl, reMatch_chEq okS12 hFor]
    decide
  have hskA13 : regexParseTime (String.mk I) "%Y-%b-%d %H:%M:%S" = .ok none := by
    apply regexParseTime_none
    rw [show (String.mk I).data = I from rfl, reMatch_chEq okS13 hFor]
    decide
  have hre : reMatch (compileSunpy "%Y-%b-%d %H:%M".data) I =
      some (17, [("year", (0, 4)), ("month_str", (5, 8)), ("day", (9, 11)), ("hour", (12, 14)), ("minute", (15, 17))]) := by
    rw [reMatch_chEq okS14 hFor]
    decide
  have hrp : regexParseTime (String.mk I) "%Y-%b-%d %H:%M" =
      .ok (some (String.mk I, ⟨0, 0, 0⟩)) := by
    refine regexParseTime_hour_ne24 hre rfl ?_
    show ¬ sliceL I 12 14 = "24".data
    rw [hsH]
    exact digits2_ne24 (by omega)
  have hmrun : mrun (compileStrp "%Y-%b-%d %H:%M".data) I 0 [] =
      some (17, [("Y", (0, 4)), ("b", (5, 8)), ("d", (9, 11)), ("H", (12, 14)), ("M", (15, 17))]) := by
    rw [show compileStrp "%Y-%b-%d %H:%M".data =
      [.grp "Y" [[.digit, .digit, .digit, .digit]],
       .tst (.oneCI '-'),
       .grp "b" (monthAbbrs.map fun nm => nm.data.map CT.oneCI),
       .tst (.oneCI '-'),
       .grp "d" [[.one '3', .rng '0' '1'], [.rng '1' '2', .digit], [.one '0', .rng '1' '9'], [.rng '1' '9'], [.one ' ', .rng '1' '9']],
       .ws,
       .grp "H" [[.one '2', .rng '0' '3'], [.rng '0' '1', .digit], [.digit]],
       .tst (.oneCI ':'),
       .grp "M" [[.rng '0' '5', .digit], [.digit]]]
      from rfl, hIeq]
    apply stepY
    apply stepTst (by decide)
    apply stepb (by decide) (by decide)
    apply stepTst (by decide)
    apply stepd (by omega) (by omega)
    apply stepWs (wsLen_digits2 _ _)
    apply stepH (by omega) (by omega)
    apply stepTst (by decide)
    apply stepM (by omega) (by omega)
    decide
  have hstrp : strptime (String.mk I) "%Y-%b-%d %H:%M" =
      .ok ⟨y, 2, d, h, mi, 0, 0⟩ := by
    rw [strptime, show (String.mk I).data = I from rfl]
    rw [hmrun]
    simp only [hlen, if_true]
    simp only [show groupSlice I [("Y", (0, 4)), ("b", (5, 8)), ("d", (9, 11)), ("H", (12, 14)), ("M", (15, 17))] "Y" =
        some (sliceL I 0 4) from rfl,
      show groupSlice I [("Y", (0, 4)), ("b", (5, 8)), ("d", (9, 11)), ("H", (12, 14)), ("M", (15, 17))] "m" =
        none from rfl,
      show groupSlice I [("Y", (0, 4)), ("b", (5, 8)), ("d", (9, 11)), ("H", (12, 14)), ("M", (15, 17))] "d" =
        some (sliceL I 9 11) from rfl,
      show groupSlice I [("Y", (0, 4)), ("b", (5, 8)), ("d", (9, 11)), ("H", (12, 14)), ("M", (15, 17))] "H" =
        some (sliceL I 12 14) from rfl,
      show groupSlice I [("Y", (0, 4)), ("b", (5, 8)), ("d", (9, 11)), ("H", (12, 14)), ("M", (15, 17))] "M" =
        some (sliceL I 15 17) from rfl,
      show groupSlice I [("Y", (0, 4)), ("b", (5, 8)), ("d", (9, 11)), ("H", (12, 14)), ("M", (15, 17))] "S" =
        none from rfl,
      show groupSlice I [("Y", (0, 4)), ("b", (5, 8)), ("d", (9, 11)), ("H", (12, 14)), ("M", (15, 17))] "f" =
        none from rfl,
      show groupSlice I [("Y", (0, 4)), ("b", (5, 8)), ("d", (9, 11)), ("H", (12, 14)), ("M", (15, 17))] "b" =
        some (sliceL I 5 8) from rfl,
      hsY,
      hsd,
      hsH,
      hsM,
      hsb,
      Option.map_some', Option.getD_some, Option.map_none', Option.getD_none]
    rw [digitsToNat_digits4 (by omega), show monthOfAbbr (monthCap 2) = 2 from by decide, digitsToNat_digits2 (by omega), digitsToNat_digits2 (by omega), digitsToNat_digits2 (by omega)]
    simp only [datetimeNew, hv, if_true]
  simp only [parseTime, TIME_FORMAT_LIST]
  rw [parseLoop_skip_none hskA0,
    parseLoop_skip_none hskA1,
    parseLoop_skip_none hskA2,
    parseLoop_skip_none hskA3,
    parseLoop_skip_none hskA4,
    parseLoop_skip_none hskA5,
    parseLoop_skip_none hskA6,
    parseLoop_skip_none hskA7,
    parseLoop_skip_none hskA8,
    parseLoop_skip_none hskA9,
    parseLoop_skip_none hskA10,
    parseLoop_skip_none hskA11,
    parseLoop_skip_none hskA12,
    parseLoop_skip_none hskA13,
    parseLoop_success hrp hstrp]
  exact dtAddTd_zero hv

theorem roundtrip14x3 (now : DT) (y d h mi : Nat)
    (hv : validDT ⟨y, 3, d, h, mi, 0, 0⟩ = true) :
    parseTime now (.str (String.mk
      (formatPattern "%Y-%b-%d %H:%M".data ⟨y, 3, d, h, mi, 0, 0⟩))) =
      .ok ⟨y, 3, d, h, mi, 0, 0⟩ := by
  have hv2 := hv
  simp only [validDT, Bool.and_eq_true, decide_eq_true_eq] at hv2
  have hd31 : d ≤ 31 := by
    have := daysInMonth_le31 y 3
    omega
  set I := formatPattern "%Y-%b-%d %H:%M".data
    (⟨y, 3, d, h, mi, 0, 0⟩ : DT) with hI
  have hFor : List.Forall₂ chEq I
      (formatPattern "%Y-%b-%d %H:%M".data ⟨1111, 3, 11, 11, 11, 11, 111111⟩) := by
    rw [hI]
    exact formatAux_chEq false _ (Or.inr rfl)
  have hIeq : I = digits4 y ++ '-' :: (monthCap 3 ++ '-' :: (digits2 d ++ ' ' :: (digits2 h ++ ':' :: (digits2 mi ++ [])))) := by
    rw [hI]; rfl
  have hlen : I.length = 17 := by rw [hIeq]; rfl
  have hsY : sliceL I 0 4 = digits4 y := by rw [hIeq]; rfl
  have hsd : sliceL I 9 11 = digits2 d := by rw [hIeq]; rfl
  have hsH : sliceL I 12 14 = digits2 h := by rw [hIeq]; rfl
  have hsM : sliceL I 15 17 = digits2 mi := by rw [hIeq]; rfl
  have hsb : sliceL I 5 8 = monthCap 3 := by rw [hIeq]; rfl
  have hskA0 : regexParseTime (String.mk I) "%Y-%m-%dT%H:%M:%S.%f" = .ok none := by
    apply regexParseTime_none
    rw [show (String.mk I).data = I from rfl, reMatch_chEq okS0 hFor]
    decide
  have hskA1 : regexParseTime (String.mk I) "%Y/%m/%dT%H:%M:%S.%f" = .ok none := by
    apply regexParseTime_none
    rw [show (String.mk I).data = I from rfl, reMatch_chEq okS1 hFor]
    decide
  have hskA2 : regexParseTime (String.mk I) "%Y-%m-%dT%H:%M:%S.%fZ" = .ok none := by
    apply regexParseTime_none
    rw [show (String.mk I).data = I from rfl, reMatch_chEq okS2 hFor]
    decide
  have hskA3 : regexParseTime (String.mk I) "%Y-%m-%dT%H:%M:%S" = .ok none := by
    apply regexParseTime_none
    rw [show (String.mk I).data = I from rfl, reMatch_chEq okS3 hFor]
    decide
  have hskA4 : regexParseTime (String.mk I) "%Y/%m/%dT%H:%M:%S" = .ok none := by
    apply regexParseTime_none
    rw [show (String.mk I).data = I from rfl, reMatch_chEq okS4 hFor]
    decide
  have hskA5 : regexParseTime (String.mk I) "%Y%m%dT%H%M%S.%f" = .ok none := by
    apply regexParseTime_none
    rw [show (String.mk I).data = I from rfl, reMatch_chEq okS5 hFor]
    decide
  have hskA6 : regexParseTime (String.mk I) "%Y%m%dT%H%M%S" = .ok none := by
    apply regexParseTime_none
    rw [show (String.mk I).data = I from rfl, reMatch_chEq okS6 hFor]
    decide
  have hskA7 : regexParseTime (String.mk I) "%Y/%m/%d %H:%M:%S" = .ok none := by
    apply regexParseTime_none
    rw [show (String.mk I).data = I from rfl, reMatch_chEq okS7 hFor]
    decide
  have hskA8 : regexParseTime (String.mk I) "%Y/%m/%d %H:%M" = .ok none := by
    apply regexParseTime_none
    rw [show (String.mk I).data = I from rfl, reMatch_chEq okS8 hFor]
    decide
  have hskA9 : regexParseTime (String.mk I) "%Y/%m/%d %H:%M:%S.%f" = .ok none := by
    apply regexParseTime_none
    rw [show (String.mk I).data = I from rfl, reMatch_chEq okS9 hFor]
    decide
  have hskA10 : regexParseTime (String.mk I) "%Y-%m-%d %H:%M:%S.%f" = .ok none := by
    apply regexParseTime_none
    rw [show (String.mk I).data = I from rfl, reMatch_chEq okS10 hFor]
    decide
  have hskA11 : regexParseTime (String.mk I) "%Y-%m-%d %H:%M:%S" = .ok none := by
    apply regexParseTime_none
    rw [show (String.mk I).data = I from rfl, reMatch_chEq okS11 hFor]
    decide
  have hskA12 : regexParseTime (String.mk I) "%Y-%m-%d %H:%M" = .ok none := by
    apply regexParseTime_none
    rw [show (String.mk I).data = I from rfl, reMatch_chEq okS12 hFor]
    decide
  have hskA13 : regexParseTime (String.mk I) "%Y-%b-%d %H:%M:%S" = .ok none := by
    apply regexParseTime_none
    rw [show (String.mk I).data = I from rfl, reMatch_chEq okS13 hFor]
    decide
  have hre : reMatch (compileSunpy "%Y-%b-%d %H:%M".data) I =
      some (17, [("year", (0, 4)), ("month_str", (5, 8)), ("day", (9, 11)), ("hour", (12, 14)), ("minute", (15, 17))]) := by
    rw [reMatch_chEq okS14 hFor]
    decide
  have hrp : regexParseTime (String.mk I) "%Y-%b-%d %H:%M" =
      .ok (some (String.mk I, ⟨0, 0, 0⟩)) := by
    refine regexParseTime_hour_ne24 hre rfl ?_
    show ¬ sliceL I 12 14 = "24".data
    rw [hsH]
    exact digits2_ne24 (by omega)
  have hmrun : mrun (compileStrp "%Y-%b-%d %H:%M".data) I 0 [] =
      some (17, [("Y", (0, 4)), ("b", (5, 8)), ("d", (9, 11)), ("H", (12, 14)), ("M", (15, 17))]) := by
    rw [show compileStrp "%Y-%b-%d %H:%M".data =
      [.grp "Y" [[.digit, .digit, .digit, .digit]],
       .tst (.oneCI '-'),
       .grp "b" (monthAbbrs.map fun nm => nm.data.map CT.oneCI),
       .tst (.oneCI '-'),
       .grp "d" [[.one '3', .rng '0' '1'], [.rng '1' '2', .digit], [.one '0', .rng '1' '9'], [.rng '1' '9'], [.one ' ', .rng '1' '9']],
       .ws,
       .grp "H" [[.one '2', .rng '0' '3'], [.rng '0' '1', .digit], [.digit]],
       .tst (.oneCI ':'),
       .grp "M" [[.rng '0' '5', .digit], [.digit]]]
      from rfl, hIeq]
    apply stepY
    apply stepTst (by decide)
    apply stepb (by decide) (by decide)
    apply stepTst (by decide)
    apply stepd (by omega) (by omega)
    apply stepWs (wsLen_digits2 _ _)
    apply stepH (by omega) (by omega)
    apply stepTst (by decide)
    apply stepM (by omega) (by omega)
    decide
  have hstrp : strptime (String.mk I) "%Y-%b-%d %H:%M" =
      .ok ⟨y, 3, d, h, mi, 0, 0⟩ := by
    rw [strptime, show (String.mk I).data = I from rfl]
    rw [hmrun]
    simp only [hlen, if_true]
    simp only [show groupSlice I [("Y", (0, 4)), ("b", (5, 8)), ("d", (9, 11)), ("H", (12, 14)), ("M", (15, 17))] "Y" =
        some (sliceL I 0 4) from rfl,
      show groupSlice I [("Y", (0, 4)), ("b", (5, 8)), ("d", (9, 11)), ("H", (12, 14)), ("M", (15, 17))] "m" =
        none from rfl,
      show groupSlice I [("Y", (0, 4)), ("b", (5, 8)), ("d", (9, 11)), ("H", (12, 14)), ("M", (15, 17))] "d" =
        some (sliceL I 9 11) from rfl,
      show groupSlice I [("Y", (0, 4)), ("b", (5, 8)), ("d", (9, 11)), ("H", (12, 14)), ("M", (15, 17))] "H" =
        some (sliceL I 12 14) from rfl,
      show groupSlice I [("Y", (0, 4)), ("b", (5, 8)), ("d", (9, 11)), ("H", (12, 14)), ("M", (15, 17))] "M" =
        some (sliceL I 15 17) from rfl,
      show groupSlice I [("Y", (0, 4)), ("b", (5, 8)), ("d", (9, 11)), ("H", (12, 14)), ("M", (15, 17))] "S" =
        none from rfl,
      show groupSlice I [("Y", (0, 4)), ("b", (5, 8)), ("d", (9, 11)), ("H", (12, 14)), ("M", (15, 17))] "f" =
        none from rfl,
      show groupSlice I [("Y", (0, 4)), ("b", (5, 8)), ("d", (9, 11)), ("H", (12, 14)), ("M", (15, 17))] "b" =
        some (sliceL I 5 8) from rfl,
      hsY,
      hsd,
      hsH,
      hsM,
      hsb,
      Option.map_some', Option.getD_some, Option.map_none', Option.getD_none]
    rw [digitsToNat_digits4 (by omega), show monthOfAbbr (monthCap 3) = 3 from by decide, digitsToNat_digits2 (by omega), digitsToNat_digits2 (by omega), digitsToNat_digits2 (by omega)]
    simp only [datetimeNew, hv, if_true]
  simp only [parseTime, TIME_FORMAT_LIST]
  rw [parseLoop_skip_none hskA0,
    parseLoop_skip_none hskA1,
    parseLoop_skip_none hskA2,
    parseLoop_skip_none hskA3,
    parseLoop_skip_none hskA4,
    parseLoop_skip_none hskA5,
    parseLoop_skip_none hskA6,
    parseLoop_skip_none hskA7,
    parseLoop_skip_none hskA8,
    parseLoop_skip_none hskA9,
    parseLoop_skip_none hskA10,
    parseLoop_skip_none hskA11,
    parseLoop_skip_none hskA12,
    parseLoop_skip_none hskA13,
    parseLoop_success hrp hstrp]
  exact dtAddTd_zero hv

theorem roundtrip14x4 (now : DT) (y d h mi : Nat)
    (hv : validDT ⟨y, 4, d, h, mi, 0, 0⟩ = true) :
    parseTime now (.str (String.mk
      (formatPattern "%Y-%b-%d %H:%M".data ⟨y, 4, d, h, mi, 0, 0⟩))) =
      .ok ⟨y, 4, d, h, mi, 0, 0⟩ := by
  have hv2 := hv
  simp only [validDT, Bool.and_eq_true, decide_eq_true_eq] at hv2
  have hd31 : d ≤ 31 := by
    have := daysInMonth_le31 y 4
    omega
  set I := formatPattern "%Y-%b-%d %H:%M".data
    (⟨y, 4, d, h, mi, 0, 0⟩ : DT) with hI
  have hFor : List.Forall₂ chEq I
      (formatPattern "%Y-%b-%d %H:%M".data ⟨1111, 4, 11, 11, 11, 11, 111111⟩) := by
    rw [hI]
    exact formatAux_chEq false _ (Or.inr rfl)
  have hIeq : I = digits4 y ++ '-' :: (monthCap 4 ++ '-' :: (digits2 d ++ ' ' :: (digits2 h ++ ':' :: (digits2 mi ++ [])))) := by
    rw [hI]; rfl
  have hlen : I.length = 17 := by rw [hIeq]; rfl
  have hsY : sliceL I 0 4 = digits4 y := by rw [hIeq]; rfl
  have hsd : sliceL I 9 11 = digits2 d := by rw [hIeq]; rfl
  have hsH : sliceL I 12 14 = digits2 h := by rw [hIeq]; rfl
  have hsM : sliceL I 15 17 = digits2 mi := by rw [hIeq]; rfl
  have hsb : sliceL I 5 8 = monthCap 4 := by rw [hIeq]; rfl
  have hskA0 : regexParseTime (String.mk I) "%Y-%m-%dT%H:%M:%S.%f" = .ok none := by
    apply regexParseTime_none
    rw [show (String.mk I).data = I from rfl, reMatch_chEq okS0 hFor]
    decide
  have hskA1 : regexParseTime (String.mk I) "%Y/%m/%dT%H:%M:%S.%f" = .ok none := by
    apply regexParseTime_none
    rw [show (String.mk I).data = I from rfl, reMatch_chEq okS1 hFor]
    decide
  have hskA2 : regexParseTime (String.mk I) "%Y-%m-%dT%H:%M:%S.%fZ" = .ok none := by
    apply regexParseTime_none
    rw [show (String.mk I).data = I from rfl, reMatch_chEq okS2 hFor]
    decide
  have hskA3 : regexParseTime (String.mk I) "%Y-%m-%dT%H:%M:%S" = .ok none := by
    apply regexParseTime_none
    rw [show (String.mk I).data = I from rfl, reMatch_chEq okS3 hFor]
    decide
  have hskA4 : regexParseTime (String.mk I) "%Y/%m/%dT%H:%M:%S" = .ok none := by
    apply regexParseTime_none
    rw [show (String.mk I).data = I from rfl, reMatch_chEq okS4 hFor]
    decide
  have hskA5 : regexParseTime (String.mk I) "%Y%m%dT%H%M%S.%f" = .ok none := by
    apply regexParseTime_none
    rw [show (String.mk I).data = I from rfl, reMatch_chEq okS5 hFor]
    decide
  have hskA6 : regexParseTime (String.mk I) "%Y%m%dT%H%M%S" = .ok none := by
    apply regexParseTime_none
    rw [show (String.mk I).data = I from rfl, reMatch_chEq okS6 hFor]
    decide
  have hskA7 : regexParseTime (String.mk I) "%Y/%m/%d %H:%M:%S" = .ok none := by
    apply regexParseTime_none
    rw [show (String.mk I).data = I from rfl, reMatch_chEq okS7 hFor]
    decide
  have hskA8 : regexParseTime (String.mk I) "%Y/%m/%d %H:%M" = .ok none := by
    apply regexParseTime_none
    rw [show (String.mk I).data = I from rfl, reMatch_chEq okS8 hFor]
    decide
  have hskA9 : regexParseTime (String.mk I) "%Y/%m/%d %H:%M:%S.%f" = .ok none := by
    apply regexParseTime_none
    rw [show (String.mk I).data = I from rfl, reMatch_chEq okS9 hFor]
    decide
  have hskA10 : regexParseTime (String.mk I) "%Y-%m-%d %H:%M:%S.%f" = .ok none := by
    apply regexParseTime_none
    rw [show (String.mk I).data = I from rfl, reMatch_chEq okS10 hFor]
    decide
  have hskA11 : regexParseTime (String.mk I) "%Y-%m-%d %H:%M:%S" = .ok none := by
    apply regexParseTime_none
    rw [show (String.mk I).data = I from rfl, reMatch_chEq okS11 hFor]
    decide
  have hskA12 : regexParseTime (String.mk I) "%Y-%m-%d %H:%M" = .ok none := by
    apply regexParseTime_none
    rw [show (String.mk I).data = I from rfl, reMatch_chEq okS12 hFor]
    decide
  have hskA13 : regexParseTime (String.mk I) "%Y-%b-%d %H:%M:%S" = .ok none := by
    apply regexParseTime_none
    rw [show (String.mk I).data = I from rfl, reMatch_chEq okS13 hFor]
    decide
  have hre : reMatch (compileSunpy "%Y-%b-%d %H:%M".data) I =
      some (17, [("year", (0, 4)), ("month_str", (5, 8)), ("day", (9, 11)), ("hour", (12, 14)), ("minute", (15, 17))]) := by
    rw [reMatch_chEq okS14 hFor]
    decide
  have hrp : regexParseTime (String.mk I) "%Y-%b-%d %H:%M" =
      .ok (some (String.mk I, ⟨0, 0, 0⟩)) := by
    refine regexParseTime_hour_ne24 hre rfl ?_
    show ¬ sliceL I 12 14 = "24".data
    rw [hsH]
    exact digits2_ne24 (by omega)
  have hmrun : mrun (compileStrp "%Y-%b-%d %H:%M".data) I 0 [] =
      some (17, [("Y", (0, 4)), ("b", (5, 8)), ("d", (9, 11)), ("H", (12, 14)), ("M", (15, 17))]) := by
    rw [show compileStrp "%Y-%b-%d %H:%M".data =
      [.grp "Y" [[.digit, .digit, .digit, .digit]],
       .tst (.oneCI '-'),
       .grp "b" (monthAbbrs.map fun nm => nm.data.map CT.oneCI),
       .tst (.oneCI '-'),
       .grp "d" [[.one '3', .rng '0' '1'], [.rng '1' '2', .digit], [.one '0', .rng '1' '9'], [.rng '1' '9'], [.one ' ', .rng '1' '9']],
       .ws,
       .grp "H" [[.one '2', .rng '0' '3'], [.rng '0' '1', .digit], [.digit]],
       .tst (.oneCI ':'),
       .grp "M" [[.rng '0' '5', .digit], [.digit]]]
      from rfl, hIeq]
    apply stepY
    apply stepTst (by decide)
    apply stepb (by decide) (by decide)
    apply stepTst (by decide)
    apply stepd (by omega) (by omega)
    apply stepWs (wsLen_digits2 _ _)
    apply stepH (by omega) (by omega)
    apply stepTst (by decide)
    apply stepM (by omega) (by omega)
    decide
  have hstrp : strptime (String.mk I) "%Y-%b-%d %H:%M" =
      .ok ⟨y, 4, d, h, mi, 0, 0⟩ := by
    rw [strptime, show (String.mk I).data = I from rfl]
    rw [hmrun]
    simp only [hlen, if_true]
    simp only [show groupSlice I [("Y", (0, 4)), ("b", (5, 8)), ("d", (9, 11)), ("H", (12, 14)), ("M", (15, 17))] "Y" =
        some (sliceL I 0 4) from rfl,
      show groupSlice I [("Y", (0, 4)), ("b", (5, 8)), ("d", (9, 11)), ("H", (12, 14)), ("M", (15, 17))] "m" =
        none from rfl,
      show groupSlice I [("Y", (0, 4)), ("b", (5, 8)), ("d", (9, 11)), ("H", (12, 14)), ("M", (15, 17))] "d" =
        some (sliceL I 9 11) from rfl,
      show groupSlice I [("Y", (0, 4)), ("b", (5, 8)), ("d", (9, 11)), ("H", (12, 14)), ("M", (15, 17))] "H" =
        some (sliceL I 12 14) from rfl,
      show groupSlice I [("Y", (0, 4)), ("b", (5, 8)), ("d", (9, 11)), ("H", (12, 14)), ("M", (15, 17))] "M" =
        some (sliceL I 15 17) from rfl,
      show groupSlice I [("Y", (0, 4)), ("b", (5, 8)), ("d", (9, 11)), ("H", (12, 14)), ("M", (15, 17))] "S" =
        none from rfl,
      show groupSlice I [("Y", (0, 4)), ("b", (5, 8)), ("d", (9, 11)), ("H", (12, 14)), ("M", (15, 17))] "f" =
        none from rfl,
      show groupSlice I [("Y", (0, 4)), ("b", (5, 8)), ("d", (9, 11)), ("H", (12, 14)), ("M", (15, 17))] "b" =
        some (sliceL I 5 8) from rfl,
      hsY,
      hsd,
      hsH,
      hsM,
      hsb,
      Option.map_some', Option.getD_some, Option.map_none', Option.getD_none]
    rw [digitsToNat_digits4 (by omega), show monthOfAbbr (monthCap 4) = 4 from by decide, digitsToNat_digits2 (by omega), digitsToNat_digits2 (by omega), digitsToNat_digits2 (by omega)]
    simp only [datetimeNew, hv, if_true]
  simp only [parseTime, TIME_FORMAT_LIST]
  rw [parseLoop_skip_none hskA0,
    parseLoop_skip_none hskA1,
    parseLoop_skip_none hskA2,
    parseLoop_skip_none hskA3,
    parseLoop_skip_none hskA4,
    parseLoop_skip_none hskA5,
    parseLoop_skip_none hskA6,
    parseLoop_skip_none hskA7,
    parseLoop_skip_none hskA8,
    parseLoop_skip_none hskA9,
    parseLoop_skip_none hskA10,
    parseLoop_skip_none hskA11,
    parseLoop_skip_none hskA12,
    parseLoop_skip_none hskA13,
    parseLoop_success hrp hstrp]
  exact dtAddTd_zero hv

theorem roundtrip14x5 (now : DT) (y d h mi : Nat)
    (hv : validDT ⟨y, 5, d, h, mi, 0, 0⟩ = true) :
    parseTime now (.str (String.mk
      (formatPattern "%Y-%b-%d %H:%M".data ⟨y, 5, d, h, mi, 0, 0⟩))) =
      .ok ⟨y, 5, d, h, mi, 0, 0⟩ := by
  have hv2 := hv
  simp only [validDT, Bool.and_eq_true, decide_eq_true_eq] at hv2
  have hd31 : d ≤ 31 := by
    have := daysInMonth_le31 y 5
    omega
  set I := formatPattern "%Y-%b-%d %H:%M".data
    (⟨y, 5, d, h, mi, 0, 0⟩ : DT) with hI
  have hFor : List.Forall₂ chEq I
      (formatPattern "%Y-%b-%d %H:%M".data ⟨1111, 5, 11, 11, 11, 11, 111111⟩) := by
    rw [hI]
    exact formatAux_chEq false _ (Or.inr rfl)
  have hIeq : I = digits4 y ++ '-' :: (monthCap 5 ++ '-' :: (digits2 d ++ ' ' :: (digits2 h ++ ':' :: (digits2 mi ++ [])))) := by
    rw [hI]; rfl
  have hlen : I.length = 17 := by rw [hIeq]; rfl
  have hsY : sliceL I 0 4 = digits4 y := by rw [hIeq]; rfl
  have hsd : sliceL I 9 11 = digits2 d := by rw [hIeq]; rfl
  have hsH : sliceL I 12 14 = digits2 h := by rw [hIeq]; rfl
  have hsM : sliceL I 15 17 = digits2 mi := by rw [hIeq]; rfl
  have hsb : sliceL I 5 8 = monthCap 5 := by rw [hIeq]; rfl
  have hskA0 : regexParseTime (String.mk I) "%Y-%m-%dT%H:%M:%S.%f" = .ok none := by
    apply regexParseTime_none
    rw [show (String.mk I).data = I from rfl, reMatch_chEq okS0 hFor]
    decide
  have hskA1 : regexParseTime (String.mk I) "%Y/%m/%dT%H:%M:%S.%f" = .ok none := by
    apply regexParseTime_none
    rw [show (String.mk I).data = I from rfl, reMatch_chEq okS1 hFor]
    decide
  have hskA2 : regexParseTime (String.mk I) "%Y-%m-%dT%H:%M:%S.%fZ" = .ok none := by
    apply regexParseTime_none
    rw [show (String.mk I).data = I from rfl, reMatch_chEq okS2 hFor]
    decide
  have hskA3 : regexParseTime (String.mk I) "%Y-%m-%dT%H:%M:%S" = .ok none := by
    apply regexParseTime_none
    rw [show (String.mk I).data = I from rfl, reMatch_chEq okS3 hFor]
    decide
  have hskA4 : regexParseTime (String.mk I) "%Y/%m/%dT%H:%M:%S" = .ok none := by
    apply regexParseTime_none
    rw [show (String.mk I).data = I from rfl, reMatch_chEq okS4 hFor]
    decide
  have hskA5 : regexParseTime (String.mk I) "%Y%m%dT%H%M%S.%f" = .ok none := by
    apply regexParseTime_none
    rw [show (String.mk I).data = I from rfl, reMatch_chEq okS5 hFor]
    decide
  have hskA6 : regexParseTime (String.mk I) "%Y%m%dT%H%M%S" = .ok none := by
    apply regexParseTime_none
    rw [show (String.mk I).data = I from rfl, reMatch_chEq okS6 hFor]
    decide
  have hskA7 : regexParseTime (String.mk I) "%Y/%m/%d %H:%M:%S" = .ok none := by
    apply regexParseTime_none
    rw [show (String.mk I).data = I from rfl, reMatch_chEq okS7 hFor]
    decide
  have hskA8 : regexParseTime (String.mk I) "%Y/%m/%d %H:%M" = .ok none := by
    apply regexParseTime_none
    rw [show (String.mk I).data = I from rfl, reMatch_chEq okS8 hFor]
    decide
  have hskA9 : regexParseTime (String.mk I) "%Y/%m/%d %H:%M:%S.%f" = .ok none := by
    apply regexParseTime_none
    rw [show (String.mk I).data = I from rfl, reMatch_chEq okS9 hFor]
    decide
  have hskA10 : regexParseTime (String.mk I) "%Y-%m-%d %H:%M:%S.%f" = .ok none := by
    apply regexParseTime_none
    rw [show (String.mk I).data = I from rfl, reMatch_chEq okS10 hFor]
    decide
  have hskA11 : regexParseTime (String.mk I) "%Y-%m-%d %H:%M:%S" = .ok none := by
    apply regexParseTime_none
    rw [show (String.mk I).data = I from rfl, reMatch_chEq okS11 hFor]
    decide
  have hskA12 : regexParseTime (String.mk I) "%Y-%m-%d %H:%M" = .ok none := by
    apply regexParseTime_none
    rw [show (String.mk I).data = I from rfl, reMatch_chEq okS12 hFor]
    decide
  have hskA13 : regexParseTime (String.mk I) "%Y-%b-%d %H:%M:%S" = .ok none := by
    apply regexParseTime_none
    rw [show (String.mk I).data = I from rfl, reMatch_chEq okS13 hFor]
    decide
  have hre : reMatch (compileSunpy "%Y-%b-%d %H:%M".data) I =
      some (17, [("year", (0, 4)), ("month_str", (5, 8)), ("day", (9, 11)), ("hour", (12, 14)), ("minute", (15, 17))]) := by
    rw [reMatch_chEq okS14 hFor]
    decide
  have hrp : regexParseTime (String.mk I) "%Y-%b-%d %H:%M" =
      .ok (some (String.mk I, ⟨0, 0, 0⟩)) := by
    refine regexParseTime_hour_ne24 hre rfl ?_
    show ¬ sliceL I 12 14 = "24".data
    rw [hsH]
    exact digits2_ne24 (by omega)
  have hmrun : mrun (compileStrp "%Y-%b-%d %H:%M".data) I 0 [] =
      some (17, [("Y", (0, 4)), ("b", (5, 8)), ("d", (9, 11)), ("H", (12, 14)), ("M", (15, 17))]) := by
    rw [show compileStrp "%Y-%b-%d %H:%M".data =
      [.grp "Y" [[.digit, .digit, .digit, .digit]],
       .tst (.oneCI '-'),
       .grp "b" (monthAbbrs.map fun nm => nm.data.map CT.oneCI),
       .tst (.oneCI '-'),
       .grp "d" [[.one '3', .rng '0' '1'], [.rng '1' '2', .digit], [.one '0', .rng '1' '9'], [.rng '1' '9'], [.one ' ', .rng '1' '9']],
       .ws,
       .grp "H" [[.one '2', .rng '0' '3'], [.rng '0' '1', .digit], [.digit]],
       .tst (.oneCI ':'),
       .grp "M" [[.rng '0' '5', .digit], [.digit]]]
      from rfl, hIeq]
    apply stepY
    apply stepTst (by decide)
    apply stepb (by decide) (by decide)
    apply stepTst (by decide)
    apply stepd (by omega) (by omega)
    apply stepWs (wsLen_digits2 _ _)
    apply stepH (by omega) (by omega)
    apply stepTst (by decide)
    apply stepM (by omega) (by omega)
    decide
  have hstrp : strptime (String.mk I) "%Y-%b-%d %H:%M" =
      .ok ⟨y, 5, d, h, mi, 0, 0⟩ := by
    rw [strptime, show (String.mk I).data = I from rfl]
    rw [hmrun]
    simp only [hlen, if_true]
    simp only [show groupSlice I [("Y", (0, 4)), ("b", (5, 8)), ("d", (9, 11)), ("H", (12, 14)), ("M", (15, 17))] "Y" =
        some (sliceL I 0 4) from rfl,
      show groupSlice I [("Y", (0, 4)), ("b", (5, 8)), ("d", (9, 11)), ("H", (12, 14)), ("M", (15, 17))] "m" =
        none from rfl,
      show groupSlice I [("Y", (0, 4)), ("b", (5, 8)), ("d", (9, 11)), ("H", (12, 14)), ("M", (15, 17))] "d" =
        some (sliceL I 9 11) from rfl,
      show groupSlice I [("Y", (0, 4)), ("b", (5, 8)), ("d", (9, 11)), ("H", (12, 14)), ("M", (15, 17))] "H" =
        some (sliceL I 12 14) from rfl,
      show groupSlice I [("Y", (0, 4)), ("b", (5, 8)), ("d", (9, 11)), ("H", (12, 14)), ("M", (15, 17))] "M" =
        some (sliceL I 15 17) from rfl,
      show groupSlice I [("Y", (0, 4)), ("b", (5, 8)), ("d", (9, 11)), ("H", (12, 14)), ("M", (15, 17))] "S" =
        none from rfl,
      show groupSlice I [("Y", (0, 4)), ("b", (5, 8)), ("d", (9, 11)), ("H", (12, 14)), ("M", (15, 17))] "f" =
        none from rfl,
      show groupSlice I [("Y", (0, 4)), ("b", (5, 8)), ("d", (9, 11)), ("H", (12, 14)), ("M", (15, 17))] "b" =
        some (sliceL I 5 8) from rfl,
      hsY,
      hsd,
      hsH,
      hsM,
      hsb,
      Option.map_some', Option.getD_some, Option.map_none', Option.getD_none]
    rw [digitsToNat_digits4 (by omega), show monthOfAbbr (monthCap 5) = 5 from by decide, digitsToNat_digits2 (by omega), digitsToNat_digits2 (by omega), digitsToNat_digits2 (by omega)]
    simp only [datetimeNew, hv, if_true]
  simp only [parseTime, TIME_FORMAT_LIST]
  rw [parseLoop_skip_none hskA0,
    parseLoop_skip_none hskA1,
    parseLoop_skip_none hskA2,
    parseLoop_skip_none hskA3,
    parseLoop_skip_none hskA4,
    parseLoop_skip_none hskA5,
    parseLoop_skip_none hskA6,
    parseLoop_skip_none hskA7,
    parseLoop_skip_none hskA8,
    parseLoop_skip_none hskA9,
    parseLoop_skip_none hskA10,
    parseLoop_skip_none hskA11,
    parseLoop_skip_none hskA12,
    parseLoop_skip_none hskA13,
    parseLoop_success hrp hstrp]
  exact dtAddTd_zero hv

theorem roundtrip14x6 (now : DT) (y d h mi : Nat)
    (hv : validDT ⟨y, 6, d, h, mi, 0, 0⟩ = true) :
    parseTime now (.str (String.mk
      (formatPattern "%Y-%b-%d %H:%M".data ⟨y, 6, d, h, mi, 0, 0⟩))) =
      .ok ⟨y, 6, d, h, mi, 0, 0⟩ := by
  have hv2 := hv
  simp only [validDT, Bool.and_eq_true, decide_eq_true_eq] at hv2
  have hd31 : d ≤ 31 := by
    have := daysInMonth_le31 y 6
    omega
  set I := formatPattern "%Y-%b-%d %H:%M".data
    (⟨y, 6, d, h, mi, 0, 0⟩ : DT) with hI
  have hFor : List.Forall₂ chEq I
      (formatPattern "%Y-%b-%d %H:%M".data ⟨1111, 6, 11, 11, 11, 11, 111111⟩) := by
    rw [hI]
    exact formatAux_chEq false _ (Or.inr rfl)
  have hIeq : I = digits4 y ++ '-' :: (monthCap 6 ++ '-' :: (digits2 d ++ ' ' :: (digits2 h ++ ':' :: (digits2 mi ++ [])))) := by
    rw [hI]; rfl
  have hlen : I.length = 17 := by rw [hIeq]; rfl
  have hsY : sliceL I 0 4 = digits4 y := by rw [hIeq]; rfl
  have hsd : sliceL I 9 11 = digits2 d := by rw [hIeq]; rfl
  have hsH : sliceL I 12 14 = digits2 h := by rw [hIeq]; rfl
  have hsM : sliceL I 15 17 = digits2 mi := by rw [hIeq]; rfl
  have hsb : sliceL I 5 8 = monthCap 6 := by rw [hIeq]; rfl
  have hskA0 : regexParseTime (String.mk I) "%Y-%m-%dT%H:%M:%S.%f" = .ok none := by
    apply regexParseTime_none
    rw [show (String.mk I).data = I from rfl, reMatch_chEq okS0 hFor]
    decide
  have hskA1 : regexParseTime (String.mk I) "%Y/%m/%dT%H:%M:%S.%f" = .ok none := by
    apply regexParseTime_none
    rw [show (String.mk I).data = I from rfl, reMatch_chEq okS1 hFor]
    decide
  have hskA2 : regexParseTime (String.mk I) "%Y-%m-%dT%H:%M:%S.%fZ" = .ok none := by
    apply regexParseTime_none
    rw [show (String.mk I).data = I from rfl, reMatch_chEq okS2 hFor]
    decide
  have hskA3 : regexParseTime (String.mk I) "%Y-%m-%dT%H:%M:%S" = .ok none := by
    apply regexParseTime_none
    rw [show (String.mk I).data = I from rfl, reMatch_chEq okS3 hFor]
    decide
  have hskA4 : regexParseTime (String.mk I) "%Y/%m/%dT%H:%M:%S" = .ok none := by
    apply regexParseTime_none
    rw [show (String.mk I).data = I from rfl, reMatch_chEq okS4 hFor]
    decide
  have hskA5 : regexParseTime (String.mk I) "%Y%m%dT%H%M%S.%f" = .ok none := by
    apply regexParseTime_none
    rw [show (String.mk I).data = I from rfl, reMatch_chEq okS5 hFor]
    decide
  have hskA6 : regexParseTime (String.mk I) "%Y%m%dT%H%M%S" = .ok none := by
    apply regexParseTime_none
    rw [show (String.mk I).data = I from rfl, reMatch_chEq okS6 hFor]
    decide
  have hskA7 : regexParseTime (String.mk I) "%Y/%m/%d %H:%M:%S" = .ok none := by
    apply regexParseTime_none
    rw [show (String.mk I).data = I from rfl, reMatch_chEq okS7 hFor]
    decide
  have hskA8 : regexParseTime (String.mk I) "%Y/%m/%d %H:%M" = .ok none := by
    apply regexParseTime_none
    rw [show (String.mk I).data = I from rfl, reMatch_chEq okS8 hFor]
    decide
  have hskA9 : regexParseTime (String.mk I) "%Y/%m/%d %H:%M:%S.%f" = .ok none := by
    apply regexParseTime_none
    rw [show (String.mk I).data = I from rfl, reMatch_chEq okS9 hFor]
    decide
  have hskA10 : regexParseTime (String.mk I) "%Y-%m-%d %H:%M:%S.%f" = .ok none := by
    apply regexParseTime_none
    rw [show (String.mk I).data = I from rfl, reMatch_chEq okS10 hFor]
    decide
  have hskA11 : regexParseTime (String.mk I) "%Y-%m-%d %H:%M:%S" = .ok none := by
    apply regexParseTime_none
    rw [show (String.mk I).data = I from rfl, reMatch_chEq okS11 hFor]
    decide
  have hskA12 : regexParseTime (String.mk I) "%Y-%m-%d %H:%M" = .ok none := by
    apply regexParseTime_none
    rw [show (String.mk I).data = I from rfl, reMatch_chEq okS12 hFor]
    decide
  have hskA13 : regexParseTime (String.mk I) "%Y-%b-%d %H:%M:%S" = .ok none := by
    apply regexParseTime_none
    rw [show (String.mk I).data = I from rfl, reMatch_chEq okS13 hFor]
    decide
  have hre : reMatch (compileSunpy "%Y-%b-%d %H:%M".data) I =
      some (17, [("year", (0, 4)), ("month_str", (5, 8)), ("day", (9, 11)), ("hour", (12, 14)), ("minute", (15, 17))]) := by
    rw [reMatch_chEq okS14 hFor]
    decide
  have hrp : regexParseTime (String.mk I) "%Y-%b-%d %H:%M" =
      .ok (some (String.mk I, ⟨0, 0, 0⟩)) := by
    refine regexParseTime_hour_ne24 hre rfl ?_
    show ¬ sliceL I 12 14 = "24".data
    rw [hsH]
    exact digits2_ne24 (by omega)
  have hmrun : mrun (compileStrp "%Y-%b-%d %H:%M".data) I 0 [] =
      some (17, [("Y", (0, 4)), ("b", (5, 8)), ("d", (9, 11)), ("H", (12, 14)), ("M", (15, 17))]) := by
    rw [show compileStrp "%Y-%b-%d %H:%M".data =
      [.grp "Y" [[.digit, .digit, .digit, .digit]],
       .tst (.oneCI '-'),
       .grp "b" (monthAbbrs.map fun nm => nm.data.map CT.oneCI),
       .tst (.oneCI '-'),
       .grp "d" [[.one '3', .rng '0' '1'], [.rng '1' '2', .digit], [.one '0', .rng '1' '9'], [.rng '1' '9'], [.one ' ', .rng '1' '9']],
       .ws,
       .grp "H" [[.one '2', .rng '0' '3'], [.rng '0' '1', .digit], [.digit]],
       .tst (.oneCI ':'),
       .grp "M" [[.rng '0' '5', .digit], [.digit]]]
      from rfl, hIeq]
    apply stepY
    apply stepTst (by decide)
    apply stepb (by decide) (by decide)
    apply stepTst (by decide)
    apply stepd (by omega) (by omega)
    apply stepWs (wsLen_digits2 _ _)
    apply stepH (by omega) (by omega)
    apply stepTst (by decide)
    apply stepM (by omega) (by omega)
    decide
  have hstrp : strptime (String.mk I) "%Y-%b-%d %H:%M" =
      .ok ⟨y, 6, d, h, mi, 0, 0⟩ := by
    rw [strptime, show (String.mk I).data = I from rfl]
    rw [hmrun]
    simp only [hlen, if_true]
    simp only [show groupSlice I [("Y", (0, 4)), ("b", (5, 8)), ("d", (9, 11)), ("H", (12, 14)), ("M", (15, 17))] "Y" =
        some (sliceL I 0 4) from rfl,
      show groupSlice I [("Y", (0, 4)), ("b", (5, 8)), ("d", (9, 11)), ("H", (12, 14)), ("M", (15, 17))] "m" =
        none from rfl,
      show groupSlice I [("Y", (0, 4)), ("b", (5, 8)), ("d", (9, 11)), ("H", (12, 14)), ("M", (15, 17))] "d" =
        some (sliceL I 9 11) from rfl,
      show groupSlice I [("Y", (0, 4)), ("b", (5, 8)), ("d", (9, 11)), ("H", (12, 14)), ("M", (15, 17))] "H" =
        some (sliceL I 12 14) from rfl,
      show groupSlice I [("Y", (0, 4)), ("b", (5, 8)), ("d", (9, 11)), ("H", (12, 14)), ("M", (15, 17))] "M" =
        some (sliceL I 15 17) from rfl,
      show groupSlice I [("Y", (0, 4)), ("b", (5, 8)), ("d", (9, 11)), ("H", (12, 14)), ("M", (15, 17))] "S" =
        none from rfl,
      show groupSlice I [("Y", (0, 4)), ("b", (5, 8)), ("d", (9, 11)), ("H", (12, 14)), ("M", (15, 17))] "f" =
        none from rfl,
      show groupSlice I [("Y", (0, 4)), ("b", (5, 8)), ("d", (9, 11)), ("H", (12, 14)), ("M", (15, 17))] "b" =
        some (sliceL I 5 8) from rfl,
      hsY,
      hsd,
      hsH,
      hsM,
      hsb,
      Option.map_some', Option.getD_some, Option.map_none', Option.getD_none]
    rw [digitsToNat_digits4 (by omega), show monthOfAbbr (monthCap 6) = 6 from by decide, digitsToNat_digits2 (by omega), digitsToNat_digits2 (by omega), digitsToNat_digits2 (by omega)]
    simp only [datetimeNew, hv, if_true]
  simp only [parseTime, TIME_FORMAT_LIST]
  rw [parseLoop_skip_none hskA0,
    parseLoop_skip_none hskA1,
    parseLoop_skip_none hskA2,
    parseLoop_skip_none hskA3,
    parseLoop_skip_none hskA4,
    parseLoop_skip_none hskA5,
    parseLoop_skip_none hskA6,
    parseLoop_skip_none hskA7,
    parseLoop_skip_none hskA8,
    parseLoop_skip_none hskA9,
    parseLoop_skip_none hskA10,
    parseLoop_skip_none hskA11,
    parseLoop_skip_none hskA12,
    parseLoop_skip_none hskA13,
    parseLoop_success hrp hstrp]
  exact dtAddTd_zero hv

theorem roundtrip14x7 (now : DT) (y d h mi : Nat)
    (hv : validDT ⟨y, 7, d, h, mi, 0, 0⟩ = true) :
    parseTime now (.str (String.mk
      (formatPattern "%Y-%b-%d %H:%M".data ⟨y, 7, d, h, mi, 0, 0⟩))) =
      .ok ⟨y, 7, d, h, mi, 0, 0⟩ := by
  have hv2 := hv
  simp only [validDT, Bool.and_eq_true, decide_eq_true_eq] at hv2
  have hd31 : d ≤ 31 := by
    have := daysInMonth_le31 y 7
    omega
  set I := formatPattern "%Y-%b-%d %H:%M".data
    (⟨y, 7, d, h, mi, 0, 0⟩ : DT) with hI
  have hFor : List.Forall₂ chEq I
      (formatPattern "%Y-%b-%d %H:%M".data ⟨1111, 7, 11, 11, 11, 11, 111111⟩) := by
    rw [hI]
    exact formatAux_chEq false _ (Or.inr rfl)
  have hIeq : I = digits4 y ++ '-' :: (monthCap 7 ++ '-' :: (digits2 d ++ ' ' :: (digits2 h ++ ':' :: (digits2 mi ++ [])))) := by
    rw [hI]; rfl
  have hlen : I.length = 17 := by rw [hIeq]; rfl
  have hsY : sliceL I 0 4 = digits4 y := by rw [hIeq]; rfl
  have hsd : sliceL I 9 11 = digits2 d := by rw [hIeq]; rfl
  have hsH : sliceL I 12 14 = digits2 h := by rw [hIeq]; rfl
  have hsM : sliceL I 15 17 = digits2 mi := by rw [hIeq]; rfl
  have hsb : sliceL I 5 8 = monthCap 7 := by rw [hIeq]; rfl
  have hskA0 : regexParseTime (String.mk I) "%Y-%m-%dT%H:%M:%S.%f" = .ok none := by
    apply regexParseTime_none
    rw [show (String.mk I).data = I from rfl, reMatch_chEq okS0 hFor]
    decide
  have hskA1 : regexParseTime (String.mk I) "%Y/%m/%dT%H:%M:%S.%f" = .ok none := by
    apply regexParseTime_none
    rw [show (String.mk I).data = I from rfl, reMatch_chEq okS1 hFor]
    decide
  have hskA2 : regexParseTime (String.mk I) "%Y-%m-%dT%H:%M:%S.%fZ" = .ok none := by
    apply regexParseTime_none
    rw [show (String.mk I).data = I from rfl, reMatch_chEq okS2 hFor]
    decide
  have hskA3 : regexParseTime (String.mk I) "%Y-%m-%dT%H:%M:%S" = .ok none := by
    apply regexParseTime_none
    rw [show (String.mk I).data = I from rfl, reMatch_chEq okS3 hFor]
    decide
  have hskA4 : regexParseTime (String.mk I) "%Y/%m/%dT%H:%M:%S" = .ok none := by
    apply regexParseTime_none
    rw [show (String.mk I).data = I from rfl, reMatch_chEq okS4 hFor]
    decide
  have hskA5 : regexParseTime (String.mk I) "%Y%m%dT%H%M%S.%f" = .ok none := by
    apply regexParseTime_none
    rw [show (String.mk I).data = I from rfl, reMatch_chEq okS5 hFor]
    decide
  have hskA6 : regexParseTime (String.mk I) "%Y%m%dT%H%M%S" = .ok none := by
    apply regexParseTime_none
    rw [show (String.mk I).data = I from rfl, reMatch_chEq okS6 hFor]
    decide
  have hskA7 : regexParseTime (String.mk I) "%Y/%m/%d %H:%M:%S" = .ok none := by
    apply regexParseTime_none
    rw [show (String.mk I).data = I from rfl, reMatch_chEq okS7 hFor]
    decide
  have hskA8 : regexParseTime (String.mk I) "%Y/%m/%d %H:%M" = .ok none := by
    apply regexParseTime_none
    rw [show (String.mk I).data = I from rfl, reMatch_chEq okS8 hFor]
    decide
  have hskA9 : regexParseTime (String.mk I) "%Y/%m/%d %H:%M:%S.%f" = .ok none := by
    apply regexParseTime_none
    rw [show (String.mk I).data = I from rfl, reMatch_chEq okS9 hFor]
    decide
  have hskA10 : regexParseTime (String.mk I) "%Y-%m-%d %H:%M:%S.%f" = .ok none := by
    apply regexParseTime_none
    rw [show (String.mk I).data = I from rfl, reMatch_chEq okS10 hFor]
    decide
  have hskA11 : regexParseTime (String.mk I) "%Y-%m-%d %H:%M:%S" = .ok none := by
    apply regexParseTime_none
    rw [show (String.mk I).data = I from rfl, reMatch_chEq okS11 hFor]
    decide
  have hskA12 : regexParseTime (String.mk I) "%Y-%m-%d %H:%M" = .ok none := by
    apply regexParseTime_none
    rw [show (String.mk I).data = I from rfl, reMatch_chEq okS12 hFor]
    decide
  have hskA13 : regexParseTime (String.mk I) "%Y-%b-%d %H:%M:%S" = .ok none := by
    apply regexParseTime_none
    rw [show (String.mk I).data = I from rfl, reMatch_chEq okS13 hFor]
    decide
  have hre : reMatch (compileSunpy "%Y-%b-%d %H:%M".data) I =
      some (17, [("year", (0, 4)), ("month_str", (5, 8)), ("day", (9, 11)), ("hour", (12, 14)), ("minute", (15, 17))]) := by
    rw [reMatch_chEq okS14 hFor]
    decide
  have hrp : regexParseTime (String.mk I) "%Y-%b-%d %H:%M" =
      .ok (some (String.mk I, ⟨0, 0, 0⟩)) := by
    refine regexParseTime_hour_ne24 hre rfl ?_
    show ¬ sliceL I 12 14 = "24".data
    rw [hsH]
    exact digits2_ne24 (by omega)
  have hmrun : mrun (compileStrp "%Y-%b-%d %H:%M".data) I 0 [] =
      some (17, [("Y", (0, 4)), ("b", (5, 8)), ("d", (9, 11)), ("H", (12, 14)), ("M", (15, 17))]) := by
    rw [show compileStrp "%Y-%b-%d %H:%M".data =
      [.grp "Y" [[.digit, .digit, .digit, .digit]],
       .tst (.oneCI '-'),
       .grp "b" (monthAbbrs.map fun nm => nm.data.map CT.oneCI),
       .tst (.oneCI '-'),
       .grp "d" [[.one '3', .rng '0' '1'], [.rng '1' '2', .digit], [.one '0', .rng '1' '9'], [.rng '1' '9'], [.one ' ', .rng '1' '9']],
       .ws,
       .grp "H" [[.one '2', .rng '0' '3'], [.rng '0' '1', .digit], [.digit]],
       .tst (.oneCI ':'),
       .grp "M" [[.rng '0' '5', .digit], [.digit]]]
      from rfl, hIeq]
    apply stepY
    apply stepTst (by decide)
    apply stepb (by decide) (by decide)
    apply stepTst (by decide)
    apply stepd (by omega) (by omega)
    apply stepWs (wsLen_digits2 _ _)
    apply stepH (by omega) (by omega)
    apply stepTst (by decide)
    apply stepM (by omega) (by omega)
    decide
  have hstrp : strptime (String.mk I) "%Y-%b-%d %H:%M" =
      .ok ⟨y, 7, d, h, mi, 0, 0⟩ := by
    rw [strptime, show (String.mk I).data = I from rfl]
    rw [hmrun]
    simp only [hlen, if_true]
    simp only [show groupSlice I [("Y", (0, 4)), ("b", (5, 8)), ("d", (9, 11)), ("H", (12, 14)), ("M", (15, 17))] "Y" =
        some (sliceL I 0 4) from rfl,
      show groupSlice I [("Y", (0, 4)), ("b", (5, 8)), ("d", (9, 11)), ("H", (12, 14)), ("M", (15, 17))] "m" =
        none from rfl,
      show groupSlice I [("Y", (0, 4)), ("b", (5, 8)), ("d", (9, 11)), ("H", (12, 14)), ("M", (15, 17))] "d" =
        some (sliceL I 9 11) from rfl,
      show groupSlice I [("Y", (0, 4)), ("b", (5, 8)), ("d", (9, 11)), ("H", (12, 14)), ("M", (15, 17))] "H" =
        some (sliceL I 12 14) from rfl,
      show groupSlice I [("Y", (0, 4)), ("b", (5, 8)), ("d", (9, 11)), ("H", (12, 14)), ("M", (15, 17))] "M" =
        some (sliceL I 15 17) from rfl,
      show groupSlice I [("Y", (0, 4)), ("b", (5, 8)), ("d", (9, 11)), ("H", (12, 14)), ("M", (15, 17))] "S" =
        none from rfl,
      show groupSlice I [("Y", (0, 4)), ("b", (5, 8)), ("d", (9, 11)), ("H", (12, 14)), ("M", (15, 17))] "f" =
        none from rfl,
      show groupSlice I [("Y", (0, 4)), ("b", (5, 8)), ("d", (9, 11)), ("H", (12, 14)), ("M", (15, 17))] "b" =
        some (sliceL I 5 8) from rfl,
      hsY,
      hsd,
      hsH,
      hsM,
      hsb,
      Option.map_some', Option.getD_some, Option.map_none', Option.getD_none]
    rw [digitsToNat_digits4 (by omega), show monthOfAbbr (monthCap 7) = 7 from by decide, digitsToNat_digits2 (by omega), digitsToNat_digits2 (by omega), digitsToNat_digits2 (by omega)]
    simp only [datetimeNew, hv, if_true]
  simp only [parseTime, TIME_FORMAT_LIST]
  rw [parseLoop_skip_none hskA0,
    parseLoop_skip_none hskA1,
    parseLoop_skip_none hskA2,
    parseLoop_skip_none hskA3,
    parseLoop_skip_none hskA4,
    parseLoop_skip_none hskA5,
    parseLoop_skip_none hskA6,
    parseLoop_skip_none hskA7,
    parseLoop_skip_none hskA8,
    parseLoop_skip_none hskA9,
    parseLoop_skip_none hskA10,
    parseLoop_skip_none hskA11,
    parseLoop_skip_none hskA12,
    parseLoop_skip_none hskA13,
    parseLoop_success hrp hstrp]
  exact dtAddTd_zero hv

theorem roundtrip14x8 (now : DT) (y d h mi : Nat)
    (hv : validDT ⟨y, 8, d, h, mi, 0, 0⟩ = true) :
    parseTime now (.str (String.mk
      (formatPattern "%Y-%b-%d %H:%M".data ⟨y, 8, d, h, mi, 0, 0⟩))) =
      .ok ⟨y, 8, d, h, mi, 0, 0⟩ := by
  have hv2 := hv
  simp only [validDT, Bool.and_eq_true, decide_eq_true_eq] at hv2
  have hd31 : d ≤ 31 := by
    have := daysInMonth_le31 y 8
    omega
  set I := formatPattern "%Y-%b-%d %H:%M".data
    (⟨y, 8, d, h, mi, 0, 0⟩ : DT) with hI
  have hFor : List.Forall₂ chEq I
      (formatPattern "%Y-%b-%d %H:%M".data ⟨1111, 8, 11, 11, 11, 11, 111111⟩) := by
    rw [hI]
    exact formatAux_chEq false _ (Or.inr rfl)
  have hIeq : I = digits4 y ++ '-' :: (monthCap 8 ++ '-' :: (digits2 d ++ ' ' :: (digits2 h ++ ':' :: (digits2 mi ++ [])))) := by
    rw [hI]; rfl
  have hlen : I.length = 17 := by rw [hIeq]; rfl
  have hsY : sliceL I 0 4 = digits4 y := by rw [hIeq]; rfl
  have hsd : sliceL I 9 11 = digits2 d := by rw [hIeq]; rfl
  have hsH : sliceL I 12 14 = digits2 h := by rw [hIeq]; rfl
  have hsM : sliceL I 15 17 = digits2 mi := by rw [hIeq]; rfl
  have hsb : sliceL I 5 8 = monthCap 8 := by rw [hIeq]; rfl
  have hskA0 : regexParseTime (String.mk I) "%Y-%m-%dT%H:%M:%S.%f" = .ok none := by
    apply regexParseTime_none
    rw [show (String.mk I).data = I from rfl, reMatch_chEq okS0 hFor]
    decide
  have hskA1 : regexParseTime (String.mk I) "%Y/%m/%dT%H:%M:%S.%f" = .ok none := by
    apply regexParseTime_none
    rw [show (String.mk I).data = I from rfl, reMatch_chEq okS1 hFor]
    decide
  have hskA2 : regexParseTime (String.mk I) "%Y-%m-%dT%H:%M:%S.%fZ" = .ok none := by
    apply regexParseTime_none
    rw [show (String.mk I).data = I from rfl, reMatch_chEq okS2 hFor]
    decide
  have hskA3 : regexParseTime (String.mk I) "%Y-%m-%dT%H:%M:%S" = .ok none := by
    apply regexParseTime_none
    rw [show (String.mk I).data = I from rfl, reMatch_chEq okS3 hFor]
    decide
  have hskA4 : regexParseTime (String.mk I) "%Y/%m/%dT%H:%M:%S" = .ok none := by
    apply regexParseTime_none
    rw [show (String.mk I).data = I from rfl, reMatch_chEq okS4 hFor]
    decide
  have hskA5 : regexParseTime (String.mk I) "%Y%m%dT%H%M%S.%f" = .ok none := by
    apply regexParseTime_none
    rw [show (String.mk I).data = I from rfl, reMatch_chEq okS5 hFor]
    decide
  have hskA6 : regexParseTime (String.mk I) "%Y%m%dT%H%M%S" = .ok none := by
    apply regexParseTime_none
    rw [show (String.mk I).data = I from rfl, reMatch_chEq okS6 hFor]
    decide
  have hskA7 : regexParseTime (String.mk I) "%Y/%m/%d %H:%M:%S" = .ok none := by
    apply regexParseTime_none
    rw [show (String.mk I).data = I from rfl, reMatch_chEq okS7 hFor]
    decide
  have hskA8 : regexParseTime (String.mk I) "%Y/%m/%d %H:%M" = .ok none := by
    apply regexParseTime_none
    rw [show (String.mk I).data = I from rfl, reMatch_chEq okS8 hFor]
    decide
  have hskA9 : regexParseTime (String.mk I) "%Y/%m/%d %H:%M:%S.%f" = .ok none := by
    apply regexParseTime_none
    rw [show (String.mk I).data = I from rfl, reMatch_chEq okS9 hFor]
    decide
  have hskA10 : regexParseTime (String.mk I) "%Y-%m-%d %H:%M:%S.%f" = .ok none := by
    apply regexParseTime_none
    rw [show (String.mk I).data = I from rfl, reMatch_chEq okS10 hFor]
    decide
  have hskA11 : regexParseTime (String.mk I) "%Y-%m-%d %H:%M:%S" = .ok none := by
    apply regexParseTime_none
    rw [show (String.mk I).data = I from rfl, reMatch_chEq okS11 hFor]
    decide
  have hskA12 : regexParseTime (String.mk I) "%Y-%m-%d %H:%M" = .ok none := by
    apply regexParseTime_none
    rw [show (String.mk I).data = I from rfl, reMatch_chEq okS12 hFor]
    decide
  have hskA13 : regexParseTime (String.mk I) "%Y-%b-%d %H:%M:%S" = .ok none := by
    apply regexParseTime_none
    rw [show (String.mk I).data = I from rfl, reMatch_chEq okS13 hFor]
    decide
  have hre : reMatch (compileSunpy "%Y-%b-%d %H:%M".data) I =
      some (17, [("year", (0, 4)), ("month_str", (5, 8)), ("day", (9, 11)), ("hour", (12, 14)), ("minute", (15, 17))]) := by
    rw [reMatch_chEq okS14 hFor]
    decide
  have hrp : regexParseTime (String.mk I) "%Y-%b-%d %H:%M" =
      .ok (some (String.mk I, ⟨0, 0, 0⟩)) := by
    refine regexParseTime_hour_ne24 hre rfl ?_
    show ¬ sliceL I 12 14 = "24".data
    rw [hsH]
    exact digits2_ne24 (by omega)
  have hmrun : mrun (compileStrp "%Y-%b-%d %H:%M".data) I 0 [] =
      some (17, [("Y", (0, 4)), ("b", (5, 8)), ("d", (9, 11)), ("H", (12, 14)), ("M", (15, 17))]) := by
    rw [show compileStrp "%Y-%b-%d %H:%M".data =
      [.grp "Y" [[.digit, .digit, .digit, .digit]],
       .tst (.oneCI '-'),
       .grp "b" (monthAbbrs.map fun nm => nm.data.map CT.oneCI),
       .tst (.oneCI '-'),
       .grp "d" [[.one '3', .rng '0' '1'], [.rng '1' '2', .digit], [.one '0', .rng '1' '9'], [.rng '1' '9'], [.one ' ', .rng '1' '9']],
       .ws,
       .grp "H" [[.one '2', .rng '0' '3'], [.rng '0' '1', .digit], [.digit]],
       .tst (.oneCI ':'),
       .grp "M" [[.rng '0' '5', .digit], [.digit]]]
      from rfl, hIeq]
    apply stepY
    apply stepTst (by decide)
    apply stepb (by decide) (by decide)
    apply stepTst (by decide)
    apply stepd (by omega) (by omega)
    apply stepWs (wsLen_digits2 _ _)
    apply stepH (by omega) (by omega)
    apply stepTst (by decide)
    apply stepM (by omega) (by omega)
    decide
  have hstrp : strptime (String.mk I) "%Y-%b-%d %H:%M" =
      .ok ⟨y, 8, d, h, mi, 0, 0⟩ := by
    rw [strptime, show (String.mk I).data = I from rfl]
    rw [hmrun]
    simp only [hlen, if_true]
    simp only [show groupSlice I [("Y", (0, 4)), ("b", (5, 8)), ("d", (9, 11)), ("H", (12, 14)), ("M", (15, 17))] "Y" =
        some (sliceL I 0 4) from rfl,
      show groupSlice I [("Y", (0, 4)), ("b", (5, 8)), ("d", (9, 11)), ("H", (12, 14)), ("M", (15, 17))] "m" =
        none from rfl,
      show groupSlice I [("Y", (0, 4)), ("b", (5, 8)), ("d", (9, 11)), ("H", (12, 14)), ("M", (15, 17))] "d" =
        some (sliceL I 9 11) from rfl,
      show groupSlice I [("Y", (0, 4)), ("b", (5, 8)), ("d", (9, 11)), ("H", (12, 14)), ("M", (15, 17))] "H" =
        some (sliceL I 12 14) from rfl,
      show groupSlice I [("Y", (0, 4)), ("b", (5, 8)), ("d", (9, 11)), ("H", (12, 14)), ("M", (15, 17))] "M" =
        some (sliceL I 15 17) from rfl,
      show groupSlice I [("Y", (0, 4)), ("b", (5, 8)), ("d", (9, 11)), ("H", (12, 14)), ("M", (15, 17))] "S" =
        none from rfl,
      show groupSlice I [("Y", (0, 4)), ("b", (5, 8)), ("d", (9, 11)), ("H", (12, 14)), ("M", (15, 17))] "f" =
        none from rfl,
      show groupSlice I [("Y", (0, 4)), ("b", (5, 8)), ("d", (9, 11)), ("H", (12, 14)), ("M", (15, 17))] "b" =
        some (sliceL I 5 8) from rfl,
      hsY,
      hsd,
      hsH,
      hsM,
      hsb,
      Option.map_some', Option.getD_some, Option.map_none', Option.getD_none]
    rw [digitsToNat_digits4 (by omega), show monthOfAbbr (monthCap 8) = 8 from by decide, digitsToNat_digits2 (by omega), digitsToNat_digits2 (by omega), digitsToNat_digits2 (by omega)]
    simp only [datetimeNew, hv, if_true]
  simp only [parseTime, TIME_FORMAT_LIST]
  rw [parseLoop_skip_none hskA0,
    parseLoop_skip_none hskA1,
    parseLoop_skip_none hskA2,
    parseLoop_skip_none hskA3,
    parseLoop_skip_none hskA4,
    parseLoop_skip_none hskA5,
    parseLoop_skip_none hskA6,
    parseLoop_skip_none hskA7,
    parseLoop_skip_none hskA8,
    parseLoop_skip_none hskA9,
    parseLoop_skip_none hskA10,
    parseLoop_skip_none hskA11,
    parseLoop_skip_none hskA12,
    parseLoop_skip_none hskA13,
    parseLoop_success hrp hstrp]
  exact dtAddTd_zero hv

theorem roundtrip14x9 (now : DT) (y d h mi : Nat)
    (hv : validDT ⟨y, 9, d, h, mi, 0, 0⟩ = true) :
    parseTime now (.str (String.mk
      (formatPattern "%Y-%b-%d %H:%M".data ⟨y, 9, d, h, mi, 0, 0⟩))) =
      .ok ⟨y, 9, d, h, mi, 0, 0⟩ := by
  have hv2 := hv
  simp only [validDT, Bool.and_eq_true, decide_eq_true_eq] at hv2
  have hd31 : d ≤ 31 := by
    have := daysInMonth_le31 y 9
    omega
  set I := formatPattern "%Y-%b-%d %H:%M".data
    (⟨y, 9, d, h, mi, 0, 0⟩ : DT) with hI
  have hFor : List.Forall₂ chEq I
      (formatPattern "%Y-%b-%d %H:%M".data ⟨1111, 9, 11, 11, 11, 11, 111111⟩) := by
    rw [hI]
    exact formatAux_chEq false _ (Or.inr rfl)
  have hIeq : I = digits4 y ++ '-' :: (monthCap 9 ++ '-' :: (digits2 d ++ ' ' :: (digits2 h ++ ':' :: (digits2 mi ++ [])))) := by
    rw [hI]; rfl
  have hlen : I.length = 17 := by rw [hIeq]; rfl
  have hsY : sliceL I 0 4 = digits4 y := by rw [hIeq]; rfl
  have hsd : sliceL I 9 11 = digits2 d := by rw [hIeq]; rfl
  have hsH : sliceL I 12 14 = digits2 h := by rw [hIeq]; rfl
  have hsM : sliceL I 15 17 = digits2 mi := by rw [hIeq]; rfl
  have hsb : sliceL I 5 8 = monthCap 9 := by rw [hIeq]; rfl
  have hskA0 : regexParseTime (String.mk I) "%Y-%m-%dT%H:%M:%S.%f" = .ok none := by
    apply regexParseTime_none
    rw [show (String.mk I).data = I from rfl, reMatch_chEq okS0 hFor]
    decide
  have hskA1 : regexParseTime (String.mk I) "%Y/%m/%dT%H:%M:%S.%f" = .ok none := by
    apply regexParseTime_none
    rw [show (String.mk I).data = I from rfl, reMatch_chEq okS1 hFor]
    decide
  have hskA2 : regexParseTime (String.mk I) "%Y-%m-%dT%H:%M:%S.%fZ" = .ok none := by
    apply regexParseTime_none
    rw [show (String.mk I).data = I from rfl, reMatch_chEq okS2 hFor]
    decide
  have hskA3 : regexParseTime (String.mk I) "%Y-%m-%dT%H:%M:%S" = .ok none := by
    apply regexParseTime_none
    rw [show (String.mk I).data = I from rfl, reMatch_chEq okS3 hFor]
    decide
  have hskA4 : regexParseTime (String.mk I) "%Y/%m/%dT%H:%M:%S" = .ok none := by
    apply regexParseTime_none
    rw [show (String.mk I).data = I from rfl, reMatch_chEq okS4 hFor]
    decide
  have hskA5 : regexParseTime (String.mk I) "%Y%m%dT%H%M%S.%f" = .ok none := by
    apply regexParseTime_none
    rw [show (String.mk I).data = I from rfl, reMatch_chEq okS5 hFor]
    decide
  have hskA6 : regexParseTime (String.mk I) "%Y%m%dT%H%M%S" = .ok none := by
    apply regexParseTime_none
    rw [show (String.mk I).data = I from rfl, reMatch_chEq okS6 hFor]
    decide
  have hskA7 : regexParseTime (String.mk I) "%Y/%m/%d %H:%M:%S" = .ok none := by
    apply regexParseTime_none
    rw [show (String.mk I).data = I from rfl, reMatch_chEq okS7 hFor]
    decide
  have hskA8 : regexParseTime (String.mk I) "%Y/%m/%d %H:%M" = .ok none := by
    apply regexParseTime_none
    rw [show (String.mk I).data = I from rfl, reMatch_chEq okS8 hFor]
    decide
  have hskA9 : regexParseTime (String.mk I) "%Y/%m/%d %H:%M:%S.%f" = .ok none := by
    apply regexParseTime_none
    rw [show (String.mk I).data = I from rfl, reMatch_chEq okS9 hFor]
    decide
  have hskA10 : regexParseTime (String.mk I) "%Y-%m-%d %H:%M:%S.%f" = .ok none := by
    apply regexParseTime_none
    rw [show (String.mk I).data = I from rfl, reMatch_chEq okS10 hFor]
    decide
  have hskA11 : regexParseTime (String.mk I) "%Y-%m-%d %H:%M:%S" = .ok none := by
    apply regexParseTime_none
    rw [show (String.mk I).data = I from rfl, reMatch_chEq okS11 hFor]
    decide
  have hskA12 : regexParseTime (String.mk I) "%Y-%m-%d %H:%M" = .ok none := by
    apply regexParseTime_none
    rw [show (String.mk I).data = I from rfl, reMatch_chEq okS12 hFor]
    decide
  have hskA13 : regexParseTime (String.mk I) "%Y-%b-%d %H:%M:%S" = .ok none := by
    apply regexParseTime_none
    rw [show (String.mk I).data = I from rfl, reMatch_chEq okS13 hFor]
    decide
  have hre : reMatch (compileSunpy "%Y-%b-%d %H:%M".data) I =
      some (17, [("year", (0, 4)), ("month_str", (5, 8)), ("day", (9, 11)), ("hour", (12, 14)), ("minute", (15, 17))]) := by
    rw [reMatch_chEq okS14 hFor]
    decide
  have hrp : regexParseTime (String.mk I) "%Y-%b-%d %H:%M" =
      .ok (some (String.mk I, ⟨0, 0, 0⟩)) := by
    refine regexParseTime_hour_ne24 hre rfl ?_
    show ¬ sliceL I 12 14 = "24".data
    rw [hsH]
    exact digits2_ne24 (by omega)
  have hmrun : mrun (compileStrp "%Y-%b-%d %H:%M".data) I 0 [] =
      some (17, [("Y", (0, 4)), ("b", (5, 8)), ("d", (9, 11)), ("H", (12, 14)), ("M", (15, 17))]) := by
    rw [show compileStrp "%Y-%b-%d %H:%M".data =
      [.grp "Y" [[.digit, .digit, .digit, .digit]],
       .tst (.oneCI '-'),
       .grp "b" (monthAbbrs.map fun nm => nm.data.map CT.oneCI),
       .tst (.oneCI '-'),
       .grp "d" [[.one '3', .rng '0' '1'], [.rng '1' '2', .digit], [.one '0', .rng '1' '9'], [.rng '1' '9'], [.one ' ', .rng '1' '9']],
       .ws,
       .grp "H" [[.one '2', .rng '0' '3'], [.rng '0' '1', .digit], [.digit]],
       .tst (.oneCI ':'),
       .grp "M" [[.rng '0' '5', .digit], [.digit]]]
      from rfl, hIeq]
    apply stepY
    apply stepTst (by decide)
    apply stepb (by decide) (by decide)
    apply stepTst (by decide)
    apply stepd (by omega) (by omega)
    apply stepWs (wsLen_digits2 _ _)
    apply stepH (by omega) (by omega)
    apply stepTst (by decide)
    apply stepM (by omega) (by omega)
    decide
  have hstrp : strptime (String.mk I) "%Y-%b-%d %H:%M" =
      .ok ⟨y, 9, d, h, mi, 0, 0⟩ := by
    rw [strptime, show (String.mk I).data = I from rfl]
    rw [hmrun]
    simp only [hlen, if_true]
    simp only [show groupSlice I [("Y", (0, 4)), ("b", (5, 8)), ("d", (9, 11)), ("H", (12, 14)), ("M", (15, 17))] "Y" =
        some (sliceL I 0 4) from rfl,
      show groupSlice I [("Y", (0, 4)), ("b", (5, 8)), ("d", (9, 11)), ("H", (12, 14)), ("M", (15, 17))] "m" =
        none from rfl,
      show groupSlice I [("Y", (0, 4)), ("b", (5, 8)), ("d", (9, 11)), ("H", (12, 14)), ("M", (15, 17))] "d" =
        some (sliceL I 9 11) from rfl,
      show groupSlice I [("Y", (0, 4)), ("b", (5, 8)), ("d", (9, 11)), ("H", (12, 14)), ("M", (15, 17))] "H" =
        some (sliceL I 12 14) from rfl,
      show groupSlice I [("Y", (0, 4)), ("b", (5, 8)), ("d", (9, 11)), ("H", (12, 14)), ("M", (15, 17))] "M" =
        some (sliceL I 15 17) from rfl,
      show groupSlice I [("Y", (0, 4)), ("b", (5, 8)), ("d", (9, 11)), ("H", (12, 14)), ("M", (15, 17))] "S" =
        none from rfl,
      show groupSlice I [("Y", (0, 4)), ("b", (5, 8)), ("d", (9, 11)), ("H", (12, 14)), ("M", (15, 17))] "f" =
        none from rfl,
      show groupSlice I [("Y", (0, 4)), ("b", (5, 8)), ("d", (9, 11)), ("H", (12, 14)), ("M", (15, 17))] "b" =
        some (sliceL I 5 8) from rfl,
      hsY,
      hsd,
      hsH,
      hsM,
      hsb,
      Option.map_some', Option.getD_some, Option.map_none', Option.getD_none]
    rw [digitsToNat_digits4 (by omega), show monthOfAbbr (monthCap 9) = 9 from by decide, digitsToNat_digits2 (by omega), digitsToNat_digits2 (by omega), digitsToNat_digits2 (by omega)]
    simp only [datetimeNew, hv, if_true]
  simp only [parseTime, TIME_FORMAT_LIST]
  rw [parseLoop_skip_none hskA0,
    parseLoop_skip_none hskA1,
    parseLoop_skip_none hskA2,
    parseLoop_skip_none hskA3,
    parseLoop_skip_none hskA4,
    parseLoop_skip_none hskA5,
    parseLoop_skip_none hskA6,
    parseLoop_skip_none hskA7,
    parseLoop_skip_none hskA8,
    parseLoop_skip_none hskA9,
    parseLoop_skip_none hskA10,
    parseLoop_skip_none hskA11,
    parseLoop_skip_none hskA12,
    parseLoop_skip_none hskA13,
    parseLoop_success hrp hstrp]
  exact dtAddTd_zero hv

theorem roundtrip14x10 (now : DT) (y d h mi : Nat)
    (hv : validDT ⟨y, 10, d, h, mi, 0, 0⟩ = true) :
    parseTime now (.str (String.mk
      (formatPattern "%Y-%b-%d %H:%M".data ⟨y, 10, d, h, mi, 0, 0⟩))) =
      .ok ⟨y, 10, d, h, mi, 0, 0⟩ := by
  have hv2 := hv
  simp only [validDT, Bool.and_eq_true, decide_eq_true_eq] at hv2
  have hd31 : d ≤ 31 := by
    have := daysInMonth_le31 y 10
    omega
  set I := formatPattern "%Y-%b-%d %H:%M".data
    (⟨y, 10, d, h, mi, 0, 0⟩ : DT) with hI
  have hFor : List.Forall₂ chEq I
      (formatPattern "%Y-%b-%d %H:%M".data ⟨1111, 10, 11, 11, 11, 11, 111111⟩) := by
    rw [hI]
    exact formatAux_chEq false _ (Or.inr rfl)
  have hIeq : I = digits4 y ++ '-' :: (monthCap 10 ++ '-' :: (digits2 d ++ ' ' :: (digits2 h ++ ':' :: (digits2 mi ++ [])))) := by
    rw [hI]; rfl
  have hlen : I.length = 17 := by rw [hIeq]; rfl
  have hsY : sliceL I 0 4 = digits4 y := by rw [hIeq]; rfl
  have hsd : sliceL I 9 11 = digits2 d := by rw [hIeq]; rfl
  have hsH : sliceL I 12 14 = digits2 h := by rw [hIeq]; rfl
  have hsM : sliceL I 15 17 = digits2 mi := by rw [hIeq]; rfl
  have hsb : sliceL I 5 8 = monthCap 10 := by rw [hIeq]; rfl
  have hskA0 : regexParseTime (String.mk I) "%Y-%m-%dT%H:%M:%S.%f" = .ok none := by
    apply regexParseTime_none
    rw [show (String.mk I).data = I from rfl, reMatch_chEq okS0 hFor]
    decide
  have hskA1 : regexParseTime (String.mk I) "%Y/%m/%dT%H:%M:%S.%f" = .ok none := by
    apply regexParseTime_none
    rw [show (String.mk I).data = I from rfl, reMatch_chEq okS1 hFor]
    decide
  have hskA2 : regexParseTime (String.mk I) "%Y-%m-%dT%H:%M:%S.%fZ" = .ok none := by
    apply regexParseTime_none
    rw [show (String.mk I).data = I from rfl, reMatch_chEq okS2 hFor]
    decide
  have hskA3 : regexParseTime (String.mk I) "%Y-%m-%dT%H:%M:%S" = .ok none := by
    apply regexParseTime_none
    rw [show (String.mk I).data = I from rfl, reMatch_chEq okS3 hFor]
    decide
  have hskA4 : regexParseTime (String.mk I) "%Y/%m/%dT%H:%M:%S" = .ok none := by
    apply regexParseTime_none
    rw [show (String.mk I).data = I from rfl, reMatch_chEq okS4 hFor]
    decide
  have hskA5 : regexParseTime (String.mk I) "%Y%m%dT%H%M%S.%f" = .ok none := by
    apply regexParseTime_none
    rw [show (String.mk I).data = I from rfl, reMatch_chEq okS5 hFor]
    decide
  have hskA6 : regexParseTime (String.mk I) "%Y%m%dT%H%M%S" = .ok none := by
    apply regexParseTime_none
    rw [show (String.mk I).data = I from rfl, reMatch_chEq okS6 hFor]
    decide
  have hskA7 : regexParseTime (String.mk I) "%Y/%m/%d %H:%M:%S" = .ok none := by
    apply regexParseTime_none
    rw [show (String.mk I).data = I from rfl, reMatch_chEq okS7 hFor]
    decide
  have hskA8 : regexParseTime (String.mk I) "%Y/%m/%d %H:%M" = .ok none := by
    apply regexParseTime_none
    rw [show (String.mk I).data = I from rfl, reMatch_chEq okS8 hFor]
    decide
  have hskA9 : regexParseTime (String.mk I) "%Y/%m/%d %H:%M:%S.%f" = .ok none := by
    apply regexParseTime_none
    rw [show (String.mk I).data = I from rfl, reMatch_chEq okS9 hFor]
    decide
  have hskA10 : regexParseTime (String.mk I) "%Y-%m-%d %H:%M:%S.%f" = .ok none := by
    apply regexParseTime_none
    rw [show (String.mk I).data = I from rfl, reMatch_chEq okS10 hFor]
    decide
  have hskA11 : regexParseTime (String.mk I) "%Y-%m-%d %H:%M:%S" = .ok none := by
    apply regexParseTime_none
    rw [show (String.mk I).data = I from rfl, reMatch_chEq okS11 hFor]
    decide
  have hskA12 : regexParseTime (String.mk I) "%Y-%m-%d %H:%M" = .ok none := by
    apply regexParseTime_none
    rw [show (String.mk I).data = I from rfl, reMatch_chEq okS12 hFor]
    decide
  have hskA13 : regexParseTime (String.mk I) "%Y-%b-%d %H:%M:%S" = .ok none := by
    apply regexParseTime_none
    rw [show (String.mk I).data = I from rfl, reMatch_chEq okS13 hFor]
    decide
  have hre : reMatch (compileSunpy "%Y-%b-%d %H:%M".data) I =
      some (17, [("year", (0, 4)), ("month_str", (5, 8)), ("day", (9, 11)), ("hour", (12, 14)), ("minute", (15, 17))]) := by
    rw [reMatch_chEq okS14 hFor]
    decide
  have hrp : regexParseTime (String.mk I) "%Y-%b-%d %H:%M" =
      .ok (some (String.mk I, ⟨0, 0, 0⟩)) := by
    refine regexParseTime_hour_ne24 hre rfl ?_
    show ¬ sliceL I 12 14 = "24".data
    rw [hsH]
    exact digits2_ne24 (by omega)
  have hmrun : mrun (compileStrp "%Y-%b-%d %H:%M".data) I 0 [] =
      some (17, [("Y", (0, 4)), ("b", (5, 8)), ("d", (9, 11)), ("H", (12, 14)), ("M", (15, 17))]) := by
    rw [show compileStrp "%Y-%b-%d %H:%M".data =
      [.grp "Y" [[.digit, .digit, .digit, .digit]],
       .tst (.oneCI '-'),
       .grp "b" (monthAbbrs.map fun nm => nm.data.map CT.oneCI),
       .tst (.oneCI '-'),
       .grp "d" [[.one '3', .rng '0' '1'], [.rng '1' '2', .digit], [.one '0', .rng '1' '9'], [.rng '1' '9'], [.one ' ', .rng '1' '9']],
       .ws,
       .grp "H" [[.one '2', .rng '0' '3'], [.rng '0' '1', .digit], [.digit]],
       .tst (.oneCI ':'),
       .grp "M" [[.rng '0' '5', .digit], [.digit]]]
      from rfl, hIeq]
    apply stepY
    apply stepTst (by decide)
    apply stepb (by decide) (by decide)
    apply stepTst (by decide)
    apply stepd (by omega) (by omega)
    apply stepWs (wsLen_digits2 _ _)
    apply stepH (by omega) (by omega)
    apply stepTst (by decide)
    apply stepM (by omega) (by omega)
    decide
  have hstrp : strptime (String.mk I) "%Y-%b-%d %H:%M" =
      .ok ⟨y, 10, d, h, mi, 0, 0⟩ := by
    rw [strptime, show (String.mk I).data = I from rfl]
    rw [hmrun]
    simp only [hlen, if_true]
    simp only [show groupSlice I [("Y", (0, 4)), ("b", (5, 8)), ("d", (9, 11)), ("H", (12, 14)), ("M", (15, 17))] "Y" =
        some (sliceL I 0 4) from rfl,
      show groupSlice I [("Y", (0, 4)), ("b", (5, 8)), ("d", (9, 11)), ("H", (12, 14)), ("M", (15, 17))] "m" =
        none from rfl,
      show groupSlice I [("Y", (0, 4)), ("b", (5, 8)), ("d", (9, 11)), ("H", (12, 14)), ("M", (15, 17))] "d" =
        some (sliceL I 9 11) from rfl,
      show groupSlice I [("Y", (0, 4)), ("b", (5, 8)), ("d", (9, 11)), ("H", (12, 14)), ("M", (15, 17))] "H" =
        some (sliceL I 12 14) from rfl,
      show groupSlice I [("Y", (0, 4)), ("b", (5, 8)), ("d", (9, 11)), ("H", (12, 14)), ("M", (15, 17))] "M" =
        some (sliceL I 15 17) from rfl,
      show groupSlice I [("Y", (0, 4)), ("b", (5, 8)), ("d", (9, 11)), ("H", (12, 14)), ("M", (15, 17))] "S" =
        none from rfl,
      show groupSlice I [("Y", (0, 4)), ("b", (5, 8)), ("d", (9, 11)), ("H", (12, 14)), ("M", (15, 17))] "f" =
        none from rfl,
      show groupSlice I [("Y", (0, 4)), ("b", (5, 8)), ("d", (9, 11)), ("H", (12, 14)), ("M", (15, 17))] "b" =
        some (sliceL I 5 8) from rfl,
      hsY,
      hsd,
      hsH,
      hsM,
      hsb,
      Option.map_some', Option.getD_some, Option.map_none', Option.getD_none]
    rw [digitsToNat_digits4 (by omega), show monthOfAbbr (monthCap 10) = 10 from by decide, digitsToNat_digits2 (by omega), digitsToNat_digits2 (by omega), digitsToNat_digits2 (by omega)]
    simp only [datetimeNew, hv, if_true]
  simp only [parseTime, TIME_FORMAT_LIST]
  rw [parseLoop_skip_none hskA0,
    parseLoop_skip_none hskA1,
    parseLoop_skip_none hskA2,
    parseLoop_skip_none hskA3,
    parseLoop_skip_none hskA4,
    parseLoop_skip_none hskA5,
    parseLoop_skip_none hskA6,
    parseLoop_skip_none hskA7,
    parseLoop_skip_none hskA8,
    parseLoop_skip_none hskA9,
    parseLoop_skip_none hskA10,
    parseLoop_skip_none hskA11,
    parseLoop_skip_none hskA12,
    parseLoop_skip_none hskA13,
    parseLoop_success hrp hstrp]
  exact dtAddTd_zero hv

theorem roundtrip14x11 (now : DT) (y d h mi : Nat)
    (hv : validDT ⟨y, 11, d, h, mi, 0, 0⟩ = true) :
    parseTime now (.str (String.mk
      (formatPattern "%Y-%b-%d %H:%M".data ⟨y, 11, d, h, mi, 0, 0⟩))) =
      .ok ⟨y, 11, d, h, mi, 0, 0⟩ := by
  have hv2 := hv
  simp only [validDT, Bool.and_eq_true, decide_eq_true_eq] at hv2
  have hd31 : d ≤ 31 := by
    have := daysInMonth_le31 y 11
    omega
  set I := formatPattern "%Y-%b-%d %H:%M".data
    (⟨y, 11, d, h, mi, 0, 0⟩ : DT) with hI
  have hFor : List.Forall₂ chEq I
      (formatPattern "%Y-%b-%d %H:%M".data ⟨1111, 11, 11, 11, 11, 11, 111111⟩) := by
    rw [hI]
    exact formatAux_chEq false _ (Or.inr rfl)
  have hIeq : I = digits4 y ++ '-' :: (monthCap 11 ++ '-' :: (digits2 d ++ ' ' :: (digits2 h ++ ':' :: (digits2 mi ++ [])))) := by
    rw [hI]; rfl
  have hlen : I.length = 17 := by rw [hIeq]; rfl
  have hsY : sliceL I 0 4 = digits4 y := by rw [hIeq]; rfl
  have hsd : sliceL I 9 11 = digits2 d := by rw [hIeq]; rfl
  have hsH : sliceL I 12 14 = digits2 h := by rw [hIeq]; rfl
  have hsM : sliceL I 15 17 = digits2 mi := by rw [hIeq]; rfl
  have hsb : sliceL I 5 8 = monthCap 11 := by rw [hIeq]; rfl
  have hskA0 : regexParseTime (String.mk I) "%Y-%m-%dT%H:%M:%S.%f" = .ok none := by
    apply regexParseTime_none
    rw [show (String.mk I).data = I from rfl, reMatch_chEq okS0 hFor]
    decide
  have hskA1 : regexParseTime (String.mk I) "%Y/%m/%dT%H:%M:%S.%f" = .ok none := by
    apply regexParseTime_none
    rw [show (String.mk I).data = I from rfl, reMatch_chEq okS1 hFor]
    decide
  have hskA2 : regexParseTime (String.mk I) "%Y-%m-%dT%H:%M:%S.%fZ" = .ok none := by
    apply regexParseTime_none
    rw [show (String.mk I).data = I from rfl, reMatch_chEq okS2 hFor]
    decide
  have hskA3 : regexParseTime (String.mk I) "%Y-%m-%dT%H:%M:%S" = .ok none := by
    apply regexParseTime_none
    rw [show (String.mk I).data = I from rfl, reMatch_chEq okS3 hFor]
    decide
  have hskA4 : regexParseTime (String.mk I) "%Y/%m/%dT%H:%M:%S" = .ok none := by
    apply regexParseTime_none
    rw [show (String.mk I).data = I from rfl, reMatch_chEq okS4 hFor]
    decide
  have hskA5 : regexParseTime (String.mk I) "%Y%m%dT%H%M%S.%f" = .ok none := by
    apply regexParseTime_none
    rw [show (String.mk I).data = I from rfl, reMatch_chEq okS5 hFor]
    decide
  have hskA6 : regexParseTime (String.mk I) "%Y%m%dT%H%M%S" = .ok none := by
    apply regexParseTime_none
    rw [show (String.mk I).data = I from rfl, reMatch_chEq okS6 hFor]
    decide
  have hskA7 : regexParseTime (String.mk I) "%Y/%m/%d %H:%M:%S" = .ok none := by
    apply regexParseTime_none
    rw [show (String.mk I).data = I from rfl, reMatch_chEq okS7 hFor]
    decide
  have hskA8 : regexParseTime (String.mk I) "%Y/%m/%d %H:%M" = .ok none := by
    apply regexParseTime_none
    rw [show (String.mk I).data = I from rfl, reMatch_chEq okS8 hFor]
    decide
  have hskA9 : regexParseTime (String.mk I) "%Y/%m/%d %H:%M:%S.%f" = .ok none := by
    apply regexParseTime_none
    rw [show (String.mk I).data = I from rfl, reMatch_chEq okS9 hFor]
    decide
  have hskA10 : regexParseTime (String.mk I) "%Y-%m-%d %H:%M:%S.%f" = .ok none := by
    apply regexParseTime_none
    rw [show (String.mk I).data = I from rfl, reMatch_chEq okS10 hFor]
    decide
  have hskA11 : regexParseTime (String.mk I) "%Y-%m-%d %H:%M:%S" = .ok none := by
    apply regexParseTime_none
    rw [show (String.mk I).data = I from rfl, reMatch_chEq okS11 hFor]
    decide
  have hskA12 : regexParseTime (String.mk I) "%Y-%m-%d %H:%M" = .ok none := by
    apply regexParseTime_none
    rw [show (String.mk I).data = I from rfl, reMatch_chEq okS12 hFor]
    decide
  have hskA13 : regexParseTime (String.mk I) "%Y-%b-%d %H:%M:%S" = .ok none := by
    apply regexParseTime_none
    rw [show (String.mk I).data = I from rfl, reMatch_chEq okS13 hFor]
    decide
  have hre : reMatch (compileSunpy "%Y-%b-%d %H:%M".data) I =
      some (17, [("year", (0, 4)), ("month_str", (5, 8)), ("day", (9, 11)), ("hour", (12, 14)), ("minute", (15, 17))]) := by
    rw [reMatch_chEq okS14 hFor]
    decide
  have hrp : regexParseTime (String.mk I) "%Y-%b-%d %H:%M" =
      .ok (some (String.mk I, ⟨0, 0, 0⟩)) := by
    refine regexParseTime_hour_ne24 hre rfl ?_
    show ¬ sliceL I 12 14 = "24".data
    rw [hsH]
    exact digits2_ne24 (by omega)
  have hmrun : mrun (compileStrp "%Y-%b-%d %H:%M".data) I 0 [] =
      some (17, [("Y", (0, 4)), ("b", (5, 8)), ("d", (9, 11)), ("H", (12, 14)), ("M", (15, 17))]) := by
    rw [show compileStrp "%Y-%b-%d %H:%M".data =
      [.grp "Y" [[.digit, .digit, .digit, .digit]],
       .tst (.oneCI '-'),
       .grp "b" (monthAbbrs.map fun nm => nm.data.map CT.oneCI),
       .tst (.oneCI '-'),
       .grp "d" [[.one '3', .rng '0' '1'], [.rng '1' '2', .digit], [.one '0', .rng '1' '9'], [.rng '1' '9'], [.one ' ', .rng '1' '9']],
       .ws,
       .grp "H" [[.one '2', .rng '0' '3'], [.rng '0' '1', .digit], [.digit]],
       .tst (.oneCI ':'),
       .grp "M" [[.rng '0' '5', .digit], [.digit]]]
      from rfl, hIeq]
    apply stepY
    apply stepTst (by decide)
    apply stepb (by decide) (by decide)
    apply stepTst (by decide)
    apply stepd (by omega) (by omega)
    apply stepWs (wsLen_digits2 _ _)
    apply stepH (by omega) (by omega)
    apply stepTst (by decide)
    apply stepM (by omega) (by omega)
    decide
  have hstrp : strptime (String.mk I) "%Y-%b-%d %H:%M" =
      .ok ⟨y, 11, d, h, mi, 0, 0⟩ := by
    rw [strptime, show (String.mk I).data = I from rfl]
    rw [hmrun]
    simp only [hlen, if_true]
    simp only [show groupSlice I [("Y", (0, 4)), ("b", (5, 8)), ("d", (9, 11)), ("H", (12, 14)), ("M", (15, 17))] "Y" =
        some (sliceL I 0 4) from rfl,
      show groupSlice I [("Y", (0, 4)), ("b", (5, 8)), ("d", (9, 11)), ("H", (12, 14)), ("M", (15, 17))] "m" =
        none from rfl,
      show groupSlice I [("Y", (0, 4)), ("b", (5, 8)), ("d", (9, 11)), ("H", (12, 14)), ("M", (15, 17))] "d" =
        some (sliceL I 9 11) from rfl,
      show groupSlice I [("Y", (0, 4)), ("b", (5, 8)), ("d", (9, 11)), ("H", (12, 14)), ("M", (15, 17))] "H" =
        some (sliceL I 12 14) from rfl,
      show groupSlice I [("Y", (0, 4)), ("b", (5, 8)), ("d", (9, 11)), ("H", (12, 14)), ("M", (15, 17))] "M" =
        some (sliceL I 15 17) from rfl,
      show groupSlice I [("Y", (0, 4)), ("b", (5, 8)), ("d", (9, 11)), ("H", (12, 14)), ("M", (15, 17))] "S" =
        none from rfl,
      show groupSlice I [("Y", (0, 4)), ("b", (5, 8)), ("d", (9, 11)), ("H", (12, 14)), ("M", (15, 17))] "f" =
        none from rfl,
      show groupSlice I [("Y", (0, 4)), ("b", (5, 8)), ("d", (9, 11)), ("H", (12, 14)), ("M", (15, 17))] "b" =
        some (sliceL I 5 8) from rfl,
      hsY,
      hsd,
      hsH,
      hsM,
      hsb,
      Option.map_some', Option.getD_some, Option.map_none', Option.getD_none]
    rw [digitsToNat_digits4 (by omega), show monthOfAbbr (monthCap 11) = 11 from by decide, digitsToNat_digits2 (by omega), digitsToNat_digits2 (by omega), digitsToNat_digits2 (by omega)]
    simp only [datetimeNew, hv, if_true]
  simp only [parseTime, TIME_FORMAT_LIST]
  rw [parseLoop_skip_none hskA0,
    parseLoop_skip_none hskA1,
    parseLoop_skip_none hskA2,
    parseLoop_skip_none hskA3,
    parseLoop_skip_none hskA4,
    parseLoop_skip_none hskA5,
    parseLoop_skip_none hskA6,
    parseLoop_skip_none hskA7,
    parseLoop_skip_none hskA8,
    parseLoop_skip_none hskA9,
    parseLoop_skip_none hskA10,
    parseLoop_skip_none hskA11,
    parseLoop_skip_none hskA12,
    parseLoop_skip_none hskA13,
    parseLoop_success hrp hstrp]
  exact dtAddTd_zero hv

theorem roundtrip14x12 (now : DT) (y d h mi : Nat)
    (hv : validDT ⟨y, 12, d, h, mi, 0, 0⟩ = true) :
    parseTime now (.str (String.mk
      (formatPattern "%Y-%b-%d %H:%M".data ⟨y, 12, d, h, mi, 0, 0⟩))) =
      .ok ⟨y, 12, d, h, mi, 0, 0⟩ := by
  have hv2 := hv
  simp only [validDT, Bool.and_eq_true, decide_eq_true_eq] at hv2
  have hd31 : d ≤ 31 := by
    have := daysInMonth_le31 y 12
    omega
  set I := formatPattern "%Y-%b-%d %H:%M".data
    (⟨y, 12, d, h, mi, 0, 0⟩ : DT) with hI
  have hFor : List.Forall₂ chEq I
      (formatPattern "%Y-%b-%d %H:%M".data ⟨1111, 12, 11, 11, 11, 11, 111111⟩) := by
    rw [hI]
    exact formatAux_chEq false _ (Or.inr rfl)
  have hIeq : I = digits4 y ++ '-' :: (monthCap 12 ++ '-' :: (digits2 d ++ ' ' :: (digits2 h ++ ':' :: (digits2 mi ++ [])))) := by
    rw [hI]; rfl
  have hlen : I.length = 17 := by rw [hIeq]; rfl
  have hsY : sliceL I 0 4 = digits4 y := by rw [hIeq]; rfl
  have hsd : sliceL I 9 11 = digits2 d := by rw [hIeq]; rfl
  have hsH : sliceL I 12 14 = digits2 h := by rw [hIeq]; rfl
  have hsM : sliceL I 15 17 = digits2 mi := by rw [hIeq]; rfl
  have hsb : sliceL I 5 8 = monthCap 12 := by rw [hIeq]; rfl
  have hskA0 : regexParseTime (String.mk I) "%Y-%m-%dT%H:%M:%S.%f" = .ok none := by
    apply regexParseTime_none
    rw [show (String.mk I).data = I from rfl, reMatch_chEq okS0 hFor]
    decide
  have hskA1 : regexParseTime (String.mk I) "%Y/%m/%dT%H:%M:%S.%f" = .ok none := by
    apply regexParseTime_none
    rw [show (String.mk I).data = I from rfl, reMatch_chEq okS1 hFor]
    decide
  have hskA2 : regexParseTime (String.mk I) "%Y-%m-%dT%H:%M:%S.%fZ" = .ok none := by
    apply regexParseTime_none
    rw [show (String.mk I).data = I from rfl, reMatch_chEq okS2 hFor]
    decide
  have hskA3 : regexParseTime (String.mk I) "%Y-%m-%dT%H:%M:%S" = .ok none := by
    apply regexParseTime_none
    rw [show (String.mk I).data = I from rfl, reMatch_chEq okS3 hFor]
    decide
  have hskA4 : regexParseTime (String.mk I) "%Y/%m/%dT%H:%M:%S" = .ok none := by
    apply regexParseTime_none
    rw [show (String.mk I).data = I from rfl, reMatch_chEq okS4 hFor]
    decide
  have hskA5 : regexParseTime (String.mk I) "%Y%m%dT%H%M%S.%f" = .ok none := by
    apply regexParseTime_none
    rw [show (String.mk I).data = I from rfl, reMatch_chEq okS5 hFor]
    decide
  have hskA6 : regexParseTime (String.mk I) "%Y%m%dT%H%M%S" = .ok none := by
    apply regexParseTime_none
    rw [show (String.mk I).data = I from rfl, reMatch_chEq okS6 hFor]
    decide
  have hskA7 : regexParseTime (String.mk I) "%Y/%m/%d %H:%M:%S" = .ok none := by
    apply regexParseTime_none
    rw [show (String.mk I).data = I from rfl, reMatch_chEq okS7 hFor]
    decide
  have hskA8 : regexParseTime (String.mk I) "%Y/%m/%d %H:%M" = .ok none := by
    apply regexParseTime_none
    rw [show (String.mk I).data = I from rfl, reMatch_chEq okS8 hFor]
    decide
  have hskA9 : regexParseTime (String.mk I) "%Y/%m/%d %H:%M:%S.%f" = .ok none := by
    apply regexParseTime_none
    rw [show (String.mk I).data = I from rfl, reMatch_chEq okS9 hFor]
    decide
  have hskA10 : regexParseTime (String.mk I) "%Y-%m-%d %H:%M:%S.%f" = .ok none := by
    apply regexParseTime_none
    rw [show (String.mk I).data = I from rfl, reMatch_chEq okS10 hFor]
    decide
  have hskA11 : regexParseTime (String.mk I) "%Y-%m-%d %H:%M:%S" = .ok none := by
    apply regexParseTime_none
    rw [show (String.mk I).data = I from rfl, reMatch_chEq okS11 hFor]
    decide
  have hskA12 : regexParseTime (String.mk I) "%Y-%m-%d %H:%M" = .ok none := by
    apply regexParseTime_none
    rw [show (String.mk I).data = I from rfl, reMatch_chEq okS12 hFor]
    decide
  have hskA13 : regexParseTime (String.mk I) "%Y-%b-%d %H:%M:%S" = .ok none := by
    apply regexParseTime_none
    rw [show (String.mk I).data = I from rfl, reMatch_chEq okS13 hFor]
    decide
  have hre : reMatch (compileSunpy "%Y-%b-%d %H:%M".data) I =
      some (17, [("year", (0, 4)), ("month_str", (5, 8)), ("day", (9, 11)), ("hour", (12, 14)), ("minute", (15, 17))]) := by
    rw [reMatch_chEq okS14 hFor]
    decide
  have hrp : regexParseTime (String.mk I) "%Y-%b-%d %H:%M" =
      .ok (some (String.mk I, ⟨0, 0, 0⟩)) := by
    refine regexParseTime_hour_ne24 hre rfl ?_
    show ¬ sliceL I 12 14 = "24".data
    rw [hsH]
    exact digits2_ne24 (by omega)
  have hmrun : mrun (compileStrp "%Y-%b-%d %H:%M".data) I 0 [] =
      some (17, [("Y", (0, 4)), ("b", (5, 8)), ("d", (9, 11)), ("H", (12, 14)), ("M", (15, 17))]) := by
    rw [show compileStrp "%Y-%b-%d %H:%M".data =
      [.grp "Y" [[.digit, .digit, .digit, .digit]],
       .tst (.oneCI '-'),
       .grp "b" (monthAbbrs.map fun nm => nm.data.map CT.oneCI),
       .tst (.oneCI '-'),
       .grp "d" [[.one '3', .rng '0' '1'], [.rng '1' '2', .digit], [.one '0', .rng '1' '9'], [.rng '1' '9'], [.one ' ', .rng '1' '9']],
       .ws,
       .grp "H" [[.one '2', .rng '0' '3'], [.rng '0' '1', .digit], [.digit]],
       .tst (.oneCI ':'),
       .grp "M" [[.rng '0' '5', .digit], [.digit]]]
      from rfl, hIeq]
    apply stepY
    apply stepTst (by decide)
    apply stepb (by decide) (by decide)
    apply stepTst (by decide)
    apply stepd (by omega) (by omega)
    apply stepWs (wsLen_digits2 _ _)
    apply stepH (by omega) (by omega)
    apply stepTst (by decide)
    apply stepM (by omega) (by omega)
    decide
  have hstrp : strptime (String.mk I) "%Y-%b-%d %H:%M" =
      .ok ⟨y, 12, d, h, mi, 0, 0⟩ := by
    rw [strptime, show (String.mk I).data = I from rfl]
    rw [hmrun]
    simp only [hlen, if_true]
    simp only [show groupSlice I [("Y", (0, 4)), ("b", (5, 8)), ("d", (9, 11)), ("H", (12, 14)), ("M", (15, 17))] "Y" =
        some (sliceL I 0 4) from rfl,
      show groupSlice I [("Y", (0, 4)), ("b", (5, 8)), ("d", (9, 11)), ("H", (12, 14)), ("M", (15, 17))] "m" =
        none from rfl,
      show groupSlice I [("Y", (0, 4)), ("b", (5, 8)), ("d", (9, 11)), ("H", (12, 14)), ("M", (15, 17))] "d" =
        some (sliceL I 9 11) from rfl,
      show groupSlice I [("Y", (0, 4)), ("b", (5, 8)), ("d", (9, 11)), ("H", (12, 14)), ("M", (15, 17))] "H" =
        some (sliceL I 12 14) from rfl,
      show groupSlice I [("Y", (0, 4)), ("b", (5, 8)), ("d", (9, 11)), ("H", (12, 14)), ("M", (15, 17))] "M" =
        some (sliceL I 15 17) from rfl,
      show groupSlice I [("Y", (0, 4)), ("b", (5, 8)), ("d", (9, 11)), ("H", (12, 14)), ("M", (15, 17))] "S" =
        none from rfl,
      show groupSlice I [("Y", (0, 4)), ("b", (5, 8)), ("d", (9, 11)), ("H", (12, 14)), ("M", (15, 17))] "f" =
        none from rfl,
      show groupSlice I [("Y", (0, 4)), ("b", (5, 8)), ("d", (9, 11)), ("H", (12, 14)), ("M", (15, 17))] "b" =
        some (sliceL I 5 8) from rfl,
      hsY,
      hsd,
      hsH,
      hsM,
      hsb,
      Option.map_some', Option.getD_some, Option.map_none', Option.getD_none]
    rw [digitsToNat_digits4 (by omega), show monthOfAbbr (monthCap 12) = 12 from by decide, digitsToNat_digits2 (by omega), digitsToNat_digits2 (by omega), digitsToNat_digits2 (by omega)]
    simp only [datetimeNew, hv, if_true]
  simp only [parseTime, TIME_FORMAT_LIST]
  rw [parseLoop_skip_none hskA0,
    parseLoop_skip_none hskA1,
    parseLoop_skip_none hskA2,
    parseLoop_skip_none hskA3,
    parseLoop_skip_none hskA4,
    parseLoop_skip_none hskA5,
    parseLoop_skip_none hskA6,
    parseLoop_skip_none hskA7,
    parseLoop_skip_none hskA8,
    parseLoop_skip_none hskA9,
    parseLoop_skip_none hskA10,
    parseLoop_skip_none hskA11,
    parseLoop_skip_none hskA12,
    parseLoop_skip_none hskA13,
    parseLoop_success hrp hstrp]
  exact dtAddTd_zero hv

theorem roundtrip14 (now : DT) (y m d h mi : Nat)
    (hv : validDT ⟨y, m, d, h, mi, 0, 0⟩ = true) :
    parseTime now (.str (String.mk
      (formatPattern "%Y-%b-%d %H:%M".data ⟨y, m, d, h, mi, 0, 0⟩))) =
      .ok ⟨y, m, d, h, mi, 0, 0⟩ := by
  have hv2 := hv
  simp only [validDT, Bool.and_eq_true, decide_eq_true_eq] at hv2
  have hm1 : 1 ≤ m := by omega
  have hm12 : m ≤ 12 := by omega
  clear hv2
  interval_cases m
  · exact roundtrip14x1 now y d h mi hv
  · exact roundtrip14x2 now y d h mi hv
  · exact roundtrip14x3 now y d h mi hv
  · exact roundtrip14x4 now y d h mi hv
  · exact roundtrip14x5 now y d h mi hv
  · exact roundtrip14x6 now y d h mi hv
  · exact roundtrip14x7 now y d h mi hv
  · exact roundtrip14x8 now y d h mi hv
  · exact roundtrip14x9 now y d h mi hv
  · exact roundtrip14x10 now y d h mi hv
  · exact roundtrip14x11 now y d h mi hv
  · exact roundtrip14x12 now y d h mi hv

theorem roundtrip15x1 (now : DT) (y d : Nat)
    (hv : validDT ⟨y, 1, d, 0, 0, 0, 0⟩ = true) :
    parseTime now (.str (String.mk
      (formatPattern "%Y-%b-%d".data ⟨y, 1, d, 0, 0, 0, 0⟩))) =
      .ok ⟨y, 1, d, 0, 0, 0, 0⟩ := by
  have hv2 := hv
  simp only [validDT, Bool.and_eq_true, decide_eq_true_eq] at hv2
  have hd31 : d ≤ 31 := by
    have := daysInMonth_le31 y 1
    omega
  set I := formatPattern "%Y-%b-%d".data
    (⟨y, 1, d, 0, 0, 0, 0⟩ : DT) with hI
  have hFor : List.Forall₂ chEq I
      (formatPattern "%Y-%b-%d".data ⟨1111, 1, 11, 11, 11, 11, 111111⟩) := by
    rw [hI]
    exact formatAux_chEq false _ (Or.inr rfl)
  have hIeq : I = digits4 y ++ '-' :: (monthCap 1 ++ '-' :: (digits2 d ++ [])) := by
    rw [hI]; rfl
  have hlen : I.length = 11 := by rw [hIeq]; rfl
  have hsY : sliceL I 0 4 = digits4 y := by rw [hIeq]; rfl
  have hsd : sliceL I 9 11 = digits2 d := by rw [hIeq]; rfl
  have hsb : sliceL I 5 8 = monthCap 1 := by rw [hIeq]; rfl
  have hskA0 : regexParseTime (String.mk I) "%Y-%m-%dT%H:%M:%S.%f" = .ok none := by
    apply regexParseTime_none
    rw [show (String.mk I).data = I from rfl, reMatch_chEq okS0 hFor]
    decide
  have hskA1 : regexParseTime (String.mk I) "%Y/%m/%dT%H:%M:%S.%f" = .ok none := by
    apply regexParseTime_none
    rw [show (String.mk I).data = I from rfl, reMatch_chEq okS1 hFor]
    decide
  have hskA2 : regexParseTime (String.mk I) "%Y-%m-%dT%H:%M:%S.%fZ" = .ok none := by
    apply regexParseTime_none
    rw [show (String.mk I).data = I from rfl, reMatch_chEq okS2 hFor]
    decide
  have hskA3 : regexParseTime (String.mk I) "%Y-%m-%dT%H:%M:%S" = .ok none := by
    apply regexParseTime_none
    rw [show (String.mk I).data = I from rfl, reMatch_chEq okS3 hFor]
    decide
  have hskA4 : regexParseTime (String.mk I) "%Y/%m/%dT%H:%M:%S" = .ok none := by
    apply regexParseTime_none
    rw [show (String.mk I).data = I from rfl, reMatch_chEq okS4 hFor]
    decide
  have hskA5 : regexParseTime (String.mk I) "%Y%m%dT%H%M%S.%f" = .ok none := by
    apply regexParseTime_none
    rw [show (String.mk I).data = I from rfl, reMatch_chEq okS5 hFor]
    decide
  have hskA6 : regexParseTime (String.mk I) "%Y%m%dT%H%M%S" = .ok none := by
    apply regexParseTime_none
    rw [show (String.mk I).data = I from rfl, reMatch_chEq okS6 hFor]
    decide
  have hskA7 : regexParseTime (String.mk I) "%Y/%m/%d %H:%M:%S" = .ok none := by
    apply regexParseTime_none
    rw [show (String.mk I).data = I from rfl, reMatch_chEq okS7 hFor]
    decide
  have hskA8 : regexParseTime (String.mk I) "%Y/%m/%d %H:%M" = .ok none := by
    apply regexParseTime_none
    rw [show (String.mk I).data = I from rfl, reMatch_chEq okS8 hFor]
    decide
  have hskA9 : regexParseTime (String.mk I) "%Y/%m/%d %H:%M:%S.%f" = .ok none := by
    apply regexParseTime_none
    rw [show (String.mk I).data = I from rfl, reMatch_chEq okS9 hFor]
    decide
  have hskA10 : regexParseTime (String.mk I) "%Y-%m-%d %H:%M:%S.%f" = .ok none := by
    apply regexParseTime_none
    rw [show (String.mk I).data = I from rfl, reMatch_chEq okS10 hFor]
    decide
  have hskA11 : regexParseTime (String.mk I) "%Y-%m-%d %H:%M:%S" = .ok none := by
    apply regexParseTime_none
    rw [show (String.mk I).data = I from rfl, reMatch_chEq okS11 hFor]
    decide
  have hskA12 : regexParseTime (String.mk I) "%Y-%m-%d %H:%M" = .ok none := by
    apply regexParseTime_none
    rw [show (String.mk I).data = I from rfl, reMatch_chEq okS12 hFor]
    decide
  have hskA13 : regexParseTime (String.mk I) "%Y-%b-%d %H:%M:%S" = .ok none := by
    apply regexParseTime_none
    rw [show (String.mk I).data = I from rfl, reMatch_chEq okS13 hFor]
    decide
  have hskA14 : regexParseTime (String.mk I) "%Y-%b-%d %H:%M" = .ok none := by
    apply regexParseTime_none
    rw [show (String.mk I).data = I from rfl, reMatch_chEq okS14 hFor]
    decide
  have hre : reMatch (compileSunpy "%Y-%b-%d".data) I =
      some (11, [("year", (0, 4)), ("month_str", (5, 8)), ("day", (9, 11))]) := by
    rw [reMatch_chEq okS15 hFor]
    decide
  have hrp : regexParseTime (String.mk I) "%Y-%b-%d" =
      .ok (some (String.mk I, ⟨0, 0, 0⟩)) :=
    regexParseTime_noHour hre rfl
  have hmrun : mrun (compileStrp "%Y-%b-%d".data) I 0 [] =
      some (11, [("Y", (0, 4)), ("b", (5, 8)), ("d", (9, 11))]) := by
    rw [show compileStrp "%Y-%b-%d".data =
      [.grp "Y" [[.digit, .digit, .digit, .digit]],
       .tst (.oneCI '-'),
       .grp "b" (monthAbbrs.map fun nm => nm.data.map CT.oneCI),
       .tst (.oneCI '-'),
       .grp "d" [[.one '3', .rng '0' '1'], [.rng '1' '2', .digit], [.one '0', .rng '1' '9'], [.rng '1' '9'], [.one ' ', .rng '1' '9']]]
      from rfl, hIeq]
    apply stepY
    apply stepTst (by decide)
    apply stepb (by decide) (by decide)
    apply stepTst (by decide)
    apply stepd (by omega) (by omega)
    decide
  have hstrp : strptime (String.mk I) "%Y-%b-%d" =
      .ok ⟨y, 1, d, 0, 0, 0, 0⟩ := by
    rw [strptime, show (String.mk I).data = I from rfl]
    rw [hmrun]
    simp only [hlen, if_true]
    simp only [show groupSlice I [("Y", (0, 4)), ("b", (5, 8)), ("d", (9, 11))] "Y" =
        some (sliceL I 0 4) from rfl,
      show groupSlice I [("Y", (0, 4)), ("b", (5, 8)), ("d", (9, 11))] "m" =
        none from rfl,
      show groupSlice I [("Y", (0, 4)), ("b", (5, 8)), ("d", (9, 11))] "d" =
        some (sliceL I 9 11) from rfl,
      show groupSlice I [("Y", (0, 4)), ("b", (5, 8)), ("d", (9, 11))] "H" =
        none from rfl,
      show groupSlice I [("Y", (0, 4)), ("b", (5, 8)), ("d", (9, 11))] "M" =
        none from rfl,
      show groupSlice I [("Y", (0, 4)), ("b", (5, 8)), ("d", (9, 11))] "S" =
        none from rfl,
      show groupSlice I [("Y", (0, 4)), ("b", (5, 8)), ("d", (9, 11))] "f" =
        none from rfl,
      show groupSlice I [("Y", (0, 4)), ("b", (5, 8)), ("d", (9, 11))] "b" =
        some (sliceL I 5 8) from rfl,
      hsY,
      hsd,
      hsb,
      Option.map_some', Option.getD_some, Option.map_none', Option.getD_none]
    rw [digitsToNat_digits4 (by omega), show monthOfAbbr (monthCap 1) = 1 from by decide, digitsToNat_digits2 (by omega)]
    simp only [datetimeNew, hv, if_true]
  simp only [parseTime, TIME_FORMAT_LIST]
  rw [parseLoop_skip_none hskA0,
    parseLoop_skip_none hskA1,
    parseLoop_skip_none hskA2,
    parseLoop_skip_none hskA3,
    parseLoop_skip_none hskA4,
    parseLoop_skip_none hskA5,
    parseLoop_skip_none hskA6,
    parseLoop_skip_none hskA7,
    parseLoop_skip_none hskA8,
    parseLoop_skip_none hskA9,
    parseLoop_skip_none hskA10,
    parseLoop_skip_none hskA11,
    parseLoop_skip_none hskA12,
    parseLoop_skip_none hskA13,
    parseLoop_skip_none hskA14,
    parseLoop_success hrp hstrp]
  exact dtAddTd_zero hv

theorem roundtrip15x2 (now : DT) (y d : Nat)
    (hv : validDT ⟨y, 2, d, 0, 0, 0, 0⟩ = true) :
    parseTime now (.str (String.mk
      (formatPattern "%Y-%b-%d".data ⟨y, 2, d, 0, 0, 0, 0⟩))) =
      .ok ⟨y, 2, d, 0, 0, 0, 0⟩ := by
  have hv2 := hv
  simp only [validDT, Bool.and_eq_true, decide_eq_true_eq] at hv2
  have hd31 : d ≤ 31 := by
    have := daysInMonth_le31 y 2
    omega
  set I := formatPattern "%Y-%b-%d".data
    (⟨y, 2, d, 0, 0, 0, 0⟩ : DT) with hI
  have hFor : List.Forall₂ chEq I
      (formatPattern "%Y-%b-%d".data ⟨1111, 2, 11, 11, 11, 11, 111111⟩) := by
    rw [hI]
    exact formatAux_chEq false _ (Or.inr rfl)
  have hIeq : I = digits4 y ++ '-' :: (monthCap 2 ++ '-' :: (digits2 d ++ [])) := by
    rw [hI]; rfl
  have hlen : I.length = 11 := by rw [hIeq]; rfl
  have hsY : sliceL I 0 4 = digits4 y := by rw [hIeq]; rfl
  have hsd : sliceL I 9 11 = digits2 d := by rw [hIeq]; rfl
  have hsb : sliceL I 5 8 = monthCap 2 := by rw [hIeq]; rfl
  have hskA0 : regexParseTime (String.mk I) "%Y-%m-%dT%H:%M:%S.%f" = .ok none := by
    apply regexParseTime_none
    rw [show (String.mk I).data = I from rfl, reMatch_chEq okS0 hFor]
    decide
  have hskA1 : regexParseTime (String.mk I) "%Y/%m/%dT%H:%M:%S.%f" = .ok none := by
    apply regexParseTime_none
    rw [show (String.mk I).data = I from rfl, reMatch_chEq okS1 hFor]
    decide
  have hskA2 : regexParseTime (String.mk I) "%Y-%m-%dT%H:%M:%S.%fZ" = .ok none := by
    apply regexParseTime_none
    rw [show (String.mk I).data = I from rfl, reMatch_chEq okS2 hFor]
    decide
  have hskA3 : regexParseTime (String.mk I) "%Y-%m-%dT%H:%M:%S" = .ok none := by
    apply regexParseTime_none
    rw [show (String.mk I).data = I from rfl, reMatch_chEq okS3 hFor]
    decide
  have hskA4 : regexParseTime (String.mk I) "%Y/%m/%dT%H:%M:%S" = .ok none := by
    apply regexParseTime_none
    rw [show (String.mk I).data = I from rfl, reMatch_chEq okS4 hFor]
    decide
  have hskA5 : regexParseTime (String.mk I) "%Y%m%dT%H%M%S.%f" = .ok none := by
    apply regexParseTime_none
    rw [show (String.mk I).data = I from rfl, reMatch_chEq okS5 hFor]
    decide
  have hskA6 : regexParseTime (String.mk I) "%Y%m%dT%H%M%S" = .ok none := by
    apply regexParseTime_none
    rw [show (String.mk I).data = I from rfl, reMatch_chEq okS6 hFor]
    decide
  have hskA7 : regexParseTime (String.mk I) "%Y/%m/%d %H:%M:%S" = .ok none := by
    apply regexParseTime_none
    rw [show (String.mk I).data = I from rfl, reMatch_chEq okS7 hFor]
    decide
  have hskA8 : regexParseTime (String.mk I) "%Y/%m/%d %H:%M" = .ok none := by
    apply regexParseTime_none
    rw [show (String.mk I).data = I from rfl, reMatch_chEq okS8 hFor]
    decide
  have hskA9 : regexParseTime (String.mk I) "%Y/%m/%d %H:%M:%S.%f" = .ok none := by
    apply regexParseTime_none
    rw [show (String.mk I).data = I from rfl, reMatch_chEq okS9 hFor]
    decide
  have hskA10 : regexParseTime (String.mk I) "%Y-%m-%d %H:%M:%S.%f" = .ok none := by
    apply regexParseTime_none
    rw [show (String.mk I).data = I from rfl, reMatch_chEq okS10 hFor]
    decide
  have hskA11 : regexParseTime (String.mk I) "%Y-%m-%d %H:%M:%S" = .ok none := by
    apply regexParseTime_none
    rw [show (String.mk I).data = I from rfl, reMatch_chEq okS11 hFor]
    decide
  have hskA12 : regexParseTime (String.mk I) "%Y-%m-%d %H:%M" = .ok none := by
    apply regexParseTime_none
    rw [show (String.mk I).data = I from rfl, reMatch_chEq okS12 hFor]
    decide
  have hskA13 : regexParseTime (String.mk I) "%Y-%b-%d %H:%M:%S" = .ok none := by
    apply regexParseTime_none
    rw [show (String.mk I).data = I from rfl, reMatch_chEq okS13 hFor]
    decide
  have hskA14 : regexParseTime (String.mk I) "%Y-%b-%d %H:%M" = .ok none := by
    apply regexParseTime_none
    rw [show (String.mk I).data = I from rfl, reMatch_chEq okS14 hFor]
    decide
  have hre : reMatch (compileSunpy "%Y-%b-%d".data) I =
      some (11, [("year", (0, 4)), ("month_str", (5, 8)), ("day", (9, 11))]) := by
    rw [reMatch_chEq okS15 hFor]
    decide
  have hrp : regexParseTime (String.mk I) "%Y-%b-%d" =
      .ok (some (String.mk I, ⟨0, 0, 0⟩)) :=
    regexParseTime_noHour hre rfl
  have hmrun : mrun (compileStrp "%Y-%b-%d".data) I 0 [] =
      some (11, [("Y", (0, 4)), ("b", (5, 8)), ("d", (9, 11))]) := by
    rw [show compileStrp "%Y-%b-%d".data =
      [.grp "Y" [[.digit, .digit, .digit, .digit]],
       .tst (.oneCI '-'),
       .grp "b" (monthAbbrs.map fun nm => nm.data.map CT.oneCI),
       .tst (.oneCI '-'),
       .grp "d" [[.one '3', .rng '0' '1'], [.rng '1' '2', .digit], [.one '0', .rng '1' '9'], [.rng '1' '9'], [.one ' ', .rng '1' '9']]]
      from rfl, hIeq]
    apply stepY
    apply stepTst (by decide)
    apply stepb (by decide) (by decide)
    apply stepTst (by decide)
    apply stepd (by omega) (by omega)
    decide
  have hstrp : strptime (String.mk I) "%Y-%b-%d" =
      .ok ⟨y, 2, d, 0, 0, 0, 0⟩ := by
    rw [strptime, show (String.mk I).data = I from rfl]
    rw [hmrun]
    simp only [hlen, if_true]
    simp only [show groupSlice I [("Y", (0, 4)), ("b", (5, 8)), ("d", (9, 11))] "Y" =
        some (sliceL I 0 4) from rfl,
      show groupSlice I [("Y", (0, 4)), ("b", (5, 8)), ("d", (9, 11))] "m" =
        none from rfl,
      show groupSlice I [("Y", (0, 4)), ("b", (5, 8)), ("d", (9, 11))] "d" =
        some (sliceL I 9 11) from rfl,
      show groupSlice I [("Y", (0, 4)), ("b", (5, 8)), ("d", (9, 11))] "H" =
        none from rfl,
      show groupSlice I [("Y", (0, 4)), ("b", (5, 8)), ("d", (9, 11))] "M" =
        none from rfl,
      show groupSlice I [("Y", (0, 4)), ("b", (5, 8)), ("d", (9, 11))] "S" =
        none from rfl,
      show groupSlice I [("Y", (0, 4)), ("b", (5, 8)), ("d", (9, 11))] "f" =
        none from rfl,
      show groupSlice I [("Y", (0, 4)), ("b", (5, 8)), ("d", (9, 11))] "b" =
        some (sliceL I 5 8) from rfl,
      hsY,
      hsd,
      hsb,
      Option.map_some', Option.getD_some, Option.map_none', Option.getD_none]
    rw [digitsToNat_digits4 (by omega), show monthOfAbbr (monthCap 2) = 2 from by decide, digitsToNat_digits2 (by omega)]
    simp only [datetimeNew, hv, if_true]
  simp only [parseTime, TIME_FORMAT_LIST]
  rw [parseLoop_skip_none hskA0,
    parseLoop_skip_none hskA1,
    parseLoop_skip_none hskA2,
    parseLoop_skip_none hskA3,
    parseLoop_skip_none hskA4,
    parseLoop_skip_none hskA5,
    parseLoop_skip_none hskA6,
    parseLoop_skip_none hskA7,
    parseLoop_skip_none hskA8,
    parseLoop_skip_none hskA9,
    parseLoop_skip_none hskA10,
    parseLoop_skip_none hskA11,
    parseLoop_skip_none hskA12,
    parseLoop_skip_none hskA13,
    parseLoop_skip_none hskA14,
    parseLoop_success hrp hstrp]
  exact dtAddTd_zero hv

theorem roundtrip15x3 (now : DT) (y d : Nat)
    (hv : validDT ⟨y, 3, d, 0, 0, 0, 0⟩ = true) :
    parseTime now (.str (String.mk
      (formatPattern "%Y-%b-%d".data ⟨y, 3, d, 0, 0, 0, 0⟩))) =
      .ok ⟨y, 3, d, 0, 0, 0, 0⟩ := by
  have hv2 := hv
  simp only [validDT, Bool.and_eq_true, decide_eq_true_eq] at hv2
  have hd31 : d ≤ 31 := by
    have := daysInMonth_le31 y 3
    omega
  set I := formatPattern "%Y-%b-%d".data
    (⟨y, 3, d, 0, 0, 0, 0⟩ : DT) with hI
  have hFor : List.Forall₂ chEq I
      (formatPattern "%Y-%b-%d".data ⟨1111, 3, 11, 11, 11, 11, 111111⟩) := by
    rw [hI]
    exact formatAux_chEq false _ (Or.inr rfl)
  have hIeq : I = digits4 y ++ '-' :: (monthCap 3 ++ '-' :: (digits2 d ++ [])) := by
    rw [hI]; rfl
  have hlen : I.length = 11 := by rw [hIeq]; rfl
  have hsY : sliceL I 0 4 = digits4 y := by rw [hIeq]; rfl
  have hsd : sliceL I 9 11 = digits2 d := by rw [hIeq]; rfl
  have hsb : sliceL I 5 8 = monthCap 3 := by rw [hIeq]; rfl
  have hskA0 : regexParseTime (String.mk I) "%Y-%m-%dT%H:%M:%S.%f" = .ok none := by
    apply regexParseTime_none
    rw [show (String.mk I).data = I from rfl, reMatch_chEq okS0 hFor]
    decide
  have hskA1 : regexParseTime (String.mk I) "%Y/%m/%dT%H:%M:%S.%f" = .ok none := by
    apply regexParseTime_none
    rw [show (String.mk I).data = I from rfl, reMatch_chEq okS1 hFor]
    decide
  have hskA2 : regexParseTime (String.mk I) "%Y-%m-%dT%H:%M:%S.%fZ" = .ok none := by
    apply regexParseTime_none
    rw [show (String.mk I).data = I from rfl, reMatch_chEq okS2 hFor]
    decide
  have hskA3 : regexParseTime (String.mk I) "%Y-%m-%dT%H:%M:%S" = .ok none := by
    apply regexParseTime_none
    rw [show (String.mk I).data = I from rfl, reMatch_chEq okS3 hFor]
    decide
  have hskA4 : regexParseTime (String.mk I) "%Y/%m/%dT%H:%M:%S" = .ok none := by
    apply regexParseTime_none
    rw [show (String.mk I).data = I from rfl, reMatch_chEq okS4 hFor]
    decide
  have hskA5 : regexParseTime (String.mk I) "%Y%m%dT%H%M%S.%f" = .ok none := by
    apply regexParseTime_none
    rw [show (String.mk I).data = I from rfl, reMatch_chEq okS5 hFor]
    decide
  have hskA6 : regexParseTime (String.mk I) "%Y%m%dT%H%M%S" = .ok none := by
    apply regexParseTime_none
    rw [show (String.mk I).data = I from rfl, reMatch_chEq okS6 hFor]
    decide
  have hskA7 : regexParseTime (String.mk I) "%Y/%m/%d %H:%M:%S" = .ok none := by
    apply regexParseTime_none
    rw [show (String.mk I).data = I from rfl, reMatch_chEq okS7 hFor]
    decide
  have hskA8 : regexParseTime (String.mk I) "%Y/%m/%d %H:%M" = .ok none := by
    apply regexParseTime_none
    rw [show (String.mk I).data = I from rfl, reMatch_chEq okS8 hFor]
    decide
  have hskA9 : regexParseTime (String.mk I) "%Y/%m/%d %H:%M:%S.%f" = .ok none := by
    apply regexParseTime_none
    rw [show (String.mk I).data = I from rfl, reMatch_chEq okS9 hFor]
    decide
  have hskA10 : regexParseTime (String.mk I) "%Y-%m-%d %H:%M:%S.%f" = .ok none := by
    apply regexParseTime_none
    rw [show (String.mk I).data = I from rfl, reMatch_chEq okS10 hFor]
    decide
  have hskA11 : regexParseTime (String.mk I) "%Y-%m-%d %H:%M:%S" = .ok none := by
    apply regexParseTime_none
    rw [show (String.mk I).data = I from rfl, reMatch_chEq okS11 hFor]
    decide
  have hskA12 : regexParseTime (String.mk I) "%Y-%m-%d %H:%M" = .ok none := by
    apply regexParseTime_none
    rw [show (String.mk I).data = I from rfl, reMatch_chEq okS12 hFor]
    decide
  have hskA13 : regexParseTime (String.mk I) "%Y-%b-%d %H:%M:%S" = .ok none := by
    apply regexParseTime_none
    rw [show (String.mk I).data = I from rfl, reMatch_chEq okS13 hFor]
    decide
  have hskA14 : regexParseTime (String.mk I) "%Y-%b-%d %H:%M" = .ok none := by
    apply regexParseTime_none
    rw [show (String.mk I).data = I from rfl, reMatch_chEq okS14 hFor]
    decide
  have hre : reMatch (compileSunpy "%Y-%b-%d".data) I =
      some (11, [("year", (0, 4)), ("month_str", (5, 8)), ("day", (9, 11))]) := by
    rw [reMatch_chEq okS15 hFor]
    decide
  have hrp : regexParseTime (String.mk I) "%Y-%b-%d" =
      .ok (some (String.mk I, ⟨0, 0, 0⟩)) :=
    regexParseTime_noHour hre rfl
  have hmrun : mrun (compileStrp "%Y-%b-%d".data) I 0 [] =
      some (11, [("Y", (0, 4)), ("b", (5, 8)), ("d", (9, 11))]) := by
    rw [show compileStrp "%Y-%b-%d".data =
      [.grp "Y" [[.digit, .digit, .digit, .digit]],
       .tst (.oneCI '-'),
       .grp "b" (monthAbbrs.map fun nm => nm.data.map CT.oneCI),
       .tst (.oneCI '-'),
       .grp "d" [[.one '3', .rng '0' '1'], [.rng '1' '2', .digit], [.one '0', .rng '1' '9'], [.rng '1' '9'], [.one ' ', .rng '1' '9']]]
      from rfl, hIeq]
    apply stepY
    apply stepTst (by decide)
    apply stepb (by decide) (by decide)
    apply stepTst (by decide)
    apply stepd (by omega) (by omega)
    decide
  have hstrp : strptime (String.mk I) "%Y-%b-%d" =
      .ok ⟨y, 3, d, 0, 0, 0, 0⟩ := by
    rw [strptime, show (String.mk I).data = I from rfl]
    rw [hmrun]
    simp only [hlen, if_true]
    simp only [show groupSlice I [("Y", (0, 4)), ("b", (5, 8)), ("d", (9, 11))] "Y" =
        some (sliceL I 0 4) from rfl,
      show groupSlice I [("Y", (0, 4)), ("b", (5, 8)), ("d", (9, 11))] "m" =
        none from rfl,
      show groupSlice I [("Y", (0, 4)), ("b", (5, 8)), ("d", (9, 11))] "d" =
        some (sliceL I 9 11) from rfl,
      show groupSlice I [("Y", (0, 4)), ("b", (5, 8)), ("d", (9, 11))] "H" =
        none from rfl,
      show groupSlice I [("Y", (0, 4)), ("b", (5, 8)), ("d", (9, 11))] "M" =
        none from rfl,
      show groupSlice I [("Y", (0, 4)), ("b", (5, 8)), ("d", (9, 11))] "S" =
        none from rfl,
      show groupSlice I [("Y", (0, 4)), ("b", (5, 8)), ("d", (9, 11))] "f" =
        none from rfl,
      show groupSlice I [("Y", (0, 4)), ("b", (5, 8)), ("d", (9, 11))] "b" =
        some (sliceL I 5 8) from rfl,
      hsY,
      hsd,
      hsb,
      Option.map_some', Option.getD_some, Option.map_none', Option.getD_none]
    rw [digitsToNat_digits4 (by omega), show monthOfAbbr (monthCap 3) = 3 from by decide, digitsToNat_digits2 (by omega)]
    simp only [datetimeNew, hv, if_true]
  simp only [parseTime, TIME_FORMAT_LIST]
  rw [parseLoop_skip_none hskA0,
    parseLoop_skip_none hskA1,
    parseLoop_skip_none hskA2,
    parseLoop_skip_none hskA3,
    parseLoop_skip_none hskA4,
    parseLoop_skip_none hskA5,
    parseLoop_skip_none hskA6,
    parseLoop_skip_none hskA7,
    parseLoop_skip_none hskA8,
    parseLoop_skip_none hskA9,
    parseLoop_skip_none hskA10,
    parseLoop_skip_none hskA11,
    parseLoop_skip_none hskA12,
    parseLoop_skip_none hskA13,
    parseLoop_skip_none hskA14,
    parseLoop_success hrp hstrp]
  exact dtAddTd_zero hv

theorem roundtrip15x4 (now : DT) (y d : Nat)
    (hv : validDT ⟨y, 4, d, 0, 0, 0, 0⟩ = true) :
    parseTime now (.str (String.mk
      (formatPattern "%Y-%b-%d".data ⟨y, 4, d, 0, 0, 0, 0⟩))) =
      .ok ⟨y, 4, d, 0, 0, 0, 0⟩ := by
  have hv2 := hv
  simp only [validDT, Bool.and_eq_true, decide_eq_true_eq] at hv2
  have hd31 : d ≤ 31 := by
    have := daysInMonth_le31 y 4
    omega
  set I := formatPattern "%Y-%b-%d".data
    (⟨y, 4, d, 0, 0, 0, 0⟩ : DT) with hI
  have hFor : List.Forall₂ chEq I
      (formatPattern "%Y-%b-%d".data ⟨1111, 4, 11, 11, 11, 11, 111111⟩) := by
    rw [hI]
    exact formatAux_chEq false _ (Or.inr rfl)
  have hIeq : I = digits4 y ++ '-' :: (monthCap 4 ++ '-' :: (digits2 d ++ [])) := by
    rw [hI]; rfl
  have hlen : I.length = 11 := by rw [hIeq]; rfl
  have hsY : sliceL I 0 4 = digits4 y := by rw [hIeq]; rfl
  have hsd : sliceL I 9 11 = digits2 d := by rw [hIeq]; rfl
  have hsb : sliceL I 5 8 = monthCap 4 := by rw [hIeq]; rfl
  have hskA0 : regexParseTime (String.mk I) "%Y-%m-%dT%H:%M:%S.%f" = .ok none := by
    apply regexParseTime_none
    rw [show (String.mk I).data = I from rfl, reMatch_chEq okS0 hFor]
    decide
  have hskA1 : regexParseTime (String.mk I) "%Y/%m/%dT%H:%M:%S.%f" = .ok none := by
    apply regexParseTime_none
    rw [show (String.mk I).data = I from rfl, reMatch_chEq okS1 hFor]
    decide
  have hskA2 : regexParseTime (String.mk I) "%Y-%m-%dT%H:%M:%S.%fZ" = .ok none := by
    apply regexParseTime_none
    rw [show (String.mk I).data = I from rfl, reMatch_chEq okS2 hFor]
    decide
  have hskA3 : regexParseTime (String.mk I) "%Y-%m-%dT%H:%M:%S" = .ok none := by
    apply regexParseTime_none
    rw [show (String.mk I).data = I from rfl, reMatch_chEq okS3 hFor]
    decide
  have hskA4 : regexParseTime (String.mk I) "%Y/%m/%dT%H:%M:%S" = .ok none := by
    apply regexParseTime_none
    rw [show (String.mk I).data = I from rfl, reMatch_chEq okS4 hFor]
    decide
  have hskA5 : regexParseTime (String.mk I) "%Y%m%dT%H%M%S.%f" = .ok none := by
    apply regexParseTime_none
    rw [show (String.mk I).data = I from rfl, reMatch_chEq okS5 hFor]
    decide
  have hskA6 : regexParseTime (String.mk I) "%Y%m%dT%H%M%S" = .ok none := by
    apply regexParseTime_none
    rw [show (String.mk I).data = I from rfl, reMatch_chEq okS6 hFor]
    decide
  have hskA7 : regexParseTime (String.mk I) "%Y/%m/%d %H:%M:%S" = .ok none := by
    apply regexParseTime_none
    rw [show (String.mk I).data = I from rfl, reMatch_chEq okS7 hFor]
    decide
  have hskA8 : regexParseTime (String.mk I) "%Y/%m/%d %H:%M" = .ok none := by
    apply regexParseTime_none
    rw [show (String.mk I).data = I from rfl, reMatch_chEq okS8 hFor]
    decide
  have hskA9 : regexParseTime (String.mk I) "%Y/%m/%d %H:%M:%S.%f" = .ok none := by
    apply regexParseTime_none
    rw [show (String.mk I).data = I from rfl, reMatch_chEq okS9 hFor]
    decide
  have hskA10 : regexParseTime (String.mk I) "%Y-%m-%d %H:%M:%S.%f" = .ok none := by
    apply regexParseTime_none
    rw [show (String.mk I).data = I from rfl, reMatch_chEq okS10 hFor]
    decide
  have hskA11 : regexParseTime (String.mk I) "%Y-%m-%d %H:%M:%S" = .ok none := by
    apply regexParseTime_none
    rw [show (String.mk I).data = I from rfl, reMatch_chEq okS11 hFor]
    decide
  have hskA12 : regexParseTime (String.mk I) "%Y-%m-%d %H:%M" = .ok none := by
    apply regexParseTime_none
    rw [show (String.mk I).data = I from rfl, reMatch_chEq okS12 hFor]
    decide
  have hskA13 : regexParseTime (String.mk I) "%Y-%b-%d %H:%M:%S" = .ok none := by
    apply regexParseTime_none
    rw [show (String.mk I).data = I from rfl, reMatch_chEq okS13 hFor]
    decide
  have hskA14 : regexParseTime (String.mk I) "%Y-%b-%d %H:%M" = .ok none := by
    apply regexParseTime_none
    rw [show (String.mk I).data = I from rfl, reMatch_chEq okS14 hFor]
    decide
  have hre : reMatch (compileSunpy "%Y-%b-%d".data) I =
      some (11, [("year", (0, 4)), ("month_str", (5, 8)), ("day", (9, 11))]) := by
    rw [reMatch_chEq okS15 hFor]
    decide
  have hrp : regexParseTime (String.mk I) "%Y-%b-%d" =
      .ok (some (String.mk I, ⟨0, 0, 0⟩)) :=
    regexParseTime_noHour hre rfl
  have hmrun : mrun (compileStrp "%Y-%b-%d".data) I 0 [] =
      some (11, [("Y", (0, 4)), ("b", (5, 8)), ("d", (9, 11))]) := by
    rw [show compileStrp "%Y-%b-%d".data =
      [.grp "Y" [[.digit, .digit, .digit, .digit]],
       .tst (.oneCI '-'),
       .grp "b" (monthAbbrs.map fun nm => nm.data.map CT.oneCI),
       .tst (.oneCI '-'),
       .grp "d" [[.one '3', .rng '0' '1'], [.rng '1' '2', .digit], [.one '0', .rng '1' '9'], [.rng '1' '9'], [.one ' ', .rng '1' '9']]]
      from rfl, hIeq]
    apply stepY
    apply stepTst (by decide)
    apply stepb (by decide) (by decide)
    apply stepTst (by decide)
    apply stepd (by omega) (by omega)
    decide
  have hstrp : strptime (String.mk I) "%Y-%b-%d" =
      .ok ⟨y, 4, d, 0, 0, 0, 0⟩ := by
    rw [strptime, show (String.mk I).data = I from rfl]
    rw [hmrun]
    simp only [hlen, if_true]
    simp only [show groupSlice I [("Y", (0, 4)), ("b", (5, 8)), ("d", (9, 11))] "Y" =
        some (sliceL I 0 4) from rfl,
      show groupSlice I [("Y", (0, 4)), ("b", (5, 8)), ("d", (9, 11))] "m" =
        none from rfl,
      show groupSlice I [("Y", (0, 4)), ("b", (5, 8)), ("d", (9, 11))] "d" =
        some (sliceL I 9 11) from rfl,
      show groupSlice I [("Y", (0, 4)), ("b", (5, 8)), ("d", (9, 11))] "H" =
        none from rfl,
      show groupSlice I [("Y", (0, 4)), ("b", (5, 8)), ("d", (9, 11))] "M" =
        none from rfl,
      show groupSlice I [("Y", (0, 4)), ("b", (5, 8)), ("d", (9, 11))] "S" =
        none from rfl,
      show groupSlice I [("Y", (0, 4)), ("b", (5, 8)), ("d", (9, 11))] "f" =
        none from rfl,
      show groupSlice I [("Y", (0, 4)), ("b", (5, 8)), ("d", (9, 11))] "b" =
        some (sliceL I 5 8) from rfl,
      hsY,
      hsd,
      hsb,
      Option.map_some', Option.getD_some, Option.map_none', Option.getD_none]
    rw [digitsToNat_digits4 (by omega), show monthOfAbbr (monthCap 4) = 4 from by decide, digitsToNat_digits2 (by omega)]
    simp only [datetimeNew, hv, if_true]
  simp only [parseTime, TIME_FORMAT_LIST]
  rw [parseLoop_skip_none hskA0,
    parseLoop_skip_none hskA1,
    parseLoop_skip_none hskA2,
    parseLoop_skip_none hskA3,
    parseLoop_skip_none hskA4,
    parseLoop_skip_none hskA5,
    parseLoop_skip_none hskA6,
    parseLoop_skip_none hskA7,
    parseLoop_skip_none hskA8,
    parseLoop_skip_none hskA9,
    parseLoop_skip_none hskA10,
    parseLoop_skip_none hskA11,
    parseLoop_skip_none hskA12,
    parseLoop_skip_none hskA13,
    parseLoop_skip_none hskA14,
    parseLoop_success hrp hstrp]
  exact dtAddTd_zero hv

theorem roundtrip15x5 (now : DT) (y d : Nat)
    (hv : validDT ⟨y, 5, d, 0, 0, 0, 0⟩ = true) :
    parseTime now (.str (String.mk
      (formatPattern "%Y-%b-%d".data ⟨y, 5, d, 0, 0, 0, 0⟩))) =
      .ok ⟨y, 5, d, 0, 0, 0, 0⟩ := by
  have hv2 := hv
  simp only [validDT, Bool.and_eq_true, decide_eq_true_eq] at hv2
  have hd31 : d ≤ 31 := by
    have := daysInMonth_le31 y 5
    omega
  set I := formatPattern "%Y-%b-%d".data
    (⟨y, 5, d, 0, 0, 0, 0⟩ : DT) with hI
  have hFor : List.Forall₂ chEq I
      (formatPattern "%Y-%b-%d".data ⟨1111, 5, 11, 11, 11, 11, 111111⟩) := by
    rw [hI]
    exact formatAux_chEq false _ (Or.inr rfl)
  have hIeq : I = digits4 y ++ '-' :: (monthCap 5 ++ '-' :: (digits2 d ++ [])) := by
    rw [hI]; rfl
  have hlen : I.length = 11 := by rw [hIeq]; rfl
  have hsY : sliceL I 0 4 = digits4 y := by rw [hIeq]; rfl
  have hsd : sliceL I 9 11 = digits2 d := by rw [hIeq]; rfl
  have hsb : sliceL I 5 8 = monthCap 5 := by rw [hIeq]; rfl
  have hskA0 : regexParseTime (String.mk I) "%Y-%m-%dT%H:%M:%S.%f" = .ok none := by
    apply regexParseTime_none
    rw [show (String.mk I).data = I from rfl, reMatch_chEq okS0 hFor]
    decide
  have hskA1 : regexParseTime (String.mk I) "%Y/%m/%dT%H:%M:%S.%f" = .ok none := by
    apply regexParseTime_none
    rw [show (String.mk I).data = I from rfl, reMatch_chEq okS1 hFor]
    decide
  have hskA2 : regexParseTime (String.mk I) "%Y-%m-%dT%H:%M:%S.%fZ" = .ok none := by
    apply regexParseTime_none
    rw [show (String.mk I).data = I from rfl, reMatch_chEq okS2 hFor]
    decide
  have hskA3 : regexParseTime (String.mk I) "%Y-%m-%dT%H:%M:%S" = .ok none := by
    apply regexParseTime_none
    rw [show (String.mk I).data = I from rfl, reMatch_chEq okS3 hFor]
    decide
  have hskA4 : regexParseTime (String.mk I) "%Y/%m/%dT%H:%M:%S" = .ok none := by
    apply regexParseTime_none
    rw [show (String.mk I).data = I from rfl, reMatch_chEq okS4 hFor]
    decide
  have hskA5 : regexParseTime (String.mk I) "%Y%m%dT%H%M%S.%f" = .ok none := by
    apply regexParseTime_none
    rw [show (String.mk I).data = I from rfl, reMatch_chEq okS5 hFor]
    decide
  have hskA6 : regexParseTime (String.mk I) "%Y%m%dT%H%M%S" = .ok none := by
    apply regexParseTime_none
    rw [show (String.mk I).data = I from rfl, reMatch_chEq okS6 hFor]
    decide
  have hskA7 : regexParseTime (String.mk I) "%Y/%m/%d %H:%M:%S" = .ok none := by
    apply regexParseTime_none
    rw [show (String.mk I).data = I from rfl, reMatch_chEq okS7 hFor]
    decide
  have hskA8 : regexParseTime (String.mk I) "%Y/%m/%d %H:%M" = .ok none := by
    apply regexParseTime_none
    rw [show (String.mk I).data = I from rfl, reMatch_chEq okS8 hFor]
    decide
  have hskA9 : regexParseTime (String.mk I) "%Y/%m/%d %H:%M:%S.%f" = .ok none := by
    apply regexParseTime_none
    rw [show (String.mk I).data = I from rfl, reMatch_chEq okS9 hFor]
    decide
  have hskA10 : regexParseTime (String.mk I) "%Y-%m-%d %H:%M:%S.%f" = .ok none := by
    apply regexParseTime_none
    rw [show (String.mk I).data = I from rfl, reMatch_chEq okS10 hFor]
    decide
  have hskA11 : regexParseTime (String.mk I) "%Y-%m-%d %H:%M:%S" = .ok none := by
    apply regexParseTime_none
    rw [show (String.mk I).data = I from rfl, reMatch_chEq okS11 hFor]
    decide
  have hskA12 : regexParseTime (String.mk I) "%Y-%m-%d %H:%M" = .ok none := by
    apply regexParseTime_none
    rw [show (String.mk I).data = I from rfl, reMatch_chEq okS12 hFor]
    decide
  have hskA13 : regexParseTime (String.mk I) "%Y-%b-%d %H:%M:%S" = .ok none := by
    apply regexParseTime_none
    rw [show (String.mk I).data = I from rfl, reMatch_chEq okS13 hFor]
    decide
  have hskA14 : regexParseTime (String.mk I) "%Y-%b-%d %H:%M" = .ok none := by
    apply regexParseTime_none
    rw [show (String.mk I).data = I from rfl, reMatch_chEq okS14 hFor]
    decide
  have hre : reMatch (compileSunpy "%Y-%b-%d".data) I =
      some (11, [("year", (0, 4)), ("month_str", (5, 8)), ("day", (9, 11))]) := by
    rw [reMatch_chEq okS15 hFor]
    decide
  have hrp : regexParseTime (String.mk I) "%Y-%b-%d" =
      .ok (some (String.mk I, ⟨0, 0, 0⟩)) :=
    regexParseTime_noHour hre rfl
  have hmrun : mrun (compileStrp "%Y-%b-%d".data) I 0 [] =
      some (11, [("Y", (0, 4)), ("b", (5, 8)), ("d", (9, 11))]) := by
    rw [show compileStrp "%Y-%b-%d".data =
      [.grp "Y" [[.digit, .digit, .digit, .digit]],
       .tst (.oneCI '-'),
       .grp "b" (monthAbbrs.map fun nm => nm.data.map CT.oneCI),
       .tst (.oneCI '-'),
       .grp "d" [[.one '3', .rng '0' '1'], [.rng '1' '2', .digit], [.one '0', .rng '1' '9'], [.rng '1' '9'], [.one ' ', .rng '1' '9']]]
      from rfl, hIeq]
    apply stepY
    apply stepTst (by decide)
    apply stepb (by decide) (by decide)
    apply stepTst (by decide)
    apply stepd (by omega) (by omega)
    decide
  have hstrp : strptime (String.mk I) "%Y-%b-%d" =
      .ok ⟨y, 5, d, 0, 0, 0, 0⟩ := by
    rw [strptime, show (String.mk I).data = I from rfl]
    rw [hmrun]
    simp only [hlen, if_true]
    simp only [show groupSlice I [("Y", (0, 4)), ("b", (5, 8)), ("d", (9, 11))] "Y" =
        some (sliceL I 0 4) from rfl,
      show groupSlice I [("Y", (0, 4)), ("b", (5, 8)), ("d", (9, 11))] "m" =
        none from rfl,
      show groupSlice I [("Y", (0, 4)), ("b", (5, 8)), ("d", (9, 11))] "d" =
        some (sliceL I 9 11) from rfl,
      show groupSlice I [("Y", (0, 4)), ("b", (5, 8)), ("d", (9, 11))] "H" =
        none from rfl,
      show groupSlice I [("Y", (0, 4)), ("b", (5, 8)), ("d", (9, 11))] "M" =
        none from rfl,
      show groupSlice I [("Y", (0, 4)), ("b", (5, 8)), ("d", (9, 11))] "S" =
        none from rfl,
      show groupSlice I [("Y", (0, 4)), ("b", (5, 8)), ("d", (9, 11))] "f" =
        none from rfl,
      show groupSlice I [("Y", (0, 4)), ("b", (5, 8)), ("d", (9, 11))] "b" =
        some (sliceL I 5 8) from rfl,
      hsY,
      hsd,
      hsb,
      Option.map_some', Option.getD_some, Option.map_none', Option.getD_none]
    rw [digitsToNat_digits4 (by omega), show monthOfAbbr (monthCap 5) = 5 from by decide, digitsToNat_digits2 (by omega)]
    simp only [datetimeNew, hv, if_true]
  simp only [parseTime, TIME_FORMAT_LIST]
  rw [parseLoop_skip_none hskA0,
    parseLoop_skip_none hskA1,
    parseLoop_skip_none hskA2,
    parseLoop_skip_none hskA3,
    parseLoop_skip_none hskA4,
    parseLoop_skip_none hskA5,
    parseLoop_skip_none hskA6,
    parseLoop_skip_none hskA7,
    parseLoop_skip_none hskA8,
    parseLoop_skip_none hskA9,
    parseLoop_skip_none hskA10,
    parseLoop_skip_none hskA11,
    parseLoop_skip_none hskA12,
    parseLoop_skip_none hskA13,
    parseLoop_skip_none hskA14,
    parseLoop_success hrp hstrp]
  exact dtAddTd_zero hv

theorem roundtrip15x6 (now : DT) (y d : Nat)
    (hv : validDT ⟨y, 6, d, 0, 0, 0, 0⟩ = true) :
    parseTime now (.str (String.mk
      (formatPattern "%Y-%b-%d".data ⟨y, 6, d, 0, 0, 0, 0⟩))) =
      .ok ⟨y, 6, d, 0, 0, 0, 0⟩ := by
  have hv2 := hv
  simp only [validDT, Bool.and_eq_true, decide_eq_true_eq] at hv2
  have hd31 : d ≤ 31 := by
    have := daysInMonth_le31 y 6
    omega
  set I := formatPattern "%Y-%b-%d".data
    (⟨y, 6, d, 0, 0, 0, 0⟩ : DT) with hI
  have hFor : List.Forall₂ chEq I
      (formatPattern "%Y-%b-%d".data ⟨1111, 6, 11, 11, 11, 11, 111111⟩) := by
    rw [hI]
    exact formatAux_chEq false _ (Or.inr rfl)
  have hIeq : I = digits4 y ++ '-' :: (monthCap 6 ++ '-' :: (digits2 d ++ [])) := by
    rw [hI]; rfl
  have hlen : I.length = 11 := by rw [hIeq]; rfl
  have hsY : sliceL I 0 4 = digits4 y := by rw [hIeq]; rfl
  have hsd : sliceL I 9 11 = digits2 d := by rw [hIeq]; rfl
  have hsb : sliceL I 5 8 = monthCap 6 := by rw [hIeq]; rfl
  have hskA0 : regexParseTime (String.mk I) "%Y-%m-%dT%H:%M:%S.%f" = .ok none := by
    apply regexParseTime_none
    rw [show (String.mk I).data = I from rfl, reMatch_chEq okS0 hFor]
    decide
  have hskA1 : regexParseTime (String.mk I) "%Y/%m/%dT%H:%M:%S.%f" = .ok none := by
    apply regexParseTime_none
    rw [show (String.mk I).data = I from rfl, reMatch_chEq okS1 hFor]
    decide
  have hskA2 : regexParseTime (String.mk I) "%Y-%m-%dT%H:%M:%S.%fZ" = .ok none := by
    apply regexParseTime_none
    rw [show (String.mk I).data = I from rfl, reMatch_chEq okS2 hFor]
    decide
  have hskA3 : regexParseTime (String.mk I) "%Y-%m-%dT%H:%M:%S" = .ok none := by
    apply regexParseTime_none
    rw [show (String.mk I).data = I from rfl, reMatch_chEq okS3 hFor]
    decide
  have hskA4 : regexParseTime (String.mk I) "%Y/%m/%dT%H:%M:%S" = .ok none := by
    apply regexParseTime_none
    rw [show (String.mk I).data = I from rfl, reMatch_chEq okS4 hFor]
    decide
  have hskA5 : regexParseTime (String.mk I) "%Y%m%dT%H%M%S.%f" = .ok none := by
    apply regexParseTime_none
    rw [show (String.mk I).data = I from rfl, reMatch_chEq okS5 hFor]
    decide
  have hskA6 : regexParseTime (String.mk I) "%Y%m%dT%H%M%S" = .ok none := by
    apply regexParseTime_none
    rw [show (String.mk I).data = I from rfl, reMatch_chEq okS6 hFor]
    decide
  have hskA7 : regexParseTime (String.mk I) "%Y/%m/%d %H:%M:%S" = .ok none := by
    apply regexParseTime_none
    rw [show (String.mk I).data = I from rfl, reMatch_chEq okS7 hFor]
    decide
  have hskA8 : regexParseTime (String.mk I) "%Y/%m/%d %H:%M" = .ok none := by
    apply regexParseTime_none
    rw [show (String.mk I).data = I from rfl, reMatch_chEq okS8 hFor]
    decide
  have hskA9 : regexParseTime (String.mk I) "%Y/%m/%d %H:%M:%S.%f" = .ok none := by
    apply regexParseTime_none
    rw [show (String.mk I).data = I from rfl, reMatch_chEq okS9 hFor]
    decide
  have hskA10 : regexParseTime (String.mk I) "%Y-%m-%d %H:%M:%S.%f" = .ok none := by
    apply regexParseTime_none
    rw [show (String.mk I).data = I from rfl, reMatch_chEq okS10 hFor]
    decide
  have hskA11 : regexParseTime (String.mk I) "%Y-%m-%d %H:%M:%S" = .ok none := by
    apply regexParseTime_none
    rw [show (String.mk I).data = I from rfl, reMatch_chEq okS11 hFor]
    decide
  have hskA12 : regexParseTime (String.mk I) "%Y-%m-%d %H:%M" = .ok none := by
    apply regexParseTime_none
    rw [show (String.mk I).data = I from rfl, reMatch_chEq okS12 hFor]
    decide
  have hskA13 : regexParseTime (String.mk I) "%Y-%b-%d %H:%M:%S" = .ok none := by
    apply regexParseTime_none
    rw [show (String.mk I).data = I from rfl, reMatch_chEq okS13 hFor]
    decide
  have hskA14 : regexParseTime (String.mk I) "%Y-%b-%d %H:%M" = .ok none := by
    apply regexParseTime_none
    rw [show (String.mk I).data = I from rfl, reMatch_chEq okS14 hFor]
    decide
  have hre : reMatch (compileSunpy "%Y-%b-%d".data) I =
      some (11, [("year", (0, 4)), ("month_str", (5, 8)), ("day", (9, 11))]) := by
    rw [reMatch_chEq okS15 hFor]
    decide
  have hrp : regexParseTime (String.mk I) "%Y-%b-%d" =
      .ok (some (String.mk I, ⟨0, 0, 0⟩)) :=
    regexParseTime_noHour hre rfl
  have hmrun : mrun (compileStrp "%Y-%b-%d".data) I 0 [] =
      some (11, [("Y", (0, 4)), ("b", (5, 8)), ("d", (9, 11))]) := by
    rw [show compileStrp "%Y-%b-%d".data =
      [.grp "Y" [[.digit, .digit, .digit, .digit]],
       .tst (.oneCI '-'),
       .grp "b" (monthAbbrs.map fun nm => nm.data.map CT.oneCI),
       .tst (.oneCI '-'),
       .grp "d" [[.one '3', .rng '0' '1'], [.rng '1' '2', .digit], [.one '0', .rng '1' '9'], [.rng '1' '9'], [.one ' ', .rng '1' '9']]]
      from rfl, hIeq]
    apply stepY
    apply stepTst (by decide)
    apply stepb (by decide) (by decide)
    apply stepTst (by decide)
    apply stepd (by omega) (by omega)
    decide
  have hstrp : strptime (String.mk I) "%Y-%b-%d" =
      .ok ⟨y, 6, d, 0, 0, 0, 0⟩ := by
    rw [strptime, show (String.mk I).data = I from rfl]
    rw [hmrun]
    simp only [hlen, if_true]
    simp only [show groupSlice I [("Y", (0, 4)), ("b", (5, 8)), ("d", (9, 11))] "Y" =
        some (sliceL I 0 4) from rfl,
      show groupSlice I [("Y", (0, 4)), ("b", (5, 8)), ("d", (9, 11))] "m" =
        none from rfl,
      show groupSlice I [("Y", (0, 4)), ("b", (5, 8)), ("d", (9, 11))] "d" =
        some (sliceL I 9 11) from rfl,
      show groupSlice I [("Y", (0, 4)), ("b", (5, 8)), ("d", (9, 11))] "H" =
        none from rfl,
      show groupSlice I [("Y", (0, 4)), ("b", (5, 8)), ("d", (9, 11))] "M" =
        none from rfl,
      show groupSlice I [("Y", (0, 4)), ("b", (5, 8)), ("d", (9, 11))] "S" =
        none from rfl,
      show groupSlice I [("Y", (0, 4)), ("b", (5, 8)), ("d", (9, 11))] "f" =
        none from rfl,
      show groupSlice I [("Y", (0, 4)), ("b", (5, 8)), ("d", (9, 11))] "b" =
        some (sliceL I 5 8) from rfl,
      hsY,
      hsd,
      hsb,
      Option.map_some', Option.getD_some, Option.map_none', Option.getD_none]
    rw [digitsToNat_digits4 (by omega), show monthOfAbbr (monthCap 6) = 6 from by decide, digitsToNat_digits2 (by omega)]
    simp only [datetimeNew, hv, if_true]
  simp only [parseTime, TIME_FORMAT_LIST]
  rw [parseLoop_skip_none hskA0,
    parseLoop_skip_none hskA1,
    parseLoop_skip_none hskA2,
    parseLoop_skip_none hskA3,
    parseLoop_skip_none hskA4,
    parseLoop_skip_none hskA5,
    parseLoop_skip_none hskA6,
    parseLoop_skip_none hskA7,
    parseLoop_skip_none hskA8,
    parseLoop_skip_none hskA9,
    parseLoop_skip_none hskA10,
    parseLoop_skip_none hskA11,
    parseLoop_skip_none hskA12,
    parseLoop_skip_none hskA13,
    parseLoop_skip_none hskA14,
    parseLoop_success hrp hstrp]
  exact dtAddTd_zero hv

theorem roundtrip15x7 (now : DT) (y d : Nat)
    (hv : validDT ⟨y, 7, d, 0, 0, 0, 0⟩ = true) :
    parseTime now (.str (String.mk
      (formatPattern "%Y-%b-%d".data ⟨y, 7, d, 0, 0, 0, 0⟩))) =
      .ok ⟨y, 7, d, 0, 0, 0, 0⟩ := by
  have hv2 := hv
  simp only [validDT, Bool.and_eq_true, decide_eq_true_eq] at hv2
  have hd31 : d ≤ 31 := by
    have := daysInMonth_le31 y 7
    omega
  set I := formatPattern "%Y-%b-%d".data
    (⟨y, 7, d, 0, 0, 0, 0⟩ : DT) with hI
  have hFor : List.Forall₂ chEq I
      (formatPattern "%Y-%b-%d".data ⟨1111, 7, 11, 11, 11, 11, 111111⟩) := by
    rw [hI]
    exact formatAux_chEq false _ (Or.inr rfl)
  have hIeq : I = digits4 y ++ '-' :: (monthCap 7 ++ '-' :: (digits2 d ++ [])) := by
    rw [hI]; rfl
  have hlen : I.length = 11 := by rw [hIeq]; rfl
  have hsY : sliceL I 0 4 = digits4 y := by rw [hIeq]; rfl
  have hsd : sliceL I 9 11 = digits2 d := by rw [hIeq]; rfl
  have hsb : sliceL I 5 8 = monthCap 7 := by rw [hIeq]; rfl
  have hskA0 : regexParseTime (String.mk I) "%Y-%m-%dT%H:%M:%S.%f" = .ok none := by
    apply regexParseTime_none
    rw [show (String.mk I).data = I from rfl, reMatch_chEq okS0 hFor]
    decide
  have hskA1 : regexParseTime (String.mk I) "%Y/%m/%dT%H:%M:%S.%f" = .ok none := by
    apply regexParseTime_none
    rw [show (String.mk I).data = I from rfl, reMatch_chEq okS1 hFor]
    decide
  have hskA2 : regexParseTime (String.mk I) "%Y-%m-%dT%H:%M:%S.%fZ" = .ok none := by
    apply regexParseTime_none
    rw [show (String.mk I).data = I from rfl, reMatch_chEq okS2 hFor]
    decide
  have hskA3 : regexParseTime (String.mk I) "%Y-%m-%dT%H:%M:%S" = .ok none := by
    apply regexParseTime_none
    rw [show (String.mk I).data = I from rfl, reMatch_chEq okS3 hFor]
    decide
  have hskA4 : regexParseTime (String.mk I) "%Y/%m/%dT%H:%M:%S" = .ok none := by
    apply regexParseTime_none
    rw [show (String.mk I).data = I from rfl, reMatch_chEq okS4 hFor]
    decide
  have hskA5 : regexParseTime (String.mk I) "%Y%m%dT%H%M%S.%f" = .ok none := by
    apply regexParseTime_none
    rw [show (String.mk I).data = I from rfl, reMatch_chEq okS5 hFor]
    decide
  have hskA6 : regexParseTime (String.mk I) "%Y%m%dT%H%M%S" = .ok none := by
    apply regexParseTime_none
    rw [show (String.mk I).data = I from rfl, reMatch_chEq okS6 hFor]
    decide
  have hskA7 : regexParseTime (String.mk I) "%Y/%m/%d %H:%M:%S" = .ok none := by
    apply regexParseTime_none
    rw [show (String.mk I).data = I from rfl, reMatch_chEq okS7 hFor]
    decide
  have hskA8 : regexParseTime (String.mk I) "%Y/%m/%d %H:%M" = .ok none := by
    apply regexParseTime_none
    rw [show (String.mk I).data = I from rfl, reMatch_chEq okS8 hFor]
    decide
  have hskA9 : regexParseTime (String.mk I) "%Y/%m/%d %H:%M:%S.%f" = .ok none := by
    apply regexParseTime_none
    rw [show (String.mk I).data = I from rfl, reMatch_chEq okS9 hFor]
    decide
  have hskA10 : regexParseTime (String.mk I) "%Y-%m-%d %H:%M:%S.%f" = .ok none := by
    apply regexParseTime_none
    rw [show (String.mk I).data = I from rfl, reMatch_chEq okS10 hFor]
    decide
  have hskA11 : regexParseTime (String.mk I) "%Y-%m-%d %H:%M:%S" = .ok none := by
    apply regexParseTime_none
    rw [show (String.mk I).data = I from rfl, reMatch_chEq okS11 hFor]
    decide
  have hskA12 : regexParseTime (String.mk I) "%Y-%m-%d %H:%M" = .ok none := by
    apply regexParseTime_none
    rw [show (String.mk I).data = I from rfl, reMatch_chEq okS12 hFor]
    decide
  have hskA13 : regexParseTime (String.mk I) "%Y-%b-%d %H:%M:%S" = .ok none := by
    apply regexParseTime_none
    rw [show (String.mk I).data = I from rfl, reMatch_chEq okS13 hFor]
    decide
  have hskA14 : regexParseTime (String.mk I) "%Y-%b-%d %H:%M" = .ok none := by
    apply regexParseTime_none
    rw [show (String.mk I).data = I from rfl, reMatch_chEq okS14 hFor]
    decide
  have hre : reMatch (compileSunpy "%Y-%b-%d".data) I =
      some (11, [("year", (0, 4)), ("month_str", (5, 8)), ("day", (9, 11))]) := by
    rw [reMatch_chEq okS15 hFor]
    decide
  have hrp : regexParseTime (String.mk I) "%Y-%b-%d" =
      .ok (some (String.mk I, ⟨0, 0, 0⟩)) :=
    regexParseTime_noHour hre rfl
  have hmrun : mrun (compileStrp "%Y-%b-%d".data) I 0 [] =
      some (11, [("Y", (0, 4)), ("b", (5, 8)), ("d", (9, 11))]) := by
    rw [show compileStrp "%Y-%b-%d".data =
      [.grp "Y" [[.digit, .digit, .digit, .digit]],
       .tst (.oneCI '-'),
       .grp "b" (monthAbbrs.map fun nm => nm.data.map CT.oneCI),
       .tst (.oneCI '-'),
       .grp "d" [[.one '3', .rng '0' '1'], [.rng '1' '2', .digit], [.one '0', .rng '1' '9'], [.rng '1' '9'], [.one ' ', .rng '1' '9']]]
      from rfl, hIeq]
    apply stepY
    apply stepTst (by decide)
    apply stepb (by decide) (by decide)
    apply stepTst (by decide)
    apply stepd (by omega) (by omega)
    decide
  have hstrp : strptime (String.mk I) "%Y-%b-%d" =
      .ok ⟨y, 7, d, 0, 0, 0, 0⟩ := by
    rw [strptime, show (String.mk I).data = I from rfl]
    rw [hmrun]
    simp only [hlen, if_true]
    simp only [show groupSlice I [("Y", (0, 4)), ("b", (5, 8)), ("d", (9, 11))] "Y" =
        some (sliceL I 0 4) from rfl,
      show groupSlice I [("Y", (0, 4)), ("b", (5, 8)), ("d", (9, 11))] "m" =
        none from rfl,
      show groupSlice I [("Y", (0, 4)), ("b", (5, 8)), ("d", (9, 11))] "d" =
        some (sliceL I 9 11) from rfl,
      show groupSlice I [("Y", (0, 4)), ("b", (5, 8)), ("d", (9, 11))] "H" =
        none from rfl,
      show groupSlice I [("Y", (0, 4)), ("b", (5, 8)), ("d", (9, 11))] "M" =
        none from rfl,
      show groupSlice I [("Y", (0, 4)), ("b", (5, 8)), ("d", (9, 11))] "S" =
        none from rfl,
      show groupSlice I [("Y", (0, 4)), ("b", (5, 8)), ("d", (9, 11))] "f" =
        none from rfl,
      show groupSlice I [("Y", (0, 4)), ("b", (5, 8)), ("d", (9, 11))] "b" =
        some (sliceL I 5 8) from rfl,
      hsY,
      hsd,
      hsb,
      Option.map_some', Option.getD_some, Option.map_none', Option.getD_none]
    rw [digitsToNat_digits4 (by omega), show monthOfAbbr (monthCap 7) = 7 from by decide, digitsToNat_digits2 (by omega)]
    simp only [datetimeNew, hv, if_true]
  simp only [parseTime, TIME_FORMAT_LIST]
  rw [parseLoop_skip_none hskA0,
    parseLoop_skip_none hskA1,
    parseLoop_skip_none hskA2,
    parseLoop_skip_none hskA3,
    parseLoop_skip_none hskA4,
    parseLoop_skip_none hskA5,
    parseLoop_skip_none hskA6,
    parseLoop_skip_none hskA7,
    parseLoop_skip_none hskA8,
    parseLoop_skip_none hskA9,
    parseLoop_skip_none hskA10,
    parseLoop_skip_none hskA11,
    parseLoop_skip_none hskA12,
    parseLoop_skip_none hskA13,
    parseLoop_skip_none hskA14,
    parseLoop_success hrp hstrp]
  exact dtAddTd_zero hv

theorem roundtrip15x8 (now : DT) (y d : Nat)
    (hv : validDT ⟨y, 8, d, 0, 0, 0, 0⟩ = true) :
    parseTime now (.str (String.mk
      (formatPattern "%Y-%b-%d".data ⟨y, 8, d, 0, 0, 0, 0⟩))) =
      .ok ⟨y, 8, d, 0, 0, 0, 0⟩ := by
  have hv2 := hv
  simp only [validDT, Bool.and_eq_true, decide_eq_true_eq] at hv2
  have hd31 : d ≤ 31 := by
    have := daysInMonth_le31 y 8
    omega
  set I := formatPattern "%Y-%b-%d".data
    (⟨y, 8, d, 0, 0, 0, 0⟩ : DT) with hI
  have hFor : List.Forall₂ chEq I
      (formatPattern "%Y-%b-%d".data ⟨1111, 8, 11, 11, 11, 11, 111111⟩) := by
    rw [hI]
    exact formatAux_chEq false _ (Or.inr rfl)
  have hIeq : I = digits4 y ++ '-' :: (monthCap 8 ++ '-' :: (digits2 d ++ [])) := by
    rw [hI]; rfl
  have hlen : I.length = 11 := by rw [hIeq]; rfl
  have hsY : sliceL I 0 4 = digits4 y := by rw [hIeq]; rfl
  have hsd : sliceL I 9 11 = digits2 d := by rw [hIeq]; rfl
  have hsb : sliceL I 5 8 = monthCap 8 := by rw [hIeq]; rfl
  have hskA0 : regexParseTime (String.mk I) "%Y-%m-%dT%H:%M:%S.%f" = .ok none := by
    apply regexParseTime_none
    rw [show (String.mk I).data = I from rfl, reMatch_chEq okS0 hFor]
    decide
  have hskA1 : regexParseTime (String.mk I) "%Y/%m/%dT%H:%M:%S.%f" = .ok none := by
    apply regexParseTime_none
    rw [show (String.mk I).data = I from rfl, reMatch_chEq okS1 hFor]
    decide
  have hskA2 : regexParseTime (String.mk I) "%Y-%m-%dT%H:%M:%S.%fZ" = .ok none := by
    apply regexParseTime_none
    rw [show (String.mk I).data = I from rfl, reMatch_chEq okS2 hFor]
    decide
  have hskA3 : regexParseTime (String.mk I) "%Y-%m-%dT%H:%M:%S" = .ok none := by
    apply regexParseTime_none
    rw [show (String.mk I).data = I from rfl, reMatch_chEq okS3 hFor]
    decide
  have hskA4 : regexParseTime (String.mk I) "%Y/%m/%dT%H:%M:%S" = .ok none := by
    apply regexParseTime_none
    rw [show (String.mk I).data = I from rfl, reMatch_chEq okS4 hFor]
    decide
  have hskA5 : regexParseTime (String.mk I) "%Y%m%dT%H%M%S.%f" = .ok none := by
    apply regexParseTime_none
    rw [show (String.mk I).data = I from rfl, reMatch_chEq okS5 hFor]
    decide
  have hskA6 : regexParseTime (String.mk I) "%Y%m%dT%H%M%S" = .ok none := by
    apply regexParseTime_none
    rw [show (String.mk I).data = I from rfl, reMatch_chEq okS6 hFor]
    decide
  have hskA7 : regexParseTime (String.mk I) "%Y/%m/%d %H:%M:%S" = .ok none := by
    apply regexParseTime_none
    rw [show (String.mk I).data = I from rfl, reMatch_chEq okS7 hFor]
    decide
  have hskA8 : regexParseTime (String.mk I) "%Y/%m/%d %H:%M" = .ok none := by
    apply regexParseTime_none
    rw [show (String.mk I).data = I from rfl, reMatch_chEq okS8 hFor]
    decide
  have hskA9 : regexParseTime (String.mk I) "%Y/%m/%d %H:%M:%S.%f" = .ok none := by
    apply regexParseTime_none
    rw [show (String.mk I).data = I from rfl, reMatch_chEq okS9 hFor]
    decide
  have hskA10 : regexParseTime (String.mk I) "%Y-%m-%d %H:%M:%S.%f" = .ok none := by
    apply regexParseTime_none
    rw [show (String.mk I).data = I from rfl, reMatch_chEq okS10 hFor]
    decide
  have hskA11 : regexParseTime (String.mk I) "%Y-%m-%d %H:%M:%S" = .ok none := by
    apply regexParseTime_none
    rw [show (String.mk I).data = I from rfl, reMatch_chEq okS11 hFor]
    decide
  have hskA12 : regexParseTime (String.mk I) "%Y-%m-%d %H:%M" = .ok none := by
    apply regexParseTime_none
    rw [show (String.mk I).data = I from rfl, reMatch_chEq okS12 hFor]
    decide
  have hskA13 : regexParseTime (String.mk I) "%Y-%b-%d %H:%M:%S" = .ok none := by
    apply regexParseTime_none
    rw [show (String.mk I).data = I from rfl, reMatch_chEq okS13 hFor]
    decide
  have hskA14 : regexParseTime (String.mk I) "%Y-%b-%d %H:%M" = .ok none := by
    apply regexParseTime_none
    rw [show (String.mk I).data = I from rfl, reMatch_chEq okS14 hFor]
    decide
  have hre : reMatch (compileSunpy "%Y-%b-%d".data) I =
      some (11, [("year", (0, 4)), ("month_str", (5, 8)), ("day", (9, 11))]) := by
    rw [reMatch_chEq okS15 hFor]
    decide
  have hrp : regexParseTime (String.mk I) "%Y-%b-%d" =
      .ok (some (String.mk I, ⟨0, 0, 0⟩)) :=
    regexParseTime_noHour hre rfl
  have hmrun : mrun (compileStrp "%Y-%b-%d".data) I 0 [] =
      some (11, [("Y", (0, 4)), ("b", (5, 8)), ("d", (9, 11))]) := by
    rw [show compileStrp "%Y-%b-%d".data =
      [.grp "Y" [[.digit, .digit, .digit, .digit]],
       .tst (.oneCI '-'),
       .grp "b" (monthAbbrs.map fun nm => nm.data.map CT.oneCI),
       .tst (.oneCI '-'),
       .grp "d" [[.one '3', .rng '0' '1'], [.rng '1' '2', .digit], [.one '0', .rng '1' '9'], [.rng '1' '9'], [.one ' ', .rng '1' '9']]]
      from rfl, hIeq]
    apply stepY
    apply stepTst (by decide)
    apply stepb (by decide) (by decide)
    apply stepTst (by decide)
    apply stepd (by omega) (by omega)
    decide
  have hstrp : strptime (String.mk I) "%Y-%b-%d" =
      .ok ⟨y, 8, d, 0, 0, 0, 0⟩ := by
    rw [strptime, show (String.mk I).data = I from rfl]
    rw [hmrun]
    simp only [hlen, if_true]
    simp only [show groupSlice I [("Y", (0, 4)), ("b", (5, 8)), ("d", (9, 11))] "Y" =
        some (sliceL I 0 4) from rfl,
      show groupSlice I [("Y", (0, 4)), ("b", (5, 8)), ("d", (9, 11))] "m" =
        none from rfl,
      show groupSlice I [("Y", (0, 4)), ("b", (5, 8)), ("d", (9, 11))] "d" =
        some (sliceL I 9 11) from rfl,
      show groupSlice I [("Y", (0, 4)), ("b", (5, 8)), ("d", (9, 11))] "H" =
        none from rfl,
      show groupSlice I [("Y", (0, 4)), ("b", (5, 8)), ("d", (9, 11))] "M" =
        none from rfl,
      show groupSlice I [("Y", (0, 4)), ("b", (5, 8)), ("d", (9, 11))] "S" =
        none from rfl,
      show groupSlice I [("Y", (0, 4)), ("b", (5, 8)), ("d", (9, 11))] "f" =
        none from rfl,
      show groupSlice I [("Y", (0, 4)), ("b", (5, 8)), ("d", (9, 11))] "b" =
        some (sliceL I 5 8) from rfl,
      hsY,
      hsd,
      hsb,
      Option.map_some', Option.getD_some, Option.map_none', Option.getD_none]
    rw [digitsToNat_digits4 (by omega), show monthOfAbbr (monthCap 8) = 8 from by decide, digitsToNat_digits2 (by omega)]
    simp only [datetimeNew, hv, if_true]
  simp only [parseTime, TIME_FORMAT_LIST]
  rw [parseLoop_skip_none hskA0,
    parseLoop_skip_none hskA1,
    parseLoop_skip_none hskA2,
    parseLoop_skip_none hskA3,
    parseLoop_skip_none hskA4,
    parseLoop_skip_none hskA5,
    parseLoop_skip_none hskA6,
    parseLoop_skip_none hskA7,
    parseLoop_skip_none hskA8,
    parseLoop_skip_none hskA9,
    parseLoop_skip_none hskA10,
    parseLoop_skip_none hskA11,
    parseLoop_skip_none hskA12,
    parseLoop_skip_none hskA13,
    parseLoop_skip_none hskA14,
    parseLoop_success hrp hstrp]
  exact dtAddTd_zero hv

theorem roundtrip15x9 (now : DT) (y d : Nat)
    (hv : validDT ⟨y, 9, d, 0, 0, 0, 0⟩ = true) :
    parseTime now (.str (String.mk
      (formatPattern "%Y-%b-%d".data ⟨y, 9, d, 0, 0, 0, 0⟩))) =
      .ok ⟨y, 9, d, 0, 0, 0, 0⟩ := by
  have hv2 := hv
  simp only [validDT, Bool.and_eq_true, decide_eq_true_eq] at hv2
  have hd31 : d ≤ 31 := by
    have := daysInMonth_le31 y 9
    omega
  set I := formatPattern "%Y-%b-%d".data
    (⟨y, 9, d, 0, 0, 0, 0⟩ : DT) with hI
  have hFor : List.Forall₂ chEq I
      (formatPattern "%Y-%b-%d".data ⟨1111, 9, 11, 11, 11, 11, 111111⟩) := by
    rw [hI]
    exact formatAux_chEq false _ (Or.inr rfl)
  have hIeq : I = digits4 y ++ '-' :: (monthCap 9 ++ '-' :: (digits2 d ++ [])) := by
    rw [hI]; rfl
  have hlen : I.length = 11 := by rw [hIeq]; rfl
  have hsY : sliceL I 0 4 = digits4 y := by rw [hIeq]; rfl
  have hsd : sliceL I 9 11 = digits2 d := by rw [hIeq]; rfl
  have hsb : sliceL I 5 8 = monthCap 9 := by rw [hIeq]; rfl
  have hskA0 : regexParseTime (String.mk I) "%Y-%m-%dT%H:%M:%S.%f" = .ok none := by
    apply regexParseTime_none
    rw [show (String.mk I).data = I from rfl, reMatch_chEq okS0 hFor]
    decide
  have hskA1 : regexParseTime (String.mk I) "%Y/%m/%dT%H:%M:%S.%f" = .ok none := by
    apply regexParseTime_none
    rw [show (String.mk I).data = I from rfl, reMatch_chEq okS1 hFor]
    decide
  have hskA2 : regexParseTime (String.mk I) "%Y-%m-%dT%H:%M:%S.%fZ" = .ok none := by
    apply regexParseTime_none
    rw [show (String.mk I).data = I from rfl, reMatch_chEq okS2 hFor]
    decide
  have hskA3 : regexParseTime (String.mk I) "%Y-%m-%dT%H:%M:%S" = .ok none := by
    apply regexParseTime_none
    rw [show (String.mk I).data = I from rfl, reMatch_chEq okS3 hFor]
    decide
  have hskA4 : regexParseTime (String.mk I) "%Y/%m/%dT%H:%M:%S" = .ok none := by
    apply regexParseTime_none
    rw [show (String.mk I).data = I from rfl, reMatch_chEq okS4 hFor]
    decide
  have hskA5 : regexParseTime (String.mk I) "%Y%m%dT%H%M%S.%f" = .ok none := by
    apply regexParseTime_none
    rw [show (String.mk I).data = I from rfl, reMatch_chEq okS5 hFor]
    decide
  have hskA6 : regexParseTime (String.mk I) "%Y%m%dT%H%M%S" = .ok none := by
    apply regexParseTime_none
    rw [show (String.mk I).data = I from rfl, reMatch_chEq okS6 hFor]
    decide
  have hskA7 : regexParseTime (String.mk I) "%Y/%m/%d %H:%M:%S" = .ok none := by
    apply regexParseTime_none
    rw [show (String.mk I).data = I from rfl, reMatch_chEq okS7 hFor]
    decide
  have hskA8 : regexParseTime (String.mk I) "%Y/%m/%d %H:%M" = .ok none := by
    apply regexParseTime_none
    rw [show (String.mk I).data = I from rfl, reMatch_chEq okS8 hFor]
    decide
  have hskA9 : regexParseTime (String.mk I) "%Y/%m/%d %H:%M:%S.%f" = .ok none := by
    apply regexParseTime_none
    rw [show (String.mk I).data = I from rfl, reMatch_chEq okS9 hFor]
    decide
  have hskA10 : regexParseTime (String.mk I) "%Y-%m-%d %H:%M:%S.%f" = .ok none := by
    apply regexParseTime_none
    rw [show (String.mk I).data = I from rfl, reMatch_chEq okS10 hFor]
    decide
  have hskA11 : regexParseTime (String.mk I) "%Y-%m-%d %H:%M:%S" = .ok none := by
    apply regexParseTime_none
    rw [show (String.mk I).data = I from rfl, reMatch_chEq okS11 hFor]
    decide
  have hskA12 : regexParseTime (String.mk I) "%Y-%m-%d %H:%M" = .ok none := by
    apply regexParseTime_none
    rw [show (String.mk I).data = I from rfl, reMatch_chEq okS12 hFor]
    decide
  have hskA13 : regexParseTime (String.mk I) "%Y-%b-%d %H:%M:%S" = .ok none := by
    apply regexParseTime_none
    rw [show (String.mk I).data = I from rfl, reMatch_chEq okS13 hFor]
    decide
  have hskA14 : regexParseTime (String.mk I) "%Y-%b-%d %H:%M" = .ok none := by
    apply regexParseTime_none
    rw [show (String.mk I).data = I from rfl, reMatch_chEq okS14 hFor]
    decide
  have hre : reMatch (compileSunpy "%Y-%b-%d".data) I =
      some (11, [("year", (0, 4)), ("month_str", (5, 8)), ("day", (9, 11))]) := by
    rw [reMatch_chEq okS15 hFor]
    decide
  have hrp : regexParseTime (String.mk I) "%Y-%b-%d" =
      .ok (some (String.mk I, ⟨0, 0, 0⟩)) :=
    regexParseTime_noHour hre rfl
  have hmrun : mrun (compileStrp "%Y-%b-%d".data) I 0 [] =
      some (11, [("Y", (0, 4)), ("b", (5, 8)), ("d", (9, 11))]) := by
    rw [show compileStrp "%Y-%b-%d".data =
      [.grp "Y" [[.digit, .digit, .digit, .digit]],
       .tst (.oneCI '-'),
       .grp "b" (monthAbbrs.map fun nm => nm.data.map CT.oneCI),
       .tst (.oneCI '-'),
       .grp "d" [[.one '3', .rng '0' '1'], [.rng '1' '2', .digit], [.one '0', .rng '1' '9'], [.rng '1' '9'], [.one ' ', .rng '1' '9']]]
      from rfl, hIeq]
    apply stepY
    apply stepTst (by decide)
    apply stepb (by decide) (by decide)
    apply stepTst (by decide)
    apply stepd (by omega) (by omega)
    decide
  have hstrp : strptime (String.mk I) "%Y-%b-%d" =
      .ok ⟨y, 9, d, 0, 0, 0, 0⟩ := by
    rw [strptime, show (String.mk I).data = I from rfl]
    rw [hmrun]
    simp only [hlen, if_true]
    simp only [show groupSlice I [("Y", (0, 4)), ("b", (5, 8)), ("d", (9, 11))] "Y" =
        some (sliceL I 0 4) from rfl,
      show groupSlice I [("Y", (0, 4)), ("b", (5, 8)), ("d", (9, 11))] "m" =
        none from rfl,
      show groupSlice I [("Y", (0, 4)), ("b", (5, 8)), ("d", (9, 11))] "d" =
        some (sliceL I 9 11) from rfl,
      show groupSlice I [("Y", (0, 4)), ("b", (5, 8)), ("d", (9, 11))] "H" =
        none from rfl,
      show groupSlice I [("Y", (0, 4)), ("b", (5, 8)), ("d", (9, 11))] "M" =
        none from rfl,
      show groupSlice I [("Y", (0, 4)), ("b", (5, 8)), ("d", (9, 11))] "S" =
        none from rfl,
      show groupSlice I [("Y", (0, 4)), ("b", (5, 8)), ("d", (9, 11))] "f" =
        none from rfl,
      show groupSlice I [("Y", (0, 4)), ("b", (5, 8)), ("d", (9, 11))] "b" =
        some (sliceL I 5 8) from rfl,
      hsY,
      hsd,
      hsb,
      Option.map_some', Option.getD_some, Option.map_none', Option.getD_none]
    rw [digitsToNat_digits4 (by omega), show monthOfAbbr (monthCap 9) = 9 from by decide, digitsToNat_digits2 (by omega)]
    simp only [datetimeNew, hv, if_true]
  simp only [parseTime, TIME_FORMAT_LIST]
  rw [parseLoop_skip_none hskA0,
    parseLoop_skip_none hskA1,
    parseLoop_skip_none hskA2,
    parseLoop_skip_none hskA3,
    parseLoop_skip_none hskA4,
    parseLoop_skip_none hskA5,
    parseLoop_skip_none hskA6,
    parseLoop_skip_none hskA7,
    parseLoop_skip_none hskA8,
    parseLoop_skip_none hskA9,
    parseLoop_skip_none hskA10,
    parseLoop_skip_none hskA11,
    parseLoop_skip_none hskA12,
    parseLoop_skip_none hskA13,
    parseLoop_skip_none hskA14,
    parseLoop_success hrp hstrp]
  exact dtAddTd_zero hv

theorem roundtrip15x10 (now : DT) (y d : Nat)
    (hv : validDT ⟨y, 10, d, 0, 0, 0, 0⟩ = true) :
    parseTime now (.str (String.mk
      (formatPattern "%Y-%b-%d".data ⟨y, 10, d, 0, 0, 0, 0⟩))) =
      .ok ⟨y, 10, d, 0, 0, 0, 0⟩ := by
  have hv2 := hv
  simp only [validDT, Bool.and_eq_true, decide_eq_true_eq] at hv2
  have hd31 : d ≤ 31 := by
    have := daysInMonth_le31 y 10
    omega
  set I := formatPattern "%Y-%b-%d".data
    (⟨y, 10, d, 0, 0, 0, 0⟩ : DT) with hI
  have hFor : List.Forall₂ chEq I
      (formatPattern "%Y-%b-%d".data ⟨1111, 10, 11, 11, 11, 11, 111111⟩) := by
    rw [hI]
    exact formatAux_chEq false _ (Or.inr rfl)
  have hIeq : I = digits4 y ++ '-' :: (monthCap 10 ++ '-' :: (digits2 d ++ [])) := by
    rw [hI]; rfl
  have hlen : I.length = 11 := by rw [hIeq]; rfl
  have hsY : sliceL I 0 4 = digits4 y := by rw [hIeq]; rfl
  have hsd : sliceL I 9 11 = digits2 d := by rw [hIeq]; rfl
  have hsb : sliceL I 5 8 = monthCap 10 := by rw [hIeq]; rfl
  have hskA0 : regexParseTime (String.mk I) "%Y-%m-%dT%H:%M:%S.%f" = .ok none := by
    apply regexParseTime_none
    rw [show (String.mk I).data = I from rfl, reMatch_chEq okS0 hFor]
    decide
  have hskA1 : regexParseTime (String.mk I) "%Y/%m/%dT%H:%M:%S.%f" = .ok none := by
    apply regexParseTime_none
    rw [show (String.mk I).data = I from rfl, reMatch_chEq okS1 hFor]
    decide
  have hskA2 : regexParseTime (String.mk I) "%Y-%m-%dT%H:%M:%S.%fZ" = .ok none := by
    apply regexParseTime_none
    rw [show (String.mk I).data = I from rfl, reMatch_chEq okS2 hFor]
    decide
  have hskA3 : regexParseTime (String.mk I) "%Y-%m-%dT%H:%M:%S" = .ok none := by
    apply regexParseTime_none
    rw [show (String.mk I).data = I from rfl, reMatch_chEq okS3 hFor]
    decide
  have hskA4 : regexParseTime (String.mk I) "%Y/%m/%dT%H:%M:%S" = .ok none := by
    apply regexParseTime_none
    rw [show (String.mk I).data = I from rfl, reMatch_chEq okS4 hFor]
    decide
  have hskA5 : regexParseTime (String.mk I) "%Y%m%dT%H%M%S.%f" = .ok none := by
    apply regexParseTime_none
    rw [show (String.mk I).data = I from rfl, reMatch_chEq okS5 hFor]
    decide
  have hskA6 : regexParseTime (String.mk I) "%Y%m%dT%H%M%S" = .ok none := by
    apply regexParseTime_none
    rw [show (String.mk I).data = I from rfl, reMatch_chEq okS6 hFor]
    decide
  have hskA7 : regexParseTime (String.mk I) "%Y/%m/%d %H:%M:%S" = .ok none := by
    apply regexParseTime_none
    rw [show (String.mk I).data = I from rfl, reMatch_chEq okS7 hFor]
    decide
  have hskA8 : regexParseTime (String.mk I) "%Y/%m/%d %H:%M" = .ok none := by
    apply regexParseTime_none
    rw [show (String.mk I).data = I from rfl, reMatch_chEq okS8 hFor]
    decide
  have hskA9 : regexParseTime (String.mk I) "%Y/%m/%d %H:%M:%S.%f" = .ok none := by
    apply regexParseTime_none
    rw [show (String.mk I).data = I from rfl, reMatch_chEq okS9 hFor]
    decide
  have hskA10 : regexParseTime (String.mk I) "%Y-%m-%d %H:%M:%S.%f" = .ok none := by
    apply regexParseTime_none
    rw [show (String.mk I).data = I from rfl, reMatch_chEq okS10 hFor]
    decide
  have hskA11 : regexParseTime (String.mk I) "%Y-%m-%d %H:%M:%S" = .ok none := by
    apply regexParseTime_none
    rw [show (String.mk I).data = I from rfl, reMatch_chEq okS11 hFor]
    decide
  have hskA12 : regexParseTime (String.mk I) "%Y-%m-%d %H:%M" = .ok none := by
    apply regexParseTime_none
    rw [show (String.mk I).data = I from rfl, reMatch_chEq okS12 hFor]
    decide
  have hskA13 : regexParseTime (String.mk I) "%Y-%b-%d %H:%M:%S" = .ok none := by
    apply regexParseTime_none
    rw [show (String.mk I).data = I from rfl, reMatch_chEq okS13 hFor]
    decide
  have hskA14 : regexParseTime (String.mk I) "%Y-%b-%d %H:%M" = .ok none := by
    apply regexParseTime_none
    rw [show (String.mk I).data = I from rfl, reMatch_chEq okS14 hFor]
    decide
  have hre : reMatch (compileSunpy "%Y-%b-%d".data) I =
      some (11, [("year", (0, 4)), ("month_str", (5, 8)), ("day", (9, 11))]) := by
    rw [reMatch_chEq okS15 hFor]
    decide
  have hrp : regexParseTime (String.mk I) "%Y-%b-%d" =
      .ok (some (String.mk I, ⟨0, 0, 0⟩)) :=
    regexParseTime_noHour hre rfl
  have hmrun : mrun (compileStrp "%Y-%b-%d".data) I 0 [] =
      some (11, [("Y", (0, 4)), ("b", (5, 8)), ("d", (9, 11))]) := by
    rw [show compileStrp "%Y-%b-%d".data =
      [.grp "Y" [[.digit, .digit, .digit, .digit]],
       .tst (.oneCI '-'),
       .grp "b" (monthAbbrs.map fun nm => nm.data.map CT.oneCI),
       .tst (.oneCI '-'),
       .grp "d" [[.one '3', .rng '0' '1'], [.rng '1' '2', .digit], [.one '0', .rng '1' '9'], [.rng '1' '9'], [.one ' ', .rng '1' '9']]]
      from rfl, hIeq]
    apply stepY
    apply stepTst (by decide)
    apply stepb (by decide) (by decide)
    apply stepTst (by decide)
    apply stepd (by omega) (by omega)
    decide
  have hstrp : strptime (String.mk I) "%Y-%b-%d" =
      .ok ⟨y, 10, d, 0, 0, 0, 0⟩ := by
    rw [strptime, show (String.mk I).data = I from rfl]
    rw [hmrun]
    simp only [hlen, if_true]
    simp only [show groupSlice I [("Y", (0, 4)), ("b", (5, 8)), ("d", (9, 11))] "Y" =
        some (sliceL I 0 4) from rfl,
      show groupSlice I [("Y", (0, 4)), ("b", (5, 8)), ("d", (9, 11))] "m" =
        none from rfl,
      show groupSlice I [("Y", (0, 4)), ("b", (5, 8)), ("d", (9, 11))] "d" =
        some (sliceL I 9 11) from rfl,
      show groupSlice I [("Y", (0, 4)), ("b", (5, 8)), ("d", (9, 11))] "H" =
        none from rfl,
      show groupSlice I [("Y", (0, 4)), ("b", (5, 8)), ("d", (9, 11))] "M" =
        none from rfl,
      show groupSlice I [("Y", (0, 4)), ("b", (5, 8)), ("d", (9, 11))] "S" =
        none from rfl,
      show groupSlice I [("Y", (0, 4)), ("b", (5, 8)), ("d", (9, 11))] "f" =
        none from rfl,
      show groupSlice I [("Y", (0, 4)), ("b", (5, 8)), ("d", (9, 11))] "b" =
        some (sliceL I 5 8) from rfl,
      hsY,
      hsd,
      hsb,
      Option.map_some', Option.getD_some, Option.map_none', Option.getD_none]
    rw [digitsToNat_digits4 (by omega), show monthOfAbbr (monthCap 10) = 10 from by decide, digitsToNat_digits2 (by omega)]
    simp only [datetimeNew, hv, if_true]
  simp only [parseTime, TIME_FORMAT_LIST]
  rw [parseLoop_skip_none hskA0,
    parseLoop_skip_none hskA1,
    parseLoop_skip_none hskA2,
    parseLoop_skip_none hskA3,
    parseLoop_skip_none hskA4,
    parseLoop_skip_none hskA5,
    parseLoop_skip_none hskA6,
    parseLoop_skip_none hskA7,
    parseLoop_skip_none hskA8,
    parseLoop_skip_none hskA9,
    parseLoop_skip_none hskA10,
    parseLoop_skip_none hskA11,
    parseLoop_skip_none hskA12,
    parseLoop_skip_none hskA13,
    parseLoop_skip_none hskA14,
    parseLoop_success hrp hstrp]
  exact dtAddTd_zero hv

theorem roundtrip15x11 (now : DT) (y d : Nat)
    (hv : validDT ⟨y, 11, d, 0, 0, 0, 0⟩ = true) :
    parseTime now (.str (String.mk
      (formatPattern "%Y-%b-%d".data ⟨y, 11, d, 0, 0, 0, 0⟩))) =
      .ok ⟨y, 11, d, 0, 0, 0, 0⟩ := by
  have hv2 := hv
  simp only [validDT, Bool.and_eq_true, decide_eq_true_eq] at hv2
  have hd31 : d ≤ 31 := by
    have := daysInMonth_le31 y 11
    omega
  set I := formatPattern "%Y-%b-%d".data
    (⟨y, 11, d, 0, 0, 0, 0⟩ : DT) with hI
  have hFor : List.Forall₂ chEq I
      (formatPattern "%Y-%b-%d".data ⟨1111, 11, 11, 11, 11, 11, 111111⟩) := by
    rw [hI]
    exact formatAux_chEq false _ (Or.inr rfl)
  have hIeq : I = digits4 y ++ '-' :: (monthCap 11 ++ '-' :: (digits2 d ++ [])) := by
    rw [hI]; rfl
  have hlen : I.length = 11 := by rw [hIeq]; rfl
  have hsY : sliceL I 0 4 = digits4 y := by rw [hIeq]; rfl
  have hsd : sliceL I 9 11 = digits2 d := by rw [hIeq]; rfl
  have hsb : sliceL I 5 8 = monthCap 11 := by rw [hIeq]; rfl
  have hskA0 : regexParseTime (String.mk I) "%Y-%m-%dT%H:%M:%S.%f" = .ok none := by
    apply regexParseTime_none
    rw [show (String.mk I).data = I from rfl, reMatch_chEq okS0 hFor]
    decide
  have hskA1 : regexParseTime (String.mk I) "%Y/%m/%dT%H:%M:%S.%f" = .ok none := by
    apply regexParseTime_none
    rw [show (String.mk I).data = I from rfl, reMatch_chEq okS1 hFor]
    decide
  have hskA2 : regexParseTime (String.mk I) "%Y-%m-%dT%H:%M:%S.%fZ" = .ok none := by
    apply regexParseTime_none
    rw [show (String.mk I).data = I from rfl, reMatch_chEq okS2 hFor]
    decide
  have hskA3 : regexParseTime (String.mk I) "%Y-%m-%dT%H:%M:%S" = .ok none := by
    apply regexParseTime_none
    rw [show (String.mk I).data = I from rfl, reMatch_chEq okS3 hFor]
    decide
  have hskA4 : regexParseTime (String.mk I) "%Y/%m/%dT%H:%M:%S" = .ok none := by
    apply regexParseTime_none
    rw [show (String.mk I).data = I from rfl, reMatch_chEq okS4 hFor]
    decide
  have hskA5 : regexParseTime (String.mk I) "%Y%m%dT%H%M%S.%f" = .ok none := by
    apply regexParseTime_none
    rw [show (String.mk I).data = I from rfl, reMatch_chEq okS5 hFor]
    decide
  have hskA6 : regexParseTime (String.mk I) "%Y%m%dT%H%M%S" = .ok none := by
    apply regexParseTime_none
    rw [show (String.mk I).data = I from rfl, reMatch_chEq okS6 hFor]
    decide
  have hskA7 : regexParseTime (String.mk I) "%Y/%m/%d %H:%M:%S" = .ok none := by
    apply regexParseTime_none
    rw [show (String.mk I).data = I from rfl, reMatch_chEq okS7 hFor]
    decide
  have hskA8 : regexParseTime (String.mk I) "%Y/%m/%d %H:%M" = .ok none := by
    apply regexParseTime_none
    rw [show (String.mk I).data = I from rfl, reMatch_chEq okS8 hFor]
    decide
  have hskA9 : regexParseTime (String.mk I) "%Y/%m/%d %H:%M:%S.%f" = .ok none := by
    apply regexParseTime_none
    rw [show (String.mk I).data = I from rfl, reMatch_chEq okS9 hFor]
    decide
  have hskA10 : regexParseTime (String.mk I) "%Y-%m-%d %H:%M:%S.%f" = .ok none := by
    apply regexParseTime_none
    rw [show (String.mk I).data = I from rfl, reMatch_chEq okS10 hFor]
    decide
  have hskA11 : regexParseTime (String.mk I) "%Y-%m-%d %H:%M:%S" = .ok none := by
    apply regexParseTime_none
    rw [show (String.mk I).data = I from rfl, reMatch_chEq okS11 hFor]
    decide
  have hskA12 : regexParseTime (String.mk I) "%Y-%m-%d %H:%M" = .ok none := by
    apply regexParseTime_none
    rw [show (String.mk I).data = I from rfl, reMatch_chEq okS12 hFor]
    decide
  have hskA13 : regexParseTime (String.mk I) "%Y-%b-%d %H:%M:%S" = .ok none := by
    apply regexParseTime_none
    rw [show (String.mk I).data = I from rfl, reMatch_chEq okS13 hFor]
    decide
  have hskA14 : regexParseTime (String.mk I) "%Y-%b-%d %H:%M" = .ok none := by
    apply regexParseTime_none
    rw [show (String.mk I).data = I from rfl, reMatch_chEq okS14 hFor]
    decide
  have hre : reMatch (compileSunpy "%Y-%b-%d".data) I =
      some (11, [("year", (0, 4)), ("month_str", (5, 8)), ("day", (9, 11))]) := by
    rw [reMatch_chEq okS15 hFor]
    decide
  have hrp : regexParseTime (String.mk I) "%Y-%b-%d" =
      .ok (some (String.mk I, ⟨0, 0, 0⟩)) :=
    regexParseTime_noHour hre rfl
  have hmrun : mrun (compileStrp "%Y-%b-%d".data) I 0 [] =
      some (11, [("Y", (0, 4)), ("b", (5, 8)), ("d", (9, 11))]) := by
    rw [show compileStrp "%Y-%b-%d".data =
      [.grp "Y" [[.digit, .digit, .digit, .digit]],
       .tst (.oneCI '-'),
       .grp "b" (monthAbbrs.map fun nm => nm.data.map CT.oneCI),
       .tst (.oneCI '-'),
       .grp "d" [[.one '3', .rng '0' '1'], [.rng '1' '2', .digit], [.one '0', .rng '1' '9'], [.rng '1' '9'], [.one ' ', .rng '1' '9']]]
      from rfl, hIeq]
    apply stepY
    apply stepTst (by decide)
    apply stepb (by decide) (by decide)
    apply stepTst (by decide)
    apply stepd (by omega) (by omega)
    decide
  have hstrp : strptime (String.mk I) "%Y-%b-%d" =
      .ok ⟨y, 11, d, 0, 0, 0, 0⟩ := by
    rw [strptime, show (String.mk I).data = I from rfl]
    rw [hmrun]
    simp only [hlen, if_true]
    simp only [show groupSlice I [("Y", (0, 4)), ("b", (5, 8)), ("d", (9, 11))] "Y" =
        some (sliceL I 0 4) from rfl,
      show groupSlice I [("Y", (0, 4)), ("b", (5, 8)), ("d", (9, 11))] "m" =
        none from rfl,
      show groupSlice I [("Y", (0, 4)), ("b", (5, 8)), ("d", (9, 11))] "d" =
        some (sliceL I 9 11) from rfl,
      show groupSlice I [("Y", (0, 4)), ("b", (5, 8)), ("d", (9, 11))] "H" =
        none from rfl,
      show groupSlice I [("Y", (0, 4)), ("b", (5, 8)), ("d", (9, 11))] "M" =
        none from rfl,
      show groupSlice I [("Y", (0, 4)), ("b", (5, 8)), ("d", (9, 11))] "S" =
        none from rfl,
      show groupSlice I [("Y", (0, 4)), ("b", (5, 8)), ("d", (9, 11))] "f" =
        none from rfl,
      show groupSlice I [("Y", (0, 4)), ("b", (5, 8)), ("d", (9, 11))] "b" =
        some (sliceL I 5 8) from rfl,
      hsY,
      hsd,
      hsb,
      Option.map_some', Option.getD_some, Option.map_none', Option.getD_none]
    rw [digitsToNat_digits4 (by omega), show monthOfAbbr (monthCap 11) = 11 from by decide, digitsToNat_digits2 (by omega)]
    simp only [datetimeNew, hv, if_true]
  simp only [parseTime, TIME_FORMAT_LIST]
  rw [parseLoop_skip_none hskA0,
    parseLoop_skip_none hskA1,
    parseLoop_skip_none hskA2,
    parseLoop_skip_none hskA3,
    parseLoop_skip_none hskA4,
    parseLoop_skip_none hskA5,
    parseLoop_skip_none hskA6,
    parseLoop_skip_none hskA7,
    parseLoop_skip_none hskA8,
    parseLoop_skip_none hskA9,
    parseLoop_skip_none hskA10,
    parseLoop_skip_none hskA11,
    parseLoop_skip_none hskA12,
    parseLoop_skip_none hskA13,
    parseLoop_skip_none hskA14,
    parseLoop_success hrp hstrp]
  exact dtAddTd_zero hv

theorem roundtrip15x12 (now : DT) (y d : Nat)
    (hv : validDT ⟨y, 12, d, 0, 0, 0, 0⟩ = true) :
    parseTime now (.str (String.mk
      (formatPattern "%Y-%b-%d".data ⟨y, 12, d, 0, 0, 0, 0⟩))) =
      .ok ⟨y, 12, d, 0, 0, 0, 0⟩ := by
  have hv2 := hv
  simp only [validDT, Bool.and_eq_true, decide_eq_true_eq] at hv2
  have hd31 : d ≤ 31 := by
    have := daysInMonth_le31 y 12
    omega
  set I := formatPattern "%Y-%b-%d".data
    (⟨y, 12, d, 0, 0, 0, 0⟩ : DT) with hI
  have hFor : List.Forall₂ chEq I
      (formatPattern "%Y-%b-%d".data ⟨1111, 12, 11, 11, 11, 11, 111111⟩) := by
    rw [hI]
    exact formatAux_chEq false _ (Or.inr rfl)
  have hIeq : I = digits4 y ++ '-' :: (monthCap 12 ++ '-' :: (digits2 d ++ [])) := by
    rw [hI]; rfl
  have hlen : I.length = 11 := by rw [hIeq]; rfl
  have hsY : sliceL I 0 4 = digits4 y := by rw [hIeq]; rfl
  have hsd : sliceL I 9 11 = digits2 d := by rw [hIeq]; rfl
  have hsb : sliceL I 5 8 = monthCap 12 := by rw [hIeq]; rfl
  have hskA0 : regexParseTime (String.mk I) "%Y-%m-%dT%H:%M:%S.%f" = .ok none := by
    apply regexParseTime_none
    rw [show (String.mk I).data = I from rfl, reMatch_chEq okS0 hFor]
    decide
  have hskA1 : regexParseTime (String.mk I) "%Y/%m/%dT%H:%M:%S.%f" = .ok none := by
    apply regexParseTime_none
    rw [show (String.mk I).data = I from rfl, reMatch_chEq okS1 hFor]
    decide
  have hskA2 : regexParseTime (String.mk I) "%Y-%m-%dT%H:%M:%S.%fZ" = .ok none := by
    apply regexParseTime_none
    rw [show (String.mk I).data = I from rfl, reMatch_chEq okS2 hFor]
    decide
  have hskA3 : regexParseTime (String.mk I) "%Y-%m-%dT%H:%M:%S" = .ok none := by
    apply regexParseTime_none
    rw [show (String.mk I).data = I from rfl, reMatch_chEq okS3 hFor]
    decide
  have hskA4 : regexParseTime (String.mk I) "%Y/%m/%dT%H:%M:%S" = .ok none := by
    apply regexParseTime_none
    rw [show (String.mk I).data = I from rfl, reMatch_chEq okS4 hFor]
    decide
  have hskA5 : regexParseTime (String.mk I) "%Y%m%dT%H%M%S.%f" = .ok none := by
    apply regexParseTime_none
    rw [show (String.mk I).data = I from rfl, reMatch_chEq okS5 hFor]
    decide
  have hskA6 : regexParseTime (String.mk I) "%Y%m%dT%H%M%S" = .ok none := by
    apply regexParseTime_none
    rw [show (String.mk I).data = I from rfl, reMatch_chEq okS6 hFor]
    decide
  have hskA7 : regexParseTime (String.mk I) "%Y/%m/%d %H:%M:%S" = .ok none := by
    apply regexParseTime_none
    rw [show (String.mk I).data = I from rfl, reMatch_chEq okS7 hFor]
    decide
  have hskA8 : regexParseTime (String.mk I) "%Y/%m/%d %H:%M" = .ok none := by
    apply regexParseTime_none
    rw [show (String.mk I).data = I from rfl, reMatch_chEq okS8 hFor]
    decide
  have hskA9 : regexParseTime (String.mk I) "%Y/%m/%d %H:%M:%S.%f" = .ok none := by
    apply regexParseTime_none
    rw [show (String.mk I).data = I from rfl, reMatch_chEq okS9 hFor]
    decide
  have hskA10 : regexParseTime (String.mk I) "%Y-%m-%d %H:%M:%S.%f" = .ok none := by
    apply regexParseTime_none
    rw [show (String.mk I).data = I from rfl, reMatch_chEq okS10 hFor]
    decide
  have hskA11 : regexParseTime (String.mk I) "%Y-%m-%d %H:%M:%S" = .ok none := by
    apply regexParseTime_none
    rw [show (String.mk I).data = I from rfl, reMatch_chEq okS11 hFor]
    decide
  have hskA12 : regexParseTime (String.mk I) "%Y-%m-%d %H:%M" = .ok none := by
    apply regexParseTime_none
    rw [show (String.mk I).data = I from rfl, reMatch_chEq okS12 hFor]
    decide
  have hskA13 : regexParseTime (String.mk I) "%Y-%b-%d %H:%M:%S" = .ok none := by
    apply regexParseTime_none
    rw [show (String.mk I).data = I from rfl, reMatch_chEq okS13 hFor]
    decide
  have hskA14 : regexParseTime (String.mk I) "%Y-%b-%d %H:%M" = .ok none := by
    apply regexParseTime_none
    rw [show (String.mk I).data = I from rfl, reMatch_chEq okS14 hFor]
    decide
  have hre : reMatch (compileSunpy "%Y-%b-%d".data) I =
      some (11, [("year", (0, 4)), ("month_str", (5, 8)), ("day", (9, 11))]) := by
    rw [reMatch_chEq okS15 hFor]
    decide
  have hrp : regexParseTime (String.mk I) "%Y-%b-%d" =
      .ok (some (String.mk I, ⟨0, 0, 0⟩)) :=
    regexParseTime_noHour hre rfl
  have hmrun : mrun (compileStrp "%Y-%b-%d".data) I 0 [] =
      some (11, [("Y", (0, 4)), ("b", (5, 8)), ("d", (9, 11))]) := by
    rw [show compileStrp "%Y-%b-%d".data =
      [.grp "Y" [[.digit, .digit, .digit, .digit]],
       .tst (.oneCI '-'),
       .grp "b" (monthAbbrs.map fun nm => nm.data.map CT.oneCI),
       .tst (.oneCI '-'),
       .grp "d" [[.one '3', .rng '0' '1'], [.rng '1' '2', .digit], [.one '0', .rng '1' '9'], [.rng '1' '9'], [.one ' ', .rng '1' '9']]]
      from rfl, hIeq]
    apply stepY
    apply stepTst (by decide)
    apply stepb (by decide) (by decide)
    apply stepTst (by decide)
    apply stepd (by omega) (by omega)
    decide
  have hstrp : strptime (String.mk I) "%Y-%b-%d" =
      .ok ⟨y, 12, d, 0, 0, 0, 0⟩ := by
    rw [strptime, show (String.mk I).data = I from rfl]
    rw [hmrun]
    simp only [hlen, if_true]
    simp only [show groupSlice I [("Y", (0, 4)), ("b", (5, 8)), ("d", (9, 11))] "Y" =
        some (sliceL I 0 4) from rfl,
      show groupSlice I [("Y", (0, 4)), ("b", (5, 8)), ("d", (9, 11))] "m" =
        none from rfl,
      show groupSlice I [("Y", (0, 4)), ("b", (5, 8)), ("d", (9, 11))] "d" =
        some (sliceL I 9 11) from rfl,
      show groupSlice I [("Y", (0, 4)), ("b", (5, 8)), ("d", (9, 11))] "H" =
        none from rfl,
      show groupSlice I [("Y", (0, 4)), ("b", (5, 8)), ("d", (9, 11))] "M" =
        none from rfl,
      show groupSlice I [("Y", (0, 4)), ("b", (5, 8)), ("d", (9, 11))] "S" =
        none from rfl,
      show groupSlice I [("Y", (0, 4)), ("b", (5, 8)), ("d", (9, 11))] "f" =
        none from rfl,
      show groupSlice I [("Y", (0, 4)), ("b", (5, 8)), ("d", (9, 11))] "b" =
        some (sliceL I 5 8) from rfl,
      hsY,
      hsd,
      hsb,
      Option.map_some', Option.getD_some, Option.map_none', Option.getD_none]
    rw [digitsToNat_digits4 (by omega), show monthOfAbbr (monthCap 12) = 12 from by decide, digitsToNat_digits2 (by omega)]
    simp only [datetimeNew, hv, if_true]
  simp only [parseTime, TIME_FORMAT_LIST]
  rw [parseLoop_skip_none hskA0,
    parseLoop_skip_none hskA1,
    parseLoop_skip_none hskA2,
    parseLoop_skip_none hskA3,
    parseLoop_skip_none hskA4,
    parseLoop_skip_none hskA5,
    parseLoop_skip_none hskA6,
    parseLoop_skip_none hskA7,
    parseLoop_skip_none hskA8,
    parseLoop_skip_none hskA9,
    parseLoop_skip_none hskA10,
    parseLoop_skip_none hskA11,
    parseLoop_skip_none hskA12,
    parseLoop_skip_none hskA13,
    parseLoop_skip_none hskA14,
    parseLoop_success hrp hstrp]
  exact dtAddTd_zero hv

theorem roundtrip15 (now : DT) (y m d : Nat)
    (hv : validDT ⟨y, m, d, 0, 0, 0, 0⟩ = true) :
    parseTime now (.str (String.mk
      (formatPattern "%Y-%b-%d".data ⟨y, m, d, 0, 0, 0, 0⟩))) =
      .ok ⟨y, m, d, 0, 0, 0, 0⟩ := by
  have hv2 := hv
  simp only [validDT, Bool.and_eq_true, decide_eq_true_eq] at hv2
  have hm1 : 1 ≤ m := by omega
  have hm12 : m ≤ 12 := by omega
  clear hv2
  interval_cases m
  · exact roundtrip15x1 now y d hv
  · exact roundtrip15x2 now y d hv
  · exact roundtrip15x3 now y d hv
  · exact roundtrip15x4 now y d hv
  · exact roundtrip15x5 now y d hv
  · exact roundtrip15x6 now y d hv
  · exact roundtrip15x7 now y d hv
  · exact roundtrip15x8 now y d hv
  · exact roundtrip15x9 now y d hv
  · exact roundtrip15x10 now y d hv
  · exact roundtrip15x11 now y d hv
  · exact roundtrip15x12 now y d hv

theorem roundtrip16 (now : DT) (y m d : Nat)
    (hv : validDT ⟨y, m, d, 0, 0, 0, 0⟩ = true) :
    parseTime now (.str (String.mk
      (formatPattern "%Y-%m-%d".data ⟨y, m, d, 0, 0, 0, 0⟩))) =
      .ok ⟨y, m, d, 0, 0, 0, 0⟩ := by
  have hv2 := hv
  simp only [validDT, Bool.and_eq_true, decide_eq_true_eq] at hv2
  have hd31 : d ≤ 31 := by
    have := daysInMonth_le31 y m
    omega
  set I := formatPattern "%Y-%m-%d".data
    (⟨y, m, d, 0, 0, 0, 0⟩ : DT) with hI
  have hFor : List.Forall₂ chEq I
      (formatPattern "%Y-%m-%d".data ⟨1111, 11, 11, 11, 11, 11, 111111⟩) := by
    rw [hI]
    exact formatAux_chEq false _ (Or.inl (by decide))
  have hIeq : I = digits4 y ++ '-' :: (digits2 m ++ '-' :: (digits2 d ++ [])) := by
    rw [hI]; rfl
  have hlen : I.length = 10 := by rw [hIeq]; rfl
  have hsY : sliceL I 0 4 = digits4 y := by rw [hIeq]; rfl
  have hsm : sliceL I 5 7 = digits2 m := by rw [hIeq]; rfl
  have hsd : sliceL I 8 10 = digits2 d := by rw [hIeq]; rfl
  have hskA0 : regexParseTime (String.mk I) "%Y-%m-%dT%H:%M:%S.%f" = .ok none := by
    apply regexParseTime_none
    rw [show (String.mk I).data = I from rfl, reMatch_chEq okS0 hFor]
    decide
  have hskA1 : regexParseTime (String.mk I) "%Y/%m/%dT%H:%M:%S.%f" = .ok none := by
    apply regexParseTime_none
    rw [show (String.mk I).data = I from rfl, reMatch_chEq okS1 hFor]
    decide
  have hskA2 : regexParseTime (String.mk I) "%Y-%m-%dT%H:%M:%S.%fZ" = .ok none := by
    apply regexParseTime_none
    rw [show (String.mk I).data = I from rfl, reMatch_chEq okS2 hFor]
    decide
  have hskA3 : regexParseTime (String.mk I) "%Y-%m-%dT%H:%M:%S" = .ok none := by
    apply regexParseTime_none
    rw [show (String.mk I).data = I from rfl, reMatch_chEq okS3 hFor]
    decide
  have hskA4 : regexParseTime (String.mk I) "%Y/%m/%dT%H:%M:%S" = .ok none := by
    apply regexParseTime_none
    rw [show (String.mk I).data = I from rfl, reMatch_chEq okS4 hFor]
    decide
  have hskA5 : regexParseTime (String.mk I) "%Y%m%dT%H%M%S.%f" = .ok none := by
    apply regexParseTime_none
    rw [show (String.mk I).data = I from rfl, reMatch_chEq okS5 hFor]
    decide
  have hskA6 : regexParseTime (String.mk I) "%Y%m%dT%H%M%S" = .ok none := by
    apply regexParseTime_none
    rw [show (String.mk I).data = I from rfl, reMatch_chEq okS6 hFor]
    decide
  have hskA7 : regexParseTime (String.mk I) "%Y/%m/%d %H:%M:%S" = .ok none := by
    apply regexParseTime_none
    rw [show (String.mk I).data = I from rfl, reMatch_chEq okS7 hFor]
    decide
  have hskA8 : regexParseTime (String.mk I) "%Y/%m/%d %H:%M" = .ok none := by
    apply regexParseTime_none
    rw [show (String.mk I).data = I from rfl, reMatch_chEq okS8 hFor]
    decide
  have hskA9 : regexParseTime (String.mk I) "%Y/%m/%d %H:%M:%S.%f" = .ok none := by
    apply regexParseTime_none
    rw [show (String.mk I).data = I from rfl, reMatch_chEq okS9 hFor]
    decide
  have hskA10 : regexParseTime (String.mk I) "%Y-%m-%d %H:%M:%S.%f" = .ok none := by
    apply regexParseTime_none
    rw [show (String.mk I).data = I from rfl, reMatch_chEq okS10 hFor]
    decide
  have hskA11 : regexParseTime (String.mk I) "%Y-%m-%d %H:%M:%S" = .ok none := by
    apply regexParseTime_none
    rw [show (String.mk I).data = I from rfl, reMatch_chEq okS11 hFor]
    decide
  have hskA12 : regexParseTime (String.mk I) "%Y-%m-%d %H:%M" = .ok none := by
    apply regexParseTime_none
    rw [show (String.mk I).data = I from rfl, reMatch_chEq okS12 hFor]
    decide
  have hskA13 : regexParseTime (String.mk I) "%Y-%b-%d %H:%M:%S" = .ok none := by
    apply regexParseTime_none
    rw [show (String.mk I).data = I from rfl, reMatch_chEq okS13 hFor]
    decide
  have hskA14 : regexParseTime (String.mk I) "%Y-%b-%d %H:%M" = .ok none := by
    apply regexParseTime_none
    rw [show (String.mk I).data = I from rfl, reMatch_chEq okS14 hFor]
    decide
  have hskA15 : regexParseTime (String.mk I) "%Y-%b-%d" = .ok none := by
    apply regexParseTime_none
    rw [show (String.mk I).data = I from rfl, reMatch_chEq okS15 hFor]
    decide
  have hre : reMatch (compileSunpy "%Y-%m-%d".data) I =
      some (10, [("year", (0, 4)), ("month", (5, 7)), ("day", (8, 10))]) := by
    rw [reMatch_chEq okS16 hFor]
    decide
  have hrp : regexParseTime (String.mk I) "%Y-%m-%d" =
      .ok (some (String.mk I, ⟨0, 0, 0⟩)) :=
    regexParseTime_noHour hre rfl
  have hmrun : mrun (compileStrp "%Y-%m-%d".data) I 0 [] =
      some (10, [("Y", (0, 4)), ("m", (5, 7)), ("d", (8, 10))]) := by
    rw [show compileStrp "%Y-%m-%d".data =
      [.grp "Y" [[.digit, .digit, .digit, .digit]],
       .tst (.oneCI '-'),
       .grp "m" [[.one '1', .rng '0' '2'], [.one '0', .rng '1' '9'], [.rng '1' '9']],
       .tst (.oneCI '-'),
       .grp "d" [[.one '3', .rng '0' '1'], [.rng '1' '2', .digit], [.one '0', .rng '1' '9'], [.rng '1' '9'], [.one ' ', .rng '1' '9']]]
      from rfl, hIeq]
    apply stepY
    apply stepTst (by decide)
    apply stepm (by omega) (by omega)
    apply stepTst (by decide)
    apply stepd (by omega) (by omega)
    decide
  have hstrp : strptime (String.mk I) "%Y-%m-%d" =
      .ok ⟨y, m, d, 0, 0, 0, 0⟩ := by
    rw [strptime, show (String.mk I).data = I from rfl]
    rw [hmrun]
    simp only [hlen, if_true]
    simp only [show groupSlice I [("Y", (0, 4)), ("m", (5, 7)), ("d", (8, 10))] "Y" =
        some (sliceL I 0 4) from rfl,
      show groupSlice I [("Y", (0, 4)), ("m", (5, 7)), ("d", (8, 10))] "m" =
        some (sliceL I 5 7) from rfl,
      show groupSlice I [("Y", (0, 4)), ("m", (5, 7)), ("d", (8, 10))] "d" =
        some (sliceL I 8 10) from rfl,
      show groupSlice I [("Y", (0, 4)), ("m", (5, 7)), ("d", (8, 10))] "H" =
        none from rfl,
      show groupSlice I [("Y", (0, 4)), ("m", (5, 7)), ("d", (8, 10))] "M" =
        none from rfl,
      show groupSlice I [("Y", (0, 4)), ("m", (5, 7)), ("d", (8, 10))] "S" =
        none from rfl,
      show groupSlice I [("Y", (0, 4)), ("m", (5, 7)), ("d", (8, 10))] "f" =
        none from rfl,
      show groupSlice I [("Y", (0, 4)), ("m", (5, 7)), ("d", (8, 10))] "b" =
        none from rfl,
      hsY,
      hsm,
      hsd,
      Option.map_some', Option.getD_some, Option.map_none', Option.getD_none]
    rw [digitsToNat_digits4 (by omega), digitsToNat_digits2 (by omega), digitsToNat_digits2 (by omega)]
    simp only [datetimeNew, hv, if_true]
  simp only [parseTime, TIME_FORMAT_LIST]
  rw [parseLoop_skip_none hskA0,
    parseLoop_skip_none hskA1,
    parseLoop_skip_none hskA2,
    parseLoop_skip_none hskA3,
    parseLoop_skip_none hskA4,
    parseLoop_skip_none hskA5,
    parseLoop_skip_none hskA6,
    parseLoop_skip_none hskA7,
    parseLoop_skip_none hskA8,
    parseLoop_skip_none hskA9,
    parseLoop_skip_none hskA10,
    parseLoop_skip_none hskA11,
    parseLoop_skip_none hskA12,
    parseLoop_skip_none hskA13,
    parseLoop_skip_none hskA14,
    parseLoop_skip_none hskA15,
    parseLoop_success hrp hstrp]
  exact dtAddTd_zero hv

theorem roundtrip17 (now : DT) (y m d : Nat)
    (hv : validDT ⟨y, m, d, 0, 0, 0, 0⟩ = true) :
    parseTime now (.str (String.mk
      (formatPattern "%Y/%m/%d".data ⟨y, m, d, 0, 0, 0, 0⟩))) =
      .ok ⟨y, m, d, 0, 0, 0, 0⟩ := by
  have hv2 := hv
  simp only [validDT, Bool.and_eq_true, decide_eq_true_eq] at hv2
  have hd31 : d ≤ 31 := by
    have := daysInMonth_le31 y m
    omega
  set I := formatPattern "%Y/%m/%d".data
    (⟨y, m, d, 0, 0, 0, 0⟩ : DT) with hI
  have hFor : List.Forall₂ chEq I
      (formatPattern "%Y/%m/%d".data ⟨1111, 11, 11, 11, 11, 11, 111111⟩) := by
    rw [hI]
    exact formatAux_chEq false _ (Or.inl (by decide))
  have hIeq : I = digits4 y ++ '/' :: (digits2 m ++ '/' :: (digits2 d ++ [])) := by
    rw [hI]; rfl
  have hlen : I.length = 10 := by rw [hIeq]; rfl
  have hsY : sliceL I 0 4 = digits4 y := by rw [hIeq]; rfl
  have hsm : sliceL I 5 7 = digits2 m := by rw [hIeq]; rfl
  have hsd : sliceL I 8 10 = digits2 d := by rw [hIeq]; rfl
  have hskA0 : regexParseTime (String.mk I) "%Y-%m-%dT%H:%M:%S.%f" = .ok none := by
    apply regexParseTime_none
    rw [show (String.mk I).data = I from rfl, reMatch_chEq okS0 hFor]
    decide
  have hskA1 : regexParseTime (String.mk I) "%Y/%m/%dT%H:%M:%S.%f" = .ok none := by
    apply regexParseTime_none
    rw [show (String.mk I).data = I from rfl, reMatch_chEq okS1 hFor]
    decide
  have hskA2 : regexParseTime (String.mk I) "%Y-%m-%dT%H:%M:%S.%fZ" = .ok none := by
    apply regexParseTime_none
    rw [show (String.mk I).data = I from rfl, reMatch_chEq okS2 hFor]
    decide
  have hskA3 : regexParseTime (String.mk I) "%Y-%m-%dT%H:%M:%S" = .ok none := by
    apply regexParseTime_none
    rw [show (String.mk I).data = I from rfl, reMatch_chEq okS3 hFor]
    decide
  have hskA4 : regexParseTime (String.mk I) "%Y/%m/%dT%H:%M:%S" = .ok none := by
    apply regexParseTime_none
    rw [show (String.mk I).data = I from rfl, reMatch_chEq okS4 hFor]
    decide
  have hskA5 : regexParseTime (String.mk I) "%Y%m%dT%H%M%S.%f" = .ok none := by
    apply regexParseTime_none
    rw [show (String.mk I).data = I from rfl, reMatch_chEq okS5 hFor]
    decide
  have hskA6 : regexParseTime (String.mk I) "%Y%m%dT%H%M%S" = .ok none := by
    apply regexParseTime_none
    rw [show (String.mk I).data = I from rfl, reMatch_chEq okS6 hFor]
    decide
  have hskA7 : regexParseTime (String.mk I) "%Y/%m/%d %H:%M:%S" = .ok none := by
    apply regexParseTime_none
    rw [show (String.mk I).data = I from rfl, reMatch_chEq okS7 hFor]
    decide
  have hskA8 : regexParseTime (String.mk I) "%Y/%m/%d %H:%M" = .ok none := by
    apply regexParseTime_none
    rw [show (String.mk I).data = I from rfl, reMatch_chEq okS8 hFor]
    decide
  have hskA9 : regexParseTime (String.mk I) "%Y/%m/%d %H:%M:%S.%f" = .ok none := by
    apply regexParseTime_none
    rw [show (String.mk I).data = I from rfl, reMatch_chEq okS9 hFor]
    decide
  have hskA10 : regexParseTime (String.mk I) "%Y-%m-%d %H:%M:%S.%f" = .ok none := by
    apply regexParseTime_none
    rw [show (String.mk I).data = I from rfl, reMatch_chEq okS10 hFor]
    decide
  have hskA11 : regexParseTime (String.mk I) "%Y-%m-%d %H:%M:%S" = .ok none := by
    apply regexParseTime_none
    rw [show (String.mk I).data = I from rfl, reMatch_chEq okS11 hFor]
    decide
  have hskA12 : regexParseTime (String.mk I) "%Y-%m-%d %H:%M" = .ok none := by
    apply regexParseTime_none
    rw [show (String.mk I).data = I from rfl, reMatch_chEq okS12 hFor]
    decide
  have hskA13 : regexParseTime (String.mk I) "%Y-%b-%d %H:%M:%S" = .ok none := by
    apply regexParseTime_none
    rw [show (String.mk I).data = I from rfl, reMatch_chEq okS13 hFor]
    decide
  have hskA14 : regexParseTime (String.mk I) "%Y-%b-%d %H:%M" = .ok none := by
    apply regexParseTime_none
    rw [show (String.mk I).data = I from rfl, reMatch_chEq okS14 hFor]
    decide
  have hskA15 : regexParseTime (String.mk I) "%Y-%b-%d" = .ok none := by
    apply regexParseTime_none
    rw [show (String.mk I).data = I from rfl, reMatch_chEq okS15 hFor]
    decide
  have hskA16 : regexParseTime (String.mk I) "%Y-%m-%d" = .ok none := by
    apply regexParseTime_none
    rw [show (String.mk I).data = I from rfl, reMatch_chEq okS16 hFor]
    decide
  have hre : reMatch (compileSunpy "%Y/%m/%d".data) I =
      some (10, [("year", (0, 4)), ("month", (5, 7)), ("day", (8, 10))]) := by
    rw [reMatch_chEq okS17 hFor]
    decide
  have hrp : regexParseTime (String.mk I) "%Y/%m/%d" =
      .ok (some (String.mk I, ⟨0, 0, 0⟩)) :=
    regexParseTime_noHour hre rfl
  have hmrun : mrun (compileStrp "%Y/%m/%d".data) I 0 [] =
      some (10, [("Y", (0, 4)), ("m", (5, 7)), ("d", (8, 10))]) := by
    rw [show compileStrp "%Y/%m/%d".data =
      [.grp "Y" [[.digit, .digit, .digit, .digit]],
       .tst (.oneCI '/'),
       .grp "m" [[.one '1', .rng '0' '2'], [.one '0', .rng '1' '9'], [.rng '1' '9']],
       .tst (.oneCI '/'),
       .grp "d" [[.one '3', .rng '0' '1'], [.rng '1' '2', .digit], [.one '0', .rng '1' '9'], [.rng '1' '9'], [.one ' ', .rng '1' '9']]]
      from rfl, hIeq]
    apply stepY
    apply stepTst (by decide)
    apply stepm (by omega) (by omega)
    apply stepTst (by decide)
    apply stepd (by omega) (by omega)
    decide
  have hstrp : strptime (String.mk I) "%Y/%m/%d" =
      .ok ⟨y, m, d, 0, 0, 0, 0⟩ := by
    rw [strptime, show (String.mk I).data = I from rfl]
    rw [hmrun]
    simp only [hlen, if_true]
    simp only [show groupSlice I [("Y", (0, 4)), ("m", (5, 7)), ("d", (8, 10))] "Y" =
        some (sliceL I 0 4) from rfl,
      show groupSlice I [("Y", (0, 4)), ("m", (5, 7)), ("d", (8, 10))] "m" =
        some (sliceL I 5 7) from rfl,
      show groupSlice I [("Y", (0, 4)), ("m", (5, 7)), ("d", (8, 10))] "d" =
        some (sliceL I 8 10) from rfl,
      show groupSlice I [("Y", (0, 4)), ("m", (5, 7)), ("d", (8, 10))] "H" =
        none from rfl,
      show groupSlice I [("Y", (0, 4)), ("m", (5, 7)), ("d", (8, 10))] "M" =
        none from rfl,
      show groupSlice I [("Y", (0, 4)), ("m", (5, 7)), ("d", (8, 10))] "S" =
        none from rfl,
      show groupSlice I [("Y", (0, 4)), ("m", (5, 7)), ("d", (8, 10))] "f" =
        none from rfl,
      show groupSlice I [("Y", (0, 4)), ("m", (5, 7)), ("d", (8, 10))] "b" =
        none from rfl,
      hsY,
      hsm,
      hsd,
      Option.map_some', Option.getD_some, Option.map_none', Option.getD_none]
    rw [digitsToNat_digits4 (by omega), digitsToNat_digits2 (by omega), digitsToNat_digits2 (by omega)]
    simp only [datetimeNew, hv, if_true]
  simp only [parseTime, TIME_FORMAT_LIST]
  rw [parseLoop_skip_none hskA0,
    parseLoop_skip_none hskA1,
    parseLoop_skip_none hskA2,
    parseLoop_skip_none hskA3,
    parseLoop_skip_none hskA4,
    parseLoop_skip_none hskA5,
    parseLoop_skip_none hskA6,
    parseLoop_skip_none hskA7,
    parseLoop_skip_none hskA8,
    parseLoop_skip_none hskA9,
    parseLoop_skip_none hskA10,
    parseLoop_skip_none hskA11,
    parseLoop_skip_none hskA12,
    parseLoop_skip_none hskA13,
    parseLoop_skip_none hskA14,
    parseLoop_skip_none hskA15,
    parseLoop_skip_none hskA16,
    parseLoop_success hrp hstrp]
  exact dtAddTd_zero hv

theorem roundtrip18x1 (now : DT) (y d : Nat)
    (hv : validDT ⟨y, 1, d, 0, 0, 0, 0⟩ = true) :
    parseTime now (.str (String.mk
      (formatPattern "%d-%b-%Y".data ⟨y, 1, d, 0, 0, 0, 0⟩))) =
      .ok ⟨y, 1, d, 0, 0, 0, 0⟩ := by
  have hv2 := hv
  simp only [validDT, Bool.and_eq_true, decide_eq_true_eq] at hv2
  have hd31 : d ≤ 31 := by
    have := daysInMonth_le31 y 1
    omega
  set I := formatPattern "%d-%b-%Y".data
    (⟨y, 1, d, 0, 0, 0, 0⟩ : DT) with hI
  have hFor : List.Forall₂ chEq I
      (formatPattern "%d-%b-%Y".data ⟨1111, 1, 11, 11, 11, 11, 111111⟩) := by
    rw [hI]
    exact formatAux_chEq false _ (Or.inr rfl)
  have hIeq : I = digits2 d ++ '-' :: (monthCap 1 ++ '-' :: (digits4 y ++ [])) := by
    rw [hI]; rfl
  have hlen : I.length = 11 := by rw [hIeq]; rfl
  have hsY : sliceL I 7 11 = digits4 y := by rw [hIeq]; rfl
  have hsd : sliceL I 0 2 = digits2 d := by rw [hIeq]; rfl
  have hsb : sliceL I 3 6 = monthCap 1 := by rw [hIeq]; rfl
  have hskA0 : regexParseTime (String.mk I) "%Y-%m-%dT%H:%M:%S.%f" = .ok none := by
    apply regexParseTime_none
    rw [show (String.mk I).data = I from rfl, reMatch_chEq okS0 hFor]
    decide
  have hskA1 : regexParseTime (String.mk I) "%Y/%m/%dT%H:%M:%S.%f" = .ok none := by
    apply regexParseTime_none
    rw [show (String.mk I).data = I from rfl, reMatch_chEq okS1 hFor]
    decide
  have hskA2 : regexParseTime (String.mk I) "%Y-%m-%dT%H:%M:%S.%fZ" = .ok none := by
    apply regexParseTime_none
    rw [show (String.mk I).data = I from rfl, reMatch_chEq okS2 hFor]
    decide
  have hskA3 : regexParseTime (String.mk I) "%Y-%m-%dT%H:%M:%S" = .ok none := by
    apply regexParseTime_none
    rw [show (String.mk I).data = I from rfl, reMatch_chEq okS3 hFor]
    decide
  have hskA4 : regexParseTime (String.mk I) "%Y/%m/%dT%H:%M:%S" = .ok none := by
    apply regexParseTime_none
    rw [show (String.mk I).data = I from rfl, reMatch_chEq okS4 hFor]
    decide
  have hskA5 : regexParseTime (String.mk I) "%Y%m%dT%H%M%S.%f" = .ok none := by
    apply regexParseTime_none
    rw [show (String.mk I).data = I from rfl, reMatch_chEq okS5 hFor]
    decide
  have hskA6 : regexParseTime (String.mk I) "%Y%m%dT%H%M%S" = .ok none := by
    apply regexParseTime_none
    rw [show (String.mk I).data = I from rfl, reMatch_chEq okS6 hFor]
    decide
  have hskA7 : regexParseTime (String.mk I) "%Y/%m/%d %H:%M:%S" = .ok none := by
    apply regexParseTime_none
    rw [show (String.mk I).data = I from rfl, reMatch_chEq okS7 hFor]
    decide
  have hskA8 : regexParseTime (String.mk I) "%Y/%m/%d %H:%M" = .ok none := by
    apply regexParseTime_none
    rw [show (String.mk I).data = I from rfl, reMatch_chEq okS8 hFor]
    decide
  have hskA9 : regexParseTime (String.mk I) "%Y/%m/%d %H:%M:%S.%f" = .ok none := by
    apply regexParseTime_none
    rw [show (String.mk I).data = I from rfl, reMatch_chEq okS9 hFor]
    decide
  have hskA10 : regexParseTime (String.mk I) "%Y-%m-%d %H:%M:%S.%f" = .ok none := by
    apply regexParseTime_none
    rw [show (String.mk I).data = I from rfl, reMatch_chEq okS10 hFor]
    decide
  have hskA11 : regexParseTime (String.mk I) "%Y-%m-%d %H:%M:%S" = .ok none := by
    apply regexParseTime_none
    rw [show (String.mk I).data = I from rfl, reMatch_chEq okS11 hFor]
    decide
  have hskA12 : regexParseTime (String.mk I) "%Y-%m-%d %H:%M" = .ok none := by
    apply regexParseTime_none
    rw [show (String.mk I).data = I from rfl, reMatch_chEq okS12 hFor]
    decide
  have hskA13 : regexParseTime (String.mk I) "%Y-%b-%d %H:%M:%S" = .ok none := by
    apply regexParseTime_none
    rw [show (String.mk I).data = I from rfl, reMatch_chEq okS13 hFor]
    decide
  have hskA14 : regexParseTime (String.mk I) "%Y-%b-%d %H:%M" = .ok none := by
    apply regexParseTime_none
    rw [show (String.mk I).data = I from rfl, reMatch_chEq okS14 hFor]
    decide
  have hskA15 : regexParseTime (String.mk I) "%Y-%b-%d" = .ok none := by
    apply regexParseTime_none
    rw [show (String.mk I).data = I from rfl, reMatch_chEq okS15 hFor]
    decide
  have hskA16 : regexParseTime (String.mk I) "%Y-%m-%d" = .ok none := by
    apply regexParseTime_none
    rw [show (String.mk I).data = I from rfl, reMatch_chEq okS16 hFor]
    decide
  have hskA17 : regexParseTime (String.mk I) "%Y/%m/%d" = .ok none := by
    apply regexParseTime_none
    rw [show (String.mk I).data = I from rfl, reMatch_chEq okS17 hFor]
    decide
  have hre : reMatch (compileSunpy "%d-%b-%Y".data) I =
      some (11, [("day", (0, 2)), ("month_str", (3, 6)), ("year", (7, 11))]) := by
    rw [reMatch_chEq okS18 hFor]
    decide
  have hrp : regexParseTime (String.mk I) "%d-%b-%Y" =
      .ok (some (String.mk I, ⟨0, 0, 0⟩)) :=
    regexParseTime_noHour hre rfl
  have hmrun : mrun (compileStrp "%d-%b-%Y".data) I 0 [] =
      some (11, [("d", (0, 2)), ("b", (3, 6)), ("Y", (7, 11))]) := by
    rw [show compileStrp "%d-%b-%Y".data =
      [.grp "d" [[.one '3', .rng '0' '1'], [.rng '1' '2', .digit], [.one '0', .rng '1' '9'], [.rng '1' '9'], [.one ' ', .rng '1' '9']],
       .tst (.oneCI '-'),
       .grp "b" (monthAbbrs.map fun nm => nm.data.map CT.oneCI),
       .tst (.oneCI '-'),
       .grp "Y" [[.digit, .digit, .digit, .digit]]]
      from rfl, hIeq]
    apply stepd (by omega) (by omega)
    apply stepTst (by decide)
    apply stepb (by decide) (by decide)
    apply stepTst (by decide)
    apply stepY
    decide
  have hstrp : strptime (String.mk I) "%d-%b-%Y" =
      .ok ⟨y, 1, d, 0, 0, 0, 0⟩ := by
    rw [strptime, show (String.mk I).data = I from rfl]
    rw [hmrun]
    simp only [hlen, if_true]
    simp only [show groupSlice I [("d", (0, 2)), ("b", (3, 6)), ("Y", (7, 11))] "Y" =
        some (sliceL I 7 11) from rfl,
      show groupSlice I [("d", (0, 2)), ("b", (3, 6)), ("Y", (7, 11))] "m" =
        none from rfl,
      show groupSlice I [("d", (0, 2)), ("b", (3, 6)), ("Y", (7, 11))] "d" =
        some (sliceL I 0 2) from rfl,
      show groupSlice I [("d", (0, 2)), ("b", (3, 6)), ("Y", (7, 11))] "H" =
        none from rfl,
      show groupSlice I [("d", (0, 2)), ("b", (3, 6)), ("Y", (7, 11))] "M" =
        none from rfl,
      show groupSlice I [("d", (0, 2)), ("b", (3, 6)), ("Y", (7, 11))] "S" =
        none from rfl,
      show groupSlice I [("d", (0, 2)), ("b", (3, 6)), ("Y", (7, 11))] "f" =
        none from rfl,
      show groupSlice I [("d", (0, 2)), ("b", (3, 6)), ("Y", (7, 11))] "b" =
        some (sliceL I 3 6) from rfl,
      hsY,
      hsd,
      hsb,
      Option.map_some', Option.getD_some, Option.map_none', Option.getD_none]
    rw [digitsToNat_digits4 (by omega), show monthOfAbbr (monthCap 1) = 1 from by decide, digitsToNat_digits2 (by omega)]
    simp only [datetimeNew, hv, if_true]
  simp only [parseTime, TIME_FORMAT_LIST]
  rw [parseLoop_skip_none hskA0,
    parseLoop_skip_none hskA1,
    parseLoop_skip_none hskA2,
    parseLoop_skip_none hskA3,
    parseLoop_skip_none hskA4,
    parseLoop_skip_none hskA5,
    parseLoop_skip_none hskA6,
    parseLoop_skip_none hskA7,
    parseLoop_skip_none hskA8,
    parseLoop_skip_none hskA9,
    parseLoop_skip_none hskA10,
    parseLoop_skip_none hskA11,
    parseLoop_skip_none hskA12,
    parseLoop_skip_none hskA13,
    parseLoop_skip_none hskA14,
    parseLoop_skip_none hskA15,
    parseLoop_skip_none hskA16,
    parseLoop_skip_none hskA17,
    parseLoop_success hrp hstrp]
  exact dtAddTd_zero hv

theorem roundtrip18x2 (now : DT) (y d : Nat)
    (hv : validDT ⟨y, 2, d, 0, 0, 0, 0⟩ = true) :
    parseTime now (.str (String.mk
      (formatPattern "%d-%b-%Y".data ⟨y, 2, d, 0, 0, 0, 0⟩))) =
      .ok ⟨y, 2, d, 0, 0, 0, 0⟩ := by
  have hv2 := hv
  simp only [validDT, Bool.and_eq_true, decide_eq_true_eq] at hv2
  have hd31 : d ≤ 31 := by
    have := daysInMonth_le31 y 2
    omega
  set I := formatPattern "%d-%b-%Y".data
    (⟨y, 2, d, 0, 0, 0, 0⟩ : DT) with hI
  have hFor : List.Forall₂ chEq I
      (formatPattern "%d-%b-%Y".data ⟨1111, 2, 11, 11, 11, 11, 111111⟩) := by
    rw [hI]
    exact formatAux_chEq false _ (Or.inr rfl)
  have hIeq : I = digits2 d ++ '-' :: (monthCap 2 ++ '-' :: (digits4 y ++ [])) := by
    rw [hI]; rfl
  have hlen : I.length = 11 := by rw [hIeq]; rfl
  have hsY : sliceL I 7 11 = digits4 y := by rw [hIeq]; rfl
  have hsd : sliceL I 0 2 = digits2 d := by rw [hIeq]; rfl
  have hsb : sliceL I 3 6 = monthCap 2 := by rw [hIeq]; rfl
  have hskA0 : regexParseTime (String.mk I) "%Y-%m-%dT%H:%M:%S.%f" = .ok none := by
    apply regexParseTime_none
    rw [show (String.mk I).data = I from rfl, reMatch_chEq okS0 hFor]
    decide
  have hskA1 : regexParseTime (String.mk I) "%Y/%m/%dT%H:%M:%S.%f" = .ok none := by
    apply regexParseTime_none
    rw [show (String.mk I).data = I from rfl, reMatch_chEq okS1 hFor]
    decide
  have hskA2 : regexParseTime (String.mk I) "%Y-%m-%dT%H:%M:%S.%fZ" = .ok none := by
    apply regexParseTime_none
    rw [show (String.mk I).data = I from rfl, reMatch_chEq okS2 hFor]
    decide
  have hskA3 : regexParseTime (String.mk I) "%Y-%m-%dT%H:%M:%S" = .ok none := by
    apply regexParseTime_none
    rw [show (String.mk I).data = I from rfl, reMatch_chEq okS3 hFor]
    decide
  have hskA4 : regexParseTime (String.mk I) "%Y/%m/%dT%H:%M:%S" = .ok none := by
    apply regexParseTime_none
    rw [show (String.mk I).data = I from rfl, reMatch_chEq okS4 hFor]
    decide
  have hskA5 : regexParseTime (String.mk I) "%Y%m%dT%H%M%S.%f" = .ok none := by
    apply regexParseTime_none
    rw [show (String.mk I).data = I from rfl, reMatch_chEq okS5 hFor]
    decide
  have hskA6 : regexParseTime (String.mk I) "%Y%m%dT%H%M%S" = .ok none := by
    apply regexParseTime_none
    rw [show (String.mk I).data = I from rfl, reMatch_chEq okS6 hFor]
    decide
  have hskA7 : regexParseTime (String.mk I) "%Y/%m/%d %H:%M:%S" = .ok none := by
    apply regexParseTime_none
    rw [show (String.mk I).data = I from rfl, reMatch_chEq okS7 hFor]
    decide
  have hskA8 : regexParseTime (String.mk I) "%Y/%m/%d %H:%M" = .ok none := by
    apply regexParseTime_none
    rw [show (String.mk I).data = I from rfl, reMatch_chEq okS8 hFor]
    decide
  have hskA9 : regexParseTime (String.mk I) "%Y/%m/%d %H:%M:%S.%f" = .ok none := by
    apply regexParseTime_none
    rw [show (String.mk I).data = I from rfl, reMatch_chEq okS9 hFor]
    decide
  have hskA10 : regexParseTime (String.mk I) "%Y-%m-%d %H:%M:%S.%f" = .ok none := by
    apply regexParseTime_none
    rw [show (String.mk I).data = I from rfl, reMatch_chEq okS10 hFor]
    decide
  have hskA11 : regexParseTime (String.mk I) "%Y-%m-%d %H:%M:%S" = .ok none := by
    apply regexParseTime_none
    rw [show (String.mk I).data = I from rfl, reMatch_chEq okS11 hFor]
    decide
  have hskA12 : regexParseTime (String.mk I) "%Y-%m-%d %H:%M" = .ok none := by
    apply regexParseTime_none
    rw [show (String.mk I).data = I from rfl, reMatch_chEq okS12 hFor]
    decide
  have hskA13 : regexParseTime (String.mk I) "%Y-%b-%d %H:%M:%S" = .ok none := by
    apply regexParseTime_none
    rw [show (String.mk I).data = I from rfl, reMatch_chEq okS13 hFor]
    decide
  have hskA14 : regexParseTime (String.mk I) "%Y-%b-%d %H:%M" = .ok none := by
    apply regexParseTime_none
    rw [show (String.mk I).data = I from rfl, reMatch_chEq okS14 hFor]
    decide
  have hskA15 : regexParseTime (String.mk I) "%Y-%b-%d" = .ok none := by
    apply regexParseTime_none
    rw [show (String.mk I).data = I from rfl, reMatch_chEq okS15 hFor]
    decide
  have hskA16 : regexParseTime (String.mk I) "%Y-%m-%d" = .ok none := by
    apply regexParseTime_none
    rw [show (String.mk I).data = I from rfl, reMatch_chEq okS16 hFor]
    decide
  have hskA17 : regexParseTime (String.mk I) "%Y/%m/%d" = .ok none := by
    apply regexParseTime_none
    rw [show (String.mk I).data = I from rfl, reMatch_chEq okS17 hFor]
    decide
  have hre : reMatch (compileSunpy "%d-%b-%Y".data) I =
      some (11, [("day", (0, 2)), ("month_str", (3, 6)), ("year", (7, 11))]) := by
    rw [reMatch_chEq okS18 hFor]
    decide
  have hrp : regexParseTime (String.mk I) "%d-%b-%Y" =
      .ok (some (String.mk I, ⟨0, 0, 0⟩)) :=
    regexParseTime_noHour hre rfl
  have hmrun : mrun (compileStrp "%d-%b-%Y".data) I 0 [] =
      some (11, [("d", (0, 2)), ("b", (3, 6)), ("Y", (7, 11))]) := by
    rw [show compileStrp "%d-%b-%Y".data =
      [.grp "d" [[.one '3', .rng '0' '1'], [.rng '1' '2', .digit], [.one '0', .rng '1' '9'], [.rng '1' '9'], [.one ' ', .rng '1' '9']],
       .tst (.oneCI '-'),
       .grp "b" (monthAbbrs.map fun nm => nm.data.map CT.oneCI),
       .tst (.oneCI '-'),
       .grp "Y" [[.digit, .digit, .digit, .digit]]]
      from rfl, hIeq]
    apply stepd (by omega) (by omega)
    apply stepTst (by decide)
    apply stepb (by decide) (by decide)
    apply stepTst (by decide)
    apply stepY
    decide
  have hstrp : strptime (String.mk I) "%d-%b-%Y" =
      .ok ⟨y, 2, d, 0, 0, 0, 0⟩ := by
    rw [strptime, show (String.mk I).data = I from rfl]
    rw [hmrun]
    simp only [hlen, if_true]
    simp only [show groupSlice I [("d", (0, 2)), ("b", (3, 6)), ("Y", (7, 11))] "Y" =
        some (sliceL I 7 11) from rfl,
      show groupSlice I [("d", (0, 2)), ("b", (3, 6)), ("Y", (7, 11))] "m" =
        none from rfl,
      show groupSlice I [("d", (0, 2)), ("b", (3, 6)), ("Y", (7, 11))] "d" =
        some (sliceL I 0 2) from rfl,
      show groupSlice I [("d", (0, 2)), ("b", (3, 6)), ("Y", (7, 11))] "H" =
        none from rfl,
      show groupSlice I [("d", (0, 2)), ("b", (3, 6)), ("Y", (7, 11))] "M" =
        none from rfl,
      show groupSlice I [("d", (0, 2)), ("b", (3, 6)), ("Y", (7, 11))] "S" =
        none from rfl,
      show groupSlice I [("d", (0, 2)), ("b", (3, 6)), ("Y", (7, 11))] "f" =
        none from rfl,
      show groupSlice I [("d", (0, 2)), ("b", (3, 6)), ("Y", (7, 11))] "b" =
        some (sliceL I 3 6) from rfl,
      hsY,
      hsd,
      hsb,
      Option.map_some', Option.getD_some, Option.map_none', Option.getD_none]
    rw [digitsToNat_digits4 (by omega), show monthOfAbbr (monthCap 2) = 2 from by decide, digitsToNat_digits2 (by omega)]
    simp only [datetimeNew, hv, if_true]
  simp only [parseTime, TIME_FORMAT_LIST]
  rw [parseLoop_skip_none hskA0,
    parseLoop_skip_none hskA1,
    parseLoop_skip_none hskA2,
    parseLoop_skip_none hskA3,
    parseLoop_skip_none hskA4,
    parseLoop_skip_none hskA5,
    parseLoop_skip_none hskA6,
    parseLoop_skip_none hskA7,
    parseLoop_skip_none hskA8,
    parseLoop_skip_none hskA9,
    parseLoop_skip_none hskA10,
    parseLoop_skip_none hskA11,
    parseLoop_skip_none hskA12,
    parseLoop_skip_none hskA13,
    parseLoop_skip_none hskA14,
    parseLoop_skip_none hskA15,
    parseLoop_skip_none hskA16,
    parseLoop_skip_none hskA17,
    parseLoop_success hrp hstrp]
  exact dtAddTd_zero hv

theorem roundtrip18x3 (now : DT) (y d : Nat)
    (hv : validDT ⟨y, 3, d, 0, 0, 0, 0⟩ = true) :
    parseTime now (.str (String.mk
      (formatPattern "%d-%b-%Y".data ⟨y, 3, d, 0, 0, 0, 0⟩))) =
      .ok ⟨y, 3, d, 0, 0, 0, 0⟩ := by
  have hv2 := hv
  simp only [validDT, Bool.and_eq_true, decide_eq_true_eq] at hv2
  have hd31 : d ≤ 31 := by
    have := daysInMonth_le31 y 3
    omega
  set I := formatPattern "%d-%b-%Y".data
    (⟨y, 3, d, 0, 0, 0, 0⟩ : DT) with hI
  have hFor : List.Forall₂ chEq I
      (formatPattern "%d-%b-%Y".data ⟨1111, 3, 11, 11, 11, 11, 111111⟩) := by
    rw [hI]
    exact formatAux_chEq false _ (Or.inr rfl)
  have hIeq : I = digits2 d ++ '-' :: (monthCap 3 ++ '-' :: (digits4 y ++ [])) := by
    rw [hI]; rfl
  have hlen : I.length = 11 := by rw [hIeq]; rfl
  have hsY : sliceL I 7 11 = digits4 y := by rw [hIeq]; rfl
  have hsd : sliceL I 0 2 = digits2 d := by rw [hIeq]; rfl
  have hsb : sliceL I 3 6 = monthCap 3 := by rw [hIeq]; rfl
  have hskA0 : regexParseTime (String.mk I) "%Y-%m-%dT%H:%M:%S.%f" = .ok none := by
    apply regexParseTime_none
    rw [show (String.mk I).data = I from rfl, reMatch_chEq okS0 hFor]
    decide
  have hskA1 : regexParseTime (String.mk I) "%Y/%m/%dT%H:%M:%S.%f" = .ok none := by
    apply regexParseTime_none
    rw [show (String.mk I).data = I from rfl, reMatch_chEq okS1 hFor]
    decide
  have hskA2 : regexParseTime (String.mk I) "%Y-%m-%dT%H:%M:%S.%fZ" = .ok none := by
    apply regexParseTime_none
    rw [show (String.mk I).data = I from rfl, reMatch_chEq okS2 hFor]
    decide
  have hskA3 : regexParseTime (String.mk I) "%Y-%m-%dT%H:%M:%S" = .ok none := by
    apply regexParseTime_none
    rw [show (String.mk I).data = I from rfl, reMatch_chEq okS3 hFor]
    decide
  have hskA4 : regexParseTime (String.mk I) "%Y/%m/%dT%H:%M:%S" = .ok none := by
    apply regexParseTime_none
    rw [show (String.mk I).data = I from rfl, reMatch_chEq okS4 hFor]
    decide
  have hskA5 : regexParseTime (String.mk I) "%Y%m%dT%H%M%S.%f" = .ok none := by
    apply regexParseTime_none
    rw [show (String.mk I).data = I from rfl, reMatch_chEq okS5 hFor]
    decide
  have hskA6 : regexParseTime (String.mk I) "%Y%m%dT%H%M%S" = .ok none := by
    apply regexParseTime_none
    rw [show (String.mk I).data = I from rfl, reMatch_chEq okS6 hFor]
    decide
  have hskA7 : regexParseTime (String.mk I) "%Y/%m/%d %H:%M:%S" = .ok none := by
    apply regexParseTime_none
    rw [show (String.mk I).data = I from rfl, reMatch_chEq okS7 hFor]
    decide
  have hskA8 : regexParseTime (String.mk I) "%Y/%m/%d %H:%M" = .ok none := by
    apply regexParseTime_none
    rw [show (String.mk I).data = I from rfl, reMatch_chEq okS8 hFor]
    decide
  have hskA9 : regexParseTime (String.mk I) "%Y/%m/%d %H:%M:%S.%f" = .ok none := by
    apply regexParseTime_none
    rw [show (String.mk I).data = I from rfl, reMatch_chEq okS9 hFor]
    decide
  have hskA10 : regexParseTime (String.mk I) "%Y-%m-%d %H:%M:%S.%f" = .ok none := by
    apply regexParseTime_none
    rw [show (String.mk I).data = I from rfl, reMatch_chEq okS10 hFor]
    decide
  have hskA11 : regexParseTime (String.mk I) "%Y-%m-%d %H:%M:%S" = .ok none := by
    apply regexParseTime_none
    rw [show (String.mk I).data = I from rfl, reMatch_chEq okS11 hFor]
    decide
  have hskA12 : regexParseTime (String.mk I) "%Y-%m-%d %H:%M" = .ok none := by
    apply regexParseTime_none
    rw [show (String.mk I).data = I from rfl, reMatch_chEq okS12 hFor]
    decide
  have hskA13 : regexParseTime (String.mk I) "%Y-%b-%d %H:%M:%S" = .ok none := by
    apply regexParseTime_none
    rw [show (String.mk I).data = I from rfl, reMatch_chEq okS13 hFor]
    decide
  have hskA14 : regexParseTime (String.mk I) "%Y-%b-%d %H:%M" = .ok none := by
    apply regexParseTime_none
    rw [show (String.mk I).data = I from rfl, reMatch_chEq okS14 hFor]
    decide
  have hskA15 : regexParseTime (String.mk I) "%Y-%b-%d" = .ok none := by
    apply regexParseTime_none
    rw [show (String.mk I).data = I from rfl, reMatch_chEq okS15 hFor]
    decide
  have hskA16 : regexParseTime (String.mk I) "%Y-%m-%d" = .ok none := by
    apply regexParseTime_none
    rw [show (String.mk I).data = I from rfl, reMatch_chEq okS16 hFor]
    decide
  have hskA17 : regexParseTime (String.mk I) "%Y/%m/%d" = .ok none := by
    apply regexParseTime_none
    rw [show (String.mk I).data = I from rfl, reMatch_chEq okS17 hFor]
    decide
  have hre : reMatch (compileSunpy "%d-%b-%Y".data) I =
      some (11, [("day", (0, 2)), ("month_str", (3, 6)), ("year", (7, 11))]) := by
    rw [reMatch_chEq okS18 hFor]
    decide
  have hrp : regexParseTime (String.mk I) "%d-%b-%Y" =
      .ok (some (String.mk I, ⟨0, 0, 0⟩)) :=
    regexParseTime_noHour hre rfl
  have hmrun : mrun (compileStrp "%d-%b-%Y".data) I 0 [] =
      some (11, [("d", (0, 2)), ("b", (3, 6)), ("Y", (7, 11))]) := by
    rw [show compileStrp "%d-%b-%Y".data =
      [.grp "d" [[.one '3', .rng '0' '1'], [.rng '1' '2', .digit], [.one '0', .rng '1' '9'], [.rng '1' '9'], [.one ' ', .rng '1' '9']],
       .tst (.oneCI '-'),
       .grp "b" (monthAbbrs.map fun nm => nm.data.map CT.oneCI),
       .tst (.oneCI '-'),
       .grp "Y" [[.digit, .digit, .digit, .digit]]]
      from rfl, hIeq]
    apply stepd (by omega) (by omega)
    apply stepTst (by decide)
    apply stepb (by decide) (by decide)
    apply stepTst (by decide)
    apply stepY
    decide
  have hstrp : strptime (String.mk I) "%d-%b-%Y" =
      .ok ⟨y, 3, d, 0, 0, 0, 0⟩ := by
    rw [strptime, show (String.mk I).data = I from rfl]
    rw [hmrun]
    simp only [hlen, if_true]
    simp only [show groupSlice I [("d", (0, 2)), ("b", (3, 6)), ("Y", (7, 11))] "Y" =
        some (sliceL I 7 11) from rfl,
      show groupSlice I [("d", (0, 2)), ("b", (3, 6)), ("Y", (7, 11))] "m" =
        none from rfl,
      show groupSlice I [("d", (0, 2)), ("b", (3, 6)), ("Y", (7, 11))] "d" =
        some (sliceL I 0 2) from rfl,
      show groupSlice I [("d", (0, 2)), ("b", (3, 6)), ("Y", (7, 11))] "H" =
        none from rfl,
      show groupSlice I [("d", (0, 2)), ("b", (3, 6)), ("Y", (7, 11))] "M" =
        none from rfl,
      show groupSlice I [("d", (0, 2)), ("b", (3, 6)), ("Y", (7, 11))] "S" =
        none from rfl,
      show groupSlice I [("d", (0, 2)), ("b", (3, 6)), ("Y", (7, 11))] "f" =
        none from rfl,
      show groupSlice I [("d", (0, 2)), ("b", (3, 6)), ("Y", (7, 11))] "b" =
        some (sliceL I 3 6) from rfl,
      hsY,
      hsd,
      hsb,
      Option.map_some', Option.getD_some, Option.map_none', Option.getD_none]
    rw [digitsToNat_digits4 (by omega), show monthOfAbbr (monthCap 3) = 3 from by decide, digitsToNat_digits2 (by omega)]
    simp only [datetimeNew, hv, if_true]
  simp only [parseTime, TIME_FORMAT_LIST]
  rw [parseLoop_skip_none hskA0,
    parseLoop_skip_none hskA1,
    parseLoop_skip_none hskA2,
    parseLoop_skip_none hskA3,
    parseLoop_skip_none hskA4,
    parseLoop_skip_none hskA5,
    parseLoop_skip_none hskA6,
    parseLoop_skip_none hskA7,
    parseLoop_skip_none hskA8,
    parseLoop_skip_none hskA9,
    parseLoop_skip_none hskA10,
    parseLoop_skip_none hskA11,
    parseLoop_skip_none hskA12,
    parseLoop_skip_none hskA13,
    parseLoop_skip_none hskA14,
    parseLoop_skip_none hskA15,
    parseLoop_skip_none hskA16,
    parseLoop_skip_none hskA17,
    parseLoop_success hrp hstrp]
  exact dtAddTd_zero hv

theorem roundtrip18x4 (now : DT) (y d : Nat)
    (hv : validDT ⟨y, 4, d, 0, 0, 0, 0⟩ = true) :
    parseTime now (.str (String.mk
      (formatPattern "%d-%b-%Y".data ⟨y, 4, d, 0, 0, 0, 0⟩))) =
      .ok ⟨y, 4, d, 0, 0, 0, 0⟩ := by
  have hv2 := hv
  simp only [validDT, Bool.and_eq_true, decide_eq_true_eq] at hv2
  have hd31 : d ≤ 31 := by
    have := daysInMonth_le31 y 4
    omega
  set I := formatPattern "%d-%b-%Y".data
    (⟨y, 4, d, 0, 0, 0, 0⟩ : DT) with hI
  have hFor : List.Forall₂ chEq I
      (formatPattern "%d-%b-%Y".data ⟨1111, 4, 11, 11, 11, 11, 111111⟩) := by
    rw [hI]
    exact formatAux_chEq false _ (Or.inr rfl)
  have hIeq : I = digits2 d ++ '-' :: (monthCap 4 ++ '-' :: (digits4 y ++ [])) := by
    rw [hI]; rfl
  have hlen : I.length = 11 := by rw [hIeq]; rfl
  have hsY : sliceL I 7 11 = digits4 y := by rw [hIeq]; rfl
  have hsd : sliceL I 0 2 = digits2 d := by rw [hIeq]; rfl
  have hsb : sliceL I 3 6 = monthCap 4 := by rw [hIeq]; rfl
  have hskA0 : regexParseTime (String.mk I) "%Y-%m-%dT%H:%M:%S.%f" = .ok none := by
    apply regexParseTime_none
    rw [show (String.mk I).data = I from rfl, reMatch_chEq okS0 hFor]
    decide
  have hskA1 : regexParseTime (String.mk I) "%Y/%m/%dT%H:%M:%S.%f" = .ok none := by
    apply regexParseTime_none
    rw [show (String.mk I).data = I from rfl, reMatch_chEq okS1 hFor]
    decide
  have hskA2 : regexParseTime (String.mk I) "%Y-%m-%dT%H:%M:%S.%fZ" = .ok none := by
    apply regexParseTime_none
    rw [show (String.mk I).data = I from rfl, reMatch_chEq okS2 hFor]
    decide
  have hskA3 : regexParseTime (String.mk I) "%Y-%m-%dT%H:%M:%S" = .ok none := by
    apply regexParseTime_none
    rw [show (String.mk I).data = I from rfl, reMatch_chEq okS3 hFor]
    decide
  have hskA4 : regexParseTime (String.mk I) "%Y/%m/%dT%H:%M:%S" = .ok none := by
    apply regexParseTime_none
    rw [show (String.mk I).data = I from rfl, reMatch_chEq okS4 hFor]
    decide
  have hskA5 : regexParseTime (String.mk I) "%Y%m%dT%H%M%S.%f" = .ok none := by
    apply regexParseTime_none
    rw [show (String.mk I).data = I from rfl, reMatch_chEq okS5 hFor]
    decide
  have hskA6 : regexParseTime (String.mk I) "%Y%m%dT%H%M%S" = .ok none := by
    apply regexParseTime_none
    rw [show (String.mk I).data = I from rfl, reMatch_chEq okS6 hFor]
    decide
  have hskA7 : regexParseTime (String.mk I) "%Y/%m/%d %H:%M:%S" = .ok none := by
    apply regexParseTime_none
    rw [show (String.mk I).data = I from rfl, reMatch_chEq okS7 hFor]
    decide
  have hskA8 : regexParseTime (String.mk I) "%Y/%m/%d %H:%M" = .ok none := by
    apply regexParseTime_none
    rw [show (String.mk I).data = I from rfl, reMatch_chEq okS8 hFor]
    decide
  have hskA9 : regexParseTime (String.mk I) "%Y/%m/%d %H:%M:%S.%f" = .ok none := by
    apply regexParseTime_none
    rw [show (String.mk I).data = I from rfl, reMatch_chEq okS9 hFor]
    decide
  have hskA10 : regexParseTime (String.mk I) "%Y-%m-%d %H:%M:%S.%f" = .ok none := by
    apply regexParseTime_none
    rw [show (String.mk I).data = I from rfl, reMatch_chEq okS10 hFor]
    decide
  have hskA11 : regexParseTime (String.mk I) "%Y-%m-%d %H:%M:%S" = .ok none := by
    apply regexParseTime_none
    rw [show (String.mk I).data = I from rfl, reMatch_chEq okS11 hFor]
    decide
  have hskA12 : regexParseTime (String.mk I) "%Y-%m-%d %H:%M" = .ok none := by
    apply regexParseTime_none
    rw [show (String.mk I).data = I from rfl, reMatch_chEq okS12 hFor]
    decide
  have hskA13 : regexParseTime (String.mk I) "%Y-%b-%d %H:%M:%S" = .ok none := by
    apply regexParseTime_none
    rw [show (String.mk I).data = I from rfl, reMatch_chEq okS13 hFor]
    decide
  have hskA14 : regexParseTime (String.mk I) "%Y-%b-%d %H:%M" = .ok none := by
    apply regexParseTime_none
    rw [show (String.mk I).data = I from rfl, reMatch_chEq okS14 hFor]
    decide
  have hskA15 : regexParseTime (String.mk I) "%Y-%b-%d" = .ok none := by
    apply regexParseTime_none
    rw [show (String.mk I).data = I from rfl, reMatch_chEq okS15 hFor]
    decide
  have hskA16 : regexParseTime (String.mk I) "%Y-%m-%d" = .ok none := by
    apply regexParseTime_none
    rw [show (String.mk I).data = I from rfl, reMatch_chEq okS16 hFor]
    decide
  have hskA17 : regexParseTime (String.mk I) "%Y/%m/%d" = .ok none := by
    apply regexParseTime_none
    rw [show (String.mk I).data = I from rfl, reMatch_chEq okS17 hFor]
    decide
  have hre : reMatch (compileSunpy "%d-%b-%Y".data) I =
      some (11, [("day", (0, 2)), ("month_str", (3, 6)), ("year", (7, 11))]) := by
    rw [reMatch_chEq okS18 hFor]
    decide
  have hrp : regexParseTime (String.mk I) "%d-%b-%Y" =
      .ok (some (String.mk I, ⟨0, 0, 0⟩)) :=
    regexParseTime_noHour hre rfl
  have hmrun : mrun (compileStrp "%d-%b-%Y".data) I 0 [] =
      some (11, [("d", (0, 2)), ("b", (3, 6)), ("Y", (7, 11))]) := by
    rw [show compileStrp "%d-%b-%Y".data =
      [.grp "d" [[.one '3', .rng '0' '1'], [.rng '1' '2', .digit], [.one '0', .rng '1' '9'], [.rng '1' '9'], [.one ' ', .rng '1' '9']],
       .tst (.oneCI '-'),
       .grp "b" (monthAbbrs.map fun nm => nm.data.map CT.oneCI),
       .tst (.oneCI '-'),
       .grp "Y" [[.digit, .digit, .digit, .digit]]]
      from rfl, hIeq]
    apply stepd (by omega) (by omega)
    apply stepTst (by decide)
    apply stepb (by decide) (by decide)
    apply stepTst (by decide)
    apply stepY
    decide
  have hstrp : strptime (String.mk I) "%d-%b-%Y" =
      .ok ⟨y, 4, d, 0, 0, 0, 0⟩ := by
    rw [strptime, show (String.mk I).data = I from rfl]
    rw [hmrun]
    simp only [hlen, if_true]
    simp only [show groupSlice I [("d", (0, 2)), ("b", (3, 6)), ("Y", (7, 11))] "Y" =
        some (sliceL I 7 11) from rfl,
      show groupSlice I [("d", (0, 2)), ("b", (3, 6)), ("Y", (7, 11))] "m" =
        none from rfl,
      show groupSlice I [("d", (0, 2)), ("b", (3, 6)), ("Y", (7, 11))] "d" =
        some (sliceL I 0 2) from rfl,
      show groupSlice I [("d", (0, 2)), ("b", (3, 6)), ("Y", (7, 11))] "H" =
        none from rfl,
      show groupSlice I [("d", (0, 2)), ("b", (3, 6)), ("Y", (7, 11))] "M" =
        none from rfl,
      show groupSlice I [("d", (0, 2)), ("b", (3, 6)), ("Y", (7, 11))] "S" =
        none from rfl,
      show groupSlice I [("d", (0, 2)), ("b", (3, 6)), ("Y", (7, 11))] "f" =
        none from rfl,
      show groupSlice I [("d", (0, 2)), ("b", (3, 6)), ("Y", (7, 11))] "b" =
        some (sliceL I 3 6) from rfl,
      hsY,
      hsd,
      hsb,
      Option.map_some', Option.getD_some, Option.map_none', Option.getD_none]
    rw [digitsToNat_digits4 (by omega), show monthOfAbbr (monthCap 4) = 4 from by decide, digitsToNat_digits2 (by omega)]
    simp only [datetimeNew, hv, if_true]
  simp only [parseTime, TIME_FORMAT_LIST]
  rw [parseLoop_skip_none hskA0,
    parseLoop_skip_none hskA1,
    parseLoop_skip_none hskA2,
    parseLoop_skip_none hskA3,
    parseLoop_skip_none hskA4,
    parseLoop_skip_none hskA5,
    parseLoop_skip_none hskA6,
    parseLoop_skip_none hskA7,
    parseLoop_skip_none hskA8,
    parseLoop_skip_none hskA9,
    parseLoop_skip_none hskA10,
    parseLoop_skip_none hskA11,
    parseLoop_skip_none hskA12,
    parseLoop_skip_none hskA13,
    parseLoop_skip_none hskA14,
    parseLoop_skip_none hskA15,
    parseLoop_skip_none hskA16,
    parseLoop_skip_none hskA17,
    parseLoop_success hrp hstrp]
  exact dtAddTd_zero hv

theorem roundtrip18x5 (now : DT) (y d : Nat)
    (hv : validDT ⟨y, 5, d, 0, 0, 0, 0⟩ = true) :
    parseTime now (.str (String.mk
      (formatPattern "%d-%b-%Y".data ⟨y, 5, d, 0, 0, 0, 0⟩))) =
      .ok ⟨y, 5, d, 0, 0, 0, 0⟩ := by
  have hv2 := hv
  simp only [validDT, Bool.and_eq_true, decide_eq_true_eq] at hv2
  have hd31 : d ≤ 31 := by
    have := daysInMonth_le31 y 5
    omega
  set I := formatPattern "%d-%b-%Y".data
    (⟨y, 5, d, 0, 0, 0, 0⟩ : DT) with hI
  have hFor : List.Forall₂ chEq I
      (formatPattern "%d-%b-%Y".data ⟨1111, 5, 11, 11, 11, 11, 111111⟩) := by
    rw [hI]
    exact formatAux_chEq false _ (Or.inr rfl)
  have hIeq : I = digits2 d ++ '-' :: (monthCap 5 ++ '-' :: (digits4 y ++ [])) := by
    rw [hI]; rfl
  have hlen : I.length = 11 := by rw [hIeq]; rfl
  have hsY : sliceL I 7 11 = digits4 y := by rw [hIeq]; rfl
  have hsd : sliceL I 0 2 = digits2 d := by rw [hIeq]; rfl
  have hsb : sliceL I 3 6 = monthCap 5 := by rw [hIeq]; rfl
  have hskA0 : regexParseTime (String.mk I) "%Y-%m-%dT%H:%M:%S.%f" = .ok none := by
    apply regexParseTime_none
    rw [show (String.mk I).data = I from rfl, reMatch_chEq okS0 hFor]
    decide
  have hskA1 : regexParseTime (String.mk I) "%Y/%m/%dT%H:%M:%S.%f" = .ok none := by
    apply regexParseTime_none
    rw [show (String.mk I).data = I from rfl, reMatch_chEq okS1 hFor]
    decide
  have hskA2 : regexParseTime (String.mk I) "%Y-%m-%dT%H:%M:%S.%fZ" = .ok none := by
    apply regexParseTime_none
    rw [show (String.mk I).data = I from rfl, reMatch_chEq okS2 hFor]
    decide
  have hskA3 : regexParseTime (String.mk I) "%Y-%m-%dT%H:%M:%S" = .ok none := by
    apply regexParseTime_none
    rw [show (String.mk I).data = I from rfl, reMatch_chEq okS3 hFor]
    decide
  have hskA4 : regexParseTime (String.mk I) "%Y/%m/%dT%H:%M:%S" = .ok none := by
    apply regexParseTime_none
    rw [show (String.mk I).data = I from rfl, reMatch_chEq okS4 hFor]
    decide
  have hskA5 : regexParseTime (String.mk I) "%Y%m%dT%H%M%S.%f" = .ok none := by
    apply regexParseTime_none
    rw [show (String.mk I).data = I from rfl, reMatch_chEq okS5 hFor]
    decide
  have hskA6 : regexParseTime (String.mk I) "%Y%m%dT%H%M%S" = .ok none := by
    apply regexParseTime_none
    rw [show (String.mk I).data = I from rfl, reMatch_chEq okS6 hFor]
    decide
  have hskA7 : regexParseTime (String.mk I) "%Y/%m/%d %H:%M:%S" = .ok none := by
    apply regexParseTime_none
    rw [show (String.mk I).data = I from rfl, reMatch_chEq okS7 hFor]
    decide
  have hskA8 : regexParseTime (String.mk I) "%Y/%m/%d %H:%M" = .ok none := by
    apply regexParseTime_none
    rw [show (String.mk I).data = I from rfl, reMatch_chEq okS8 hFor]
    decide
  have hskA9 : regexParseTime (String.mk I) "%Y/%m/%d %H:%M:%S.%f" = .ok none := by
    apply regexParseTime_none
    rw [show (String.mk I).data = I from rfl, reMatch_chEq okS9 hFor]
    decide
  have hskA10 : regexParseTime (String.mk I) "%Y-%m-%d %H:%M:%S.%f" = .ok none := by
    apply regexParseTime_none
    rw [show (String.mk I).data = I from rfl, reMatch_chEq okS10 hFor]
    decide
  have hskA11 : regexParseTime (String.mk I) "%Y-%m-%d %H:%M:%S" = .ok none := by
    apply regexParseTime_none
    rw [show (String.mk I).data = I from rfl, reMatch_chEq okS11 hFor]
    decide
  have hskA12 : regexParseTime (String.mk I) "%Y-%m-%d %H:%M" = .ok none := by
    apply regexParseTime_none
    rw [show (String.mk I).data = I from rfl, reMatch_chEq okS12 hFor]
    decide
  have hskA13 : regexParseTime (String.mk I) "%Y-%b-%d %H:%M:%S" = .ok none := by
    apply regexParseTime_none
    rw [show (String.mk I).data = I from rfl, reMatch_chEq okS13 hFor]
    decide
  have hskA14 : regexParseTime (String.mk I) "%Y-%b-%d %H:%M" = .ok none := by
    apply regexParseTime_none
    rw [show (String.mk I).data = I from rfl, reMatch_chEq okS14 hFor]
    decide
  have hskA15 : regexParseTime (String.mk I) "%Y-%b-%d" = .ok none := by
    apply regexParseTime_none
    rw [show (String.mk I).data = I from rfl, reMatch_chEq okS15 hFor]
    decide
  have hskA16 : regexParseTime (String.mk I) "%Y-%m-%d" = .ok none := by
    apply regexParseTime_none
    rw [show (String.mk I).data = I from rfl, reMatch_chEq okS16 hFor]
    decide
  have hskA17 : regexParseTime (String.mk I) "%Y/%m/%d" = .ok none := by
    apply regexParseTime_none
    rw [show (String.mk I).data = I from rfl, reMatch_chEq okS17 hFor]
    decide
  have hre : reMatch (compileSunpy "%d-%b-%Y".data) I =
      some (11, [("day", (0, 2)), ("month_str", (3, 6)), ("year", (7, 11))]) := by
    rw [reMatch_chEq okS18 hFor]
    decide
  have hrp : regexParseTime (String.mk I) "%d-%b-%Y" =
      .ok (some (String.mk I, ⟨0, 0, 0⟩)) :=
    regexParseTime_noHour hre rfl
  have hmrun : mrun (compileStrp "%d-%b-%Y".data) I 0 [] =
      some (11, [("d", (0, 2)), ("b", (3, 6)), ("Y", (7, 11))]) := by
    rw [show compileStrp "%d-%b-%Y".data =
      [.grp "d" [[.one '3', .rng '0' '1'], [.rng '1' '2', .digit], [.one '0', .rng '1' '9'], [.rng '1' '9'], [.one ' ', .rng '1' '9']],
       .tst (.oneCI '-'),
       .grp "b" (monthAbbrs.map fun nm => nm.data.map CT.oneCI),
       .tst (.oneCI '-'),
       .grp "Y" [[.digit, .digit, .digit, .digit]]]
      from rfl, hIeq]
    apply stepd (by omega) (by omega)
    apply stepTst (by decide)
    apply stepb (by decide) (by decide)
    apply stepTst (by decide)
    apply stepY
    decide
  have hstrp : strptime (String.mk I) "%d-%b-%Y" =
      .ok ⟨y, 5, d, 0, 0, 0, 0⟩ := by
    rw [strptime, show (String.mk I).data = I from rfl]
    rw [hmrun]
    simp only [hlen, if_true]
    simp only [show groupSlice I [("d", (0, 2)), ("b", (3, 6)), ("Y", (7, 11))] "Y" =
        some (sliceL I 7 11) from rfl,
      show groupSlice I [("d", (0, 2)), ("b", (3, 6)), ("Y", (7, 11))] "m" =
        none from rfl,
      show groupSlice I [("d", (0, 2)), ("b", (3, 6)), ("Y", (7, 11))] "d" =
        some (sliceL I 0 2) from rfl,
      show groupSlice I [("d", (0, 2)), ("b", (3, 6)), ("Y", (7, 11))] "H" =
        none from rfl,
      show groupSlice I [("d", (0, 2)), ("b", (3, 6)), ("Y", (7, 11))] "M" =
        none from rfl,
      show groupSlice I [("d", (0, 2)), ("b", (3, 6)), ("Y", (7, 11))] "S" =
        none from rfl,
      show groupSlice I [("d", (0, 2)), ("b", (3, 6)), ("Y", (7, 11))] "f" =
        none from rfl,
      show groupSlice I [("d", (0, 2)), ("b", (3, 6)), ("Y", (7, 11))] "b" =
        some (sliceL I 3 6) from rfl,
      hsY,
      hsd,
      hsb,
      Option.map_some', Option.getD_some, Option.map_none', Option.getD_none]
    rw [digitsToNat_digits4 (by omega), show monthOfAbbr (monthCap 5) = 5 from by decide, digitsToNat_digits2 (by omega)]
    simp only [datetimeNew, hv, if_true]
  simp only [parseTime, TIME_FORMAT_LIST]
  rw [parseLoop_skip_none hskA0,
    parseLoop_skip_none hskA1,
    parseLoop_skip_none hskA2,
    parseLoop_skip_none hskA3,
    parseLoop_skip_none hskA4,
    parseLoop_skip_none hskA5,
    parseLoop_skip_none hskA6,
    parseLoop_skip_none hskA7,
    parseLoop_skip_none hskA8,
    parseLoop_skip_none hskA9,
    parseLoop_skip_none hskA10,
    parseLoop_skip_none hskA11,
    parseLoop_skip_none hskA12,
    parseLoop_skip_none hskA13,
    parseLoop_skip_none hskA14,
    parseLoop_skip_none hskA15,
    parseLoop_skip_none hskA16,
    parseLoop_skip_none hskA17,
    parseLoop_success hrp hstrp]
  exact dtAddTd_zero hv

theorem roundtrip18x6 (now : DT) (y d : Nat)
    (hv : validDT ⟨y, 6, d, 0, 0, 0, 0⟩ = true) :
    parseTime now (.str (String.mk
      (formatPattern "%d-%b-%Y".data ⟨y, 6, d, 0, 0, 0, 0⟩))) =
      .ok ⟨y, 6, d, 0, 0, 0, 0⟩ := by
  have hv2 := hv
  simp only [validDT, Bool.and_eq_true, decide_eq_true_eq] at hv2
  have hd31 : d ≤ 31 := by
    have := daysInMonth_le31 y 6
    omega
  set I := formatPattern "%d-%b-%Y".data
    (⟨y, 6, d, 0, 0, 0, 0⟩ : DT) with hI
  have hFor : List.Forall₂ chEq I
      (formatPattern "%d-%b-%Y".data ⟨1111, 6, 11, 11, 11, 11, 111111⟩) := by
    rw [hI]
    exact formatAux_chEq false _ (Or.inr rfl)
  have hIeq : I = digits2 d ++ '-' :: (monthCap 6 ++ '-' :: (digits4 y ++ [])) := by
    rw [hI]; rfl
  have hlen : I.length = 11 := by rw [hIeq]; rfl
  have hsY : sliceL I 7 11 = digits4 y := by rw [hIeq]; rfl
  have hsd : sliceL I 0 2 = digits2 d := by rw [hIeq]; rfl
  have hsb : sliceL I 3 6 = monthCap 6 := by rw [hIeq]; rfl
  have hskA0 : regexParseTime (String.mk I) "%Y-%m-%dT%H:%M:%S.%f" = .ok none := by
    apply regexParseTime_none
    rw [show (String.mk I).data = I from rfl, reMatch_chEq okS0 hFor]
    decide
  have hskA1 : regexParseTime (String.mk I) "%Y/%m/%dT%H:%M:%S.%f" = .ok none := by
    apply regexParseTime_none
    rw [show (String.mk I).data = I from rfl, reMatch_chEq okS1 hFor]
    decide
  have hskA2 : regexParseTime (String.mk I) "%Y-%m-%dT%H:%M:%S.%fZ" = .ok none := by
    apply regexParseTime_none
    rw [show (String.mk I).data = I from rfl, reMatch_chEq okS2 hFor]
    decide
  have hskA3 : regexParseTime (String.mk I) "%Y-%m-%dT%H:%M:%S" = .ok none := by
    apply regexParseTime_none
    rw [show (String.mk I).data = I from rfl, reMatch_chEq okS3 hFor]
    decide
  have hskA4 : regexParseTime (String.mk I) "%Y/%m/%dT%H:%M:%S" = .ok none := by
    apply regexParseTime_none
    rw [show (String.mk I).data = I from rfl, reMatch_chEq okS4 hFor]
    decide
  have hskA5 : regexParseTime (String.mk I) "%Y%m%dT%H%M%S.%f" = .ok none := by
    apply regexParseTime_none
    rw [show (String.mk I).data = I from rfl, reMatch_chEq okS5 hFor]
    decide
  have hskA6 : regexParseTime (String.mk I) "%Y%m%dT%H%M%S" = .ok none := by
    apply regexParseTime_none
    rw [show (String.mk I).data = I from rfl, reMatch_chEq okS6 hFor]
    decide
  have hskA7 : regexParseTime (String.mk I) "%Y/%m/%d %H:%M:%S" = .ok none := by
    apply regexParseTime_none
    rw [show (String.mk I).data = I from rfl, reMatch_chEq okS7 hFor]
    decide
  have hskA8 : regexParseTime (String.mk I) "%Y/%m/%d %H:%M" = .ok none := by
    apply regexParseTime_none
    rw [show (String.mk I).data = I from rfl, reMatch_chEq okS8 hFor]
    decide
  have hskA9 : regexParseTime (String.mk I) "%Y/%m/%d %H:%M:%S.%f" = .ok none := by
    apply regexParseTime_none
    rw [show (String.mk I).data = I from rfl, reMatch_chEq okS9 hFor]
    decide
  have hskA10 : regexParseTime (String.mk I) "%Y-%m-%d %H:%M:%S.%f" = .ok none := by
    apply regexParseTime_none
    rw [show (String.mk I).data = I from rfl, reMatch_chEq okS10 hFor]
    decide
  have hskA11 : regexParseTime (String.mk I) "%Y-%m-%d %H:%M:%S" = .ok none := by
    apply regexParseTime_none
    rw [show (String.mk I).data = I from rfl, reMatch_chEq okS11 hFor]
    decide
  have hskA12 : regexParseTime (String.mk I) "%Y-%m-%d %H:%M" = .ok none := by
    apply regexParseTime_none
    rw [show (String.mk I).data = I from rfl, reMatch_chEq okS12 hFor]
    decide
  have hskA13 : regexParseTime (String.mk I) "%Y-%b-%d %H:%M:%S" = .ok none := by
    apply regexParseTime_none
    rw [show (String.mk I).data = I from rfl, reMatch_chEq okS13 hFor]
    decide
  have hskA14 : regexParseTime (String.mk I) "%Y-%b-%d %H:%M" = .ok none := by
    apply regexParseTime_none
    rw [show (String.mk I).data = I from rfl, reMatch_chEq okS14 hFor]
    decide
  have hskA15 : regexParseTime (String.mk I) "%Y-%b-%d" = .ok none := by
    apply regexParseTime_none
    rw [show (String.mk I).data = I from rfl, reMatch_chEq okS15 hFor]
    decide
  have hskA16 : regexParseTime (String.mk I) "%Y-%m-%d" = .ok none := by
    apply regexParseTime_none
    rw [show (String.mk I).data = I from rfl, reMatch_chEq okS16 hFor]
    decide
  have hskA17 : regexParseTime (String.mk I) "%Y/%m/%d" = .ok none := by
    apply regexParseTime_none
    rw [show (String.mk I).data = I from rfl, reMatch_chEq okS17 hFor]
    decide
  have hre : reMatch (compileSunpy "%d-%b-%Y".data) I =
      some (11, [("day", (0, 2)), ("month_str", (3, 6)), ("year", (7, 11))]) := by
    rw [reMatch_chEq okS18 hFor]
    decide
  have hrp : regexParseTime (String.mk I) "%d-%b-%Y" =
      .ok (some (String.mk I, ⟨0, 0, 0⟩)) :=
    regexParseTime_noHour hre rfl
  have hmrun : mrun (compileStrp "%d-%b-%Y".data) I 0 [] =
      some (11, [("d", (0, 2)), ("b", (3, 6)), ("Y", (7, 11))]) := by
    rw [show compileStrp "%d-%b-%Y".data =
      [.grp "d" [[.one '3', .rng '0' '1'], [.rng '1' '2', .digit], [.one '0', .rng '1' '9'], [.rng '1' '9'], [.one ' ', .rng '1' '9']],
       .tst (.oneCI '-'),
       .grp "b" (monthAbbrs.map fun nm => nm.data.map CT.oneCI),
       .tst (.oneCI '-'),
       .grp "Y" [[.digit, .digit, .digit, .digit]]]
      from rfl, hIeq]
    apply stepd (by omega) (by omega)
    apply stepTst (by decide)
    apply stepb (by decide) (by decide)
    apply stepTst (by decide)
    apply stepY
    decide
  have hstrp : strptime (String.mk I) "%d-%b-%Y" =
      .ok ⟨y, 6, d, 0, 0, 0, 0⟩ := by
    rw [strptime, show (String.mk I).data = I from rfl]
    rw [hmrun]
    simp only [hlen, if_true]
    simp only [show groupSlice I [("d", (0, 2)), ("b", (3, 6)), ("Y", (7, 11))] "Y" =
        some (sliceL I 7 11) from rfl,
      show groupSlice I [("d", (0, 2)), ("b", (3, 6)), ("Y", (7, 11))] "m" =
        none from rfl,
      show groupSlice I [("d", (0, 2)), ("b", (3, 6)), ("Y", (7, 11))] "d" =
        some (sliceL I 0 2) from rfl,
      show groupSlice I [("d", (0, 2)), ("b", (3, 6)), ("Y", (7, 11))] "H" =
        none from rfl,
      show groupSlice I [("d", (0, 2)), ("b", (3, 6)), ("Y", (7, 11))] "M" =
        none from rfl,
      show groupSlice I [("d", (0, 2)), ("b", (3, 6)), ("Y", (7, 11))] "S" =
        none from rfl,
      show groupSlice I [("d", (0, 2)), ("b", (3, 6)), ("Y", (7, 11))] "f" =
        none from rfl,
      show groupSlice I [("d", (0, 2)), ("b", (3, 6)), ("Y", (7, 11))] "b" =
        some (sliceL I 3 6) from rfl,
      hsY,
      hsd,
      hsb,
      Option.map_some', Option.getD_some, Option.map_none', Option.getD_none]
    rw [digitsToNat_digits4 (by omega), show monthOfAbbr (monthCap 6) = 6 from by decide, digitsToNat_digits2 (by omega)]
    simp only [datetimeNew, hv, if_true]
  simp only [parseTime, TIME_FORMAT_LIST]
  rw [parseLoop_skip_none hskA0,
    parseLoop_skip_none hskA1,
    parseLoop_skip_none hskA2,
    parseLoop_skip_none hskA3,
    parseLoop_skip_none hskA4,
    parseLoop_skip_none hskA5,
    parseLoop_skip_none hskA6,
    parseLoop_skip_none hskA7,
    parseLoop_skip_none hskA8,
    parseLoop_skip_none hskA9,
    parseLoop_skip_none hskA10,
    parseLoop_skip_none hskA11,
    parseLoop_skip_none hskA12,
    parseLoop_skip_none hskA13,
    parseLoop_skip_none hskA14,
    parseLoop_skip_none hskA15,
    parseLoop_skip_none hskA16,
    parseLoop_skip_none hskA17,
    parseLoop_success hrp hstrp]
  exact dtAddTd_zero hv

theorem roundtrip18x7 (now : DT) (y d : Nat)
    (hv : validDT ⟨y, 7, d, 0, 0, 0, 0⟩ = true) :
    parseTime now (.str (String.mk
      (formatPattern "%d-%b-%Y".data ⟨y, 7, d, 0, 0, 0, 0⟩))) =
      .ok ⟨y, 7, d, 0, 0, 0, 0⟩ := by
  have hv2 := hv
  simp only [validDT, Bool.and_eq_true, decide_eq_true_eq] at hv2
  have hd31 : d ≤ 31 := by
    have := daysInMonth_le31 y 7
    omega
  set I := formatPattern "%d-%b-%Y".data
    (⟨y, 7, d, 0, 0, 0, 0⟩ : DT) with hI
  have hFor : List.Forall₂ chEq I
      (formatPattern "%d-%b-%Y".data ⟨1111, 7, 11, 11, 11, 11, 111111⟩) := by
    rw [hI]
    exact formatAux_chEq false _ (Or.inr rfl)
  have hIeq : I = digits2 d ++ '-' :: (monthCap 7 ++ '-' :: (digits4 y ++ [])) := by
    rw [hI]; rfl
  have hlen : I.length = 11 := by rw [hIeq]; rfl
  have hsY : sliceL I 7 11 = digits4 y := by rw [hIeq]; rfl
  have hsd : sliceL I 0 2 = digits2 d := by rw [hIeq]; rfl
  have hsb : sliceL I 3 6 = monthCap 7 := by rw [hIeq]; rfl
  have hskA0 : regexParseTime (String.mk I) "%Y-%m-%dT%H:%M:%S.%f" = .ok none := by
    apply regexParseTime_none
    rw [show (String.mk I).data = I from rfl, reMatch_chEq okS0 hFor]
    decide
  have hskA1 : regexParseTime (String.mk I) "%Y/%m/%dT%H:%M:%S.%f" = .ok none := by
    apply regexParseTime_none
    rw [show (String.mk I).data = I from rfl, reMatch_chEq okS1 hFor]
    decide
  have hskA2 : regexParseTime (String.mk I) "%Y-%m-%dT%H:%M:%S.%fZ" = .ok none := by
    apply regexParseTime_none
    rw [show (String.mk I).data = I from rfl, reMatch_chEq okS2 hFor]
    decide
  have hskA3 : regexParseTime (String.mk I) "%Y-%m-%dT%H:%M:%S" = .ok none := by
    apply regexParseTime_none
    rw [show (String.mk I).data = I from rfl, reMatch_chEq okS3 hFor]
    decide
  have hskA4 : regexParseTime (String.mk I) "%Y/%m/%dT%H:%M:%S" = .ok none := by
    apply regexParseTime_none
    rw [show (String.mk I).data = I from rfl, reMatch_chEq okS4 hFor]
    decide
  have hskA5 : regexParseTime (String.mk I) "%Y%m%dT%H%M%S.%f" = .ok none := by
    apply regexParseTime_none
    rw [show (String.mk I).data = I from rfl, reMatch_chEq okS5 hFor]
    decide
  have hskA6 : regexParseTime (String.mk I) "%Y%m%dT%H%M%S" = .ok none := by
    apply regexParseTime_none
    rw [show (String.mk I).data = I from rfl, reMatch_chEq okS6 hFor]
    decide
  have hskA7 : regexParseTime (String.mk I) "%Y/%m/%d %H:%M:%S" = .ok none := by
    apply regexParseTime_none
    rw [show (String.mk I).data = I from rfl, reMatch_chEq okS7 hFor]
    decide
  have hskA8 : regexParseTime (String.mk I) "%Y/%m/%d %H:%M" = .ok none := by
    apply regexParseTime_none
    rw [show (String.mk I).data = I from rfl, reMatch_chEq okS8 hFor]
    decide
  have hskA9 : regexParseTime (String.mk I) "%Y/%m/%d %H:%M:%S.%f" = .ok none := by
    apply regexParseTime_none
    rw [show (String.mk I).data = I from rfl, reMatch_chEq okS9 hFor]
    decide
  have hskA10 : regexParseTime (String.mk I) "%Y-%m-%d %H:%M:%S.%f" = .ok none := by
    apply regexParseTime_none
    rw [show (String.mk I).data = I from rfl, reMatch_chEq okS10 hFor]
    decide
  have hskA11 : regexParseTime (String.mk I) "%Y-%m-%d %H:%M:%S" = .ok none := by
    apply regexParseTime_none
    rw [show (String.mk I).data = I from rfl, reMatch_chEq okS11 hFor]
    decide
  have hskA12 : regexParseTime (String.mk I) "%Y-%m-%d %H:%M" = .ok none := by
    apply regexParseTime_none
    rw [show (String.mk I).data = I from rfl, reMatch_chEq okS12 hFor]
    decide
  have hskA13 : regexParseTime (String.mk I) "%Y-%b-%d %H:%M:%S" = .ok none := by
    apply regexParseTime_none
    rw [show (String.mk I).data = I from rfl, reMatch_chEq okS13 hFor]
    decide
  have hskA14 : regexParseTime (String.mk I) "%Y-%b-%d %H:%M" = .ok none := by
    apply regexParseTime_none
    rw [show (String.mk I).data = I from rfl, reMatch_chEq okS14 hFor]
    decide
  have hskA15 : regexParseTime (String.mk I) "%Y-%b-%d" = .ok none := by
    apply regexParseTime_none
    rw [show (String.mk I).data = I from rfl, reMatch_chEq okS15 hFor]
    decide
  have hskA16 : regexParseTime (String.mk I) "%Y-%m-%d" = .ok none := by
    apply regexParseTime_none
    rw [show (String.mk I).data = I from rfl, reMatch_chEq okS16 hFor]
    decide
  have hskA17 : regexParseTime (String.mk I) "%Y/%m/%d" = .ok none := by
    apply regexParseTime_none
    rw [show (String.mk I).data = I from rfl, reMatch_chEq okS17 hFor]
    decide
  have hre : reMatch (compileSunpy "%d-%b-%Y".data) I =
      some (11, [("day", (0, 2)), ("month_str", (3, 6)), ("year", (7, 11))]) := by
    rw [reMatch_chEq okS18 hFor]
    decide
  have hrp : regexParseTime (String.mk I) "%d-%b-%Y" =
      .ok (some (String.mk I, ⟨0, 0, 0⟩)) :=
    regexParseTime_noHour hre rfl
  have hmrun : mrun (compileStrp "%d-%b-%Y".data) I 0 [] =
      some (11, [("d", (0, 2)), ("b", (3, 6)), ("Y", (7, 11))]) := by
    rw [show compileStrp "%d-%b-%Y".data =
      [.grp "d" [[.one '3', .rng '0' '1'], [.rng '1' '2', .digit], [.one '0', .rng '1' '9'], [.rng '1' '9'], [.one ' ', .rng '1' '9']],
       .tst (.oneCI '-'),
       .grp "b" (monthAbbrs.map fun nm => nm.data.map CT.oneCI),
       .tst (.oneCI '-'),
       .grp "Y" [[.digit, .digit, .digit, .digit]]]
      from rfl, hIeq]
    apply stepd (by omega) (by omega)
    apply stepTst (by decide)
    apply stepb (by decide) (by decide)
    apply stepTst (by decide)
    apply stepY
    decide
  have hstrp : strptime (String.mk I) "%d-%b-%Y" =
      .ok ⟨y, 7, d, 0, 0, 0, 0⟩ := by
    rw [strptime, show (String.mk I).data = I from rfl]
    rw [hmrun]
    simp only [hlen, if_true]
    simp only [show groupSlice I [("d", (0, 2)), ("b", (3, 6)), ("Y", (7, 11))] "Y" =
        some (sliceL I 7 11) from rfl,
      show groupSlice I [("d", (0, 2)), ("b", (3, 6)), ("Y", (7, 11))] "m" =
        none from rfl,
      show groupSlice I [("d", (0, 2)), ("b", (3, 6)), ("Y", (7, 11))] "d" =
        some (sliceL I 0 2) from rfl,
      show groupSlice I [("d", (0, 2)), ("b", (3, 6)), ("Y", (7, 11))] "H" =
        none from rfl,
      show groupSlice I [("d", (0, 2)), ("b", (3, 6)), ("Y", (7, 11))] "M" =
        none from rfl,
      show groupSlice I [("d", (0, 2)), ("b", (3, 6)), ("Y", (7, 11))] "S" =
        none from rfl,
      show groupSlice I [("d", (0, 2)), ("b", (3, 6)), ("Y", (7, 11))] "f" =
        none from rfl,
      show groupSlice I [("d", (0, 2)), ("b", (3, 6)), ("Y", (7, 11))] "b" =
        some (sliceL I 3 6) from rfl,
      hsY,
      hsd,
      hsb,
      Option.map_some', Option.getD_some, Option.map_none', Option.getD_none]
    rw [digitsToNat_digits4 (by omega), show monthOfAbbr (monthCap 7) = 7 from by decide, digitsToNat_digits2 (by omega)]
    simp only [datetimeNew, hv, if_true]
  simp only [parseTime, TIME_FORMAT_LIST]
  rw [parseLoop_skip_none hskA0,
    parseLoop_skip_none hskA1,
    parseLoop_skip_none hskA2,
    parseLoop_skip_none hskA3,
    parseLoop_skip_none hskA4,
    parseLoop_skip_none hskA5,
    parseLoop_skip_none hskA6,
    parseLoop_skip_none hskA7,
    parseLoop_skip_none hskA8,
    parseLoop_skip_none hskA9,
    parseLoop_skip_none hskA10,
    parseLoop_skip_none hskA11,
    parseLoop_skip_none hskA12,
    parseLoop_skip_none hskA13,
    parseLoop_skip_none hskA14,
    parseLoop_skip_none hskA15,
    parseLoop_skip_none hskA16,
    parseLoop_skip_none hskA17,
    parseLoop_success hrp hstrp]
  exact dtAddTd_zero hv

theorem roundtrip18x8 (now : DT) (y d : Nat)
    (hv : validDT ⟨y, 8, d, 0, 0, 0, 0⟩ = true) :
    parseTime now (.str (String.mk
      (formatPattern "%d-%b-%Y".data ⟨y, 8, d, 0, 0, 0, 0⟩))) =
      .ok ⟨y, 8, d, 0, 0, 0, 0⟩ := by
  have hv2 := hv
  simp only [validDT, Bool.and_eq_true, decide_eq_true_eq] at hv2
  have hd31 : d ≤ 31 := by
    have := daysInMonth_le31 y 8
    omega
  set I := formatPattern "%d-%b-%Y".data
    (⟨y, 8, d, 0, 0, 0, 0⟩ : DT) with hI
  have hFor : List.Forall₂ chEq I
      (formatPattern "%d-%b-%Y".data ⟨1111, 8, 11, 11, 11, 11, 111111⟩) := by
    rw [hI]
    exact formatAux_chEq false _ (Or.inr rfl)
  have hIeq : I = digits2 d ++ '-' :: (monthCap 8 ++ '-' :: (digits4 y ++ [])) := by
    rw [hI]; rfl
  have hlen : I.length = 11 := by rw [hIeq]; rfl
  have hsY : sliceL I 7 11 = digits4 y := by rw [hIeq]; rfl
  have hsd : sliceL I 0 2 = digits2 d := by rw [hIeq]; rfl
  have hsb : sliceL I 3 6 = monthCap 8 := by rw [hIeq]; rfl
  have hskA0 : regexParseTime (String.mk I) "%Y-%m-%dT%H:%M:%S.%f" = .ok none := by
    apply regexParseTime_none
    rw [show (String.mk I).data = I from rfl, reMatch_chEq okS0 hFor]
    decide
  have hskA1 : regexParseTime (String.mk I) "%Y/%m/%dT%H:%M:%S.%f" = .ok none := by
    apply regexParseTime_none
    rw [show (String.mk I).data = I from rfl, reMatch_chEq okS1 hFor]
    decide
  have hskA2 : regexParseTime (String.mk I) "%Y-%m-%dT%H:%M:%S.%fZ" = .ok none := by
    apply regexParseTime_none
    rw [show (String.mk I).data = I from rfl, reMatch_chEq okS2 hFor]
    decide
  have hskA3 : regexParseTime (String.mk I) "%Y-%m-%dT%H:%M:%S" = .ok none := by
    apply regexParseTime_none
    rw [show (String.mk I).data = I from rfl, reMatch_chEq okS3 hFor]
    decide
  have hskA4 : regexParseTime (String.mk I) "%Y/%m/%dT%H:%M:%S" = .ok none := by
    apply regexParseTime_none
    rw [show (String.mk I).data = I from rfl, reMatch_chEq okS4 hFor]
    decide
  have hskA5 : regexParseTime (String.mk I) "%Y%m%dT%H%M%S.%f" = .ok none := by
    apply regexParseTime_none
    rw [show (String.mk I).data = I from rfl, reMatch_chEq okS5 hFor]
    decide
  have hskA6 : regexParseTime (String.mk I) "%Y%m%dT%H%M%S" = .ok none := by
    apply regexParseTime_none
    rw [show (String.mk I).data = I from rfl, reMatch_chEq okS6 hFor]
    decide
  have hskA7 : regexParseTime (String.mk I) "%Y/%m/%d %H:%M:%S" = .ok none := by
    apply regexParseTime_none
    rw [show (String.mk I).data = I from rfl, reMatch_chEq okS7 hFor]
    decide
  have hskA8 : regexParseTime (String.mk I) "%Y/%m/%d %H:%M" = .ok none := by
    apply regexParseTime_none
    rw [show (String.mk I).data = I from rfl, reMatch_chEq okS8 hFor]
    decide
  have hskA9 : regexParseTime (String.mk I) "%Y/%m/%d %H:%M:%S.%f" = .ok none := by
    apply regexParseTime_none
    rw [show (String.mk I).data = I from rfl, reMatch_chEq okS9 hFor]
    decide
  have hskA10 : regexParseTime (String.mk I) "%Y-%m-%d %H:%M:%S.%f" = .ok none := by
    apply regexParseTime_none
    rw [show (String.mk I).data = I from rfl, reMatch_chEq okS10 hFor]
    decide
  have hskA11 : regexParseTime (String.mk I) "%Y-%m-%d %H:%M:%S" = .ok none := by
    apply regexParseTime_none
    rw [show (String.mk I).data = I from rfl, reMatch_chEq okS11 hFor]
    decide
  have hskA12 : regexParseTime (String.mk I) "%Y-%m-%d %H:%M" = .ok none := by
    apply regexParseTime_none
    rw [show (String.mk I).data = I from rfl, reMatch_chEq okS12 hFor]
    decide
  have hskA13 : regexParseTime (String.mk I) "%Y-%b-%d %H:%M:%S" = .ok none := by
    apply regexParseTime_none
    rw [show (String.mk I).data = I from rfl, reMatch_chEq okS13 hFor]
    decide
  have hskA14 : regexParseTime (String.mk I) "%Y-%b-%d %H:%M" = .ok none := by
    apply regexParseTime_none
    rw [show (String.mk I).data = I from rfl, reMatch_chEq okS14 hFor]
    decide
  have hskA15 : regexParseTime (String.mk I) "%Y-%b-%d" = .ok none := by
    apply regexParseTime_none
    rw [show (String.mk I).data = I from rfl, reMatch_chEq okS15 hFor]
    decide
  have hskA16 : regexParseTime (String.mk I) "%Y-%m-%d" = .ok none := by
    apply regexParseTime_none
    rw [show (String.mk I).data = I from rfl, reMatch_chEq okS16 hFor]
    decide
  have hskA17 : regexParseTime (String.mk I) "%Y/%m/%d" = .ok none := by
    apply regexParseTime_none
    rw [show (String.mk I).data = I from rfl, reMatch_chEq okS17 hFor]
    decide
  have hre : reMatch (compileSunpy "%d-%b-%Y".data) I =
      some (11, [("day", (0, 2)), ("month_str", (3, 6)), ("year", (7, 11))]) := by
    rw [reMatch_chEq okS18 hFor]
    decide
  have hrp : regexParseTime (String.mk I) "%d-%b-%Y" =
      .ok (some (String.mk I, ⟨0, 0, 0⟩)) :=
    regexParseTime_noHour hre rfl
  have hmrun : mrun (compileStrp "%d-%b-%Y".data) I 0 [] =
      some (11, [("d", (0, 2)), ("b", (3, 6)), ("Y", (7, 11))]) := by
    rw [show compileStrp "%d-%b-%Y".data =
      [.grp "d" [[.one '3', .rng '0' '1'], [.rng '1' '2', .digit], [.one '0', .rng '1' '9'], [.rng '1' '9'], [.one ' ', .rng '1' '9']],
       .tst (.oneCI '-'),
       .grp "b" (monthAbbrs.map fun nm => nm.data.map CT.oneCI),
       .tst (.oneCI '-'),
       .grp "Y" [[.digit, .digit, .digit, .digit]]]
      from rfl, hIeq]
    apply stepd (by omega) (by omega)
    apply stepTst (by decide)
    apply stepb (by decide) (by decide)
    apply stepTst (by decide)
    apply stepY
    decide
  have hstrp : strptime (String.mk I) "%d-%b-%Y" =
      .ok ⟨y, 8, d, 0, 0, 0, 0⟩ := by
    rw [strptime, show (String.mk I).data = I from rfl]
    rw [hmrun]
    simp only [hlen, if_true]
    simp only [show groupSlice I [("d", (0, 2)), ("b", (3, 6)), ("Y", (7, 11))] "Y" =
        some (sliceL I 7 11) from rfl,
      show groupSlice I [("d", (0, 2)), ("b", (3, 6)), ("Y", (7, 11))] "m" =
        none from rfl,
      show groupSlice I [("d", (0, 2)), ("b", (3, 6)), ("Y", (7, 11))] "d" =
        some (sliceL I 0 2) from rfl,
      show groupSlice I [("d", (0, 2)), ("b", (3, 6)), ("Y", (7, 11))] "H" =
        none from rfl,
      show groupSlice I [("d", (0, 2)), ("b", (3, 6)), ("Y", (7, 11))] "M" =
        none from rfl,
      show groupSlice I [("d", (0, 2)), ("b", (3, 6)), ("Y", (7, 11))] "S" =
        none from rfl,
      show groupSlice I [("d", (0, 2)), ("b", (3, 6)), ("Y", (7, 11))] "f" =
        none from rfl,
      show groupSlice I [("d", (0, 2)), ("b", (3, 6)), ("Y", (7, 11))] "b" =
        some (sliceL I 3 6) from rfl,
      hsY,
      hsd,
      hsb,
      Option.map_some', Option.getD_some, Option.map_none', Option.getD_none]
    rw [digitsToNat_digits4 (by omega), show monthOfAbbr (monthCap 8) = 8 from by decide, digitsToNat_digits2 (by omega)]
    simp only [datetimeNew, hv, if_true]
  simp only [parseTime, TIME_FORMAT_LIST]
  rw [parseLoop_skip_none hskA0,
    parseLoop_skip_none hskA1,
    parseLoop_skip_none hskA2,
    parseLoop_skip_none hskA3,
    parseLoop_skip_none hskA4,
    parseLoop_skip_none hskA5,
    parseLoop_skip_none hskA6,
    parseLoop_skip_none hskA7,
    parseLoop_skip_none hskA8,
    parseLoop_skip_none hskA9,
    parseLoop_skip_none hskA10,
    parseLoop_skip_none hskA11,
    parseLoop_skip_none hskA12,
    parseLoop_skip_none hskA13,
    parseLoop_skip_none hskA14,
    parseLoop_skip_none hskA15,
    parseLoop_skip_none hskA16,
    parseLoop_skip_none hskA17,
    parseLoop_success hrp hstrp]
  exact dtAddTd_zero hv

theorem roundtrip18x9 (now : DT) (y d : Nat)
    (hv : validDT ⟨y, 9, d, 0, 0, 0, 0⟩ = true) :
    parseTime now (.str (String.mk
      (formatPattern "%d-%b-%Y".data ⟨y, 9, d, 0, 0, 0, 0⟩))) =
      .ok ⟨y, 9, d, 0, 0, 0, 0⟩ := by
  have hv2 := hv
  simp only [validDT, Bool.and_eq_true, decide_eq_true_eq] at hv2
  have hd31 : d ≤ 31 := by
    have := daysInMonth_le31 y 9
    omega
  set I := formatPattern "%d-%b-%Y".data
    (⟨y, 9, d, 0, 0, 0, 0⟩ : DT) with hI
  have hFor : List.Forall₂ chEq I
      (formatPattern "%d-%b-%Y".data ⟨1111, 9, 11, 11, 11, 11, 111111⟩) := by
    rw [hI]
    exact formatAux_chEq false _ (Or.inr rfl)
  have hIeq : I = digits2 d ++ '-' :: (monthCap 9 ++ '-' :: (digits4 y ++ [])) := by
    rw [hI]; rfl
  have hlen : I.length = 11 := by rw [hIeq]; rfl
  have hsY : sliceL I 7 11 = digits4 y := by rw [hIeq]; rfl
  have hsd : sliceL I 0 2 = digits2 d := by rw [hIeq]; rfl
  have hsb : sliceL I 3 6 = monthCap 9 := by rw [hIeq]; rfl
  have hskA0 : regexParseTime (String.mk I) "%Y-%m-%dT%H:%M:%S.%f" = .ok none := by
    apply regexParseTime_none
    rw [show (String.mk I).data = I from rfl, reMatch_chEq okS0 hFor]
    decide
  have hskA1 : regexParseTime (String.mk I) "%Y/%m/%dT%H:%M:%S.%f" = .ok none := by
    apply regexParseTime_none
    rw [show (String.mk I).data = I from rfl, reMatch_chEq okS1 hFor]
    decide
  have hskA2 : regexParseTime (String.mk I) "%Y-%m-%dT%H:%M:%S.%fZ" = .ok none := by
    apply regexParseTime_none
    rw [show (String.mk I).data = I from rfl, reMatch_chEq okS2 hFor]
    decide
  have hskA3 : regexParseTime (String.mk I) "%Y-%m-%dT%H:%M:%S" = .ok none := by
    apply regexParseTime_none
    rw [show (String.mk I).data = I from rfl, reMatch_chEq okS3 hFor]
    decide
  have hskA4 : regexParseTime (String.mk I) "%Y/%m/%dT%H:%M:%S" = .ok none := by
    apply regexParseTime_none
    rw [show (String.mk I).data = I from rfl, reMatch_chEq okS4 hFor]
    decide
  have hskA5 : regexParseTime (String.mk I) "%Y%m%dT%H%M%S.%f" = .ok none := by
    apply regexParseTime_none
    rw [show (String.mk I).data = I from rfl, reMatch_chEq okS5 hFor]
    decide
  have hskA6 : regexParseTime (String.mk I) "%Y%m%dT%H%M%S" = .ok none := by
    apply regexParseTime_none
    rw [show (String.mk I).data = I from rfl, reMatch_chEq okS6 hFor]
    decide
  have hskA7 : regexParseTime (String.mk I) "%Y/%m/%d %H:%M:%S" = .ok none := by
    apply regexParseTime_none
    rw [show (String.mk I).data = I from rfl, reMatch_chEq okS7 hFor]
    decide
  have hskA8 : regexParseTime (String.mk I) "%Y/%m/%d %H:%M" = .ok none := by
    apply regexParseTime_none
    rw [show (String.mk I).data = I from rfl, reMatch_chEq okS8 hFor]
    decide
  have hskA9 : regexParseTime (String.mk I) "%Y/%m/%d %H:%M:%S.%f" = .ok none := by
    apply regexParseTime_none
    rw [show (String.mk I).data = I from rfl, reMatch_chEq okS9 hFor]
    decide
  have hskA10 : regexParseTime (String.mk I) "%Y-%m-%d %H:%M:%S.%f" = .ok none := by
    apply regexParseTime_none
    rw [show (String.mk I).data = I from rfl, reMatch_chEq okS10 hFor]
    decide
  have hskA11 : regexParseTime (String.mk I) "%Y-%m-%d %H:%M:%S" = .ok none := by
    apply regexParseTime_none
    rw [show (String.mk I).data = I from rfl, reMatch_chEq okS11 hFor]
    decide
  have hskA12 : regexParseTime (String.mk I) "%Y-%m-%d %H:%M" = .ok none := by
    apply regexParseTime_none
    rw [show (String.mk I).data = I from rfl, reMatch_chEq okS12 hFor]
    decide
  have hskA13 : regexParseTime (String.mk I) "%Y-%b-%d %H:%M:%S" = .ok none := by
    apply regexParseTime_none
    rw [show (String.mk I).data = I from rfl, reMatch_chEq okS13 hFor]
    decide
  have hskA14 : regexParseTime (String.mk I) "%Y-%b-%d %H:%M" = .ok none := by
    apply regexParseTime_none
    rw [show (String.mk I).data = I from rfl, reMatch_chEq okS14 hFor]
    decide
  have hskA15 : regexParseTime (String.mk I) "%Y-%b-%d" = .ok none := by
    apply regexParseTime_none
    rw [show (String.mk I).data = I from rfl, reMatch_chEq okS15 hFor]
    decide
  have hskA16 : regexParseTime (String.mk I) "%Y-%m-%d" = .ok none := by
    apply regexParseTime_none
    rw [show (String.mk I).data = I from rfl, reMatch_chEq okS16 hFor]
    decide
  have hskA17 : regexParseTime (String.mk I) "%Y/%m/%d" = .ok none := by
    apply regexParseTime_none
    rw [show (String.mk I).data = I from rfl, reMatch_chEq okS17 hFor]
    decide
  have hre : reMatch (compileSunpy "%d-%b-%Y".data) I =
      some (11, [("day", (0, 2)), ("month_str", (3, 6)), ("year", (7, 11))]) := by
    rw [reMatch_chEq okS18 hFor]
    decide
  have hrp : regexParseTime (String.mk I) "%d-%b-%Y" =
      .ok (some (String.mk I, ⟨0, 0, 0⟩)) :=
    regexParseTime_noHour hre rfl
  have hmrun : mrun (compileStrp "%d-%b-%Y".data) I 0 [] =
      some (11, [("d", (0, 2)), ("b", (3, 6)), ("Y", (7, 11))]) := by
    rw [show compileStrp "%d-%b-%Y".data =
      [.grp "d" [[.one '3', .rng '0' '1'], [.rng '1' '2', .digit], [.one '0', .rng '1' '9'], [.rng '1' '9'], [.one ' ', .rng '1' '9']],
       .tst (.oneCI '-'),
       .grp "b" (monthAbbrs.map fun nm => nm.data.map CT.oneCI),
       .tst (.oneCI '-'),
       .grp "Y" [[.digit, .digit, .digit, .digit]]]
      from rfl, hIeq]
    apply stepd (by omega) (by omega)
    apply stepTst (by decide)
    apply stepb (by decide) (by decide)
    apply stepTst (by decide)
    apply stepY
    decide
  have hstrp : strptime (String.mk I) "%d-%b-%Y" =
      .ok ⟨y, 9, d, 0, 0, 0, 0⟩ := by
    rw [strptime, show (String.mk I).data = I from rfl]
    rw [hmrun]
    simp only [hlen, if_true]
    simp only [show groupSlice I [("d", (0, 2)), ("b", (3, 6)), ("Y", (7, 11))] "Y" =
        some (sliceL I 7 11) from rfl,
      show groupSlice I [("d", (0, 2)), ("b", (3, 6)), ("Y", (7, 11))] "m" =
        none from rfl,
      show groupSlice I [("d", (0, 2)), ("b", (3, 6)), ("Y", (7, 11))] "d" =
        some (sliceL I 0 2) from rfl,
      show groupSlice I [("d", (0, 2)), ("b", (3, 6)), ("Y", (7, 11))] "H" =
        none from rfl,
      show groupSlice I [("d", (0, 2)), ("b", (3, 6)), ("Y", (7, 11))] "M" =
        none from rfl,
      show groupSlice I [("d", (0, 2)), ("b", (3, 6)), ("Y", (7, 11))] "S" =
        none from rfl,
      show groupSlice I [("d", (0, 2)), ("b", (3, 6)), ("Y", (7, 11))] "f" =
        none from rfl,
      show groupSlice I [("d", (0, 2)), ("b", (3, 6)), ("Y", (7, 11))] "b" =
        some (sliceL I 3 6) from rfl,
      hsY,
      hsd,
      hsb,
      Option.map_some', Option.getD_some, Option.map_none', Option.getD_none]
    rw [digitsToNat_digits4 (by omega), show monthOfAbbr (monthCap 9) = 9 from by decide, digitsToNat_digits2 (by omega)]
    simp only [datetimeNew, hv, if_true]
  simp only [parseTime, TIME_FORMAT_LIST]
  rw [parseLoop_skip_none hskA0,
    parseLoop_skip_none hskA1,
    parseLoop_skip_none hskA2,
    parseLoop_skip_none hskA3,
    parseLoop_skip_none hskA4,
    parseLoop_skip_none hskA5,
    parseLoop_skip_none hskA6,
    parseLoop_skip_none hskA7,
    parseLoop_skip_none hskA8,
    parseLoop_skip_none hskA9,
    parseLoop_skip_none hskA10,
    parseLoop_skip_none hskA11,
    parseLoop_skip_none hskA12,
    parseLoop_skip_none hskA13,
    parseLoop_skip_none hskA14,
    parseLoop_skip_none hskA15,
    parseLoop_skip_none hskA16,
    parseLoop_skip_none hskA17,
    parseLoop_success hrp hstrp]
  exact dtAddTd_zero hv

theorem roundtrip18x10 (now : DT) (y d : Nat)
    (hv : validDT ⟨y, 10, d, 0, 0, 0, 0⟩ = true) :
    parseTime now (.str (String.mk
      (formatPattern "%d-%b-%Y".data ⟨y, 10, d, 0, 0, 0, 0⟩))) =
      .ok ⟨y, 10, d, 0, 0, 0, 0⟩ := by
  have hv2 := hv
  simp only [validDT, Bool.and_eq_true, decide_eq_true_eq] at hv2
  have hd31 : d ≤ 31 := by
    have := daysInMonth_le31 y 10
    omega
  set I := formatPattern "%d-%b-%Y".data
    (⟨y, 10, d, 0, 0, 0, 0⟩ : DT) with hI
  have hFor : List.Forall₂ chEq I
      (formatPattern "%d-%b-%Y".data ⟨1111, 10, 11, 11, 11, 11, 111111⟩) := by
    rw [hI]
    exact formatAux_chEq false _ (Or.inr rfl)
  have hIeq : I = digits2 d ++ '-' :: (monthCap 10 ++ '-' :: (digits4 y ++ [])) := by
    rw [hI]; rfl
  have hlen : I.length = 11 := by rw [hIeq]; rfl
  have hsY : sliceL I 7 11 = digits4 y := by rw [hIeq]; rfl
  have hsd : sliceL I 0 2 = digits2 d := by rw [hIeq]; rfl
  have hsb : sliceL I 3 6 = monthCap 10 := by rw [hIeq]; rfl
  have hskA0 : regexParseTime (String.mk I) "%Y-%m-%dT%H:%M:%S.%f" = .ok none := by
    apply regexParseTime_none
    rw [show (String.mk I).data = I from rfl, reMatch_chEq okS0 hFor]
    decide
  have hskA1 : regexParseTime (String.mk I) "%Y/%m/%dT%H:%M:%S.%f" = .ok none := by
    apply regexParseTime_none
    rw [show (String.mk I).data = I from rfl, reMatch_chEq okS1 hFor]
    decide
  have hskA2 : regexParseTime (String.mk I) "%Y-%m-%dT%H:%M:%S.%fZ" = .ok none := by
    apply regexParseTime_none
    rw [show (String.mk I).data = I from rfl, reMatch_chEq okS2 hFor]
    decide
  have hskA3 : regexParseTime (String.mk I) "%Y-%m-%dT%H:%M:%S" = .ok none := by
    apply regexParseTime_none
    rw [show (String.mk I).data = I from rfl, reMatch_chEq okS3 hFor]
    decide
  have hskA4 : regexParseTime (String.mk I) "%Y/%m/%dT%H:%M:%S" = .ok none := by
    apply regexParseTime_none
    rw [show (String.mk I).data = I from rfl, reMatch_chEq okS4 hFor]
    decide
  have hskA5 : regexParseTime (String.mk I) "%Y%m%dT%H%M%S.%f" = .ok none := by
    apply regexParseTime_none
    rw [show (String.mk I).data = I from rfl, reMatch_chEq okS5 hFor]
    decide
  have hskA6 : regexParseTime (String.mk I) "%Y%m%dT%H%M%S" = .ok none := by
    apply regexParseTime_none
    rw [show (String.mk I).data = I from rfl, reMatch_chEq okS6 hFor]
    decide
  have hskA7 : regexParseTime (String.mk I) "%Y/%m/%d %H:%M:%S" = .ok none := by
    apply regexParseTime_none
    rw [show (String.mk I).data = I from rfl, reMatch_chEq okS7 hFor]
    decide
  have hskA8 : regexParseTime (String.mk I) "%Y/%m/%d %H:%M" = .ok none := by
    apply regexParseTime_none
    rw [show (String.mk I).data = I from rfl, reMatch_chEq okS8 hFor]
    decide
  have hskA9 : regexParseTime (String.mk I) "%Y/%m/%d %H:%M:%S.%f" = .ok none := by
    apply regexParseTime_none
    rw [show (String.mk I).data = I from rfl, reMatch_chEq okS9 hFor]
    decide
  have hskA10 : regexParseTime (String.mk I) "%Y-%m-%d %H:%M:%S.%f" = .ok none := by
    apply regexParseTime_none
    rw [show (String.mk I).data = I from rfl, reMatch_chEq okS10 hFor]
    decide
  have hskA11 : regexParseTime (String.mk I) "%Y-%m-%d %H:%M:%S" = .ok none := by
    apply regexParseTime_none
    rw [show (String.mk I).data = I from rfl, reMatch_chEq okS11 hFor]
    decide
  have hskA12 : regexParseTime (String.mk I) "%Y-%m-%d %H:%M" = .ok none := by
    apply regexParseTime_none
    rw [show (String.mk I).data = I from rfl, reMatch_chEq okS12 hFor]
    decide
  have hskA13 : regexParseTime (String.mk I) "%Y-%b-%d %H:%M:%S" = .ok none := by
    apply regexParseTime_none
    rw [show (String.mk I).data = I from rfl, reMatch_chEq okS13 hFor]
    decide
  have hskA14 : regexParseTime (String.mk I) "%Y-%b-%d %H:%M" = .ok none := by
    apply regexParseTime_none
    rw [show (String.mk I).data = I from rfl, reMatch_chEq okS14 hFor]
    decide
  have hskA15 : regexParseTime (String.mk I) "%Y-%b-%d" = .ok none := by
    apply regexParseTime_none
    rw [show (String.mk I).data = I from rfl, reMatch_chEq okS15 hFor]
    decide
  have hskA16 : regexParseTime (String.mk I) "%Y-%m-%d" = .ok none := by
    apply regexParseTime_none
    rw [show (String.mk I).data = I from rfl, reMatch_chEq okS16 hFor]
    decide
  have hskA17 : regexParseTime (String.mk I) "%Y/%m/%d" = .ok none := by
    apply regexParseTime_none
    rw [show (String.mk I).data = I from rfl, reMatch_chEq okS17 hFor]
    decide
  have hre : reMatch (compileSunpy "%d-%b-%Y".data) I =
      some (11, [("day", (0, 2)), ("month_str", (3, 6)), ("year", (7, 11))]) := by
    rw [reMatch_chEq okS18 hFor]
    decide
  have hrp : regexParseTime (String.mk I) "%d-%b-%Y" =
      .ok (some (String.mk I, ⟨0, 0, 0⟩)) :=
    regexParseTime_noHour hre rfl
  have hmrun : mrun (compileStrp "%d-%b-%Y".data) I 0 [] =
      some (11, [("d", (0, 2)), ("b", (3, 6)), ("Y", (7, 11))]) := by
    rw [show compileStrp "%d-%b-%Y".data =
      [.grp "d" [[.one '3', .rng '0' '1'], [.rng '1' '2', .digit], [.one '0', .rng '1' '9'], [.rng '1' '9'], [.one ' ', .rng '1' '9']],
       .tst (.oneCI '-'),
       .grp "b" (monthAbbrs.map fun nm => nm.data.map CT.oneCI),
       .tst (.oneCI '-'),
       .grp "Y" [[.digit, .digit, .digit, .digit]]]
      from rfl, hIeq]
    apply stepd (by omega) (by omega)
    apply stepTst (by decide)
    apply stepb (by decide) (by decide)
    apply stepTst (by decide)
    apply stepY
    decide
  have hstrp : strptime (String.mk I) "%d-%b-%Y" =
      .ok ⟨y, 10, d, 0, 0, 0, 0⟩ := by
    rw [strptime, show (String.mk I).data = I from rfl]
    rw [hmrun]
    simp only [hlen, if_true]
    simp only [show groupSlice I [("d", (0, 2)), ("b", (3, 6)), ("Y", (7, 11))] "Y" =
        some (sliceL I 7 11) from rfl,
      show groupSlice I [("d", (0, 2)), ("b", (3, 6)), ("Y", (7, 11))] "m" =
        none from rfl,
      show groupSlice I [("d", (0, 2)), ("b", (3, 6)), ("Y", (7, 11))] "d" =
        some (sliceL I 0 2) from rfl,
      show groupSlice I [("d", (0, 2)), ("b", (3, 6)), ("Y", (7, 11))] "H" =
        none from rfl,
      show groupSlice I [("d", (0, 2)), ("b", (3, 6)), ("Y", (7, 11))] "M" =
        none from rfl,
      show groupSlice I [("d", (0, 2)), ("b", (3, 6)), ("Y", (7, 11))] "S" =
        none from rfl,
      show groupSlice I [("d", (0, 2)), ("b", (3, 6)), ("Y", (7, 11))] "f" =
        none from rfl,
      show groupSlice I [("d", (0, 2)), ("b", (3, 6)), ("Y", (7, 11))] "b" =
        some (sliceL I 3 6) from rfl,
      hsY,
      hsd,
      hsb,
      Option.map_some', Option.getD_some, Option.map_none', Option.getD_none]
    rw [digitsToNat_digits4 (by omega), show monthOfAbbr (monthCap 10) = 10 from by decide, digitsToNat_digits2 (by omega)]
    simp only [datetimeNew, hv, if_true]
  simp only [parseTime, TIME_FORMAT_LIST]
  rw [parseLoop_skip_none hskA0,
    parseLoop_skip_none hskA1,
    parseLoop_skip_none hskA2,
    parseLoop_skip_none hskA3,
    parseLoop_skip_none hskA4,
    parseLoop_skip_none hskA5,
    parseLoop_skip_none hskA6,
    parseLoop_skip_none hskA7,
    parseLoop_skip_none hskA8,
    parseLoop_skip_none hskA9,
    parseLoop_skip_none hskA10,
    parseLoop_skip_none hskA11,
    parseLoop_skip_none hskA12,
    parseLoop_skip_none hskA13,
    parseLoop_skip_none hskA14,
    parseLoop_skip_none hskA15,
    parseLoop_skip_none hskA16,
    parseLoop_skip_none hskA17,
    parseLoop_success hrp hstrp]
  exact dtAddTd_zero hv

theorem roundtrip18x11 (now : DT) (y d : Nat)
    (hv : validDT ⟨y, 11, d, 0, 0, 0, 0⟩ = true) :
    parseTime now (.str (String.mk
      (formatPattern "%d-%b-%Y".data ⟨y, 11, d, 0, 0, 0, 0⟩))) =
      .ok ⟨y, 11, d, 0, 0, 0, 0⟩ := by
  have hv2 := hv
  simp only [validDT, Bool.and_eq_true, decide_eq_true_eq] at hv2
  have hd31 : d ≤ 31 := by
    have := daysInMonth_le31 y 11
    omega
  set I := formatPattern "%d-%b-%Y".data
    (⟨y, 11, d, 0, 0, 0, 0⟩ : DT) with hI
  have hFor : List.Forall₂ chEq I
      (formatPattern "%d-%b-%Y".data ⟨1111, 11, 11, 11, 11, 11, 111111⟩) := by
    rw [hI]
    exact formatAux_chEq false _ (Or.inr rfl)
  have hIeq : I = digits2 d ++ '-' :: (monthCap 11 ++ '-' :: (digits4 y ++ [])) := by
    rw [hI]; rfl
  have hlen : I.length = 11 := by rw [hIeq]; rfl
  have hsY : sliceL I 7 11 = digits4 y := by rw [hIeq]; rfl
  have hsd : sliceL I 0 2 = digits2 d := by rw [hIeq]; rfl
  have hsb : sliceL I 3 6 = monthCap 11 := by rw [hIeq]; rfl
  have hskA0 : regexParseTime (String.mk I) "%Y-%m-%dT%H:%M:%S.%f" = .ok none := by
    apply regexParseTime_none
    rw [show (String.mk I).data = I from rfl, reMatch_chEq okS0 hFor]
    decide
  have hskA1 : regexParseTime (String.mk I) "%Y/%m/%dT%H:%M:%S.%f" = .ok none := by
    apply regexParseTime_none
    rw [show (String.mk I).data = I from rfl, reMatch_chEq okS1 hFor]
    decide
  have hskA2 : regexParseTime (String.mk I) "%Y-%m-%dT%H:%M:%S.%fZ" = .ok none := by
    apply regexParseTime_none
    rw [show (String.mk I).data = I from rfl, reMatch_chEq okS2 hFor]
    decide
  have hskA3 : regexParseTime (String.mk I) "%Y-%m-%dT%H:%M:%S" = .ok none := by
    apply regexParseTime_none
    rw [show (String.mk I).data = I from rfl, reMatch_chEq okS3 hFor]
    decide
  have hskA4 : regexParseTime (String.mk I) "%Y/%m/%dT%H:%M:%S" = .ok none := by
    apply regexParseTime_none
    rw [show (String.mk I).data = I from rfl, reMatch_chEq okS4 hFor]
    decide
  have hskA5 : regexParseTime (String.mk I) "%Y%m%dT%H%M%S.%f" = .ok none := by
    apply regexParseTime_none
    rw [show (String.mk I).data = I from rfl, reMatch_chEq okS5 hFor]
    decide
  have hskA6 : regexParseTime (String.mk I) "%Y%m%dT%H%M%S" = .ok none := by
    apply regexParseTime_none
    rw [show (String.mk I).data = I from rfl, reMatch_chEq okS6 hFor]
    decide
  have hskA7 : regexParseTime (String.mk I) "%Y/%m/%d %H:%M:%S" = .ok none := by
    apply regexParseTime_none
    rw [show (String.mk I).data = I from rfl, reMatch_chEq okS7 hFor]
    decide
  have hskA8 : regexParseTime (String.mk I) "%Y/%m/%d %H:%M" = .ok none := by
    apply regexParseTime_none
    rw [show (String.mk I).data = I from rfl, reMatch_chEq okS8 hFor]
    decide
  have hskA9 : regexParseTime (String.mk I) "%Y/%m/%d %H:%M:%S.%f" = .ok none := by
    apply regexParseTime_none
    rw [show (String.mk I).data = I from rfl, reMatch_chEq okS9 hFor]
    decide
  have hskA10 : regexParseTime (String.mk I) "%Y-%m-%d %H:%M:%S.%f" = .ok none := by
    apply regexParseTime_none
    rw [show (String.mk I).data = I from rfl, reMatch_chEq okS10 hFor]
    decide
  have hskA11 : regexParseTime (String.mk I) "%Y-%m-%d %H:%M:%S" = .ok none := by
    apply regexParseTime_none
    rw [show (String.mk I).data = I from rfl, reMatch_chEq okS11 hFor]
    decide
  have hskA12 : regexParseTime (String.mk I) "%Y-%m-%d %H:%M" = .ok none := by
    apply regexParseTime_none
    rw [show (String.mk I).data = I from rfl, reMatch_chEq okS12 hFor]
    decide
  have hskA13 : regexParseTime (String.mk I) "%Y-%b-%d %H:%M:%S" = .ok none := by
    apply regexParseTime_none
    rw [show (String.mk I).data = I from rfl, reMatch_chEq okS13 hFor]
    decide
  have hskA14 : regexParseTime (String.mk I) "%Y-%b-%d %H:%M" = .ok none := by
    apply regexParseTime_none
    rw [show (String.mk I).data = I from rfl, reMatch_chEq okS14 hFor]
    decide
  have hskA15 : regexParseTime (String.mk I) "%Y-%b-%d" = .ok none := by
    apply regexParseTime_none
    rw [show (String.mk I).data = I from rfl, reMatch_chEq okS15 hFor]
    decide
  have hskA16 : regexParseTime (String.mk I) "%Y-%m-%d" = .ok none := by
    apply regexParseTime_none
    rw [show (String.mk I).data = I from rfl, reMatch_chEq okS16 hFor]
    decide
  have hskA17 : regexParseTime (String.mk I) "%Y/%m/%d" = .ok none := by
    apply regexParseTime_none
    rw [show (String.mk I).data = I from rfl, reMatch_chEq okS17 hFor]
    decide
  have hre : reMatch (compileSunpy "%d-%b-%Y".data) I =
      some (11, [("day", (0, 2)), ("month_str", (3, 6)), ("year", (7, 11))]) := by
    rw [reMatch_chEq okS18 hFor]
    decide
  have hrp : regexParseTime (String.mk I) "%d-%b-%Y" =
      .ok (some (String.mk I, ⟨0, 0, 0⟩)) :=
    regexParseTime_noHour hre rfl
  have hmrun : mrun (compileStrp "%d-%b-%Y".data) I 0 [] =
      some (11, [("d", (0, 2)), ("b", (3, 6)), ("Y", (7, 11))]) := by
    rw [show compileStrp "%d-%b-%Y".data =
      [.grp "d" [[.one '3', .rng '0' '1'], [.rng '1' '2', .digit], [.one '0', .rng '1' '9'], [.rng '1' '9'], [.one ' ', .rng '1' '9']],
       .tst (.oneCI '-'),
       .grp "b" (monthAbbrs.map fun nm => nm.data.map CT.oneCI),
       .tst (.oneCI '-'),
       .grp "Y" [[.digit, .digit, .digit, .digit]]]
      from rfl, hIeq]
    apply stepd (by omega) (by omega)
    apply stepTst (by decide)
    apply stepb (by decide) (by decide)
    apply stepTst (by decide)
    apply stepY
    decide
  have hstrp : strptime (String.mk I) "%d-%b-%Y" =
      .ok ⟨y, 11, d, 0, 0, 0, 0⟩ := by
    rw [strptime, show (String.mk I).data = I from rfl]
    rw [hmrun]
    simp only [hlen, if_true]
    simp only [show groupSlice I [("d", (0, 2)), ("b", (3, 6)), ("Y", (7, 11))] "Y" =
        some (sliceL I 7 11) from rfl,
      show groupSlice I [("d", (0, 2)), ("b", (3, 6)), ("Y", (7, 11))] "m" =
        none from rfl,
      show groupSlice I [("d", (0, 2)), ("b", (3, 6)), ("Y", (7, 11))] "d" =
        some (sliceL I 0 2) from rfl,
      show groupSlice I [("d", (0, 2)), ("b", (3, 6)), ("Y", (7, 11))] "H" =
        none from rfl,
      show groupSlice I [("d", (0, 2)), ("b", (3, 6)), ("Y", (7, 11))] "M" =
        none from rfl,
      show groupSlice I [("d", (0, 2)), ("b", (3, 6)), ("Y", (7, 11))] "S" =
        none from rfl,
      show groupSlice I [("d", (0, 2)), ("b", (3, 6)), ("Y", (7, 11))] "f" =
        none from rfl,
      show groupSlice I [("d", (0, 2)), ("b", (3, 6)), ("Y", (7, 11))] "b" =
        some (sliceL I 3 6) from rfl,
      hsY,
      hsd,
      hsb,
      Option.map_some', Option.getD_some, Option.map_none', Option.getD_none]
    rw [digitsToNat_digits4 (by omega), show monthOfAbbr (monthCap 11) = 11 from by decide, digitsToNat_digits2 (by omega)]
    simp only [datetimeNew, hv, if_true]
  simp only [parseTime, TIME_FORMAT_LIST]
  rw [parseLoop_skip_none hskA0,
    parseLoop_skip_none hskA1,
    parseLoop_skip_none hskA2,
    parseLoop_skip_none hskA3,
    parseLoop_skip_none hskA4,
    parseLoop_skip_none hskA5,
    parseLoop_skip_none hskA6,
    parseLoop_skip_none hskA7,
    parseLoop_skip_none hskA8,
    parseLoop_skip_none hskA9,
    parseLoop_skip_none hskA10,
    parseLoop_skip_none hskA11,
    parseLoop_skip_none hskA12,
    parseLoop_skip_none hskA13,
    parseLoop_skip_none hskA14,
    parseLoop_skip_none hskA15,
    parseLoop_skip_none hskA16,
    parseLoop_skip_none hskA17,
    parseLoop_success hrp hstrp]
  exact dtAddTd_zero hv

theorem roundtrip18x12 (now : DT) (y d : Nat)
    (hv : validDT ⟨y, 12, d, 0, 0, 0, 0⟩ = true) :
    parseTime now (.str (String.mk
      (formatPattern "%d-%b-%Y".data ⟨y, 12, d, 0, 0, 0, 0⟩))) =
      .ok ⟨y, 12, d, 0, 0, 0, 0⟩ := by
  have hv2 := hv
  simp only [validDT, Bool.and_eq_true, decide_eq_true_eq] at hv2
  have hd31 : d ≤ 31 := by
    have := daysInMonth_le31 y 12
    omega
  set I := formatPattern "%d-%b-%Y".data
    (⟨y, 12, d, 0, 0, 0, 0⟩ : DT) with hI
  have hFor : List.Forall₂ chEq I
      (formatPattern "%d-%b-%Y".data ⟨1111, 12, 11, 11, 11, 11, 111111⟩) := by
    rw [hI]
    exact formatAux_chEq false _ (Or.inr rfl)
  have hIeq : I = digits2 d ++ '-' :: (monthCap 12 ++ '-' :: (digits4 y ++ [])) := by
    rw [hI]; rfl
  have hlen : I.length = 11 := by rw [hIeq]; rfl
  have hsY : sliceL I 7 11 = digits4 y := by rw [hIeq]; rfl
  have hsd : sliceL I 0 2 = digits2 d := by rw [hIeq]; rfl
  have hsb : sliceL I 3 6 = monthCap 12 := by rw [hIeq]; rfl
  have hskA0 : regexParseTime (String.mk I) "%Y-%m-%dT%H:%M:%S.%f" = .ok none := by
    apply regexParseTime_none
    rw [show (String.mk I).data = I from rfl, reMatch_chEq okS0 hFor]
    decide
  have hskA1 : regexParseTime (String.mk I) "%Y/%m/%dT%H:%M:%S.%f" = .ok none := by
    apply regexParseTime_none
    rw [show (String.mk I).data = I from rfl, reMatch_chEq okS1 hFor]
    decide
  have hskA2 : regexParseTime (String.mk I) "%Y-%m-%dT%H:%M:%S.%fZ" = .ok none := by
    apply regexParseTime_none
    rw [show (String.mk I).data = I from rfl, reMatch_chEq okS2 hFor]
    decide
  have hskA3 : regexParseTime (String.mk I) "%Y-%m-%dT%H:%M:%S" = .ok none := by
    apply regexParseTime_none
    rw [show (String.mk I).data = I from rfl, reMatch_chEq okS3 hFor]
    decide
  have hskA4 : regexParseTime (String.mk I) "%Y/%m/%dT%H:%M:%S" = .ok none := by
    apply regexParseTime_none
    rw [show (String.mk I).data = I from rfl, reMatch_chEq okS4 hFor]
    decide
  have hskA5 : regexParseTime (String.mk I) "%Y%m%dT%H%M%S.%f" = .ok none := by
    apply regexParseTime_none
    rw [show (String.mk I).data = I from rfl, reMatch_chEq okS5 hFor]
    decide
  have hskA6 : regexParseTime (String.mk I) "%Y%m%dT%H%M%S" = .ok none := by
    apply regexParseTime_none
    rw [show (String.mk I).data = I from rfl, reMatch_chEq okS6 hFor]
    decide
  have hskA7 : regexParseTime (String.mk I) "%Y/%m/%d %H:%M:%S" = .ok none := by
    apply regexParseTime_none
    rw [show (String.mk I).data = I from rfl, reMatch_chEq okS7 hFor]
    decide
  have hskA8 : regexParseTime (String.mk I) "%Y/%m/%d %H:%M" = .ok none := by
    apply regexParseTime_none
    rw [show (String.mk I).data = I from rfl, reMatch_chEq okS8 hFor]
    decide
  have hskA9 : regexParseTime (String.mk I) "%Y/%m/%d %H:%M:%S.%f" = .ok none := by
    apply regexParseTime_none
    rw [show (String.mk I).data = I from rfl, reMatch_chEq okS9 hFor]
    decide
  have hskA10 : regexParseTime (String.mk I) "%Y-%m-%d %H:%M:%S.%f" = .ok none := by
    apply regexParseTime_none
    rw [show (String.mk I).data = I from rfl, reMatch_chEq okS10 hFor]
    decide
  have hskA11 : regexParseTime (String.mk I) "%Y-%m-%d %H:%M:%S" = .ok none := by
    apply regexParseTime_none
    rw [show (String.mk I).data = I from rfl, reMatch_chEq okS11 hFor]
    decide
  have hskA12 : regexParseTime (String.mk I) "%Y-%m-%d %H:%M" = .ok none := by
    apply regexParseTime_none
    rw [show (String.mk I).data = I from rfl, reMatch_chEq okS12 hFor]
    decide
  have hskA13 : regexParseTime (String.mk I) "%Y-%b-%d %H:%M:%S" = .ok none := by
    apply regexParseTime_none
    rw [show (String.mk I).data = I from rfl, reMatch_chEq okS13 hFor]
    decide
  have hskA14 : regexParseTime (String.mk I) "%Y-%b-%d %H:%M" = .ok none := by
    apply regexParseTime_none
    rw [show (String.mk I).data = I from rfl, reMatch_chEq okS14 hFor]
    decide
  have hskA15 : regexParseTime (String.mk I) "%Y-%b-%d" = .ok none := by
    apply regexParseTime_none
    rw [show (String.mk I).data = I from rfl, reMatch_chEq okS15 hFor]
    decide
  have hskA16 : regexParseTime (String.mk I) "%Y-%m-%d" = .ok none := by
    apply regexParseTime_none
    rw [show (String.mk I).data = I from rfl, reMatch_chEq okS16 hFor]
    decide
  have hskA17 : regexParseTime (String.mk I) "%Y/%m/%d" = .ok none := by
    apply regexParseTime_none
    rw [show (String.mk I).data = I from rfl, reMatch_chEq okS17 hFor]
    decide
  have hre : reMatch (compileSunpy "%d-%b-%Y".data) I =
      some (11, [("day", (0, 2)), ("month_str", (3, 6)), ("year", (7, 11))]) := by
    rw [reMatch_chEq okS18 hFor]
    decide
  have hrp : regexParseTime (String.mk I) "%d-%b-%Y" =
      .ok (some (String.mk I, ⟨0, 0, 0⟩)) :=
    regexParseTime_noHour hre rfl
  have hmrun : mrun (compileStrp "%d-%b-%Y".data) I 0 [] =
      some (11, [("d", (0, 2)), ("b", (3, 6)), ("Y", (7, 11))]) := by
    rw [show compileStrp "%d-%b-%Y".data =
      [.grp "d" [[.one '3', .rng '0' '1'], [.rng '1' '2', .digit], [.one '0', .rng '1' '9'], [.rng '1' '9'], [.one ' ', .rng '1' '9']],
       .tst (.oneCI '-'),
       .grp "b" (monthAbbrs.map fun nm => nm.data.map CT.oneCI),
       .tst (.oneCI '-'),
       .grp "Y" [[.digit, .digit, .digit, .digit]]]
      from rfl, hIeq]
    apply stepd (by omega) (by omega)
    apply stepTst (by decide)
    apply stepb (by decide) (by decide)
    apply stepTst (by decide)
    apply stepY
    decide
  have hstrp : strptime (String.mk I) "%d-%b-%Y" =
      .ok ⟨y, 12, d, 0, 0, 0, 0⟩ := by
    rw [strptime, show (String.mk I).data = I from rfl]
    rw [hmrun]
    simp only [hlen, if_true]
    simp only [show groupSlice I [("d", (0, 2)), ("b", (3, 6)), ("Y", (7, 11))] "Y" =
        some (sliceL I 7 11) from rfl,
      show groupSlice I [("d", (0, 2)), ("b", (3, 6)), ("Y", (7, 11))] "m" =
        none from rfl,
      show groupSlice I [("d", (0, 2)), ("b", (3, 6)), ("Y", (7, 11))] "d" =
        some (sliceL I 0 2) from rfl,
      show groupSlice I [("d", (0, 2)), ("b", (3, 6)), ("Y", (7, 11))] "H" =
        none from rfl,
      show groupSlice I [("d", (0, 2)), ("b", (3, 6)), ("Y", (7, 11))] "M" =
        none from rfl,
      show groupSlice I [("d", (0, 2)), ("b", (3, 6)), ("Y", (7, 11))] "S" =
        none from rfl,
      show groupSlice I [("d", (0, 2)), ("b", (3, 6)), ("Y", (7, 11))] "f" =
        none from rfl,
      show groupSlice I [("d", (0, 2)), ("b", (3, 6)), ("Y", (7, 11))] "b" =
        some (sliceL I 3 6) from rfl,
      hsY,
      hsd,
      hsb,
      Option.map_some', Option.getD_some, Option.map_none', Option.getD_none]
    rw [digitsToNat_digits4 (by omega), show monthOfAbbr (monthCap 12) = 12 from by decide, digitsToNat_digits2 (by omega)]
    simp only [datetimeNew, hv, if_true]
  simp only [parseTime, TIME_FORMAT_LIST]
  rw [parseLoop_skip_none hskA0,
    parseLoop_skip_none hskA1,
    parseLoop_skip_none hskA2,
    parseLoop_skip_none hskA3,
    parseLoop_skip_none hskA4,
    parseLoop_skip_none hskA5,
    parseLoop_skip_none hskA6,
    parseLoop_skip_none hskA7,
    parseLoop_skip_none hskA8,
    parseLoop_skip_none hskA9,
    parseLoop_skip_none hskA10,
    parseLoop_skip_none hskA11,
    parseLoop_skip_none hskA12,
    parseLoop_skip_none hskA13,
    parseLoop_skip_none hskA14,
    parseLoop_skip_none hskA15,
    parseLoop_skip_none hskA16,
    parseLoop_skip_none hskA17,
    parseLoop_success hrp hstrp]
  exact dtAddTd_zero hv

theorem roundtrip18 (now : DT) (y m d : Nat)
    (hv : validDT ⟨y, m, d, 0, 0, 0, 0⟩ = true) :
    parseTime now (.str (String.mk
      (formatPattern "%d-%b-%Y".data ⟨y, m, d, 0, 0, 0, 0⟩))) =
      .ok ⟨y, m, d, 0, 0, 0, 0⟩ := by
  have hv2 := hv
  simp only [validDT, Bool.and_eq_true, decide_eq_true_eq] at hv2
  have hm1 : 1 ≤ m := by omega
  have hm12 : m ≤ 12 := by omega
  clear hv2
  interval_cases m
  · exact roundtrip18x1 now y d hv
  · exact roundtrip18x2 now y d hv
  · exact roundtrip18x3 now y d hv
  · exact roundtrip18x4 now y d hv
  · exact roundtrip18x5 now y d hv
  · exact roundtrip18x6 now y d hv
  · exact roundtrip18x7 now y d hv
  · exact roundtrip18x8 now y d hv
  · exact roundtrip18x9 now y d hv
  · exact roundtrip18x10 now y d hv
  · exact roundtrip18x11 now y d hv
  · exact roundtrip18x12 now y d hv

theorem roundtrip19 (now : DT) (y m d h mi s : Nat)
    (hv : validDT ⟨y, m, d, h, mi, s, 0⟩ = true) :
    parseTime now (.str (String.mk
      (formatPattern "%Y%m%d_%H%M%S".data ⟨y, m, d, h, mi, s, 0⟩))) =
      .ok ⟨y, m, d, h, mi, s, 0⟩ := by
  have hv2 := hv
  simp only [validDT, Bool.and_eq_true, decide_eq_true_eq] at hv2
  have hd31 : d ≤ 31 := by
    have := daysInMonth_le31 y m
    omega
  set I := formatPattern "%Y%m%d_%H%M%S".data
    (⟨y, m, d, h, mi, s, 0⟩ : DT) with hI
  have hFor : List.Forall₂ chEq I
      (formatPattern "%Y%m%d_%H%M%S".data ⟨1111, 11, 11, 11, 11, 11, 111111⟩) := by
    rw [hI]
    exact formatAux_chEq false _ (Or.inl (by decide))
  have hIeq : I = digits4 y ++ digits2 m ++ digits2 d ++ '_' :: (digits2 h ++ digits2 mi ++ digits2 s ++ []) := by
    rw [hI]; rfl
  have hlen : I.length = 15 := by rw [hIeq]; rfl
  have hsY : sliceL I 0 4 = digits4 y := by rw [hIeq]; rfl
  have hsm : sliceL I 4 6 = digits2 m := by rw [hIeq]; rfl
  have hsd : sliceL I 6 8 = digits2 d := by rw [hIeq]; rfl
  have hsH : sliceL I 9 11 = digits2 h := by rw [hIeq]; rfl
  have hsM : sliceL I 11 13 = digits2 mi := by rw [hIeq]; rfl
  have hsS : sliceL I 13 15 = digits2 s := by rw [hIeq]; rfl
  have hskA0 : regexParseTime (String.mk I) "%Y-%m-%dT%H:%M:%S.%f" = .ok none := by
    apply regexParseTime_none
    rw [show (String.mk I).data = I from rfl, reMatch_chEq okS0 hFor]
    decide
  have hskA1 : regexParseTime (String.mk I) "%Y/%m/%dT%H:%M:%S.%f" = .ok none := by
    apply regexParseTime_none
    rw [show (String.mk I).data = I from rfl, reMatch_chEq okS1 hFor]
    decide
  have hskA2 : regexParseTime (String.mk I) "%Y-%m-%dT%H:%M:%S.%fZ" = .ok none := by
    apply regexParseTime_none
    rw [show (String.mk I).data = I from rfl, reMatch_chEq okS2 hFor]
    decide
  have hskA3 : regexParseTime (String.mk I) "%Y-%m-%dT%H:%M:%S" = .ok none := by
    apply regexParseTime_none
    rw [show (String.mk I).data = I from rfl, reMatch_chEq okS3 hFor]
    decide
  have hskA4 : regexParseTime (String.mk I) "%Y/%m/%dT%H:%M:%S" = .ok none := by
    apply regexParseTime_none
    rw [show (String.mk I).data = I from rfl, reMatch_chEq okS4 hFor]
    decide
  have hskA5 : regexParseTime (String.mk I) "%Y%m%dT%H%M%S.%f" = .ok none := by
    apply regexParseTime_none
    rw [show (String.mk I).data = I from rfl, reMatch_chEq okS5 hFor]
    decide
  have hskA6 : regexParseTime (String.mk I) "%Y%m%dT%H%M%S" = .ok none := by
    apply regexParseTime_none
    rw [show (String.mk I).data = I from rfl, reMatch_chEq okS6 hFor]
    decide
  have hskA7 : regexParseTime (String.mk I) "%Y/%m/%d %H:%M:%S" = .ok none := by
    apply regexParseTime_none
    rw [show (String.mk I).data = I from rfl, reMatch_chEq okS7 hFor]
    decide
  have hskA8 : regexParseTime (String.mk I) "%Y/%m/%d %H:%M" = .ok none := by
    apply regexParseTime_none
    rw [show (String.mk I).data = I from rfl, reMatch_chEq okS8 hFor]
    decide
  have hskA9 : regexParseTime (String.mk I) "%Y/%m/%d %H:%M:%S.%f" = .ok none := by
    apply regexParseTime_none
    rw [show (String.mk I).data = I from rfl, reMatch_chEq okS9 hFor]
    decide
  have hskA10 : regexParseTime (String.mk I) "%Y-%m-%d %H:%M:%S.%f" = .ok none := by
    apply regexParseTime_none
    rw [show (String.mk I).data = I from rfl, reMatch_chEq okS10 hFor]
    decide
  have hskA11 : regexParseTime (String.mk I) "%Y-%m-%d %H:%M:%S" = .ok none := by
    apply regexParseTime_none
    rw [show (String.mk I).data = I from rfl, reMatch_chEq okS11 hFor]
    decide
  have hskA12 : regexParseTime (String.mk I) "%Y-%m-%d %H:%M" = .ok none := by
    apply regexParseTime_none
    rw [show (String.mk I).data = I from rfl, reMatch_chEq okS12 hFor]
    decide
  have hskA13 : regexParseTime (String.mk I) "%Y-%b-%d %H:%M:%S" = .ok none := by
    apply regexParseTime_none
    rw [show (String.mk I).data = I from rfl, reMatch_chEq okS13 hFor]
    decide
  have hskA14 : regexParseTime (String.mk I) "%Y-%b-%d %H:%M" = .ok none := by
    apply regexParseTime_none
    rw [show (String.mk I).data = I from rfl, reMatch_chEq okS14 hFor]
    decide
  have hskA15 : regexParseTime (String.mk I) "%Y-%b-%d" = .ok none := by
    apply regexParseTime_none
    rw [show (String.mk I).data = I from rfl, reMatch_chEq okS15 hFor]
    decide
  have hskA16 : regexParseTime (String.mk I) "%Y-%m-%d" = .ok none := by
    apply regexParseTime_none
    rw [show (String.mk I).data = I from rfl, reMatch_chEq okS16 hFor]
    decide
  have hskA17 : regexParseTime (String.mk I) "%Y/%m/%d" = .ok none := by
    apply regexParseTime_none
    rw [show (String.mk I).data = I from rfl, reMatch_chEq okS17 hFor]
    decide
  have hskA18 : regexParseTime (String.mk I) "%d-%b-%Y" = .ok none := by
    apply regexParseTime_none
    rw [show (String.mk I).data = I from rfl, reMatch_chEq okS18 hFor]
    decide
  have hre : reMatch (compileSunpy "%Y%m%d_%H%M%S".data) I =
      some (15, [("year", (0, 4)), ("month", (4, 6)), ("day", (6, 8)), ("hour", (9, 11)), ("minute", (11, 13)), ("second", (13, 15))]) := by
    rw [reMatch_chEq okS19 hFor]
    decide
  have hrp : regexParseTime (String.mk I) "%Y%m%d_%H%M%S" =
      .ok (some (String.mk I, ⟨0, 0, 0⟩)) := by
    refine regexParseTime_hour_ne24 hre rfl ?_
    show ¬ sliceL I 9 11 = "24".data
    rw [hsH]
    exact digits2_ne24 (by omega)
  have hmrun : mrun (compileStrp "%Y%m%d_%H%M%S".data) I 0 [] =
      some (15, [("Y", (0, 4)), ("m", (4, 6)), ("d", (6, 8)), ("H", (9, 11)), ("M", (11, 13)), ("S", (13, 15))]) := by
    rw [show compileStrp "%Y%m%d_%H%M%S".data =
      [.grp "Y" [[.digit, .digit, .digit, .digit]],
       .grp "m" [[.one '1', .rng '0' '2'], [.one '0', .rng '1' '9'], [.rng '1' '9']],
       .grp "d" [[.one '3', .rng '0' '1'], [.rng '1' '2', .digit], [.one '0', .rng '1' '9'], [.rng '1' '9'], [.one ' ', .rng '1' '9']],
       .tst (.oneCI '_'),
       .grp "H" [[.one '2', .rng '0' '3'], [.rng '0' '1', .digit], [.digit]],
       .grp "M" [[.rng '0' '5', .digit], [.digit]],
       .grp "S" [[.one '6', .rng '0' '1'], [.rng '0' '5', .digit], [.digit]]]
      from rfl, hIeq]
    apply stepY
    apply stepm (by omega) (by omega)
    apply stepd (by omega) (by omega)
    apply stepTst (by decide)
    apply stepH (by omega) (by omega)
    apply stepM (by omega) (by omega)
    apply stepS (by omega) (by omega)
    decide
  have hstrp : strptime (String.mk I) "%Y%m%d_%H%M%S" =
      .ok ⟨y, m, d, h, mi, s, 0⟩ := by
    rw [strptime, show (String.mk I).data = I from rfl]
    rw [hmrun]
    simp only [hlen, if_true]
    simp only [show groupSlice I [("Y", (0, 4)), ("m", (4, 6)), ("d", (6, 8)), ("H", (9, 11)), ("M", (11, 13)), ("S", (13, 15))] "Y" =
        some (sliceL I 0 4) from rfl,
      show groupSlice I [("Y", (0, 4)), ("m", (4, 6)), ("d", (6, 8)), ("H", (9, 11)), ("M", (11, 13)), ("S", (13, 15))] "m" =
        some (sliceL I 4 6) from rfl,
      show groupSlice I [("Y", (0, 4)), ("m", (4, 6)), ("d", (6, 8)), ("H", (9, 11)), ("M", (11, 13)), ("S", (13, 15))] "d" =
        some (sliceL I 6 8) from rfl,
      show groupSlice I [("Y", (0, 4)), ("m", (4, 6)), ("d", (6, 8)), ("H", (9, 11)), ("M", (11, 13)), ("S", (13, 15))] "H" =
        some (sliceL I 9 11) from rfl,
      show groupSlice I [("Y", (0, 4)), ("m", (4, 6)), ("d", (6, 8)), ("H", (9, 11)), ("M", (11, 13)), ("S", (13, 15))] "M" =
        some (sliceL I 11 13) from rfl,
      show groupSlice I [("Y", (0, 4)), ("m", (4, 6)), ("d", (6, 8)), ("H", (9, 11)), ("M", (11, 13)), ("S", (13, 15))] "S" =
        some (sliceL I 13 15) from rfl,
      show groupSlice I [("Y", (0, 4)), ("m", (4, 6)), ("d", (6, 8)), ("H", (9, 11)), ("M", (11, 13)), ("S", (13, 15))] "f" =
        none from rfl,
      show groupSlice I [("Y", (0, 4)), ("m", (4, 6)), ("d", (6, 8)), ("H", (9, 11)), ("M", (11, 13)), ("S", (13, 15))] "b" =
        none from rfl,
      hsY,
      hsm,
      hsd,
      hsH,
      hsM,
      hsS,
      Option.map_some', Option.getD_some, Option.map_none', Option.getD_none]
    rw [digitsToNat_digits4 (by omega), digitsToNat_digits2 (by omega), digitsToNat_digits2 (by omega), digitsToNat_digits2 (by omega), digitsToNat_digits2 (by omega), digitsToNat_digits2 (by omega)]
    simp only [datetimeNew, hv, if_true]
  simp only [parseTime, TIME_FORMAT_LIST]
  rw [parseLoop_skip_none hskA0,
    parseLoop_skip_none hskA1,
    parseLoop_skip_none hskA2,
    parseLoop_skip_none hskA3,
    parseLoop_skip_none hskA4,
    parseLoop_skip_none hskA5,
    parseLoop_skip_none hskA6,
    parseLoop_skip_none hskA7,
    parseLoop_skip_none hskA8,
    parseLoop_skip_none hskA9,
    parseLoop_skip_none hskA10,
    parseLoop_skip_none hskA11,
    parseLoop_skip_none hskA12,
    parseLoop_skip_none hskA13,
    parseLoop_skip_none hskA14,
    parseLoop_skip_none hskA15,
    parseLoop_skip_none hskA16,
    parseLoop_skip_none hskA17,
    parseLoop_skip_none hskA18,
    parseLoop_success hrp hstrp]
  exact dtAddTd_zero hv

/-- C5: For every pattern P in the format catalog and every set of valid
field values V consistent with P (all fields in their valid calendar
ranges, fields the pattern cannot express being zero), formatting V
according to P and then applying parse to the resulting string yields
back exactly V. -/
theorem C5_roundtrip (now v : DT) (fmt : String)
    (hf : fmt ∈ TIME_FORMAT_LIST) (hc : consistentV fmt.data v = true) :
    parseTime now (.str (String.mk (formatPattern fmt.data v))) = .ok v := by
  obtain ⟨y, m, d, h, mi, s, us⟩ := v
  simp only [consistentV, Bool.and_eq_true] at hc
  obtain ⟨⟨⟨⟨hv, hH⟩, hM⟩, hS⟩, hf6⟩ := hc
  simp only [TIME_FORMAT_LIST, List.mem_cons, List.not_mem_nil, or_false] at hf
  rcases hf with rfl | rfl | rfl | rfl | rfl | rfl | rfl | rfl | rfl | rfl | rfl | rfl | rfl | rfl | rfl | rfl | rfl | rfl | rfl | rfl
  · exact roundtrip0 now y m d h mi s us hv
  · exact roundtrip1 now y m d h mi s us hv
  · exact roundtrip2 now y m d h mi s us hv
  · have hzus : us = 0 := by
      rw [show hasDir 'f' false "%Y-%m-%dT%H:%M:%S".data = false from rfl] at hf6
      simpa using hf6
    subst hzus
    exact roundtrip3 now y m d h mi s hv
  · have hzus : us = 0 := by
      rw [show hasDir 'f' false "%Y/%m/%dT%H:%M:%S".data = false from rfl] at hf6
      simpa using hf6
    subst hzus
    exact roundtrip4 now y m d h mi s hv
  · exact roundtrip5 now y m d h mi s us hv
  · have hzus : us = 0 := by
      rw [show hasDir 'f' false "%Y%m%dT%H%M%S".data = false from rfl] at hf6
      simpa using hf6
    subst hzus
    exact roundtrip6 now y m d h mi s hv
  · have hzus : us = 0 := by
      rw [show hasDir 'f' false "%Y/%m/%d %H:%M:%S".data = false from rfl] at hf6
      simpa using hf6
    subst hzus
    exact roundtrip7 now y m d h mi s hv
  · have hzs : s = 0 := by
      rw [show hasDir 'S' false "%Y/%m/%d %H:%M".data = false from rfl] at hS
      simpa using hS
    subst hzs
    have hzus : us = 0 := by
      rw [show hasDir 'f' false "%Y/%m/%d %H:%M".data = false from rfl] at hf6
      simpa using hf6
    subst hzus
    exact roundtrip8 now y m d h mi hv
  · exact roundtrip9 now y m d h mi s us hv
  · exact roundtrip10 now y m d h mi s us hv
  · have hzus : us = 0 := by
      rw [show hasDir 'f' false "%Y-%m-%d %H:%M:%S".data = false from rfl] at hf6
      simpa using hf6
    subst hzus
    exact roundtrip11 now y m d h mi s hv
  · have hzs : s = 0 := by
      rw [show hasDir 'S' false "%Y-%m-%d %H:%M".data = false from rfl] at hS
      simpa using hS
    subst hzs
    have hzus : us = 0 := by
      rw [show hasDir 'f' false "%Y-%m-%d %H:%M".data = false from rfl] at hf6
      simpa using hf6
    subst hzus
    exact roundtrip12 now y m d h mi hv
  · have hzus : us = 0 := by
      rw [show hasDir 'f' false "%Y-%b-%d %H:%M:%S".data = false from rfl] at hf6
      simpa using hf6
    subst hzus
    exact roundtrip13 now y m d h mi s hv
  · have hzs : s = 0 := by
      rw [show hasDir 'S' false "%Y-%b-%d %H:%M".data = false from rfl] at hS
      simpa using hS
    subst hzs
    have hzus : us = 0 := by
      rw [show hasDir 'f' false "%Y-%b-%d %H:%M".data = false from rfl] at hf6
      simpa using hf6
    subst hzus
    exact roundtrip14 now y m d h mi hv
  · have hzh : h = 0 := by
      rw [show hasDir 'H' false "%Y-%b-%d".data = false from rfl] at hH
      simpa using hH
    subst hzh
    have hzmi : mi = 0 := by
      rw [show hasDir 'M' false "%Y-%b-%d".data = false from rfl] at hM
      simpa using hM
    subst hzmi
    have hzs : s = 0 := by
      rw [show hasDir 'S' false "%Y-%b-%d".data = false from rfl] at hS
      simpa using hS
    subst hzs
    have hzus : us = 0 := by
      rw [show hasDir 'f' false "%Y-%b-%d".data = false from rfl] at hf6
      simpa using hf6
    subst hzus
    exact roundtrip15 now y m d hv
  · have hzh : h = 0 := by
      rw [show hasDir 'H' false "%Y-%m-%d".data = false from rfl] at hH
      simpa using hH
    subst hzh
    have hzmi : mi = 0 := by
      rw [show hasDir 'M' false "%Y-%m-%d".data = false from rfl] at hM
      simpa using hM
    subst hzmi
    have hzs : s = 0 := by
      rw [show hasDir 'S' false "%Y-%m-%d".data = false from rfl] at hS
      simpa using hS
    subst hzs
    have hzus : us = 0 := by
      rw [show hasDir 'f' false "%Y-%m-%d".data = false from rfl] at hf6
      simpa using hf6
    subst hzus
    exact roundtrip16 now y m d hv
  · have hzh : h = 0 := by
      rw [show hasDir 'H' false "%Y/%m/%d".data = false from rfl] at hH
      simpa using hH
    subst hzh
    have hzmi : mi = 0 := by
      rw [show hasDir 'M' false "%Y/%m/%d".data = false from rfl] at hM
      simpa using hM
    subst hzmi
    have hzs : s = 0 := by
      rw [show hasDir 'S' false "%Y/%m/%d".data = false from rfl] at hS
      simpa using hS
    subst hzs
    have hzus : us = 0 := by
      rw [show hasDir 'f' false "%Y/%m/%d".data = false from rfl] at hf6
      simpa using hf6
    subst hzus
    exact roundtrip17 now y m d hv
  · have hzh : h = 0 := by
      rw [show hasDir 'H' false "%d-%b-%Y".data = false from rfl] at hH
      simpa using hH
    subst hzh
    have hzmi : mi = 0 := by
      rw [show hasDir 'M' false "%d-%b-%Y".data = false from rfl] at hM
      simpa using hM
    subst hzmi
    have hzs : s = 0 := by
      rw [show hasDir 'S' false "%d-%b-%Y".data = false from rfl] at hS
      simpa using hS
    subst hzs
    have hzus : us = 0 := by
      rw [show hasDir 'f' false "%d-%b-%Y".data = false from rfl] at hf6
      simpa using hf6
    subst hzus
    exact roundtrip18 now y m d hv
  · have hzus : us = 0 := by
      rw [show hasDir 'f' false "%Y%m%d_%H%M%S".data = false from rfl] at hf6
      simpa using hf6
    subst hzus
    exact roundtrip19 now y m d h mi s hv

theorem C5_witness :
    "%Y-%m-%dT%H:%M:%S" ∈ TIME_FORMAT_LIST ∧
    consistentV "%Y-%m-%dT%H:%M:%S".data ⟨2007, 5, 4, 21, 8, 12, 0⟩ = true ∧
    parseTime now0 (.str (String.mk (formatPattern "%Y-%m-%dT%H:%M:%S".data
      ⟨2007, 5, 4, 21, 8, 12, 0⟩))) = .ok ⟨2007, 5, 4, 21, 8, 12, 0⟩ :=
  ⟨by decide, by decide,
    C5_roundtrip now0 ⟨2007, 5, 4, 21, 8, 12, 0⟩ "%Y-%m-%dT%H:%M:%S"
      (by decide) (by decide)⟩

end SunpyTime
